import Mathlib

/-!
# The RADIUS server core: a shallow embedding and its properties

The first part of the file holds the definitions, the second part the
theorems; each subsystem has its own namespace, opened once in each part:
`Modcall` for the unlang compiler, `Io` for the master I/O handler of
`proto_radius`, `Udp` for its UDP transport, `Tls` for the TLS session cache
and `EapFast` for the TLV decoder of EAP-FAST.  The conventions of the
namespaces after `Modcall` stand at their heads.

## The unlang compiler of `src/main/modcall.c` (namespace `Modcall`)

The default action tables, the parsing of return-code overrides, and the
functions that turn a configuration section into a tree of callables.

Conventions of the embedding.

* A C string is a `String`; character-level library calls work on its list of
  characters.
* `int actions[RLM_MODULE_NUMCODES]` is a function from the return-code enum to
  `Int`; a `for (i = 0; i < RLM_MODULE_NUMCODES; i++)` loop is a left fold over
  the nine return codes in numeric order.
* A function that returns `NULL` (or `false`) on failure returns `none`.
* The recursion of `compile_item` is bounded by a fuel argument; the other
  compile functions take the recursive callee as the argument `rec`.
-/

namespace Modcall

/-! ## Return codes, sections, group types -/

/-- The nine module return codes, in the numeric order that indexes the action
tables (the order of `mod_rcode_table` and of the comments in the tables). -/
inductive rlm_rcode_t where
  | RLM_MODULE_REJECT
  | RLM_MODULE_FAIL
  | RLM_MODULE_OK
  | RLM_MODULE_HANDLED
  | RLM_MODULE_INVALID
  | RLM_MODULE_USERLOCK
  | RLM_MODULE_NOTFOUND
  | RLM_MODULE_NOOP
  | RLM_MODULE_UPDATED
  deriving DecidableEq, Repr

open rlm_rcode_t

/-- The return codes `0 .. RLM_MODULE_NUMCODES - 1` in increasing order: the
index range of every loop over an action table. -/
def rcodes : List rlm_rcode_t :=
  [RLM_MODULE_REJECT, RLM_MODULE_FAIL, RLM_MODULE_OK, RLM_MODULE_HANDLED, RLM_MODULE_INVALID,
   RLM_MODULE_USERLOCK, RLM_MODULE_NOTFOUND, RLM_MODULE_NOOP, RLM_MODULE_UPDATED]

/-- The sections (components) of a virtual server, in the order of `comp2str`
and of the rows of `defaultactions` (built with `WITH_COA`). -/
inductive rlm_components_t where
  | MOD_AUTHENTICATE
  | MOD_AUTHORIZE
  | MOD_PREACCT
  | MOD_ACCOUNTING
  | MOD_SESSION
  | MOD_PRE_PROXY
  | MOD_POST_PROXY
  | MOD_POST_AUTH
  | MOD_RECV_COA
  | MOD_SEND_COA
  deriving DecidableEq, Repr

open rlm_components_t

/-- All components, `MOD_AUTHENTICATE .. MOD_COUNT - 1`. -/
def components : List rlm_components_t :=
  [ MOD_AUTHENTICATE, MOD_AUTHORIZE, MOD_PREACCT, MOD_ACCOUNTING, MOD_SESSION,
   MOD_PRE_PROXY, MOD_POST_PROXY, MOD_POST_AUTH, MOD_RECV_COA, MOD_SEND_COA]

/-- The table `comp2str`. -/
def comp2str : rlm_components_t → String
  | MOD_AUTHENTICATE => "authenticate"
  | MOD_AUTHORIZE => "authorize"
  | MOD_PREACCT => "preacct"
  | MOD_ACCOUNTING => "accounting"
  | MOD_SESSION => "session"
  | MOD_PRE_PROXY => "pre-proxy"
  | MOD_POST_PROXY => "post-proxy"
  | MOD_POST_AUTH => "post-auth"
  | MOD_RECV_COA => "recv-coa"
  | MOD_SEND_COA => "send-coa"

/-- The two group types that index the second dimension of the tables. -/
inductive grouptype_t where
  | GROUPTYPE_SIMPLE
  | GROUPTYPE_REDUNDANT
  deriving DecidableEq, Repr

open grouptype_t

/-! ## Actions -/

/-- Modelled from the spec: the constant `MOD_ACTION_RETURN` is defined in a
header that is not among the sources.  The spec lists Return as an action
distinct from the unset slot `0` and from the priorities `1..N`; the value is
the negative one of the server's headers. -/
def MOD_ACTION_RETURN : Int := -1

/-- Modelled from the spec: the constant `MOD_ACTION_REJECT` is defined in a
header that is not among the sources.  The spec lists Reject as an action
distinct from Return, from the unset slot `0` and from the priorities. -/
def MOD_ACTION_REJECT : Int := -2

/-- The array `int actions[RLM_MODULE_NUMCODES]`. -/
abbrev actions_t := rlm_rcode_t → Int

/-- One initialiser row of an action table, its nine entries in the order in
which the source writes them. -/
def row (reject fail ok handled invalid userlock notfound noop updated : Int) : actions_t
  | RLM_MODULE_REJECT => reject
  | RLM_MODULE_FAIL => fail
  | RLM_MODULE_OK => ok
  | RLM_MODULE_HANDLED => handled
  | RLM_MODULE_INVALID => invalid
  | RLM_MODULE_USERLOCK => userlock
  | RLM_MODULE_NOTFOUND => notfound
  | RLM_MODULE_NOOP => noop
  | RLM_MODULE_UPDATED => updated

/-- The table `defaultactions[MOD_COUNT][GROUPTYPE_COUNT][RLM_MODULE_NUMCODES]`. -/
def defaultactions : rlm_components_t → grouptype_t → actions_t
  /- authenticate -/
  | MOD_AUTHENTICATE, GROUPTYPE_SIMPLE =>
    row MOD_ACTION_RETURN 1 MOD_ACTION_RETURN MOD_ACTION_RETURN 1
        MOD_ACTION_RETURN MOD_ACTION_RETURN 1 1
  | MOD_AUTHENTICATE, GROUPTYPE_REDUNDANT =>
    row MOD_ACTION_RETURN 1 MOD_ACTION_RETURN MOD_ACTION_RETURN MOD_ACTION_RETURN
        MOD_ACTION_RETURN MOD_ACTION_RETURN MOD_ACTION_RETURN MOD_ACTION_RETURN
  /- authorize -/
  | MOD_AUTHORIZE, GROUPTYPE_SIMPLE =>
    row MOD_ACTION_RETURN MOD_ACTION_RETURN 3 MOD_ACTION_RETURN MOD_ACTION_RETURN
        MOD_ACTION_RETURN 1 2 4
  | MOD_AUTHORIZE, GROUPTYPE_REDUNDANT =>
    row MOD_ACTION_RETURN 1 MOD_ACTION_RETURN MOD_ACTION_RETURN MOD_ACTION_RETURN
        MOD_ACTION_RETURN MOD_ACTION_RETURN MOD_ACTION_RETURN MOD_ACTION_RETURN
  /- preacct -/
  | MOD_PREACCT, GROUPTYPE_SIMPLE =>
    row MOD_ACTION_RETURN MOD_ACTION_RETURN 2 MOD_ACTION_RETURN MOD_ACTION_RETURN
        MOD_ACTION_RETURN MOD_ACTION_RETURN 1 3
  | MOD_PREACCT, GROUPTYPE_REDUNDANT =>
    row MOD_ACTION_RETURN 1 MOD_ACTION_RETURN MOD_ACTION_RETURN MOD_ACTION_RETURN
        MOD_ACTION_RETURN MOD_ACTION_RETURN MOD_ACTION_RETURN MOD_ACTION_RETURN
  /- accounting -/
  | MOD_ACCOUNTING, GROUPTYPE_SIMPLE =>
    row MOD_ACTION_RETURN MOD_ACTION_RETURN 2 MOD_ACTION_RETURN MOD_ACTION_RETURN
        MOD_ACTION_RETURN MOD_ACTION_RETURN 1 3
  | MOD_ACCOUNTING, GROUPTYPE_REDUNDANT =>
    row 1 1 MOD_ACTION_RETURN MOD_ACTION_RETURN 1
        1 1 2 4
  /- checksimul (session) -/
  | MOD_SESSION, GROUPTYPE_SIMPLE =>
    row MOD_ACTION_RETURN 1 MOD_ACTION_RETURN MOD_ACTION_RETURN MOD_ACTION_RETURN
        MOD_ACTION_RETURN MOD_ACTION_RETURN MOD_ACTION_RETURN MOD_ACTION_RETURN
  | MOD_SESSION, GROUPTYPE_REDUNDANT =>
    row MOD_ACTION_RETURN 1 MOD_ACTION_RETURN MOD_ACTION_RETURN MOD_ACTION_RETURN
        MOD_ACTION_RETURN MOD_ACTION_RETURN MOD_ACTION_RETURN MOD_ACTION_RETURN
  /- pre-proxy -/
  | MOD_PRE_PROXY, GROUPTYPE_SIMPLE =>
    row MOD_ACTION_RETURN MOD_ACTION_RETURN 3 MOD_ACTION_RETURN MOD_ACTION_RETURN
        MOD_ACTION_RETURN 1 2 4
  | MOD_PRE_PROXY, GROUPTYPE_REDUNDANT =>
    row MOD_ACTION_RETURN 1 MOD_ACTION_RETURN MOD_ACTION_RETURN MOD_ACTION_RETURN
        MOD_ACTION_RETURN MOD_ACTION_RETURN MOD_ACTION_RETURN MOD_ACTION_RETURN
  /- post-proxy -/
  | MOD_POST_PROXY, GROUPTYPE_SIMPLE =>
    row MOD_ACTION_RETURN MOD_ACTION_RETURN 3 MOD_ACTION_RETURN MOD_ACTION_RETURN
        MOD_ACTION_RETURN 1 2 4
  | MOD_POST_PROXY, GROUPTYPE_REDUNDANT =>
    row MOD_ACTION_RETURN 1 MOD_ACTION_RETURN MOD_ACTION_RETURN MOD_ACTION_RETURN
        MOD_ACTION_RETURN MOD_ACTION_RETURN MOD_ACTION_RETURN MOD_ACTION_RETURN
  /- post-auth -/
  | MOD_POST_AUTH, GROUPTYPE_SIMPLE =>
    row MOD_ACTION_RETURN MOD_ACTION_RETURN 3 MOD_ACTION_RETURN MOD_ACTION_RETURN
        MOD_ACTION_RETURN 1 2 4
  | MOD_POST_AUTH, GROUPTYPE_REDUNDANT =>
    row MOD_ACTION_RETURN 1 MOD_ACTION_RETURN MOD_ACTION_RETURN MOD_ACTION_RETURN
        MOD_ACTION_RETURN MOD_ACTION_RETURN MOD_ACTION_RETURN MOD_ACTION_RETURN
  /- recv-coa -/
  | MOD_RECV_COA, GROUPTYPE_SIMPLE =>
    row MOD_ACTION_RETURN MOD_ACTION_RETURN 3 MOD_ACTION_RETURN MOD_ACTION_RETURN
        MOD_ACTION_RETURN 1 2 4
  | MOD_RECV_COA, GROUPTYPE_REDUNDANT =>
    row MOD_ACTION_RETURN 1 MOD_ACTION_RETURN MOD_ACTION_RETURN MOD_ACTION_RETURN
        MOD_ACTION_RETURN MOD_ACTION_RETURN MOD_ACTION_RETURN MOD_ACTION_RETURN
  /- send-coa -/
  | MOD_SEND_COA, GROUPTYPE_SIMPLE =>
    row MOD_ACTION_RETURN MOD_ACTION_RETURN 3 MOD_ACTION_RETURN MOD_ACTION_RETURN
        MOD_ACTION_RETURN 1 2 4
  | MOD_SEND_COA, GROUPTYPE_REDUNDANT =>
    row MOD_ACTION_RETURN 1 MOD_ACTION_RETURN MOD_ACTION_RETURN MOD_ACTION_RETURN
        MOD_ACTION_RETURN MOD_ACTION_RETURN MOD_ACTION_RETURN MOD_ACTION_RETURN

/-- The table `authtype_actions[GROUPTYPE_COUNT][RLM_MODULE_NUMCODES]`. -/
def authtype_actions : grouptype_t → actions_t
  | GROUPTYPE_SIMPLE =>
    row MOD_ACTION_RETURN MOD_ACTION_RETURN 2 MOD_ACTION_RETURN MOD_ACTION_RETURN
        MOD_ACTION_RETURN 1 3 4
  | GROUPTYPE_REDUNDANT =>
    row MOD_ACTION_RETURN 1 MOD_ACTION_RETURN MOD_ACTION_RETURN MOD_ACTION_RETURN
        MOD_ACTION_RETURN MOD_ACTION_RETURN MOD_ACTION_RETURN MOD_ACTION_RETURN

/-! ## Configuration items -/

/-- Modelled from the spec: the token kinds of a section's second name (the
enum `FR_TOKEN` is declared outside the sources); the compiler only
distinguishes bare words and the three quoting styles. -/
inductive FR_TOKEN where
  | T_INVALID
  | T_BARE_WORD
  | T_DOUBLE_QUOTED_STRING
  | T_SINGLE_QUOTED_STRING
  | T_BACK_QUOTED_STRING
  deriving DecidableEq, Repr

/-- Modelled from the spec: the kind of a parsed condition (`fr_cond_type_t`,
declared outside the sources).  The compiler only asks whether a condition is
the constant true or the constant false. -/
inductive fr_cond_type_t where
  | COND_TYPE_INVALID
  | COND_TYPE_TRUE
  | COND_TYPE_FALSE
  | COND_TYPE_EXISTS
  | COND_TYPE_MAP
  | COND_TYPE_CHILD
  deriving DecidableEq, Repr

open fr_cond_type_t

/-- Modelled from the spec: a parsed condition (`fr_cond_t`), of which the
compiler reads the `type` only; `ident` stands for the rest of the tree. -/
structure fr_cond_t where
  type : fr_cond_type_t
  ident : Nat := 0
  deriving DecidableEq, Repr

/-- A `CONF_PAIR`: `attr` alone (a module reference) or `attr = value`. -/
structure CONF_PAIR where
  attr : String
  value : Option String
  deriving DecidableEq, Repr

/-- Modelled from the spec: an item of a configuration section (`CONF_ITEM`,
declared outside the sources): a pair, a subsection, or attached data. -/
inductive CONF_ITEM (S : Type) where
  | pair (cp : CONF_PAIR)
  | sect (cs : S)
  | data
  deriving Repr

/-- Modelled from the spec: a configuration section (`CONF_SECTION`, declared
outside the sources).  `addr` is the address of the section, by which two
section pointers are compared; `argv0` is the first argument after the two
names; `unlang` tells whether data named "unlang" is attached (a precompiled
block) and `cond` is the condition attached as data named "if". -/
structure CONF_SECTION where
  addr : Nat
  name1 : String
  name2 : Option String := none
  name2_type : FR_TOKEN := FR_TOKEN.T_BARE_WORD
  argv0 : Option (String × FR_TOKEN) := none
  unlang : Bool := false
  cond : Option fr_cond_t := none
  children : List (CONF_ITEM CONF_SECTION)

/-- A pointer to a `CONF_SECTION` of the configuration tree: the section and
the addresses of the sections that enclose it, nearest first, which is what
repeated `cf_item_parent` yields. -/
structure cs_ref where
  cs : CONF_SECTION
  parents : List Nat

/-- A pointer to a `CONF_ITEM` of the configuration tree, with the addresses of
its enclosing sections, nearest first. -/
structure ci_ref where
  item : CONF_ITEM CONF_SECTION
  parents : List Nat

/-- The item of a section: `cf_section_to_item`. -/
def cf_section_to_item (r : cs_ref) : ci_ref := { item := CONF_ITEM.sect r.cs, parents := r.parents }

/-- The items of a section as pointers: each has the section as its parent. -/
def cs_ref.items (r : cs_ref) : List ci_ref :=
  r.cs.children.map (fun i => { item := i, parents := r.cs.addr :: r.parents })

/-- Modelled from the spec: `cf_section_sub_find` (defined outside the sources)
returns the first subsection with the given first name. -/
def cf_section_sub_find (r : cs_ref) (name : String) : Option cs_ref :=
  (r.cs.children.findSome? (fun i =>
    match i with
    | CONF_ITEM.sect s => if s.name1 = name then some s else none
    | _ => none)).map (fun s => { cs := s, parents := r.cs.addr :: r.parents })

/-- Modelled from the spec: `cf_section_sub_find_name2` (defined outside the
sources) called with a NULL first name returns the first subsection whose
second name is `name2`, or whose first name is `name2` when it has no second
name. -/
def cf_section_sub_find_name2 (r : cs_ref) (name2 : String) : Option cs_ref :=
  (r.cs.children.findSome? (fun i =>
    match i with
    | CONF_ITEM.sect s =>
      match s.name2 with
      | none => if s.name1 = name2 then some s else none
      | some n2 => if n2 = name2 then some s else none
    | _ => none)).map (fun s => { cs := s, parents := r.cs.addr :: r.parents })

/-! ## Callables -/

/-- Modelled from the spec: the node kinds (`mod_type_t`, declared outside the
sources), the variants of a callable listed in the data model. -/
inductive mod_type_t where
  | MOD_NULL
  | MOD_SINGLE
  | MOD_GROUP
  | MOD_LOAD_BALANCE
  | MOD_REDUNDANT_LOAD_BALANCE
  | MOD_IF
  | MOD_ELSE
  | MOD_ELSIF
  | MOD_UPDATE
  | MOD_SWITCH
  | MOD_CASE
  | MOD_FOREACH
  | MOD_BREAK
  | MOD_RETURN
  | MOD_MAP
  | MOD_POLICY
  | MOD_XLAT
  deriving DecidableEq, Repr

open mod_type_t

/-- Modelled from the spec: the kinds of a template (`tmpl_type_t`, declared
outside the sources). -/
inductive tmpl_type_t where
  | TMPL_TYPE_UNKNOWN
  | TMPL_TYPE_UNPARSED
  | TMPL_TYPE_XLAT
  | TMPL_TYPE_ATTR
  | TMPL_TYPE_ATTR_UNDEFINED
  | TMPL_TYPE_LIST
  | TMPL_TYPE_REGEX
  | TMPL_TYPE_EXEC
  | TMPL_TYPE_DATA
  | TMPL_TYPE_XLAT_STRUCT
  | TMPL_TYPE_REGEX_STRUCT
  | TMPL_TYPE_NULL
  deriving DecidableEq, Repr

open tmpl_type_t

/-- Modelled from the spec: a dictionary attribute (`fr_dict_attr_t`), known
to the compiler by its number and data type only. -/
structure fr_dict_attr_t where
  attr : Nat
  type : Nat
  deriving DecidableEq, Repr

/-- Modelled from the spec: a template (`vp_tmpl_t`, declared outside the
sources) with the fields the compiler reads or writes. -/
structure vp_tmpl_t where
  type : tmpl_type_t
  name : String := ""
  tmpl_num : Int := 0
  tmpl_da : Option fr_dict_attr_t := none
  deriving DecidableEq, Repr

/-- Modelled from the spec: an attribute map of an update or map section
(`vp_map_t`), which the compiler only passes on. -/
structure vp_map_t where
  ident : Nat
  deriving DecidableEq, Repr

/-- Modelled from the spec: a loaded module (`module_t`): its name and, for
each section, whether it has a method for it. -/
structure module_t where
  name : String
  methods : rlm_components_t → Bool

/-- Modelled from the spec: an instance of a module (`module_instance_t`). -/
structure module_instance_t where
  name : String
  module : module_t

/-- Modelled from the spec: a callable (`modcallable`, with the payloads of
`modgroup`, `modsingle` and `modxlat`, all declared outside the sources).  The
`parent` pointer is not a field: a function that takes a `parent` takes the
chain `parent, parent->parent, ...` as a list, empty for `NULL`.  The sibling
pointer `next` and the `tail` pointer are the list `children`.  `debug_name`,
which only serves log output, is left out. -/
structure modcallable where
  type : mod_type_t := MOD_NULL
  method : rlm_components_t := MOD_AUTHENTICATE
  name : Option String := none
  actions : actions_t := fun _ => 0
  grouptype : grouptype_t := GROUPTYPE_SIMPLE
  children : List modcallable
  cs : Option cs_ref := none
  cond : Option fr_cond_t := none
  vpt : Option vp_tmpl_t := none
  map : List vp_map_t := []
  proc_inst : Option Nat := none
  done_pass2 : Bool := false
  modinst : Option module_instance_t := none
  xlat_name : Option String := none
  exec : Bool := false

/-- The last child of a group: `g->tail`. -/
def modcallable.tail (g : modcallable) : Option modcallable := g.children.getLast?

/-- What the compiler takes from its environment: the loaded configuration,
the keyword table, the module registry, and the template, condition and map
functions (the pass-2 fix-ups of `modcall.c` among them), whose decisions rest
on the dictionary and on the expansion parser, both outside the sources.  A
function that fails returns `none` (or `false`); one that rewrites its
argument in place returns the rewritten value. -/
structure Env where
  /-- The root of the configuration, `main_config.config`. -/
  config : CONF_SECTION
  /-- The table `unlang_keyword`. -/
  unlang_keyword : mod_type_t → String
  /-- Looks up `name` (possibly `name.method`) among the module instances. -/
  module_instantiate_method : cs_ref → String → rlm_components_t →
    Option (module_instance_t × rlm_components_t)
  /-- Parses a template; `none` is a negative length. -/
  tmpl_afrom_str : String → FR_TOKEN → Option vp_tmpl_t
  pass2_fixup_undefined : vp_tmpl_t → Option vp_tmpl_t
  pass2_fixup_xlat : vp_tmpl_t → Option fr_dict_attr_t → Option vp_tmpl_t
  pass2_fixup_tmpl : vp_tmpl_t → Option vp_tmpl_t
  tmpl_cast_in_place : vp_tmpl_t → fr_dict_attr_t → Option vp_tmpl_t
  /-- The walk `fr_condition_walk(cond, pass2_cond_callback, NULL)`. -/
  fr_condition_walk : fr_cond_t → Bool
  /-- Reads the maps of a section; `none` is a negative return code. -/
  map_afrom_cs : CONF_SECTION → Nat → Option (List vp_map_t)
  pass2_fixup_update : List vp_map_t → Bool
  pass2_fixup_map : List vp_map_t → Option vp_tmpl_t → Bool
  map_proc_find : Option String → Option Nat
  map_proc_instantiate : Nat → vp_tmpl_t → List vp_map_t → Option Nat
  /-- The template instance selectors `NUM_ANY` and `NUM_ALL`. -/
  NUM_ANY : Int
  NUM_ALL : Int
  /-- What the C library's `atoi` returns for a decimal string whose value
  does not fit an `int`, where the C standard leaves it undefined. -/
  atoi_overflow : String → Int

/-- The root of the configuration as a pointer: it has no parent. -/
def Env.root (env : Env) : cs_ref := { cs := env.config, parents := [] }

/-! ## C library calls used by the compiler -/

/-- The C library's `strcasecmp`, as far as the code uses it: the result is `0`
exactly when the two strings are equal up to ASCII letter case. -/
def strcasecmp (a b : String) : Int :=
  if a.data.map Char.toLower = b.data.map Char.toLower then 0 else 1

/-- The C library's `strspn`: the length of the longest initial segment of `s`
that consists of characters of `accept`. -/
def strspn (s accept : String) : Nat :=
  (s.data.takeWhile (fun c => accept.data.contains c)).length

/-- The C library's `strlen`. -/
def strlen (s : String) : Nat := s.data.length

/-- The largest value of a C `int`. -/
def INT_MAX : Int := 2147483647

/-- The value of the leading decimal digits of `s`. -/
def leading_decimal (s : String) : Nat :=
  (s.data.takeWhile Char.isDigit).foldl (fun n c => 10 * n + (c.toNat - 48)) 0

/-- The C library's `atoi` on an unsigned decimal string (its only call site is
guarded by the `strspn` test): the value of the leading decimal digits.  The C
function is undefined when that value does not fit an `int`; what the library
then returns is the parameter `atoi_overflow`. -/
def atoi (env : Env) (s : String) : Int :=
  if (leading_decimal s : Int) ≤ INT_MAX then (leading_decimal s : Int) else env.atoi_overflow s

/-! ## Return-code overrides -/

/-- The table `mod_rcode_table`. -/
def mod_rcode_table : List (String × rlm_rcode_t) :=
  [("reject", RLM_MODULE_REJECT), ("fail", RLM_MODULE_FAIL), ("ok", RLM_MODULE_OK),
   ("handled", RLM_MODULE_HANDLED), ("invalid", RLM_MODULE_INVALID),
   ("userlock", RLM_MODULE_USERLOCK), ("notfound", RLM_MODULE_NOTFOUND),
   ("noop", RLM_MODULE_NOOP), ("updated", RLM_MODULE_UPDATED)]

/-- Modelled from the spec: `fr_str2int` (defined outside the sources) looks a
name up in a name/number table and returns the number of the first entry whose
name equals it, letter case ignored as in the library; `none` stands for the
default `-1` that the caller passes and tests with `rcode < 0`. -/
def fr_str2int (table : List (String × rlm_rcode_t)) (name : String) : Option rlm_rcode_t :=
  (table.find? (fun e => strcasecmp e.1 name = 0)).map (fun e => e.2)

/-- The action that a value denotes in `compile_action_pair`, `none` when the
function returns 0 because of the value. -/
def parse_action (env : Env) (value : String) : Option Int :=
  if strcasecmp value "return" = 0 then some MOD_ACTION_RETURN
  else if strcasecmp value "break" = 0 then some MOD_ACTION_RETURN
  else if strcasecmp value "reject" = 0 then some MOD_ACTION_REJECT
  else if strspn value "0123456789" = strlen value then
    /- Don't allow priority zero, for future use. -/
    if atoi env value = 0 then none else some (atoi env value)
  else none

/-- The function `compile_action_pair`: the int it returns and the node as it
leaves it. -/
def compile_action_pair (env : Env) (c : modcallable) (cp : CONF_PAIR) : Int × modcallable :=
  match cp.value with
  | none => (0, c)
  | some value =>
    match parse_action env value with
    | none => (0, c)
    | some action =>
      if strcasecmp cp.attr "default" ≠ 0 then
        match fr_str2int mod_rcode_table cp.attr with
        | none => (0, c)
        | some rcode => (1, { c with actions := Function.update c.actions rcode action })
      else
        /- set all unset values to the default -/
        (1, { c with actions :=
                (rcodes.foldl (fun a i => if a i = 0 then Function.update a i action else a)
                  c.actions) })

/-- The loop of `compile_action_section` over the items of the override block. -/
def compile_action_section_loop (env : Env) :
    List (CONF_ITEM CONF_SECTION) → modcallable → Option modcallable
  | [], c => some c
  | CONF_ITEM.sect _ :: _, _ => none
  | CONF_ITEM.data :: rest, c => compile_action_section_loop env rest c
  | CONF_ITEM.pair cp :: rest, c =>
    if (compile_action_pair env c cp).1 = 0 then none
    else compile_action_section_loop env rest (compile_action_pair env c cp).2

/-- The function `compile_action_section`; `none` is `false`, after which every
caller frees the node. -/
def compile_action_section (env : Env) (c : modcallable) (ci : CONF_ITEM CONF_SECTION) :
    Option modcallable :=
  match ci with
  | CONF_ITEM.sect cs => compile_action_section_loop env cs.children c
  | _ => some c

/-- The function `compile_defaultactions`. -/
def compile_defaultactions (c : modcallable) (parent : List modcallable)
    (component : rlm_components_t) (parentgrouptype : grouptype_t) : modcallable :=
  { c with actions :=
      (rcodes.foldl (fun a i =>
        if a i = 0 then
          if parent.isEmpty = true ∨ component ≠ MOD_AUTHENTICATE then
            Function.update a i (defaultactions component parentgrouptype i)
          else /- inside Auth-Type has different rules -/
            Function.update a i (authtype_actions parentgrouptype i)
        else a) c.actions) }

/-! ## Groups -/

/-- The function `group_allocate`; the node is zeroed by `talloc_zero`. -/
def group_allocate (_parent : List modcallable) (cs : Option cs_ref) (grouptype : grouptype_t)
    (mod_type : mod_type_t) (component : rlm_components_t) : modcallable :=
  { grouptype := grouptype, children := [], cs := cs, method := component, type := mod_type,
    actions := fun _ => 0 }

/-- The function `compile_empty`. -/
def compile_empty (env : Env) (parent : List modcallable) (component : rlm_components_t)
    (cs : Option cs_ref) (grouptype parentgrouptype : grouptype_t) (mod_type : mod_type_t)
    (cond_type : fr_cond_type_t) : Option modcallable :=
  let g := group_allocate parent cs grouptype mod_type component
  let c : modcallable :=
    match cs with
    | none => { g with name := some (env.unlang_keyword g.type) }
    | some r =>
      match r.cs.name2 with
      | none => { g with name := some r.cs.name1 }
      | some name2 => { g with name := some name2 }
  let c : modcallable :=
    if cond_type ≠ COND_TYPE_INVALID then { c with cond := some { type := cond_type } } else c
  some (compile_defaultactions c parent component parentgrouptype)

/-- The function `add_child`: append at the tail. -/
def add_child (g : modcallable) (c : modcallable) : modcallable :=
  { g with children := g.children ++ [c] }

/-- The function `compile_action_subsection`; `next` is the item that follows
the `actions` block in its section. -/
def compile_action_subsection (env : Env) (c : modcallable)
    (next : Option (CONF_ITEM CONF_SECTION))
    (subcs : CONF_SECTION) : Option modcallable :=
  match next with
  | some (CONF_ITEM.pair _) => none
  | some (CONF_ITEM.sect _) => none
  | _ =>
    if subcs.name2 ≠ none then none
    else if ¬ (c.type = MOD_CASE ∨ c.type = MOD_IF ∨ c.type = MOD_ELSIF ∨ c.type = MOD_ELSE) then none
    else compile_action_section env c (CONF_ITEM.sect subcs)

/-- The type of `compile_item` without its output argument `modname`, which
only serves log messages. -/
abbrev compile_item_t :=
  List modcallable → rlm_components_t → ci_ref → grouptype_t → Option modcallable

/-- The loop of `compile_children` over the items of the group's section, with
the node `c` built so far; `rec` is `compile_item`. -/
def compile_children_loop (env : Env) (rec : compile_item_t) (parent : List modcallable)
    (component : rlm_components_t) (grouptype : grouptype_t) :
    List ci_ref → modcallable → Option modcallable
  | [], c => some c
  | ci :: rest, c =>
    match ci.item with
    | CONF_ITEM.sect subcs =>
      /- Skip precompiled blocks. -/
      if subcs.unlang = true then compile_children_loop env rec parent component grouptype rest c
      /- "actions" apply to the current group. -/
      else if subcs.name1 = "actions" then
        match compile_action_subsection env c (rest.head?.map (fun r => r.item)) subcs with
        | none => none
        | some c1 => compile_children_loop env rec parent component grouptype rest c1
      else
        match rec (c :: parent) component ci grouptype with
        | none => none
        | some single => compile_children_loop env rec parent component grouptype rest (add_child c single)
    | CONF_ITEM.data => compile_children_loop env rec parent component grouptype rest c
    | CONF_ITEM.pair cp =>
      match cp.value with
      | none =>
        match rec (c :: parent) component ci grouptype with
        | none =>
          /- Skip optional modules, which start with '-' -/
          if cp.attr.data.head? = some '-' then
            compile_children_loop env rec parent component grouptype rest c
          else none
        | some single => compile_children_loop env rec parent component grouptype rest (add_child c single)
      | some _ =>
        if (compile_action_pair env c cp).1 = 0 then none
        else
          compile_children_loop env rec parent component grouptype rest
            (compile_action_pair env c cp).2

/-- The function `compile_children`.  The group's section is never `NULL`
here; `none` stands for the crash on a `NULL` section. -/
def compile_children (env : Env) (rec : compile_item_t) (g : modcallable)
    (parent : List modcallable)
    (component : rlm_components_t) (grouptype parentgrouptype : grouptype_t) :
    Option modcallable :=
  match g.cs with
  | none => none
  | some r =>
    (compile_children_loop env rec parent component grouptype r.items g).map
      (fun c => compile_defaultactions c parent component parentgrouptype)

/-- The function `compile_group`. -/
def compile_group (env : Env) (rec : compile_item_t) (parent : List modcallable)
    (component : rlm_components_t) (cs : cs_ref) (grouptype parentgrouptype : grouptype_t)
    (mod_type : mod_type_t) : Option modcallable :=
  let g := group_allocate parent (some cs) grouptype mod_type component
  let g : modcallable := { g with name := some (env.unlang_keyword g.type) }
  compile_children env rec g parent component grouptype parentgrouptype

/-! ## Keyword sections -/

/-- The function `compile_update`. -/
def compile_update (env : Env) (_parent : List modcallable) (component : rlm_components_t)
    (cs : cs_ref) (grouptype _parentgrouptype : grouptype_t) (_mod_type : mod_type_t) :
    Option modcallable :=
  match env.map_afrom_cs cs.cs 128 with
  | none => none
  | some [] => none
  | some head =>
    let c : modcallable :=
      { type := MOD_UPDATE,
        name := some (match cs.cs.name2 with
                      | some name2 => name2
                      | none => env.unlang_keyword MOD_UPDATE),
        method := component,
        actions := defaultactions component GROUPTYPE_SIMPLE,
        grouptype := grouptype, children := [], cs := some cs, map := head }
    if env.pass2_fixup_update head = false then none
    else some { c with done_pass2 := true }

/-- The function `compile_map`.  The name built for the node, which embeds the
quoted template string, is reduced to the name of the map processor. -/
def compile_map (env : Env) (_parent : List modcallable) (component : rlm_components_t)
    (cs : cs_ref) (_grouptype parentgrouptype : grouptype_t) (_mod_type : mod_type_t) :
    Option modcallable :=
  match cf_section_sub_find env.root "modules" with
  | none => none
  | some _ =>
    match env.map_proc_find cs.cs.name2 with
    | none => none
    | some proc =>
      match cs.cs.argv0 with
      | none => none
      | some (tmpl_str, type) =>
        match env.tmpl_afrom_str tmpl_str type with
        | none => none
        | some vpt =>
          if ¬ (vpt.type = TMPL_TYPE_UNPARSED ∨ vpt.type = TMPL_TYPE_ATTR ∨
                vpt.type = TMPL_TYPE_XLAT ∨ vpt.type = TMPL_TYPE_ATTR_UNDEFINED ∨
                vpt.type = TMPL_TYPE_EXEC) then none
          else
            match env.map_afrom_cs cs.cs 256 with
            | none => none
            | some [] => none
            | some head =>
              match env.map_proc_instantiate proc vpt head with
              | none => none
              | some proc_inst =>
                let c : modcallable :=
                  { name := cs.cs.name2, type := MOD_MAP, method := component,
                    actions := defaultactions component parentgrouptype,
                    grouptype := GROUPTYPE_SIMPLE, children := [], cs := some cs,
                    map := head, vpt := some vpt, proc_inst := some proc_inst }
                if env.pass2_fixup_map head (some vpt) = false then none
                else some { c with done_pass2 := true }

/-- The walk of `compile_switch` through the children of the switch section,
ensuring that they are all `case` statements with at most one default; the
Boolean is `had_seen_default`, and `false` is the `return NULL`. -/
def compile_switch_check : List (CONF_ITEM CONF_SECTION) → Bool → Bool
  | [], _ => true
  | CONF_ITEM.data :: rest, had_seen_default => compile_switch_check rest had_seen_default
  | CONF_ITEM.pair _ :: _, _ => false
  | CONF_ITEM.sect subcs :: rest, had_seen_default =>
    if subcs.name1 ≠ "case" then false
    else
      match subcs.name2 with
      | some _ => compile_switch_check rest had_seen_default
      | none =>
        if had_seen_default = false then compile_switch_check rest true
        else false

/-- The function `compile_switch`. -/
def compile_switch (env : Env) (rec : compile_item_t) (parent : List modcallable)
    (component : rlm_components_t) (cs : cs_ref) (grouptype parentgrouptype : grouptype_t)
    (mod_type : mod_type_t) : Option modcallable :=
  match cs.cs.name2 with
  | none => none
  | some name2 =>
    let g := group_allocate parent (some cs) grouptype mod_type component
    match env.tmpl_afrom_str name2 cs.cs.name2_type with
    | none => none
    | some vpt =>
      let g : modcallable := { g with vpt := some vpt }
      if compile_switch_check cs.cs.children false = false then none
      else
        let g : modcallable := { g with name := some (env.unlang_keyword g.type) }
        /- Fixup the template before compiling the children. -/
        match env.pass2_fixup_tmpl vpt with
        | none => none
        | some vpt1 =>
          let g : modcallable := { g with vpt := some vpt1 }
          compile_children env rec g parent component grouptype parentgrouptype

/-- The template of a `case` statement with an argument, checked against the
template `fvpt` of the enclosing switch: the first part of `compile_case`. -/
def compile_case_tmpl (env : Env) (fvpt : vp_tmpl_t) (name2 : String) (type : FR_TOKEN) :
    Option vp_tmpl_t :=
  match env.tmpl_afrom_str name2 type with
  | none => none
  | some vpt =>
    match (if vpt.type = TMPL_TYPE_ATTR_UNDEFINED then env.pass2_fixup_undefined vpt
           else some vpt) with
    | none => none
    | some vpt =>
      /- We're switching over an attribute.  Check that the values match. -/
      match (if vpt.type = TMPL_TYPE_UNPARSED ∧ fvpt.type = TMPL_TYPE_ATTR then
               match fvpt.tmpl_da with
               | none => none
               | some da => env.tmpl_cast_in_place vpt da
             else some vpt) with
      | none => none
      | some vpt =>
        /- Compile and sanity check xlat expansions. -/
        if vpt.type = TMPL_TYPE_XLAT then
          env.pass2_fixup_xlat vpt (if fvpt.type = TMPL_TYPE_ATTR then fvpt.tmpl_da else none)
        else some vpt

/-- The function `compile_case`.  A failed `rad_assert` is a failure. -/
def compile_case (env : Env) (rec : compile_item_t) (parent : List modcallable)
    (component : rlm_components_t) (cs : cs_ref) (grouptype parentgrouptype : grouptype_t)
    (mod_type : mod_type_t) : Option modcallable :=
  match parent with
  | [] => none
  | f :: _ =>
    if f.type ≠ MOD_SWITCH then none
    else
      let vpt? : Option (Option vp_tmpl_t) :=
        match cs.cs.name2 with
        | some name2 =>
          match f.vpt with
          | none => none
          | some fvpt => (compile_case_tmpl env fvpt name2 cs.cs.name2_type).map some
        | none => some none /- else it's a default 'case' statement -/
      match vpt? with
      | none => none
      | some vpt =>
        match compile_group env rec parent component cs grouptype parentgrouptype mod_type with
        | none => none
        | some c =>
          let c : modcallable := { c with name := cs.cs.name2, vpt := vpt }
          /- Set all of it's codes to return, so that when we pick a 'case'
             statement, we don't fall through to processing the next one. -/
          some { c with actions :=
                   (rcodes.foldl (fun a i => Function.update a i MOD_ACTION_RETURN) c.actions) }

/-- The function `compile_foreach`. -/
def compile_foreach (env : Env) (rec : compile_item_t) (parent : List modcallable)
    (component : rlm_components_t) (cs : cs_ref) (grouptype parentgrouptype : grouptype_t)
    (mod_type : mod_type_t) : Option modcallable :=
  match cs.cs.name2 with
  | none => none
  | some name2 =>
    match env.tmpl_afrom_str name2 cs.cs.name2_type with
    | none =>
      /- A bare word that starts with '&' passes the first test and then
         fails the assertion on the template. -/
      if cs.cs.name2_type ≠ FR_TOKEN.T_BARE_WORD ∨ name2.data.head? ≠ some '&' then none
      else none
    | some vpt =>
      if vpt.type ≠ TMPL_TYPE_ATTR ∧ vpt.type ≠ TMPL_TYPE_LIST then none
      else if vpt.tmpl_num ≠ env.NUM_ALL ∧ vpt.tmpl_num ≠ env.NUM_ANY then none
      else
        let vpt : vp_tmpl_t := { vpt with tmpl_num := env.NUM_ALL }
        match compile_group env rec parent component cs grouptype parentgrouptype mod_type with
        | none => none
        | some c => some { c with name := some (env.unlang_keyword c.type), vpt := some vpt }

/-- The function `compile_break`. -/
def compile_break (env : Env) (parent : List modcallable) (component : rlm_components_t) :
    Option modcallable :=
  match parent.find? (fun f => f.type = MOD_FOREACH) with
  | none => none
  | some _ =>
    compile_empty env parent component none GROUPTYPE_SIMPLE GROUPTYPE_SIMPLE MOD_BREAK
      COND_TYPE_INVALID

/-- The text of `fmt` after its first character, cut at its last back quote:
the `strcpy` and `strrchr` of `compile_xlat`. -/
def xlat_exec_name (fmt : String) : String :=
  let body := fmt.data.tail
  match (body.reverse.dropWhile (fun ch => ch ≠ Char.ofNat 96)) with
  | [] => String.mk body
  | _ :: front => String.mk front.reverse

/-- The function `compile_xlat`. -/
def compile_xlat (_parent : List modcallable) (component : rlm_components_t) (fmt : String) :
    Option modcallable :=
  let c : modcallable :=
    { name := some "expand", type := MOD_XLAT, method := component,
      actions := defaultactions component GROUPTYPE_SIMPLE, children := [],
      xlat_name := some fmt }
  if fmt.data.head? ≠ some '%' then
    some { c with exec := true, xlat_name := some (xlat_exec_name fmt) }
  else some c

/-- The function `compile_if`. -/
def compile_if (env : Env) (rec : compile_item_t) (parent : List modcallable)
    (component : rlm_components_t) (cs : cs_ref) (grouptype parentgrouptype : grouptype_t)
    (mod_type : mod_type_t) : Option modcallable :=
  match cs.cs.name2 with
  | none => none
  | some _ =>
    match cs.cs.cond with
    | none => none
    | some cond =>
      if cond.type = COND_TYPE_FALSE then
        compile_empty env parent component (some cs) grouptype parentgrouptype mod_type
          COND_TYPE_FALSE
      else if env.fr_condition_walk cond = false then none
      else
        match compile_group env rec parent component cs grouptype parentgrouptype mod_type with
        | none => none
        | some c => some { c with name := some (env.unlang_keyword c.type), cond := some cond }

/-- The function `previous_if`: `-1` when there is no preceding `if` or
`elsif`, `0` when the preceding condition is always true, `1` otherwise.  A
node of type if or elsif always carries a condition. -/
def previous_if (parent : List modcallable) : Int :=
  match parent with
  | [] => -1
  | p :: _ =>
    match p.tail with
    | none => -1
    | some f =>
      if f.type ≠ MOD_IF ∧ f.type ≠ MOD_ELSIF then -1
      else if f.cond.map (fun cond => cond.type) = some COND_TYPE_TRUE then 0
      else 1

/-- The function `compile_elsif`. -/
def compile_elsif (env : Env) (rec : compile_item_t) (parent : List modcallable)
    (component : rlm_components_t) (cs : cs_ref) (grouptype parentgrouptype : grouptype_t)
    (mod_type : mod_type_t) : Option modcallable :=
  /- This is always a syntax error. -/
  if cs.cs.name2 = none then none
  else if previous_if parent < 0 then none
  else if previous_if parent = 0 then
    compile_empty env parent component (some cs) grouptype parentgrouptype mod_type COND_TYPE_TRUE
  else compile_if env rec parent component cs grouptype parentgrouptype mod_type

/-- The function `compile_else`. -/
def compile_else (env : Env) (rec : compile_item_t) (parent : List modcallable)
    (component : rlm_components_t) (cs : cs_ref) (grouptype parentgrouptype : grouptype_t)
    (mod_type : mod_type_t) : Option modcallable :=
  if cs.cs.name2 ≠ none then none
  else if previous_if parent < 0 then none
  else
    match (if previous_if parent = 0 then
             compile_empty env parent component (some cs) grouptype parentgrouptype mod_type
               COND_TYPE_TRUE
           else compile_group env rec parent component cs grouptype parentgrouptype mod_type) with
    | none => none
    | some c => some { c with name := some (env.unlang_keyword c.type) }

/-- The function `all_children_are_modules`. -/
def all_children_are_modules : List (CONF_ITEM CONF_SECTION) → Bool
  | [] => true
  | CONF_ITEM.sect subcs :: rest =>
    if subcs.name1 = "if" ∨ subcs.name1 = "else" ∨ subcs.name1 = "elsif" ∨
       subcs.name1 = "update" ∨ subcs.name1 = "switch" ∨ subcs.name1 = "case" then false
    else all_children_are_modules rest
  | CONF_ITEM.pair cp :: rest =>
    if cp.value ≠ none then false else all_children_are_modules rest
  | CONF_ITEM.data :: rest => all_children_are_modules rest

/-- The function `compile_redundant`. -/
def compile_redundant (env : Env) (rec : compile_item_t) (parent : List modcallable)
    (component : rlm_components_t) (cs : cs_ref) (grouptype parentgrouptype : grouptype_t)
    (mod_type : mod_type_t) : Option modcallable :=
  /- No children?  Die! -/
  if cs.cs.children.isEmpty = true then none
  else if all_children_are_modules cs.cs.children = false then none
  else
    match compile_group env rec parent component cs grouptype parentgrouptype mod_type with
    | none => none
    | some c => some { c with name := some (env.unlang_keyword c.type) }

/-! ## Module and policy references -/

/-- The C library's `strrchr`, as the offset of the last occurrence of `ch`. -/
def strrchr (s : String) (ch : Char) : Option Nat :=
  if s.data.contains ch then some (s.data.length - 1 - s.data.reverse.indexOf ch) else none

/-- The function `virtual_module_find_cs`: the section it returns and the value
it leaves in `*pcomponent`.  Names are taken to fit its 256-byte buffer. -/
def virtual_module_find_cs (env : Env) (pcomponent : rlm_components_t)
    (real_name virtual_name : String) (method_name : Option String) :
    Option cs_ref × rlm_components_t :=
  /- Turn the method name into a method enum. -/
  let st : rlm_components_t × Option String × String :=
    match method_name with
    | none => (pcomponent, none, virtual_name)
    | some m =>
      match components.find? (fun i => decide (comp2str i = m)) with
      | some i => (i, some m, virtual_name)
      | none => (pcomponent, none, real_name)
  let method : rlm_components_t := st.1
  let method_name : Option String := st.2.1
  let virtual_name : String := st.2.2
  /- Look for "foo" in the "instantiate" section. -/
  match (cf_section_sub_find env.root "instantiate").bind
          (fun cs => cf_section_sub_find_name2 cs virtual_name) with
  | some subcs => (some subcs, method)
  | none =>
    /- Look for it in "policy". -/
    match cf_section_sub_find env.root "policy" with
    | none => (none, pcomponent)
    | some cs =>
      match method_name with
      | some _ =>
        match cf_section_sub_find_name2 cs virtual_name with
        | some subcs => (some subcs, method)
        | none => (none, pcomponent)
      | none =>
        /- "foo" means "look for foo.component" first. -/
        match cf_section_sub_find_name2 cs (virtual_name ++ "." ++ comp2str method) with
        | some subcs => (some subcs, pcomponent)
        | none => (cf_section_sub_find_name2 cs virtual_name, pcomponent)

/-- The function `compile_csingle`. -/
def compile_csingle (env : Env) (parent : List modcallable) (component : rlm_components_t)
    (ci : ci_ref) (inst : module_instance_t) (grouptype : grouptype_t) (realname : String) :
    Option modcallable :=
  /- Check if the module in question has the necessary component. -/
  if inst.module.methods component = false then none
  else
    let c : modcallable :=
      { modinst := some inst, children := [],
        actions :=
          (if parent.isEmpty = true ∨ component ≠ MOD_AUTHENTICATE then
            defaultactions component grouptype
          else /- inside Auth-Type has different rules -/
            authtype_actions grouptype),
        name := some realname, type := MOD_SINGLE, method := component }
    compile_action_section env c ci.item

/-- The compile functions that `compile_table` refers to. -/
inductive modcall_compile_function_t where
  | compile_group
  | compile_redundant
  | compile_case
  | compile_foreach
  | compile_if
  | compile_elsif
  | compile_else
  | compile_update
  | compile_map
  | compile_switch
  deriving DecidableEq, Repr

/-- An entry of `compile_table`. -/
structure modcall_compile_t where
  name : String
  compile : modcall_compile_function_t
  grouptype : grouptype_t
  mod_type : mod_type_t

/-- The table `compile_table`. -/
def compile_table : List modcall_compile_t :=
  [ { name := "group", compile := .compile_group, grouptype := GROUPTYPE_SIMPLE, mod_type := MOD_GROUP },
    { name := "redundant", compile := .compile_redundant, grouptype := GROUPTYPE_REDUNDANT, mod_type := MOD_GROUP },
    { name := "load-balance", compile := .compile_redundant, grouptype := GROUPTYPE_SIMPLE, mod_type := MOD_LOAD_BALANCE },
    { name := "redundant-load-balance", compile := .compile_redundant, grouptype := GROUPTYPE_REDUNDANT, mod_type := MOD_REDUNDANT_LOAD_BALANCE },
    { name := "case", compile := .compile_case, grouptype := GROUPTYPE_SIMPLE, mod_type := MOD_CASE },
    { name := "foreach", compile := .compile_foreach, grouptype := GROUPTYPE_SIMPLE, mod_type := MOD_FOREACH },
    { name := "if", compile := .compile_if, grouptype := GROUPTYPE_SIMPLE, mod_type := MOD_IF },
    { name := "elsif", compile := .compile_elsif, grouptype := GROUPTYPE_SIMPLE, mod_type := MOD_ELSIF },
    { name := "else", compile := .compile_else, grouptype := GROUPTYPE_SIMPLE, mod_type := MOD_ELSE },
    { name := "update", compile := .compile_update, grouptype := GROUPTYPE_SIMPLE, mod_type := MOD_UPDATE },
    { name := "map", compile := .compile_map, grouptype := GROUPTYPE_SIMPLE, mod_type := MOD_MAP },
    { name := "switch", compile := .compile_switch, grouptype := GROUPTYPE_SIMPLE, mod_type := MOD_SWITCH } ]

/-- The call `compile_table[i].compile(...)` through the function pointer. -/
def modcall_compile_function_t.call (f : modcall_compile_function_t) (env : Env)
    (rec : compile_item_t) (parent : List modcallable) (component : rlm_components_t)
    (cs : cs_ref) (grouptype parentgrouptype : grouptype_t) (mod_type : mod_type_t) :
    Option modcallable :=
  match f with
  | .compile_group => Modcall.compile_group env rec parent component cs grouptype parentgrouptype mod_type
  | .compile_redundant => Modcall.compile_redundant env rec parent component cs grouptype parentgrouptype mod_type
  | .compile_case => Modcall.compile_case env rec parent component cs grouptype parentgrouptype mod_type
  | .compile_foreach => Modcall.compile_foreach env rec parent component cs grouptype parentgrouptype mod_type
  | .compile_if => Modcall.compile_if env rec parent component cs grouptype parentgrouptype mod_type
  | .compile_elsif => Modcall.compile_elsif env rec parent component cs grouptype parentgrouptype mod_type
  | .compile_else => Modcall.compile_else env rec parent component cs grouptype parentgrouptype mod_type
  | .compile_update => Modcall.compile_update env parent component cs grouptype parentgrouptype mod_type
  | .compile_map => Modcall.compile_map env parent component cs grouptype parentgrouptype mod_type
  | .compile_switch => Modcall.compile_switch env rec parent component cs grouptype parentgrouptype mod_type

/-- The end of `compile_item`, from "Not a virtual module.  It must be a real
module": the reference is looked up among the module instances.  Both the soft
error for a missing optional module and the hard error return `NULL`. -/
def compile_item_module (env : Env) (parent : List modcallable) (method : rlm_components_t)
    (ci : ci_ref) (modrefname : String) (parent_grouptype : grouptype_t) : Option modcallable :=
  match cf_section_sub_find env.root "modules" with
  | none => none
  | some modules =>
    /- Try to load the optional module. -/
    let realname : String :=
      if modrefname.data.head? = some '-' then String.mk modrefname.data.tail else modrefname
    match env.module_instantiate_method modules realname method with
    | some (inst, method1) => compile_csingle env parent method1 ci inst parent_grouptype realname
    | none => none

/-- The check of `compile_item` that it is not creating a loop: the walk from
`cf_item_parent(ci)` up to the root, which clears `subcs` when it meets it. -/
def compile_item_loop_check (parents : List Nat) (subcs : Option cs_ref) : Option cs_ref :=
  parents.foldl (fun s loop =>
    match s with
    | some x => if loop = x.cs.addr then none else some x
    | none => none) subcs

/-- The lookup of `compile_item` among the virtual modules and policies: the name
is split at its last dot into a name and a method, and the section found is
returned with the method to use. -/
def compile_item_virtual (env : Env) (component : rlm_components_t) (modrefname : String) :
    Option cs_ref × rlm_components_t :=
  match strrchr modrefname '.' with
  | none => virtual_module_find_cs env component modrefname modrefname none
  | some p =>
    virtual_module_find_cs env component modrefname (String.mk (modrefname.data.take p))
      (some (String.mk (modrefname.data.drop (p + 1))))

/-- The second half of `compile_item`, from the tests for `break` and `return`
on: `modrefname` is resolved as a policy, a virtual module or a module. -/
def compile_item_ref (env : Env) (rec : compile_item_t) (parent : List modcallable)
    (component : rlm_components_t) (ci : ci_ref) (modrefname : String)
    (parent_grouptype : grouptype_t) : Option modcallable :=
  /- These can't be over-ridden. -/
  if modrefname = "break" then compile_break env parent component
  else if modrefname = "return" then
    compile_empty env parent component none GROUPTYPE_SIMPLE GROUPTYPE_SIMPLE MOD_RETURN
      COND_TYPE_INVALID
  else
    let found : Option cs_ref × rlm_components_t := compile_item_virtual env component modrefname
    let method : rlm_components_t := found.2
    /- Check that we're not creating a loop. -/
    match compile_item_loop_check ci.parents found.1 with
    | some subcs =>
      match (if subcs.cs.name2 ≠ none then
               rec parent method (cf_section_to_item subcs) parent_grouptype
             else
               /- We have: foo { ...  So we compile it like it was: group foo { ... -/
               (compile_group env rec parent method subcs GROUPTYPE_SIMPLE parent_grouptype
                 MOD_GROUP).map (fun c => { c with name := some subcs.cs.name1 })) with
      | none => none
      | some c =>
        /- Return the compiled thing if we can. -/
        match ci.item with
        | CONF_ITEM.pair _ => some c
        | _ => compile_action_section env c ci.item
    | none => compile_item_module env parent method ci modrefname parent_grouptype

/-- The function `compile_item`, its recursive calls being made through `rec`. -/
def compile_item_body (env : Env) (rec : compile_item_t) : compile_item_t :=
  fun parent component ci parent_grouptype =>
  match ci.item with
  | CONF_ITEM.sect cs =>
    match compile_table.find? (fun e => decide (cs.name1 = e.name)) with
    | some e =>
      /- Some blocks can be empty.  The rest need to have contents. -/
      if cs.children.isEmpty = true ∧
         ¬ (e.mod_type = MOD_CASE ∨ e.mod_type = MOD_IF ∨ e.mod_type = MOD_ELSIF) then none
      else
        e.compile.call env rec parent component { cs := cs, parents := ci.parents }
          e.grouptype parent_grouptype e.mod_type
    | none =>
      if cs.name1 = "break" then none
      else if cs.name1 = "return" then none
      else /- else it's something like sql { fail = 1 ...} -/
        compile_item_ref env rec parent component ci cs.name1 parent_grouptype
  | CONF_ITEM.data => none
  | CONF_ITEM.pair cp =>
    /- Actions (ok = 1), etc. are orthogonal to just about everything else. -/
    if cp.value ≠ none then none
    /- In-place xlat's via %{...}. -/
    else if (cp.attr.data.head? = some '%' ∧ cp.attr.data.tail.head? = some '{') ∨
            cp.attr.data.head? = some (Char.ofNat 96) then
      compile_xlat parent component cp.attr
    else compile_item_ref env rec parent component ci cp.attr parent_grouptype

/-- The recursion of `compile_item`, bounded by `fuel`: the C function recurses
through the sections it compiles and through the policies it expands.  Running
out of fuel yields `none`. -/
def compile_item (env : Env) : Nat → compile_item_t
  | 0 => fun _ _ _ _ => none
  | fuel + 1 => compile_item_body env (compile_item env fuel)

/-- The function `modcall_compile_section`. -/
def modcall_compile_section (env : Env) (fuel : Nat) (parent : List modcallable)
    (component : rlm_components_t) (cs : cs_ref) : Option modcallable :=
  (compile_group env (compile_item env fuel) parent component cs GROUPTYPE_SIMPLE
    GROUPTYPE_SIMPLE MOD_GROUP).map (fun c => { c with name := some cs.cs.name1 })

/-! ## The specification's vocabulary for return-code overrides -/

/-- Specification side: two words are the same up to letter case. -/
def same_word (a b : String) : Prop := a.data.map Char.toLower = b.data.map Char.toLower

instance (a b : String) : Decidable (same_word a b) :=
  inferInstanceAs (Decidable (a.data.map Char.toLower = b.data.map Char.toLower))

/-- Specification side: `attr` is the name of the return code `rcode`. -/
def names_rcode (attr : String) (rcode : rlm_rcode_t) : Prop :=
  ∃ name, (name, rcode) ∈ mod_rcode_table ∧ same_word name attr

/-- A module instance `sql` with a method for every section. -/
def sample_sql : module_instance_t :=
  { name := "sql", module := { name := "rlm_sql", methods := fun _ => true } }

/-- The table `unlang_keyword` of the interpreter. -/
def sample_keyword : mod_type_t → String
  | MOD_NULL => ""
  | MOD_SINGLE => "single"
  | MOD_GROUP => "group"
  | MOD_LOAD_BALANCE => "load-balance group"
  | MOD_REDUNDANT_LOAD_BALANCE => "redundant-load-balance group"
  | MOD_IF => "if"
  | MOD_ELSE => "else"
  | MOD_ELSIF => "elsif"
  | MOD_UPDATE => "update"
  | MOD_SWITCH => "switch"
  | MOD_CASE => "case"
  | MOD_FOREACH => "foreach"
  | MOD_BREAK => "break"
  | MOD_RETURN => "return"
  | MOD_MAP => "map"
  | MOD_POLICY => "policy"
  | MOD_XLAT => "xlat"

/-- A server with the configuration `root` whose only module instance is `sql`;
every template parses as an unparsed word and every fix-up succeeds. -/
def sample_env (root : CONF_SECTION) : Env :=
  { config := root
    unlang_keyword := sample_keyword
    module_instantiate_method := fun _ name method =>
      if name = "sql" then some (sample_sql, method) else none
    tmpl_afrom_str := fun name _ => some { type := TMPL_TYPE_UNPARSED, name := name }
    pass2_fixup_undefined := fun vpt => some vpt
    pass2_fixup_xlat := fun vpt _ => some vpt
    pass2_fixup_tmpl := fun vpt => some vpt
    tmpl_cast_in_place := fun vpt _ => some vpt
    fr_condition_walk := fun _ => true
    map_afrom_cs := fun _ _ => some []
    pass2_fixup_update := fun _ => true
    pass2_fixup_map := fun _ _ => true
    map_proc_find := fun _ => none
    map_proc_instantiate := fun _ _ _ => none
    NUM_ANY := -128
    NUM_ALL := -127
    atoi_overflow := fun _ => 0 }

/-- A configuration with a `modules` section that holds `sql`, and a policy
named `sql` that refers to `sql`. -/
def sample_root : CONF_SECTION :=
  { addr := 0, name1 := "main", children :=
      [ CONF_ITEM.sect { addr := 1, name1 := "modules", children :=
          [ CONF_ITEM.sect { addr := 2, name1 := "sql", children := [] } ] },
        CONF_ITEM.sect { addr := 3, name1 := "policy", children :=
          [ CONF_ITEM.sect { addr := 4, name1 := "sql", children :=
              [ CONF_ITEM.pair { attr := "sql", value := none } ] } ] } ] }

/-- Specification side: the item is a `case` subsection. -/
def is_case (item : CONF_ITEM CONF_SECTION) : Prop :=
  match item with
  | CONF_ITEM.sect s => s.name1 = "case"
  | _ => False

/-- Specification side: the item is a child that is not a `case` subsection: a
pair, or a section with another name. -/
def is_foreign (item : CONF_ITEM CONF_SECTION) : Prop :=
  match item with
  | CONF_ITEM.pair _ => True
  | CONF_ITEM.sect s => s.name1 ≠ "case"
  | CONF_ITEM.data => False

/-- Specification side: the item is a `case` subsection without an argument. -/
def is_bare_case (item : CONF_ITEM CONF_SECTION) : Bool :=
  match item with
  | CONF_ITEM.sect s => decide (s.name1 = "case") && s.name2.isNone
  | _ => false

/-- Specification side: the number of `case` subsections without an argument. -/
def bare_cases (items : List (CONF_ITEM CONF_SECTION)) : Nat := items.countP is_bare_case

/-- A switch node under construction, as `compile_switch` passes it to its
children. -/
def sample_switch : modcallable :=
  { type := MOD_SWITCH, method := MOD_AUTHORIZE, name := some "switch", children := [],
    vpt := some { type := TMPL_TYPE_UNPARSED, name := "&User-Name" } }

/-- The section `case bob { sql  ok = 1  actions { fail = 2 } }`. -/
def sample_case : cs_ref :=
  { cs := { addr := 12, name1 := "case", name2 := some "bob", children :=
      [ CONF_ITEM.pair { attr := "sql", value := none },
        CONF_ITEM.pair { attr := "ok", value := some "1" },
        CONF_ITEM.sect { addr := 13, name1 := "actions", children :=
          [ CONF_ITEM.pair { attr := "fail", value := some "2" } ] } ] },
    parents := [11, 10, 0] }

/-- The section `switch &User-Name { case bob { sql }  case { sql } }`. -/
def sample_switch_section : cs_ref :=
  { cs := { addr := 11, name1 := "switch", name2 := some "&User-Name", children :=
      [ CONF_ITEM.sect { addr := 12, name1 := "case", name2 := some "bob", children :=
          [ CONF_ITEM.pair { attr := "sql", value := none } ] },
        CONF_ITEM.sect { addr := 13, name1 := "case", children :=
          [ CONF_ITEM.pair { attr := "sql", value := none } ] } ] },
    parents := [10, 0] }

/-- The section `switch &User-Name { case { sql }  case { sql } }`, with two
default cases. -/
def sample_switch_two_defaults : cs_ref :=
  { cs := { addr := 11, name1 := "switch", name2 := some "&User-Name", children :=
      [ CONF_ITEM.sect { addr := 12, name1 := "case", children :=
          [ CONF_ITEM.pair { attr := "sql", value := none } ] },
        CONF_ITEM.sect { addr := 13, name1 := "case", children :=
          [ CONF_ITEM.pair { attr := "sql", value := none } ] } ] },
    parents := [10, 0] }

instance : DecidablePred is_case := fun item =>
  match item with
  | CONF_ITEM.sect s => inferInstanceAs (Decidable (s.name1 = "case"))
  | CONF_ITEM.pair _ => isFalse (fun h => h)
  | CONF_ITEM.data => isFalse (fun h => h)

instance : DecidablePred is_foreign := fun item =>
  match item with
  | CONF_ITEM.sect s => inferInstanceAs (Decidable (s.name1 ≠ "case"))
  | CONF_ITEM.pair _ => isTrue trivial
  | CONF_ITEM.data => isFalse (fun h => h)

/-! ## The specification's vocabulary for conditional chains -/

/-- Specification side: the most recently added child of the parent group is an
`if` or `elsif` node. -/
def follows_if (parent : List modcallable) : Prop :=
  ∃ p rest f, parent = p :: rest ∧ p.tail = some f ∧ (f.type = MOD_IF ∨ f.type = MOD_ELSIF)

/-- Specification side: the most recently added child of the parent group is an
`if` or `elsif` node whose condition is the constant true. -/
def follows_constant_true (parent : List modcallable) : Prop :=
  ∃ p rest f cond, parent = p :: rest ∧ p.tail = some f ∧
    (f.type = MOD_IF ∨ f.type = MOD_ELSIF) ∧ f.cond = some cond ∧ cond.type = COND_TYPE_TRUE

/-- Specification side: the item is an `elsif` section with a condition. -/
def is_elsif_item (ci : ci_ref) : Prop :=
  ∃ s, ci.item = CONF_ITEM.sect s ∧ s.name1 = "elsif" ∧ s.name2 ≠ none ∧ s.unlang = false

/-- Specification side: the item is a non-empty `else` section. -/
def is_else_item (ci : ci_ref) : Prop :=
  ∃ s, ci.item = CONF_ITEM.sect s ∧ s.name1 = "else" ∧ s.name2 = none ∧ s.unlang = false ∧
    s.children ≠ []

/-- The section `if (true) { sql }`. -/
def sample_if_section : CONF_SECTION :=
  { addr := 21, name1 := "if", name2 := some "(true)", cond := some { type := COND_TYPE_TRUE },
    children := [ CONF_ITEM.pair { attr := "sql", value := none } ] }

/-- The section `elsif (&User-Name == 'carol') { sql }`. -/
def sample_elsif_section : CONF_SECTION :=
  { addr := 22, name1 := "elsif", name2 := some "(&User-Name == 'carol')",
    cond := some { type := COND_TYPE_MAP },
    children := [ CONF_ITEM.pair { attr := "sql", value := none } ] }

/-- The section `else { sql }`. -/
def sample_else_section : CONF_SECTION :=
  { addr := 23, name1 := "else",
    children := [ CONF_ITEM.pair { attr := "sql", value := none } ] }

/-- The section `authorize { if (true) { sql }  elsif (...) { sql }  else { sql } }`. -/
def sample_chain_section : cs_ref :=
  { cs := { addr := 20, name1 := "authorize", children :=
      [ CONF_ITEM.sect sample_if_section, CONF_ITEM.sect sample_elsif_section,
        CONF_ITEM.sect sample_else_section ] },
    parents := [0] }

/-- An `if` node whose condition is the constant true. -/
def sample_if_true : modcallable :=
  { type := MOD_IF, method := MOD_AUTHORIZE, name := some "if", children := [],
    actions := defaultactions MOD_AUTHORIZE GROUPTYPE_SIMPLE,
    cond := some { type := COND_TYPE_TRUE } }

/-- The group of `sample_chain_section` under construction, after its `if`. -/
def sample_group_after_if : modcallable :=
  { type := MOD_GROUP, method := MOD_AUTHORIZE, name := some "group",
    cs := some sample_chain_section, children := [sample_if_true] }

/-- A group under construction that has no children yet. -/
def sample_group_empty : modcallable :=
  { type := MOD_GROUP, method := MOD_AUTHORIZE, name := some "group",
    cs := some sample_chain_section, children := [] }

/-! ## The specification's vocabulary for references -/

/-- Specification side: the item is a module reference, a pair without value. -/
def is_reference (ci : ci_ref) (attr : String) : Prop :=
  ci.item = CONF_ITEM.pair { attr := attr, value := none }

/-- Specification side: the name begins with `-`. -/
def is_optional (attr : String) : Prop := attr.data.head? = some '-'

instance (attr : String) : Decidable (is_optional attr) :=
  inferInstanceAs (Decidable (attr.data.head? = some '-'))

/-- Specification side: the name has the form of an in-place expansion, which
`compile_item` hands to `compile_xlat`. -/
def is_xlat_name (attr : String) : Prop :=
  (attr.data.head? = some '%' ∧ attr.data.tail.head? = some '{') ∨
  attr.data.head? = some (Char.ofNat 96)

/-- Specification side: the item refers to `modrefname`: it is the pair
`modrefname`, or a section `modrefname { ... }` whose name is no keyword. -/
def refers_to (ci : ci_ref) (modrefname : String) : Prop :=
  modrefname ≠ "break" ∧ modrefname ≠ "return" ∧
  ((is_reference ci modrefname ∧ ¬ is_xlat_name modrefname) ∨
   (∃ s, ci.item = CONF_ITEM.sect s ∧ s.name1 = modrefname ∧
      compile_table.find? (fun e => decide (s.name1 = e.name)) = none))

/-- The section `authorize { sql  -ldap  sql }`. -/
def sample_optional_section : cs_ref :=
  { cs := { addr := 30, name1 := "authorize", children :=
      [ CONF_ITEM.pair { attr := "sql", value := none },
        CONF_ITEM.pair { attr := "-ldap", value := none },
        CONF_ITEM.pair { attr := "sql", value := none } ] },
    parents := [0] }

/-- The section `authorize { sql  ldap  sql }`. -/
def sample_required_section : cs_ref :=
  { cs := { addr := 31, name1 := "authorize", children :=
      [ CONF_ITEM.pair { attr := "sql", value := none },
        CONF_ITEM.pair { attr := "ldap", value := none },
        CONF_ITEM.pair { attr := "sql", value := none } ] },
    parents := [0] }

/-- The reference `-ldap` of `sample_optional_section`. -/
def sample_optional_item : ci_ref :=
  { item := CONF_ITEM.pair { attr := "-ldap", value := none }, parents := [30, 0] }

/-- The reference `sql` inside the policy `sql` of `sample_root`. -/
def sample_self_reference : ci_ref :=
  { item := CONF_ITEM.pair { attr := "sql", value := none }, parents := [4, 3, 0] }

/-- The policy `sql` of `sample_root`, as a pointer. -/
def sample_policy_sql : cs_ref :=
  { cs := { addr := 4, name1 := "sql", children :=
      [ CONF_ITEM.pair { attr := "sql", value := none } ] },
    parents := [3, 0] }

/-! ## The specification's vocabulary for `default` entries -/

/-- Specification side: the item of an override block is a `default` entry, a
pair whose attribute is the word `default` in any letter case. -/
def is_default_entry (item : CONF_ITEM CONF_SECTION) : Bool :=
  match item with
  | CONF_ITEM.pair cp => decide (same_word cp.attr "default")
  | _ => false

/-- Specification side: the override block without its `default` entries. -/
def without_default_entries (cs : CONF_SECTION) : CONF_SECTION :=
  { cs with children := cs.children.filter (fun i => ! is_default_entry i) }

/-- The reference `sql { default = 7  fail = 2  DEFAULT = reject }`. -/
def sample_override : CONF_SECTION :=
  { addr := 20, name1 := "sql", children :=
      [ CONF_ITEM.pair { attr := "default", value := some "7" },
        CONF_ITEM.pair { attr := "fail", value := some "2" },
        CONF_ITEM.pair { attr := "DEFAULT", value := some "reject" } ] }

end Modcall

namespace Io

/-!
## The master I/O handler of `src/modules/proto_radius/io.c` (namespace `Io`)

Conventions of the embedding.

* Objects that the C code reaches through pointers (clients, tracking entries,
  connections) live in lists of the `State`; a pointer is an index into the
  list, `talloc_zero` appends a new object and `talloc_free` leaves `none` at
  the index.  Reading through an index that holds no object yields the
  zero-filled object and a store through it is lost; the properties are stated
  for states in which the pointers that are followed hold objects.
* A heap (`fr_heap_t`) is the list of its elements in insertion order,
  `fr_heap_pop` removes the first element that no other element precedes under
  the comparison function; a heap pointer that is `NULL` or freed is `none`.
* A tracking table (`rbtree_t`) is the list of the indices of its entries.
* `uint32_t` counters are natural numbers reduced modulo `2 ^ 32`.
* The results of the calls that leave `io.c` (the transport, the trie, the
  event list, the hash table) are fields of `Env`; the calls that only have an
  effect outside are recorded in the `events` of the state.
-/

/-- Modelled from the spec: the states of a client (`proto_radius_client_state_t`
is declared in `proto_radius.h`); the names are those `io.c` uses. -/
inductive proto_radius_client_state_t where
  | PR_CLIENT_INVALID
  | PR_CLIENT_STATIC
  | PR_CLIENT_NAK
  | PR_CLIENT_DYNAMIC
  | PR_CLIENT_CONNECTED
  | PR_CLIENT_PENDING
  deriving DecidableEq, Repr, Inhabited

/-- Modelled from the spec: `AF_INET` of the C library. -/
def AF_INET : Nat := 2

/-- Modelled from the spec: `AF_INET6` of the C library. -/
def AF_INET6 : Nat := 10

/-- Modelled from the spec: `IPPROTO_UDP` of the C library. -/
def IPPROTO_UDP : Nat := 17

/-- Modelled from the spec: the code of an Access-Request (`FR_CODE_ACCESS_REQUEST`). -/
def FR_CODE_ACCESS_REQUEST : Nat := 1

/-- Modelled from the spec: an IP address with its prefix length (`fr_ipaddr_t`);
the field `prefixlen` is `prefix` in C. -/
structure fr_ipaddr_t where
  af : Nat
  prefixlen : Nat
  addr : Nat
  deriving DecidableEq, Repr, Inhabited

/-- Modelled from the spec: the fields of `RADCLIENT` that `io.c` reads or writes. -/
structure RADCLIENT where
  ipaddr : fr_ipaddr_t
  longname : String
  shortname : String
  secret : String
  nas_type : String
  message_authenticator : Bool
  use_connected : Bool
  active : Bool
  dynamic : Bool
  deriving DecidableEq, Repr, Inhabited

/-- Modelled from the spec: the address tuple of a packet (`proto_radius_address_t`). -/
structure proto_radius_address_t where
  src_ipaddr : fr_ipaddr_t
  dst_ipaddr : fr_ipaddr_t
  src_port : Nat
  dst_port : Nat
  if_index : Int
  deriving DecidableEq, Repr, Inhabited

/-- The interval a client timer is armed for: the `delay` of `client_expiry_timer`. -/
inductive delay_t where
  | idle_timeout
  | nak_lifetime
  | check_interval
  deriving DecidableEq, Repr, Inhabited

/-- Modelled from the spec: a tracking entry (`proto_radius_track_t`); `client`
is the index of the client, `ev` tells whether the cleanup timer is armed. -/
structure proto_radius_track_t where
  client : Nat
  address : proto_radius_address_t
  timestamp : Nat
  packets : Int
  packet : List Nat
  reply : Option (List Nat)
  reply_len : Nat
  dynamic : Nat
  ev : Bool
  deriving DecidableEq, Repr, Inhabited

/-- Modelled from the spec: a queued packet (`proto_radius_pending_packet_t`);
`track` is the index of its tracking entry. -/
structure proto_radius_pending_packet_t where
  priority : Nat
  recv_time : Nat
  track : Nat
  buffer : List Nat
  buffer_len : Nat
  deriving DecidableEq, Repr, Inhabited

/-- Modelled from the spec: a client of the handler (`proto_radius_client_t`).
`connection` is the connection that owns the client (its talloc parent) when it
is the client of a connected socket; `ev` is the armed timer, if any. -/
structure proto_radius_client_t where
  state : proto_radius_client_state_t
  src_ipaddr : fr_ipaddr_t
  network : fr_ipaddr_t
  radclient : RADCLIENT
  connection : Option Nat
  connected : Bool
  use_connected : Bool
  ready_to_delete : Bool
  in_trie : Bool
  packets : Int
  pending : Option (List proto_radius_pending_packet_t)
  table : Option (List Nat)
  ht : Option (List Nat)
  ev : Option delay_t
  deriving DecidableEq, Repr, Inhabited

/-- Modelled from the spec: a connected socket (`proto_radius_connection_t`);
`client` and `parent` are indices of clients. -/
structure proto_radius_connection_t where
  address : proto_radius_address_t
  client : Nat
  parent : Nat
  dead : Bool
  paused : Bool
  nak : Bool
  deriving DecidableEq, Repr, Inhabited

/-- Modelled from the spec: the instance of the handler (`proto_radius_t`):
the configuration, the counters, the heap of clients with queued packets and
the trie of clients (as the list of its keys with the client stored there). -/
structure proto_radius_t where
  dynamic_clients : Bool
  ipproto : Nat
  max_clients : Nat
  num_clients : Nat
  max_pending_packets : Nat
  num_pending_packets : Nat
  max_connections : Nat
  num_connections : Nat
  cleanup_delay : Nat × Nat
  priorities : Nat → Nat
  process_by_code : Nat → Bool
  pending_clients : Option (List Nat)
  trie : List (fr_ipaddr_t × Nat)

/-- A call that has its effect outside the handler; `null_dereference` stands
for a read through a `NULL` pointer, where the behaviour of the program is
undefined: the function that comes to it ends there. -/
inductive event where
  | app_io_write (track : Nat) (request_time : Nat) (buffer : List Nat)
  | fr_network_listen_read (connection : Option Nat)
  | fr_network_listen_inject (connection : Nat) (buffer : List Nat) (recv_time : Nat)
  | fr_event_filter_update (connection : Nat)
  | null_dereference
  deriving DecidableEq, Repr

/-- The memory of the handler. -/
structure State where
  inst : proto_radius_t
  clients : List (Option proto_radius_client_t)
  tracks : List (Option proto_radius_track_t)
  connections : List (Option proto_radius_connection_t)
  events : List event

/-- The results of the calls that leave `io.c`. -/
structure Env where
  fr_ipaddr_cmp : fr_ipaddr_t → fr_ipaddr_t → Int
  fr_ipaddr_mask : fr_ipaddr_t → Nat → fr_ipaddr_t
  fr_trie_lookup : List (fr_ipaddr_t × Nat) → fr_ipaddr_t → Option Nat
  fr_trie_insert : List (fr_ipaddr_t × Nat) → fr_ipaddr_t → Int
  networks_lookup : fr_ipaddr_t → Option fr_ipaddr_t
  client_find : fr_ipaddr_t → Option RADCLIENT
  fr_value_box_snprint : fr_ipaddr_t → String
  fr_heap_insert : Int
  fr_event_timer_insert : Int
  fr_hash_table_insert : Int
  dl_instance : Int
  connection_open : Int
  fr_schedule_socket_add : Bool
  app_io_write : Nat → Nat → List Nat → Int

/-- The object a client pointer leads to. -/
def State.client (s : State) (i : Nat) : proto_radius_client_t :=
  (s.clients[i]?.join).getD default

/-- The object a tracking-entry pointer leads to. -/
def State.track (s : State) (i : Nat) : proto_radius_track_t :=
  (s.tracks[i]?.join).getD default

/-- The object a connection pointer leads to. -/
def State.connection (s : State) (i : Nat) : proto_radius_connection_t :=
  (s.connections[i]?.join).getD default

/-- A store through a client pointer; it is lost when the index holds no object. -/
def State.set_client (s : State) (i : Nat) (c : proto_radius_client_t) : State :=
  { s with clients := s.clients.set i ((s.clients[i]?.join).map (fun _ => c)) }

/-- A store through a tracking-entry pointer; it is lost when the index holds no object. -/
def State.set_track (s : State) (i : Nat) (t : proto_radius_track_t) : State :=
  { s with tracks := s.tracks.set i ((s.tracks[i]?.join).map (fun _ => t)) }

/-- A store through a connection pointer; it is lost when the index holds no object. -/
def State.set_connection (s : State) (i : Nat) (c : proto_radius_connection_t) : State :=
  { s with connections := s.connections.set i ((s.connections[i]?.join).map (fun _ => c)) }

/-- A store to the instance. -/
def State.set_inst (s : State) (inst : proto_radius_t) : State :=
  { s with inst := inst }

/-- The call is recorded. -/
def State.emit (s : State) (e : event) : State :=
  { s with events := s.events ++ [e] }

/-- The `talloc_free` of a tracking entry. -/
def State.free_track (s : State) (i : Nat) : State :=
  { s with tracks := s.tracks.set i none }

/-- The `talloc_free` of a connection. -/
def State.free_connection (s : State) (i : Nat) : State :=
  { s with connections := s.connections.set i none }

/-- The `talloc_free` of a client: the client goes, and with it the tracking
entries allocated under it. -/
def State.free_client (s : State) (i : Nat) : State :=
  { s with
    clients := s.clients.set i none
    tracks := s.tracks.map (fun t => t.bind (fun t => if t.client = i then none else some t)) }

/-- The increment of a `uint32_t`. -/
def u32_inc (n : Nat) : Nat := (n + 1) % 2 ^ 32

/-- The decrement of a `uint32_t`. -/
def u32_dec (n : Nat) : Nat := (n + (2 ^ 32 - 1)) % 2 ^ 32

/-- Modelled from the spec: `fr_heap_pop` of `heap.c`: the first element in
insertion order that no other element precedes, with the remaining elements. -/
def fr_heap_pop {α : Type} (cmp : α → α → Int) : List α → Option (α × List α)
  | [] => none
  | x :: xs =>
    match fr_heap_pop cmp xs with
    | none => some (x, [])
    | some (y, rest) => if cmp y x < 0 then some (y, x :: rest) else some (x, xs)

/-- Modelled from the spec: `fr_heap_peek` of `heap.c`: the element `fr_heap_pop` would remove. -/
def fr_heap_peek {α : Type} (cmp : α → α → Int) (h : List α) : Option α :=
  (fr_heap_pop cmp h).map Prod.fst

/-- The value of a C comparison, `1` when it holds. -/
def c_bool (p : Prop) [Decidable p] : Int := if p then 1 else 0

/-- Embedding of `pending_packet_cmp`. -/
def pending_packet_cmp (a b : proto_radius_pending_packet_t) : Int :=
  let rcode := c_bool (a.priority < b.priority) - c_bool (a.priority > b.priority)
  if rcode ≠ 0 then rcode
  else
    let rcode := c_bool (a.recv_time > b.recv_time) - c_bool (a.recv_time < b.recv_time)
    if rcode ≠ 0 then rcode
    else 0

/-- Embedding of `pending_client_cmp`: the clients are compared by the packets
at the top of their heaps. -/
def pending_client_cmp (s : State) (c1 c2 : Nat) : Int :=
  let a := (fr_heap_peek pending_packet_cmp ((s.client c1).pending.getD [])).getD default
  let b := (fr_heap_peek pending_packet_cmp ((s.client c2).pending.getD [])).getD default
  pending_packet_cmp a b

/-- Embedding of `address_cmp`. -/
def address_cmp (env : Env) (a b : proto_radius_address_t) : Int :=
  let rcode : Int := (a.src_port : Int) - (b.src_port : Int)
  if rcode ≠ 0 then rcode
  else
    let rcode : Int := (a.dst_port : Int) - (b.dst_port : Int)
    if rcode ≠ 0 then rcode
    else
      let rcode : Int := a.if_index - b.if_index
      if rcode ≠ 0 then rcode
      else
        let rcode := env.fr_ipaddr_cmp a.src_ipaddr b.src_ipaddr
        if rcode ≠ 0 then rcode
        else env.fr_ipaddr_cmp a.dst_ipaddr b.dst_ipaddr

/-- Embedding of `connection_cmp`. -/
def connection_cmp (env : Env) (a b : proto_radius_connection_t) : Int :=
  address_cmp env a.address b.address

/-- Embedding of `track_cmp`. -/
def track_cmp (env : Env) (s : State) (a b : proto_radius_track_t) : Int :=
  let rcode := c_bool (a.packet.getD 1 0 < b.packet.getD 1 0) - c_bool (a.packet.getD 1 0 > b.packet.getD 1 0)
  if rcode ≠ 0 then rcode
  else
    let rcode := c_bool (a.packet.getD 0 0 < b.packet.getD 0 0) - c_bool (a.packet.getD 0 0 > b.packet.getD 0 0)
    if rcode ≠ 0 then rcode
    else if (s.client a.client).connected then 0
    else address_cmp env a.address b.address

/-- Modelled from the spec: `rbtree_finddata` of `rbtree.c`: the entry of the
table that compares equal to the key. -/
def rbtree_finddata (env : Env) (s : State) (table : Option (List Nat))
    (key : proto_radius_track_t) : Option Nat :=
  (table.getD []).find? (fun i => track_cmp env s key (s.track i) == 0)

/-- Modelled from the spec: `rbtree_deletebydata` of `rbtree.c`: the entry that
compares equal to the key leaves the table. -/
def rbtree_deletebydata (env : Env) (s : State) (table : Option (List Nat))
    (key : proto_radius_track_t) : Option (List Nat) :=
  match table, rbtree_finddata env s table key with
  | some l, some i => some (l.erase i)
  | t, _ => t

/-- Embedding of `pending_packet_pop`: the packet, if any, and the memory afterwards. -/
def pending_packet_pop (s : State) : Option proto_radius_pending_packet_t × State :=
  match fr_heap_pop (pending_client_cmp s) (s.inst.pending_clients.getD []) with
  | none => (none, s.set_inst { s.inst with pending_clients := none })
  | some (client, rest) =>
    let c := s.client client
    let popped := fr_heap_pop pending_packet_cmp (c.pending.getD [])
    let left := (popped.map Prod.snd).getD []
    let s := s.set_client client { c with pending := c.pending.map (fun _ => left) }
    let clients := if left.length > 0 then rest ++ [client] else rest
    let s := s.set_inst
      { s.inst with
        pending_clients := some clients
        num_pending_packets := u32_dec s.inst.num_pending_packets }
    (popped.map Prod.fst, s)

/-- Embedding of `proto_radius_track_add`: the entry (`none` for `NULL`), the
value of `*is_dup` afterwards, and the memory afterwards. -/
def proto_radius_track_add (env : Env) (s : State) (client : Nat)
    (address : proto_radius_address_t) (packet : List Nat) (recv_time : Nat) (is_dup : Bool) :
    Option Nat × Bool × State :=
  let c := s.client client
  let my_track : proto_radius_track_t :=
    { (default : proto_radius_track_t) with
      address := address, client := client, packet := packet.take 20 }
  match rbtree_finddata env s c.table my_track with
  | none =>
    let track : proto_radius_track_t :=
      { client := client
        address := if c.connected then (s.connection (c.connection.getD 0)).address else address
        timestamp := recv_time
        packets := 1
        packet := packet.take 20
        reply := none
        reply_len := 0
        dynamic := 0
        ev := false }
    (some s.tracks.length, false, { s with tracks := s.tracks ++ [some track] })
  | some i =>
    let track := s.track i
    if track.packet = my_track.packet then
      if c.state = .PR_CLIENT_PENDING then (none, is_dup, s)
      else (some i, true, s.set_track i { track with packets := track.packets + 1 })
    else
      let track :=
        { track with
          packet := my_track.packet
          timestamp := recv_time
          packets := track.packets + 1
          ev := false }
      if track.reply_len = 0 then (some i, is_dup, s.set_track i track)
      else if track.reply.isSome then
        (some i, is_dup, s.set_track i { track with reply := none, reply_len := 0 })
      else (some i, is_dup, s.set_track i track)

/-- Embedding of `pending_free`, the destructor of a queued packet. -/
def pending_free (env : Env) (s : State) (pending : proto_radius_pending_packet_t) : State :=
  let track := s.track pending.track
  let track := { track with packets := track.packets - 1 }
  let s := s.set_track pending.track track
  if track.packets = 0 then
    let c := s.client track.client
    let s := s.set_client track.client { c with table := rbtree_deletebydata env s c.table track }
    s.free_track pending.track
  else s

/-- The `talloc_free` of a heap of queued packets: the destructor runs for each packet. -/
def talloc_free_pending (env : Env) (s : State) (client : Nat) : State :=
  let c := s.client client
  let s := (c.pending.getD []).foldl (pending_free env) s
  s.set_client client { s.client client with pending := none }

/-- Embedding of `proto_radius_pending_alloc`: the queued packet (`none` for
`NULL`) and the memory afterwards. -/
def proto_radius_pending_alloc (env : Env) (s : State) (client : Nat) (buffer : List Nat)
    (packet_len : Nat) (track : Nat) (priority : Nat) :
    Option proto_radius_pending_packet_t × State :=
  let pending : proto_radius_pending_packet_t :=
    { buffer := buffer.take packet_len
      buffer_len := packet_len
      priority := priority
      track := track
      recv_time := (s.track track).timestamp }
  let c := s.client client
  match c.pending with
  | none => (none, pending_free env s pending)
  | some heap =>
    if env.fr_heap_insert < 0 then (none, pending_free env s pending)
    else
      let s := s.set_client client { c with pending := some (heap ++ [pending]) }
      let s :=
        if ¬ c.connected then
          s.set_inst { s.inst with num_pending_packets := u32_inc s.inst.num_pending_packets }
        else s
      (some pending, s)

/-- The label `reset_timer` of `client_expiry_timer`. -/
def reset_timer (env : Env) (s : State) (client : Nat) (delay : delay_t) : State :=
  if env.fr_event_timer_insert < 0 then s
  else s.set_client client { s.client client with ev := some delay }

/-- The label `delete_client` of `client_expiry_timer`. -/
def delete_client (s : State) (client : Nat) : State :=
  let c := s.client client
  match c.connection with
  | some connection =>
    let conn := s.connection connection
    let parent := s.client conn.parent
    let s := s.set_client conn.parent { parent with ht := parent.ht.map (fun l => l.erase connection) }
    let s := s.set_connection connection { conn with dead := true }
    s.emit (.fr_network_listen_read (some connection))
  | none =>
    let s := s.set_inst
      { s.inst with
        trie := s.inst.trie.filter (fun e => e.1 ≠ c.src_ipaddr)
        num_clients := u32_dec s.inst.num_clients }
    s.free_client client

/-- The label `idle_timeout` of `client_expiry_timer`. -/
def idle_timeout (env : Env) (s : State) (client : Nat) : State :=
  if (s.client client).ready_to_delete then delete_client s client
  else
    let s := s.set_client client { s.client client with ready_to_delete := true }
    reset_timer env s client .idle_timeout

/-- Embedding of `client_expiry_timer`; `now` tells whether the argument `now`
is set, that is whether the call comes from the event list. -/
def client_expiry_timer (env : Env) (s : State) (now : Bool) (client : Nat) : State :=
  let c := s.client client
  if ¬ now then
    match c.state with
    | .PR_CLIENT_CONNECTED => reset_timer env s client .idle_timeout
    | .PR_CLIENT_DYNAMIC => reset_timer env s client .idle_timeout
    | .PR_CLIENT_NAK => reset_timer env s client .nak_lifetime
    | _ => s
  else
    let packets : Int := c.packets + ((c.pending.map List.length).getD 0 : Nat)
    if c.state = .PR_CLIENT_NAK then delete_client s client
    else if c.state = .PR_CLIENT_DYNAMIC ∨ c.state = .PR_CLIENT_CONNECTED then
      if packets > 0 then s.set_client client { c with ready_to_delete := false }
      else idle_timeout env s client
    else if ¬ c.use_connected then
      if packets = 0 then delete_client s client
      else s.set_client client { c with ready_to_delete := true }
    else
      let connections := ((c.ht.map List.length).getD 0 : Nat)
      if connections = 0 then idle_timeout env s client
      else
        let s := s.set_client client { c with ready_to_delete := false }
        reset_timer env s client .check_interval

/-- Embedding of `packet_expiry_timer`. -/
def packet_expiry_timer (env : Env) (s : State) (now : Bool) (track : Nat) : State :=
  let t := s.track track
  let client := t.client
  if ¬ now ∧ t.packet.getD 0 0 = FR_CODE_ACCESS_REQUEST ∧
      (s.inst.cleanup_delay.1 ≠ 0 ∨ s.inst.cleanup_delay.2 ≠ 0) ∧
      env.fr_event_timer_insert = 0 then
    s.set_track track { t with ev := true }
  else
    let t := { t with packets := t.packets - 1 }
    let s :=
      if t.packets = 0 then
        let c := s.client client
        let s := s.set_client client { c with table := rbtree_deletebydata env s c.table t }
        s.free_track track
      else s.set_track track { t with reply := none, reply_len := 0 }
    let c := s.client client
    let s := s.set_client client { c with packets := c.packets - 1 }
    if (s.client client).state = .PR_CLIENT_STATIC then s
    else if (s.client client).packets = 0 then client_expiry_timer env s now client
    else s

/-- Embedding of `proto_radius_connection_alloc`: the connection (`none` for
`NULL`) and the memory afterwards; `nak` is the connection that the new one
stands for as a negative entry. -/
def proto_radius_connection_alloc (env : Env) (s : State) (client : Nat)
    (address : proto_radius_address_t) (nak : Option Nat) : Option Nat × State :=
  if nak.isNone ∧ env.dl_instance < 0 then (none, s)
  else
    let c := s.client client
    let connection := s.connections.length
    let child := s.clients.length
    let radclient := { c.radclient with dynamic := true, active := true }
    let child_client : proto_radius_client_t :=
      { state := .PR_CLIENT_INVALID
        src_ipaddr := address.src_ipaddr
        network := address.src_ipaddr
        radclient := radclient
        connection := some connection
        connected := true
        use_connected := false
        ready_to_delete := false
        in_trie := false
        packets := 0
        pending := some []
        table := some []
        ht := none
        ev := none }
    let conn : proto_radius_connection_t :=
      { address := address, client := child, parent := client, dead := false, paused := false,
        nak := nak.isSome }
    match c.state with
    | .PR_CLIENT_INVALID => (none, s)
    | .PR_CLIENT_NAK => (none, s)
    | .PR_CLIENT_CONNECTED => (none, s)
    | st =>
      let child_client :=
        if st = .PR_CLIENT_PENDING then
          { child_client with
            state := .PR_CLIENT_PENDING
            radclient := { radclient with active := false } }
        else { child_client with state := .PR_CLIENT_CONNECTED }
      if nak.isNone ∧ env.connection_open < 0 then (none, s)
      else
        let ht := match nak with
          | some n => c.ht.map (fun l => l.erase n)
          | none => c.ht
        let inserted := env.fr_hash_table_insert
        let ht := if inserted < 0 then ht else ht.map (fun l => l ++ [connection])
        let s' := s.set_client client { c with ht := ht, ready_to_delete := false }
        if inserted < 0 then (none, s')
        else
          let s' :=
            { s' with
              clients := s'.clients ++ [some child_client]
              connections := s'.connections ++ [some conn] }
          match nak with
          | some _ =>
            (some connection,
              s'.set_client child { child_client with state := .PR_CLIENT_NAK })
          | none =>
            if ¬ env.fr_schedule_socket_add then
              (none,
                { s' with
                  clients := (s'.set_client client
                    { s'.client client with ht := (s'.client client).ht.map (fun l => l.erase connection) }).clients.set child none
                  connections := s'.connections.set connection none })
            else (some connection, s')

/-- Embedding of `proto_radius_radclient_alloc`. -/
def proto_radius_radclient_alloc (env : Env) (address : proto_radius_address_t) : RADCLIENT :=
  { ipaddr := address.src_ipaddr
    longname := env.fr_value_box_snprint address.src_ipaddr
    shortname := env.fr_value_box_snprint address.src_ipaddr
    secret := ""
    nas_type := ""
    message_authenticator := false
    use_connected := false
    active := false
    dynamic := true }

/-- What `app_io->read` delivers: its return value and what it stores through
its arguments. -/
structure app_io_read_t where
  packet_len : Int
  buffer : List Nat
  address : proto_radius_address_t
  recv_time : Nat
  priority : Nat
  is_dup : Bool

/-- What `mod_read` delivers: its return value and what it stores through
`packet_ctx` (`none` while nothing was stored), `priority`, `is_dup` and `buffer`. -/
structure mod_read_t where
  ret : Int
  packet_ctx : Option Nat
  priority : Nat
  is_dup : Bool
  buffer : List Nat
  deriving DecidableEq, Repr

/-- How the search for a queued packet at the label `redo` of `mod_read` ends. -/
inductive redo_t where
  | dead
  | pending (p : proto_radius_pending_packet_t)
  | no_pending
  | out_of_fuel
  deriving DecidableEq, Repr

/-- The loop at the label `redo` of `mod_read`: queued packets are popped until
one is current; the fuel bounds the number of jumps back to `redo`. -/
def mod_read_redo (connection : Option Nat) : Nat → State → redo_t × State
  | 0, s => (.out_of_fuel, s)
  | fuel + 1, s =>
    match connection with
    | some conn =>
      if (s.connection conn).dead then (.dead, s)
      else
        let client := (s.connection conn).client
        let c := s.client client
        match fr_heap_pop pending_packet_cmp (c.pending.getD []) with
        | none => (.no_pending, s)
        | some (pending, left) =>
          let s := s.set_client client { c with pending := c.pending.map (fun _ => left) }
          if pending.recv_time ≠ (s.track pending.track).timestamp then
            mod_read_redo connection fuel s
          else (.pending pending, s)
    | none =>
      if s.inst.pending_clients.isSome then
        match pending_packet_pop s with
        | (none, s) => (.no_pending, s)
        | (some pending, s) =>
          if pending.recv_time ≠ (s.track pending.track).timestamp then
            mod_read_redo connection fuel s
          else (.pending pending, s)
      else (.no_pending, s)

/-- The local variable `track` of `mod_read` when the loop at the label `redo`
ends without a queued packet: it is `NULL` before the label and is set to the
tracking entry of every queued packet that the loop pops, also of one that is
discarded.  The recursion is that of `mod_read_redo`. -/
def mod_read_redo_track (connection : Option Nat) : Nat → State → Option Nat → Option Nat
  | 0, _, track => track
  | fuel + 1, s, track =>
    match connection with
    | some conn =>
      if (s.connection conn).dead then track
      else
        let client := (s.connection conn).client
        let c := s.client client
        match fr_heap_pop pending_packet_cmp (c.pending.getD []) with
        | none => track
        | some (pending, left) =>
          let s := s.set_client client { c with pending := c.pending.map (fun _ => left) }
          if pending.recv_time ≠ (s.track pending.track).timestamp then
            mod_read_redo_track connection fuel s (some pending.track)
          else some pending.track
    | none =>
      if s.inst.pending_clients.isSome then
        match pending_packet_pop s with
        | (none, _) => track
        | (some pending, s) =>
          if pending.recv_time ≠ (s.track pending.track).timestamp then
            mod_read_redo_track connection fuel s (some pending.track)
          else some pending.track
      else track

/-- Embedding of `count_connections`, folded over the trie by `fr_trie_walk`. -/
def count_connections (s : State) (ctx : Nat) (client : Nat) : Nat :=
  match (s.client client).ht with
  | none => ctx
  | some ht => (ctx + ht.length) % 2 ^ 32

/-- The end of `mod_read` for a client that uses connected sockets, read on the
master socket: the packet goes to the connection of its address tuple. -/
def mod_read_connected (env : Env) (s : State) (client : Nat) (address : proto_radius_address_t)
    (buffer : List Nat) (packet_len : Nat) (recv_time : Nat) (out : mod_read_t) :
    mod_read_t × State :=
  let c := s.client client
  let my_connection : proto_radius_connection_t :=
    { (default : proto_radius_connection_t) with address := address }
  let connection :=
    if s.inst.ipproto = IPPROTO_UDP then
      (c.ht.getD []).find? (fun i => connection_cmp env my_connection (s.connection i) == 0)
    else none
  let nak : Bool := match connection with
    | some i => decide ((s.client (s.connection i).client).state = .PR_CLIENT_NAK)
    | none => false
  if nak then ({ out with ret := 0 }, s)
  else
    match connection with
    | some conn =>
      ({ out with ret := 0 }, s.emit (.fr_network_listen_inject conn (buffer.take packet_len) recv_time))
    | none =>
      let limit : Bool × State :=
        if s.inst.max_connections ≠ 0 ∧ s.inst.num_connections ≥ s.inst.max_connections then
          let num_connections := (s.inst.trie.map Prod.snd).foldl (count_connections s) 0
          let s := s.set_inst { s.inst with num_connections := num_connections }
          (decide ((s.inst.num_connections + 1) % 2 ^ 32 ≥ s.inst.max_connections), s)
        else (false, s)
      if limit.1 then ({ out with ret := 0 }, limit.2)
      else
        match proto_radius_connection_alloc env limit.2 client address none with
        | (none, s) => ({ out with ret := 0 }, s)
        | (some conn, s) =>
          let s := s.set_inst { s.inst with num_connections := u32_inc s.inst.num_connections }
          ({ out with ret := 0 },
            s.emit (.fr_network_listen_inject conn (buffer.take packet_len) recv_time))

/-- The label `have_client` of `mod_read`; `track` is the entry of a queued
packet, `none` for a packet that was just read.  Freeing the timer of the
client disarms it. -/
def mod_read_have_client (env : Env) (s : State) (connection : Option Nat) (client : Nat)
    (track : Option Nat) (address : proto_radius_address_t) (buffer : List Nat)
    (packet_len : Nat) (recv_time : Nat) (out : mod_read_t) : mod_read_t × State :=
  if connection.isSome ∨ ¬ (s.client client).use_connected then
    let added : Option Nat × Bool × State :=
      match track with
      | some t => (some t, out.is_dup, s)
      | none => proto_radius_track_add env s client address buffer recv_time out.is_dup
    match added with
    | (none, is_dup, s) => ({ out with ret := 0, is_dup := is_dup }, s)
    | (some track, is_dup, s) =>
      let out := { out with is_dup := is_dup }
      let finish (s : State) : mod_read_t × State :=
        let c := s.client client
        let s :=
          if c.ev.isSome then s.set_client client { c with ev := none, ready_to_delete := false }
          else s
        ({ out with ret := packet_len, packet_ctx := some track }, s)
      if (s.client client).state = .PR_CLIENT_PENDING then
        if connection.isNone ∧ s.inst.max_pending_packets ≠ 0 ∧
            s.inst.num_pending_packets ≥ s.inst.max_pending_packets then
          ({ out with ret := 0 }, s)
        else
          match proto_radius_pending_alloc env s client buffer packet_len track out.priority with
          | (none, s) => ({ out with ret := 0 }, s)
          | (some _, s) =>
            if ((s.client client).pending.getD []).length > 1 then ({ out with ret := 0 }, s)
            else finish (s.set_track track { s.track track with dynamic := recv_time })
      else
        let c := s.client client
        finish (s.set_client client { c with packets := c.packets + 1 })
  else mod_read_connected env s client address buffer packet_len recv_time out

/-- The part of `mod_read` that defines the client of a packet from an address
the trie does not know: the new client (`none` when the packet is ignored, with
the value to return) and the memory afterwards. -/
def mod_read_new_client (env : Env) (s : State) (address : proto_radius_address_t) :
    Except Int Nat × State :=
  let create (state : proto_radius_client_state_t) (radclient : RADCLIENT)
      (network : Option fr_ipaddr_t) : Except Int Nat × State :=
    let client : proto_radius_client_t :=
      { state := state
        src_ipaddr := radclient.ipaddr
        network := network.getD radclient.ipaddr
        radclient := radclient
        connection := none
        connected := false
        use_connected := radclient.use_connected
        ready_to_delete := false
        in_trie := false
        packets := 0
        pending := if state = .PR_CLIENT_PENDING then some [] else none
        table := some []
        ht := if radclient.use_connected then some [] else none
        ev := none }
    if env.fr_trie_insert s.inst.trie client.src_ipaddr ≠ 0 then (.error (-1), s)
    else
      let id := s.clients.length
      let s := { s with clients := s.clients ++ [some { client with in_trie := true }] }
      let s := s.set_inst { s.inst with trie := s.inst.trie ++ [(client.src_ipaddr, id)] }
      let s :=
        if state = .PR_CLIENT_PENDING then
          s.set_inst { s.inst with num_clients := u32_inc s.inst.num_clients }
        else s
      (.ok id, s)
  match env.client_find address.src_ipaddr with
  | some radclient => create .PR_CLIENT_STATIC { radclient with active := true } none
  | none =>
    if s.inst.dynamic_clients then
      if s.inst.max_clients ≠ 0 ∧ s.inst.num_clients ≥ s.inst.max_clients then (.error 0, s)
      else
        match env.networks_lookup address.src_ipaddr with
        | none => (.error 0, s)
        | some network =>
          create .PR_CLIENT_PENDING (proto_radius_radclient_alloc env address) (some network)
    else (.error 0, s)

/-- Embedding of `mod_read`; `connection` is the connected socket the call is
made on, `none` for the master socket; `rd` is what the transport delivers if
it is asked; the result is `none` when the fuel does not cover the queued
packets that have to be discarded. -/
def mod_read (env : Env) (fuel : Nat) (s : State) (connection : Option Nat)
    (rd : app_io_read_t) (priority : Nat) : Option (mod_read_t × State) :=
  let out : mod_read_t :=
    { ret := 0, packet_ctx := none, priority := priority, is_dup := false, buffer := [] }
  let stale := mod_read_redo_track connection fuel s none
  match mod_read_redo connection fuel s with
  | (.out_of_fuel, _) => none
  | (.dead, s) => some ({ out with ret := -1 }, s)
  | (.pending pending, s) =>
    let track := pending.track
    let out :=
      { out with
        packet_ctx := some track
        priority := pending.priority
        buffer := pending.buffer.take pending.buffer_len }
    some (mod_read_have_client env s connection (s.track track).client (some track)
      (s.track track).address out.buffer pending.buffer_len pending.recv_time out)
  | (.no_pending, s) =>
    let out := { out with priority := rd.priority, is_dup := rd.is_dup, buffer := rd.buffer }
    if rd.packet_len ≤ 0 then some ({ out with ret := rd.packet_len }, s)
    else if ¬ s.inst.process_by_code (rd.buffer.getD 0 0) then some ({ out with ret := 0 }, s)
    else
      let out := { out with priority := s.inst.priorities (rd.buffer.getD 0 0) }
      let client :=
        match connection with
        | none => env.fr_trie_lookup s.inst.trie rd.address.src_ipaddr
        | some conn => some (s.connection conn).client
      match client with
      | some client =>
        if (s.client client).state = .PR_CLIENT_NAK then some ({ out with ret := 0 }, s)
        else
          some (mod_read_have_client env s connection client stale rd.address rd.buffer
            rd.packet_len.toNat rd.recv_time out)
      | none =>
        match mod_read_new_client env s rd.address with
        | (.error ret, s) => some ({ out with ret := ret }, s)
        | (.ok client, s) =>
          some (mod_read_have_client env s connection client stale rd.address rd.buffer
            rd.packet_len.toNat rd.recv_time out)

/-- The label `reread` of `mod_write`. -/
def mod_write_reread (s : State) (connection : Option Nat) (client : Nat) (buffer_len : Nat) :
    Int × State :=
  if ((s.client client).pending.getD []).length > 0 then
    (buffer_len, s.emit (.fr_network_listen_read connection))
  else (buffer_len, s)

/-- The label `finish` of `mod_write`; `packets` is the number of live and
queued packets counted at the start of the call. -/
def mod_write_finish (env : Env) (s : State) (connection : Option Nat) (client : Nat)
    (packets : Int) (buffer_len : Nat) : Int × State :=
  let s := if packets = 0 then client_expiry_timer env s false client else s
  mod_write_reread s connection client buffer_len

/-- The checks of `mod_write` on the record of a client defined on the master
socket: the record does not fit the network the first packet came from. -/
def mod_write_mismatch (env : Env) (network : fr_ipaddr_t) (radclient : RADCLIENT) : Prop :=
  network.af ≠ radclient.ipaddr.af ∨
  network.prefixlen > radclient.ipaddr.prefixlen ∨
  env.fr_ipaddr_cmp (env.fr_ipaddr_mask radclient.ipaddr network.prefixlen) network ≠ 0 ∨
  (radclient.ipaddr.af = AF_INET ∧ radclient.ipaddr.prefixlen ≠ 32) ∨
  (radclient.ipaddr.af = AF_INET6 ∧ radclient.ipaddr.prefixlen ≠ 128)

instance (env : Env) (network : fr_ipaddr_t) (radclient : RADCLIENT) :
    Decidable (mod_write_mismatch env network radclient) := by
  unfold mod_write_mismatch; infer_instance

/-- Embedding of `mod_write`; `connection` is the connected socket the call is
made on, `none` for the master socket; `track` is the `packet_ctx`; `radclient`
is the record the buffer points to when the buffer holds the definition of a
client.  The result is the return value and the memory afterwards.  When a
client is rejected on a connected socket, the source reads `connection->el`
without a test of the connection that `proto_radius_connection_alloc` returned:
for `NULL` the call ends with the event `null_dereference`. -/
def mod_write (env : Env) (s : State) (connection : Option Nat) (track : Nat)
    (request_time : Nat) (buffer : List Nat) (buffer_len : Nat) (radclient : RADCLIENT) :
    Int × State :=
  let t := s.track track
  let client := t.client
  let c := s.client client
  let packets : Int := c.packets + ((c.pending.map List.length).getD 0 : Nat)
  if c.state ≠ .PR_CLIENT_PENDING then
    if t.timestamp ≠ request_time then
      let s := s.set_track track { t with packets := t.packets - 1 }
      let s := s.set_client client { c with packets := c.packets - 1 }
      let packets := packets - 1
      let s :=
        if packets = 0 ∧ c.state ≠ .PR_CLIENT_STATIC then client_expiry_timer env s false client
        else s
      (buffer_len, s)
    else if buffer_len < 20 then
      let s := packet_expiry_timer env s false track
      (buffer_len, s.set_track track { s.track track with reply_len := 1 })
    else
      let packet_len := env.app_io_write track request_time (buffer.take buffer_len)
      let s := s.emit (.app_io_write track request_time (buffer.take buffer_len))
      let s :=
        if packet_len > 0 then
          s.set_track track { t with reply := some (buffer.take buffer_len), reply_len := buffer_len }
        else s.set_track track { t with reply_len := 1 }
      (packet_len, packet_expiry_timer env s false track)
  else if buffer_len = 1 ∧ buffer.getD 0 0 = 1 then
    mod_write_reread s connection client buffer_len
  else if buffer_len = 1 then
    let s := s.set_client client { c with state := .PR_CLIENT_NAK, table := none }
    let s := talloc_free_pending env s client
    match connection with
    | some conn =>
      match proto_radius_connection_alloc env s client (s.connection conn).address (some conn) with
      | (some nak, s) => (-1, client_expiry_timer env s false (s.connection nak).client)
      | (none, s) => (-1, s.emit .null_dereference)
    | none => (buffer_len, client_expiry_timer env s false client)
  else if connection.isNone ∧ mod_write_mismatch env c.network radclient then
    let s := s.set_inst
      { s.inst with
        trie := s.inst.trie.filter (fun e => e.1 ≠ c.src_ipaddr)
        num_clients := u32_dec s.inst.num_clients }
    (buffer_len, s.free_client client)
  else
    let copied : RADCLIENT :=
      { c.radclient with
        longname := radclient.longname
        shortname := radclient.shortname
        secret := radclient.secret
        nas_type := radclient.nas_type
        ipaddr := radclient.ipaddr
        message_authenticator := radclient.message_authenticator
        use_connected := radclient.use_connected }
    match connection with
    | some conn =>
      let s := s.set_client client
        { c with
          state := .PR_CLIENT_CONNECTED
          radclient := { copied with active := true, use_connected := false }
          use_connected := false }
      let s := if (s.connection conn).paused then s.emit (.fr_event_filter_update conn) else s
      mod_write_finish env s connection client packets buffer_len
    | none =>
      let c :=
        if copied.use_connected then
          { c with radclient := copied, use_connected := true, ht := some [] }
        else
          { c with
            radclient := { copied with active := true }
            use_connected := false
            state := .PR_CLIENT_DYNAMIC }
      let s := s.set_client client c
      let s := s.set_inst
        { s.inst with pending_clients := some (s.inst.pending_clients.getD [] ++ [client]) }
      mod_write_finish env s connection client packets buffer_len

/-- The client pointer leads to an object. -/
def State.live_client (s : State) (i : Nat) : Prop := (s.clients[i]?.join).isSome

instance (s : State) (i : Nat) : Decidable (s.live_client i) := by
  unfold State.live_client; infer_instance

/-- The tracking-entry pointer leads to an object. -/
def State.live_track (s : State) (i : Nat) : Prop := (s.tracks[i]?.join).isSome

instance (s : State) (i : Nat) : Decidable (s.live_track i) := by
  unfold State.live_track; infer_instance

/-! ### A sample listener

A listener with dynamic clients for the network 198.51.100.0/24, after the
first packet from 198.51.100.42 was read: the client is pending, the packet is
queued and tracked. -/

/-- The network 198.51.100.0/24. -/
def sample_network : fr_ipaddr_t := { af := AF_INET, prefixlen := 24, addr := 3325256704 }

/-- The host 198.51.100.42. -/
def sample_source : fr_ipaddr_t := { af := AF_INET, prefixlen := 32, addr := 3325256746 }

/-- The host 203.0.113.100, outside the network. -/
def sample_foreign : fr_ipaddr_t := { af := AF_INET, prefixlen := 32, addr := 3405803876 }

/-- The address tuple of the packets from the host. -/
def sample_address : proto_radius_address_t :=
  { src_ipaddr := sample_source
    dst_ipaddr := { af := AF_INET, prefixlen := 32, addr := 3232235777 }
    src_port := 50000
    dst_port := 1812
    if_index := 0 }

/-- A library in which every call succeeds: addresses are compared field by
field, the mask clears the low bits of a 32 bit address, the trie finds the
client stored under the address. -/
def sample_env : Env :=
  { fr_ipaddr_cmp := fun a b =>
      if a.af ≠ b.af then (a.af : Int) - b.af
      else if a.prefixlen ≠ b.prefixlen then (a.prefixlen : Int) - b.prefixlen
      else (a.addr : Int) - b.addr
    fr_ipaddr_mask := fun a p =>
      { a with prefixlen := p, addr := a.addr / 2 ^ (32 - p) * 2 ^ (32 - p) }
    fr_trie_lookup := fun trie a => (trie.find? (fun e => e.1.addr == a.addr)).map Prod.snd
    fr_trie_insert := fun _ _ => 0
    networks_lookup := fun a =>
      if a.addr / 256 = sample_network.addr / 256 then some sample_network else none
    client_find := fun _ => none
    fr_value_box_snprint := fun _ => "198.51.100.42"
    fr_heap_insert := 0
    fr_event_timer_insert := 0
    fr_hash_table_insert := 0
    dl_instance := 0
    connection_open := 0
    fr_schedule_socket_add := true
    app_io_write := fun _ _ b => b.length }

/-- The 20 byte header of an Access-Request with the given id and authenticator byte. -/
def sample_header (id auth : Nat) : List Nat := [1, id, 0, 20] ++ List.replicate 16 auth

/-- The instance: at most two packets may be queued, one is. -/
def sample_inst : proto_radius_t :=
  { dynamic_clients := true
    ipproto := IPPROTO_UDP
    max_clients := 256
    num_clients := 1
    max_pending_packets := 2
    num_pending_packets := 1
    max_connections := 0
    num_connections := 0
    cleanup_delay := (5, 0)
    priorities := fun _ => 2
    process_by_code := fun c => c == 1
    pending_clients := none
    trie := [(sample_source, 0)] }

/-- The queued first packet of the host. -/
def sample_queued : proto_radius_pending_packet_t :=
  { priority := 2, recv_time := 100, track := 0, buffer := sample_header 42 7, buffer_len := 20 }

/-- The tracking entry of the first packet of the host. -/
def sample_track : proto_radius_track_t :=
  { client := 0
    address := sample_address
    timestamp := 100
    packets := 1
    packet := sample_header 42 7
    reply := none
    reply_len := 0
    dynamic := 100
    ev := false }

/-- The pending client of the host. -/
def sample_client : proto_radius_client_t :=
  { state := .PR_CLIENT_PENDING
    src_ipaddr := sample_source
    network := sample_network
    radclient := proto_radius_radclient_alloc sample_env sample_address
    connection := none
    connected := false
    use_connected := false
    ready_to_delete := false
    in_trie := true
    packets := 0
    pending := some [sample_queued]
    table := some []
    ht := none
    ev := none }

/-- The memory after the first packet of the host was read. -/
def sample_pending : State :=
  { inst := sample_inst
    clients := [some sample_client]
    tracks := [some sample_track]
    connections := []
    events := [] }

/-- A record that defines the host as a client. -/
def sample_record : RADCLIENT :=
  { ipaddr := sample_source
    longname := "nas42"
    shortname := "nas42"
    secret := "testing123"
    nas_type := "other"
    message_authenticator := false
    use_connected := false
    active := false
    dynamic := true }

/-- A record that gives the client an address outside the network. -/
def sample_record_foreign : RADCLIENT := { sample_record with ipaddr := sample_foreign }

/-- A record that defines the host as a client that uses connected sockets. -/
def sample_record_connected : RADCLIENT := { sample_record with use_connected := true }

/-- The memory of the sample listener once the host is a dynamic client whose
first packet is being processed. -/
def sample_dynamic : State :=
  { inst := { sample_inst with num_pending_packets := 0 }
    clients :=
      [some
        { sample_client with
          state := .PR_CLIENT_DYNAMIC
          radclient := sample_record
          packets := 1
          pending := some [] }]
    tracks := [some sample_track]
    connections := []
    events := [] }

/-- The number of packets in the heaps of all clients. -/
def State.queued (s : State) : Nat :=
  (s.clients.map (fun c => ((c.bind (fun c => c.pending)).getD []).length)).sum

/-- The heap of the clients with queued packets is in order: no client is in it
twice, and each client in it has a queued packet. -/
def State.pending_wf (s : State) : Prop :=
  (s.inst.pending_clients.getD []).Nodup ∧
  ∀ c ∈ s.inst.pending_clients.getD [], (s.client c).pending.getD [] ≠ []

instance (s : State) : Decidable s.pending_wf := by
  unfold State.pending_wf; infer_instance

/-- The second queued packet of the host. -/
def sample_second : proto_radius_pending_packet_t :=
  { priority := 2, recv_time := 150, track := 1, buffer := sample_header 43 5, buffer_len := 20 }

/-- The memory of the sample listener when the host has become a dynamic client
with two packets queued, and a packet with the id of the first one and another
authenticator has taken over the tracking entry of the first one. -/
def sample_superseded : State :=
  { inst := { sample_inst with num_pending_packets := 2, pending_clients := some [0] }
    clients :=
      [some
        { sample_client with
          state := .PR_CLIENT_DYNAMIC
          radclient := sample_record
          pending := some [sample_queued, sample_second] }]
    tracks :=
      [some { sample_track with timestamp := 200, packet := sample_header 42 9, packets := 2 },
       some { sample_track with timestamp := 150, packet := sample_header 43 5 }]
    connections := []
    events := [] }

/-- A packet that the transport delivers: an Access-Request from the host. -/
def sample_read : app_io_read_t :=
  { packet_len := 20
    buffer := sample_header 44 3
    address := sample_address
    recv_time := 300
    priority := 0
    is_dup := false }

/-- The memory of `sample_pending` for a listener that lets one packet be queued. -/
def sample_full : State :=
  { sample_pending with inst := { sample_inst with max_pending_packets := 1 } }

/-! ### The connections of a master socket -/

/-- The number of open connections in the sense of the specification: the
entries of the connection tables of the clients in the trie whose client is
not in the NAK state (a connection that closes is taken out of the table of
its parent by `client_expiry_timer` and `mod_write`). -/
def State.open_connections (s : State) : Nat :=
  ((s.inst.trie.map Prod.snd).map (fun client =>
    ((s.client client).ht.getD []).countP (fun i =>
      decide ((s.client (s.connection i).client).state ≠ .PR_CLIENT_NAK)))).sum

/-- The address tuple of the sample host with the given source port. -/
def sample_tuple (port : Nat) : proto_radius_address_t := { sample_address with src_port := port }

/-- The dynamic client of the sample host after it was defined with connected
sockets: it stays pending, each of its connections defines a client of its
own, and its connection table has the four entries 0 to 3. -/
def sample_parent : proto_radius_client_t :=
  { state := .PR_CLIENT_PENDING
    src_ipaddr := sample_source
    network := sample_network
    radclient := sample_record_connected
    connection := none
    connected := false
    use_connected := true
    ready_to_delete := false
    in_trie := true
    packets := 0
    pending := some []
    table := some []
    ht := some [0, 1, 2, 3]
    ev := none }

/-- The client of a connection of the sample host. -/
def sample_child (connection : Nat) (state : proto_radius_client_state_t) :
    proto_radius_client_t :=
  { state := state
    src_ipaddr := sample_source
    network := sample_source
    radclient := { sample_record_connected with active := true, dynamic := true }
    connection := some connection
    connected := true
    use_connected := false
    ready_to_delete := false
    in_trie := false
    packets := 0
    pending := some []
    table := some []
    ht := none
    ev := none }

/-- The connection of the sample host with the given index: its source port is
50000 plus the index, its client is stored after the parent. -/
def sample_connection (i : Nat) : proto_radius_connection_t :=
  { address := sample_tuple (50000 + i), client := i + 1, parent := 0, dead := false,
    paused := false, nak := false }

/-- The memory of a master socket with a limit of four connections after the
host has opened four connections from the source ports 50000 to 50003: its
connection table has four entries, the clients of the connections are defined,
and the counter of connections is 4. -/
def sample_four : State :=
  { inst :=
      { sample_inst with
        num_pending_packets := 0
        max_connections := 4
        num_connections := 4 }
    clients :=
      [some sample_parent, some (sample_child 0 .PR_CLIENT_CONNECTED),
        some (sample_child 1 .PR_CLIENT_CONNECTED), some (sample_child 2 .PR_CLIENT_CONNECTED),
        some (sample_child 3 .PR_CLIENT_CONNECTED)]
    tracks := []
    connections :=
      [some (sample_connection 0), some (sample_connection 1),
        some (sample_connection 2), some (sample_connection 3)]
    events := [] }

/-- The memory of `sample_four` after the fourth connection was idle and its
timer has fired twice: the first call of `client_expiry_timer` marks the client
of the connection, the second one closes the connection and takes it out of the
connection table of the host.  Three connections are open, and the counter of
connections is still 4. -/
def sample_master : State :=
  client_expiry_timer sample_env (client_expiry_timer sample_env sample_four true 4) true 4

/-- What the transport delivers when the sample host sends an Access-Request
from the given source port. -/
def sample_read_port (port : Nat) : app_io_read_t :=
  { sample_read with address := sample_tuple port }


/-- The memory of a master socket with a limit of six connections that was
reached before connections were closed: three entries are left in the
connection table of the host, and the counter of connections is 6. -/
def sample_master_wide : State :=
  { sample_master with
    inst := { sample_master.inst with max_connections := 6, num_connections := 6 } }

/-- The memory of the sample after the reply to the request of the dynamic
client was written and its tracking entry was cleaned up: the client has no
packets. -/
def sample_idle : State :=
  { sample_dynamic with
    clients := [some { sample_dynamic.client 0 with packets := 0 }]
    tracks := [] }

/-! ### The counter of the queued packets -/

/-- The packets a client pointer accounts for in the heaps of the clients that
are not connected: the length of the heap of such a client (a freed client has
no heap). -/
def State.pending_of (s : State) (i : Nat) : Nat :=
  if (s.client i).connected then 0 else ((s.client i).pending.getD []).length

/-- The total number of packets held in the heaps of the clients that are not
connected. -/
def State.pending_packets (s : State) : Nat :=
  ((List.range s.clients.length).map s.pending_of).sum

end Io

namespace Udp

/-!
## The UDP transport of `src/modules/proto_radius/proto_radius_udp.c` (namespace `Udp`)

The embedding follows that of the master I/O handler: clients and tracking
entries live in lists of the `State` and a pointer is an index; the calls that
leave the file (the socket, the tracking table, the client lists, the trie of
networks) are fields of `Env`, and the calls that only have an effect outside
are recorded in the `events` of the state.
-/

/-- Modelled from the spec: the answers of the tracking table
(`fr_tracking_status_t` is declared in `io/track.h`). -/
inductive fr_tracking_status_t where
  | FR_TRACKING_UNUSED
  | FR_TRACKING_ERROR
  | FR_TRACKING_NEW
  | FR_TRACKING_SAME
  | FR_TRACKING_UPDATED
  | FR_TRACKING_CONFLICTING
  deriving DecidableEq, Repr, Inhabited

/-- Embedding of `proto_radius_udp_address_t`; `client` is the index of the client. -/
structure proto_radius_udp_address_t where
  if_index : Int
  src_ipaddr : Io.fr_ipaddr_t
  dst_ipaddr : Io.fr_ipaddr_t
  src_port : Nat
  dst_port : Nat
  code : Nat
  id : Nat
  client : Option Nat
  deriving DecidableEq, Repr, Inhabited

/-- Embedding of `dynamic_packet_t`, a packet saved for a pending client;
`track` is the index of its tracking entry. -/
structure dynamic_packet_t where
  packet : List Nat
  track : Nat
  timestamp : Nat
  deriving DecidableEq, Repr, Inhabited

/-- Modelled from the spec: the fields of a tracking entry
(`fr_tracking_entry_t`) that the transport reads; `ev` tells whether the
cleanup timer is armed. -/
structure fr_tracking_entry_t where
  timestamp : Nat
  reply : Option (List Nat)
  reply_len : Nat
  ev : Bool
  src_dst : proto_radius_udp_address_t
  data : List Nat
  deriving DecidableEq, Repr, Inhabited

/-- Modelled from the spec: the fields of `RADCLIENT` that the transport reads or writes. -/
structure RADCLIENT where
  ipaddr : Io.fr_ipaddr_t
  src_ipaddr : Io.fr_ipaddr_t
  network : Io.fr_ipaddr_t
  secret : String
  active : Bool
  dynamic : Bool
  negative : Bool
  outstanding : Int
  received : Int
  packets : List dynamic_packet_t
  deriving DecidableEq, Repr, Inhabited

/-- Embedding of `fr_radius_dynamic_client_t`; the three client lists hold the
indices of their clients, `network` is the array of the configured networks
(`none` for `NULL`) and `trie` the networks that were inserted into the trie
(`none` while the trie is not allocated). -/
structure fr_radius_dynamic_client_t where
  network : Option (List Io.fr_ipaddr_t)
  trie : Option (List Io.fr_ipaddr_t)
  clients : List Nat
  pending : List Nat
  negative : List Nat
  packets : List dynamic_packet_t
  max_clients : Nat
  num_clients : Nat
  num_negative_clients : Nat
  max_pending_clients : Nat
  num_pending_clients : Nat
  max_pending_packets : Nat
  num_pending_packets : Nat
  idle_timeout : Nat
  deriving DecidableEq, Repr, Inhabited

/-- Modelled from the spec: the counters of `fr_stats_t` that `mod_read` increments. -/
structure fr_stats_t where
  total_requests : Nat
  total_dup_requests : Nat
  total_malformed_requests : Nat
  total_unknown_types : Nat
  total_invalid_requests : Nat
  total_bad_authenticators : Nat
  total_packets_dropped : Nat
  deriving DecidableEq, Repr, Inhabited

/-- Embedding of `proto_radius_udp_child_t`: the fields `mod_read` uses. -/
structure proto_radius_udp_child_t where
  src_ipaddr : Io.fr_ipaddr_t
  src_port : Nat
  if_index : Int
  packet : Option (List Nat)
  packet_len : Nat
  recv_time : Nat
  client : Option Nat
  ev : Bool
  deriving DecidableEq, Repr, Inhabited

/-- Embedding of `proto_radius_udp_t`: the fields `mod_read` and `mod_bootstrap`
use; `port_name` is `none` for `NULL`, `priorities` is the array of the
priorities by packet code. -/
structure proto_radius_udp_t where
  ipaddr : Io.fr_ipaddr_t
  port : Nat
  port_name : Option String
  recv_buff : Nat
  recv_buff_is_set : Bool
  max_connections : Nat
  priorities : List Nat
  connected : Bool
  use_connected : Bool
  dynamic_clients_is_set : Bool
  cleanup_delay : Nat
  stats : fr_stats_t
  dynamic_clients : fr_radius_dynamic_client_t
  child : proto_radius_udp_child_t
  deriving DecidableEq, Repr, Inhabited

/-- A call that has its effect outside the transport. -/
inductive event where
  | udp_send (packet : List Nat) (len : Nat) (address : proto_radius_udp_address_t)
  | fr_network_listen_inject (child : Nat) (buffer : List Nat) (packet_time : Nat)
  | fr_radius_tracking_entry_delete (track : Nat) (timestamp : Nat)
  | fr_event_timer_insert (track : Nat) (delay : Nat)
  | fr_event_timer_delete (track : Option Nat)
  deriving DecidableEq, Repr

/-- The memory of the transport. -/
structure State where
  inst : proto_radius_udp_t
  clients : List (Option RADCLIENT)
  tracks : List (Option fr_tracking_entry_t)
  events : List event
  deriving DecidableEq, Repr

/-- What `udp_recv` delivers. -/
structure udp_recv_t where
  data_size : Int
  buffer : List Nat
  src_ipaddr : Io.fr_ipaddr_t
  src_port : Nat
  dst_ipaddr : Io.fr_ipaddr_t
  dst_port : Nat
  if_index : Int
  deriving DecidableEq, Repr, Inhabited

/-- The results of the calls that leave the transport, and the constants of
headers that are not part of the sources.  `client_find` gets the list it
searches, `none` for the global list; `fr_radius_tracking_entry_insert` gets the
tracking entries and returns the status, the entry it stores through its first
argument and the tracking entries afterwards; `mod_clone` stands for the calls
of `mod_clone` into the loader and the scheduler and yields the child socket. -/
structure Env where
  FR_MAX_PACKET_CODE : Nat
  PRIORITY_NOW : Nat
  PRIORITY_HIGH : Nat
  PRIORITY_NORMAL : Nat
  PRIORITY_LOW : Nat
  process_by_code : Nat → Bool
  fr_radius_ok : List Nat → Nat → Option Nat
  fr_time : Nat
  client_find : Option (List Nat) → Io.fr_ipaddr_t → Option Nat
  client_add : List Nat → Nat → Bool
  fr_trie_lookup : Io.fr_ipaddr_t → Option Io.fr_ipaddr_t
  fr_radius_verify : List Nat → String → Int
  fr_radius_tracking_entry_insert : List (Option fr_tracking_entry_t) → List Nat → Nat →
    proto_radius_udp_address_t →
    fr_tracking_status_t × Option Nat × List (Option fr_tracking_entry_t)
  fr_hash_table_finddata : proto_radius_udp_address_t → Option Nat
  mod_clone : proto_radius_udp_address_t → Option Nat

/-- Modelled from the spec: the code of an Access-Request. -/
def FR_CODE_ACCESS_REQUEST : Nat := 1

/-- Modelled from the spec: the code of an Accounting-Request. -/
def FR_CODE_ACCOUNTING_REQUEST : Nat := 4

/-- Modelled from the spec: the code of a Status-Server. -/
def FR_CODE_STATUS_SERVER : Nat := 12

/-- Modelled from the spec: the code of a Disconnect-Request. -/
def FR_CODE_DISCONNECT_REQUEST : Nat := 40

/-- Modelled from the spec: the code of a CoA-Request. -/
def FR_CODE_COA_REQUEST : Nat := 43

/-- Embedding of the table `priorities`: the entries that are not written out are zero. -/
def priorities (env : Env) (code : Nat) : Nat :=
  if code = FR_CODE_ACCESS_REQUEST then env.PRIORITY_HIGH
  else if code = FR_CODE_ACCOUNTING_REQUEST then env.PRIORITY_LOW
  else if code = FR_CODE_COA_REQUEST then env.PRIORITY_NORMAL
  else if code = FR_CODE_DISCONNECT_REQUEST then env.PRIORITY_NORMAL
  else if code = FR_CODE_STATUS_SERVER then env.PRIORITY_NOW
  else 0

/-- The object a client pointer leads to. -/
def State.client (s : State) (i : Nat) : RADCLIENT := (s.clients[i]?.join).getD default

/-- The object a tracking-entry pointer leads to. -/
def State.track (s : State) (i : Nat) : fr_tracking_entry_t := (s.tracks[i]?.join).getD default

/-- A store through a client pointer; it is lost when the index holds no object. -/
def State.set_client (s : State) (i : Nat) (c : RADCLIENT) : State :=
  { s with clients := s.clients.set i ((s.clients[i]?.join).map (fun _ => c)) }

/-- A store to the instance. -/
def State.set_inst (s : State) (inst : proto_radius_udp_t) : State := { s with inst := inst }

/-- A store to the counters of the dynamic clients. -/
def State.set_dynamic_clients (s : State) (d : fr_radius_dynamic_client_t) : State :=
  { s with inst := { s.inst with dynamic_clients := d } }

/-- A store to the statistics. -/
def State.set_stats (s : State) (stats : fr_stats_t) : State :=
  { s with inst := { s.inst with stats := stats } }

/-- The call is recorded. -/
def State.emit (s : State) (e : event) : State := { s with events := s.events ++ [e] }

/-- Embedding of `dynamic_client_packet_restore`, over the list of the saved
packets: the length of the packet (0 when none is left), the buffer, the time,
the address and the tracking entry of the packet, and the memory afterwards. -/
def dynamic_client_packet_restore (buffer_len : Nat) :
    List dynamic_packet_t → State →
    (Nat × List Nat × Nat × proto_radius_udp_address_t × Option Nat) × State
  | [], s =>
    ((0, [], 0, default, none),
      s.set_dynamic_clients { s.inst.dynamic_clients with packets := [] })
  | saved :: rest, s =>
    let track := s.track saved.track
    let client := track.src_dst.client.getD 0
    let c := s.client client
    if saved.timestamp ≠ track.timestamp ∨ saved.packet.length > buffer_len then
      let s := s.emit (.fr_radius_tracking_entry_delete saved.track saved.timestamp)
      let s := s.set_client client { c with received := c.received - 1 }
      dynamic_client_packet_restore buffer_len rest s
    else
      let s := s.set_client client { c with received := c.received - 1 }
      ((saved.packet.length, saved.packet, saved.timestamp, track.src_dst, some saved.track),
        s.set_dynamic_clients { s.inst.dynamic_clients with packets := rest })

/-- Embedding of `dynamic_client_packet_save`: the return value, the entry
stored through `track`, and the memory afterwards. -/
def dynamic_client_packet_save (env : Env) (s : State) (packet : List Nat) (packet_len : Nat)
    (packet_time : Nat) (address : proto_radius_udp_address_t) (track : Option Nat) :
    Int × Option Nat × State :=
  let d := s.inst.dynamic_clients
  if d.num_pending_packets ≥ d.max_pending_packets then (-1, track, s)
  else
    match env.fr_radius_tracking_entry_insert s.tracks packet packet_time address with
    | (.FR_TRACKING_ERROR, t, tracks) => (-1, t, { s with tracks := tracks })
    | (.FR_TRACKING_UNUSED, t, tracks) => (-1, t, { s with tracks := tracks })
    | (.FR_TRACKING_SAME, t, tracks) => (0, t, { s with tracks := tracks })
    | (.FR_TRACKING_UPDATED, t, tracks) => (-1, t, { s with tracks := tracks })
    | (_, t, tracks) =>
      let s := { s with tracks := tracks }
      let saved : dynamic_packet_t :=
        { packet := packet.take packet_len, track := t.getD 0, timestamp := packet_time }
      let client := address.client.getD 0
      let c := s.client client
      let s := s.set_client client
        { c with packets := c.packets ++ [saved], received := c.received + 1 }
      let s := s.set_dynamic_clients
        { s.inst.dynamic_clients with
          num_pending_packets := Io.u32_inc s.inst.dynamic_clients.num_pending_packets }
      (0, t, s)

/-- Embedding of `dynamic_client_alloc`: the return value, the client stored
in the address, the entry stored through `track`, and the memory afterwards. -/
def dynamic_client_alloc (env : Env) (s : State) (packet : List Nat) (packet_len : Nat)
    (packet_time : Nat) (address : proto_radius_udp_address_t) (track : Option Nat)
    (network : Io.fr_ipaddr_t) : Int × proto_radius_udp_address_t × Option Nat × State :=
  let d := s.inst.dynamic_clients
  if d.num_clients ≥ d.max_clients then (0, address, track, s)
  else if d.num_pending_clients ≥ d.max_pending_clients then (0, address, track, s)
  else
    let client : RADCLIENT :=
      { ipaddr := address.src_ipaddr
        src_ipaddr := address.dst_ipaddr
        network := network
        secret := ""
        active := false
        dynamic := true
        negative := false
        outstanding := 0
        received := 0
        packets := [] }
    let id := s.clients.length
    let s := { s with clients := s.clients ++ [some client] }
    let address := { address with client := some id }
    match dynamic_client_packet_save env s packet packet_len packet_time address track with
    | (rcode, track, s) =>
      if rcode < 0 then (0, address, track, { s with clients := s.clients.set id none })
      else if ¬ env.client_add s.inst.dynamic_clients.pending id then
        (-1, address, track, { s with clients := s.clients.set id none })
      else
        let s := s.set_dynamic_clients
          { s.inst.dynamic_clients with
            pending := s.inst.dynamic_clients.pending ++ [id]
            num_pending_clients := Io.u32_inc s.inst.dynamic_clients.num_pending_clients }
        (packet_len, address, track, s)

/-- What `mod_read_packet` delivers: its return value and what it stores
through `buffer`, `packet_time`, `address` and `track`. -/
structure read_packet_t where
  data_size : Int
  buffer : List Nat
  packet_time : Nat
  address : proto_radius_udp_address_t
  track : Option Nat
  deriving DecidableEq, Repr, Inhabited

/-- Embedding of `mod_read_packet`; `rv` is what `udp_recv` delivers if it is called. -/
def mod_read_packet (env : Env) (s : State) (rv : udp_recv_t) (buffer_len : Nat) :
    read_packet_t × State :=
  let injected : Option (read_packet_t × State) :=
    match s.inst.connected, s.inst.child.packet with
    | true, some packet =>
      if buffer_len < s.inst.child.packet_len then none
      else
        let buffer := packet.take s.inst.child.packet_len
        some
          ({ data_size := s.inst.child.packet_len
             buffer := buffer
             packet_time := s.inst.child.recv_time
             address :=
               { code := buffer.getD 0 0
                 id := buffer.getD 1 0
                 if_index := s.inst.child.if_index
                 src_ipaddr := s.inst.child.src_ipaddr
                 src_port := s.inst.child.src_port
                 dst_ipaddr := s.inst.ipaddr
                 dst_port := s.inst.port
                 client := s.inst.child.client }
             track := none },
            s.set_inst { s.inst with child := { s.inst.child with packet := none } })
    | _, _ => none
  match injected with
  | some r => r
  | none =>
    let s :=
      match s.inst.connected, s.inst.child.packet with
      | true, some _ => s.set_inst { s.inst with child := { s.inst.child with packet := none } }
      | _, _ => s
    let restored :=
      if s.inst.dynamic_clients.packets ≠ [] then
        dynamic_client_packet_restore buffer_len s.inst.dynamic_clients.packets s
      else ((0, [], 0, default, none), s)
    match restored with
    | ((packet_len, buffer, packet_time, address, track), s) =>
      if packet_len > 0 then
        ({ data_size := packet_len, buffer := buffer, packet_time := packet_time,
           address := address, track := track }, s)
      else
        let address : proto_radius_udp_address_t :=
          { (default : proto_radius_udp_address_t) with
            src_ipaddr := rv.src_ipaddr
            src_port := rv.src_port
            dst_ipaddr := rv.dst_ipaddr
            dst_port := rv.dst_port
            if_index := rv.if_index }
        let r : read_packet_t :=
          { data_size := 0, buffer := rv.buffer, packet_time := 0, address := address,
            track := none }
        if rv.data_size < 0 then ({ r with data_size := rv.data_size }, s)
        else if rv.data_size = 0 then (r, s)
        else if rv.data_size < 20 then
          (r, s.set_stats
            { s.inst.stats with
              total_malformed_requests := s.inst.stats.total_malformed_requests + 1 })
        else if rv.buffer.getD 0 0 = 0 ∨ rv.buffer.getD 0 0 > env.FR_MAX_PACKET_CODE then
          (r, s.set_stats
            { s.inst.stats with total_unknown_types := s.inst.stats.total_unknown_types + 1 })
        else if ¬ env.process_by_code (rv.buffer.getD 0 0) then
          (r, s.set_stats
            { s.inst.stats with total_unknown_types := s.inst.stats.total_unknown_types + 1 })
        else
          match env.fr_radius_ok rv.buffer rv.data_size.toNat with
          | none =>
            (r, s.set_stats
              { s.inst.stats with
                total_malformed_requests := s.inst.stats.total_malformed_requests + 1 })
          | some packet_len =>
            ({ r with
               data_size := packet_len
               packet_time := env.fr_time
               address :=
                 { address with
                   code := rv.buffer.getD 0 0, id := rv.buffer.getD 1 0, client := none } },
              s)

/-- What `mod_read` delivers: its return value and what it stores through
`packet_ctx` (`none` for `NULL`), `priority`, `is_dup` and `buffer`. -/
structure mod_read_t where
  ret : Int
  packet_ctx : Option Nat
  priority : Nat
  is_dup : Bool
  buffer : List Nat
  deriving DecidableEq, Repr, Inhabited

/-- The label `unknown` of `mod_read`. -/
def mod_read_unknown (s : State) (out : mod_read_t) : mod_read_t × State :=
  ({ out with ret := 0 },
    s.set_stats
      { s.inst.stats with total_invalid_requests := s.inst.stats.total_invalid_requests + 1 })

/-- The label `return_packet` of `mod_read`. -/
def mod_read_return_packet (env : Env) (s : State) (out : mod_read_t) (track : Option Nat)
    (packet_len : Nat) : mod_read_t × State :=
  ({ out with
     ret := packet_len
     packet_ctx := track
     priority := priorities env (out.buffer.getD 0 0) }, s)

/-- The part of `mod_read` after the client of the packet is known: the
signature is verified, the packet is tracked and returned. -/
def mod_read_tracked (env : Env) (s : State) (out : mod_read_t) (packet_len : Nat)
    (packet_time : Nat) (address : proto_radius_udp_address_t) (track : Option Nat) :
    mod_read_t × State :=
  let client := address.client.getD 0
  if env.fr_radius_verify out.buffer (s.client client).secret < 0 then
    ({ out with ret := 0 },
      s.set_stats
        { s.inst.stats with
          total_bad_authenticators := s.inst.stats.total_bad_authenticators + 1 })
  else
    let finish (s : State) (out : mod_read_t) (track : Option Nat) : mod_read_t × State :=
      let s :=
        if s.inst.connected ∧ s.inst.child.ev then
          (s.set_inst { s.inst with child := { s.inst.child with ev := false } }).emit
            (.fr_event_timer_delete none)
        else s
      let s := s.set_stats { s.inst.stats with total_requests := s.inst.stats.total_requests + 1 }
      let c := s.client client
      let s := if c.dynamic then s.set_client client { c with outstanding := c.outstanding + 1 } else s
      mod_read_return_packet env s out track packet_len
    match track with
    | some _ => finish s out track
    | none =>
      match env.fr_radius_tracking_entry_insert s.tracks out.buffer packet_time address with
      | (status, track, tracks) =>
        let s := { s with tracks := tracks }
        let t := track.getD 0
        let drop_timer (s : State) : State :=
          if (s.track t).ev then
            { s.emit (.fr_event_timer_delete (some t)) with
              tracks := s.tracks.set t ((s.tracks[t]?.join).map (fun e => { e with ev := false })) }
          else s
        match status with
        | .FR_TRACKING_ERROR =>
          ({ out with ret := -1 },
            s.set_stats
              { s.inst.stats with total_packets_dropped := s.inst.stats.total_packets_dropped + 1 })
        | .FR_TRACKING_UNUSED =>
          ({ out with ret := -1 },
            s.set_stats
              { s.inst.stats with total_packets_dropped := s.inst.stats.total_packets_dropped + 1 })
        | .FR_TRACKING_SAME =>
          let s :=
            if (s.track t).ev then s.emit (.fr_event_timer_insert t s.inst.cleanup_delay) else s
          let s := s.set_stats
            { s.inst.stats with total_dup_requests := s.inst.stats.total_dup_requests + 1 }
          if (s.track t).reply_len ≠ 0 ∧ (s.track t).reply.isNone then ({ out with ret := 0 }, s)
          else
            match (s.track t).reply with
            | some reply =>
              ({ out with ret := 0 }, s.emit (.udp_send reply (s.track t).reply_len address))
            | none => finish s { out with is_dup := true } track
        | .FR_TRACKING_UPDATED => finish (drop_timer s) out track
        | .FR_TRACKING_CONFLICTING => finish (drop_timer s) out track
        | .FR_TRACKING_NEW => finish s out track

/-- Embedding of `mod_read`; `rv` is what `udp_recv` delivers if it is called. -/
def mod_read (env : Env) (s : State) (rv : udp_recv_t) (buffer_len : Nat) (priority : Nat) :
    mod_read_t × State :=
  match mod_read_packet env s rv buffer_len with
  | (r, s) =>
    let out : mod_read_t :=
      { ret := 0, packet_ctx := none, priority := priority, is_dup := false, buffer := r.buffer }
    if r.data_size ≤ 0 then ({ out with ret := r.data_size }, s)
    else
      let packet_len := r.data_size.toNat
      let track := r.track
      let address := r.address
      let child :=
        if s.inst.use_connected ∧ ¬ s.inst.connected then env.fr_hash_table_finddata address
        else none
      match child with
      | some child =>
        let s := s.emit (.fr_network_listen_inject child (r.buffer.take packet_len) r.packet_time)
        let s := match track with
          | some t => s.emit (.fr_radius_tracking_entry_delete t r.packet_time)
          | none => s
        ({ out with ret := 0 }, s)
      | none =>
        let address :=
          if address.client.isNone then
            { address with client := env.client_find none address.src_ipaddr }
          else address
        if address.client.isNone ∧ ¬ s.inst.dynamic_clients_is_set then mod_read_unknown s out
        else
          let address :=
            if address.client.isNone then
              { address with
                client := env.client_find (some s.inst.dynamic_clients.clients) address.src_ipaddr }
            else address
          let pending :=
            if address.client.isNone then
              env.client_find (some s.inst.dynamic_clients.pending) address.src_ipaddr
            else none
          match pending with
          | some client =>
            match dynamic_client_packet_save env s r.buffer packet_len r.packet_time
              { address with client := some client } track with
            | (rcode, _, s) => if rcode < 0 then mod_read_unknown s out else ({ out with ret := 0 }, s)
          | none =>
            if address.client.isNone then
              match env.fr_trie_lookup address.src_ipaddr with
              | none => mod_read_unknown s out
              | some network =>
                match dynamic_client_alloc env s r.buffer packet_len r.packet_time address track
                  network with
                | (rcode, _, track, s) =>
                  if rcode < 0 then mod_read_unknown s out
                  else mod_read_return_packet env s out track packet_len
            else if s.inst.use_connected ∧ ¬ s.inst.connected then
              let s := match env.mod_clone address with
                | some child =>
                  s.emit (.fr_network_listen_inject child (r.buffer.take packet_len) r.packet_time)
                | none => s
              let s := match track with
                | some t => s.emit (.fr_radius_tracking_entry_delete t r.packet_time)
                | none => s
              ({ out with ret := 0 }, s)
            else mod_read_tracked env s out packet_len r.packet_time address track

/-- The replies `mod_read` has sent: the recorded calls of `udp_send`. -/
def State.sent (s : State) : List event :=
  s.events.filter (fun e => match e with
    | .udp_send _ _ _ => true
    | _ => false)

/-- The client `mod_read` finds for the address of a packet before it looks at
the pending clients: the client of the address, else the one of the global
list, else the one of the list of dynamic clients. -/
def mod_read_client (env : Env) (s : State) (address : proto_radius_udp_address_t) :
    Option Nat :=
  match address.client with
  | some c => some c
  | none =>
    match env.client_find none address.src_ipaddr with
    | some c => some c
    | none =>
      if s.inst.dynamic_clients_is_set then
        env.client_find (some s.inst.dynamic_clients.clients) address.src_ipaddr
      else none

/-! ### A sample socket -/

/-- The host 192.0.2.10, a static client. -/
def sample_host : Io.fr_ipaddr_t := { af := Io.AF_INET, prefixlen := 32, addr := 3221225994 }

/-- The host 198.51.100.42, inside the network of the dynamic clients. -/
def sample_source : Io.fr_ipaddr_t := { af := Io.AF_INET, prefixlen := 32, addr := 3325256746 }

/-- The network 198.51.100.0/24 of the dynamic clients. -/
def sample_network : Io.fr_ipaddr_t := { af := Io.AF_INET, prefixlen := 24, addr := 3325256704 }

/-- An Access-Request with the given id and authenticator byte. -/
def sample_packet (id auth : Nat) : List Nat := [1, id, 0, 20] ++ List.replicate 16 auth

/-- The tracking table of the sample: one entry per id, inserted at the end of
the list when the id is new; a packet with the data of the entry is the same
packet again. -/
def sample_insert (tracks : List (Option fr_tracking_entry_t)) (buffer : List Nat)
    (packet_time : Nat) (address : proto_radius_udp_address_t) :
    fr_tracking_status_t × Option Nat × List (Option fr_tracking_entry_t) :=
  match tracks.findIdx? (fun e => match e with
    | some e => e.data.getD 1 0 == buffer.getD 1 0
    | none => false) with
  | some i =>
    if ((tracks.getD i none).map (fun e => e.data)) = some buffer then
      (.FR_TRACKING_SAME, some i, tracks)
    else
      (.FR_TRACKING_CONFLICTING, some i,
        tracks.set i (some
          { timestamp := packet_time, reply := none, reply_len := 0, ev := false,
            src_dst := address, data := buffer }))
  | none =>
    (.FR_TRACKING_NEW, some tracks.length,
      tracks ++ [some
        { timestamp := packet_time, reply := none, reply_len := 0, ev := false,
          src_dst := address, data := buffer }])

/-- A library for the sample: the packet codes 1 to 52 are processed, the global
list of clients knows the static host as client 0, the lists of the dynamic
clients are searched by address, the trie knows the sample network. -/
def sample_env (clients : List (Option RADCLIENT)) : Env :=
  { FR_MAX_PACKET_CODE := 52
    PRIORITY_NOW := 65536
    PRIORITY_HIGH := 32768
    PRIORITY_NORMAL := 16384
    PRIORITY_LOW := 8192
    process_by_code := fun c => c == 1
    fr_radius_ok := fun _ len => some len
    fr_time := 1000
    client_find := fun list a =>
      match list with
      | none => if a = sample_host then some 0 else none
      | some l =>
        l.find? (fun i => match clients.getD i none with
          | some c => c.ipaddr == a
          | none => false)
    client_add := fun _ _ => true
    fr_trie_lookup := fun a =>
      if a.addr / 256 = sample_network.addr / 256 then some sample_network else none
    fr_radius_verify := fun _ _ => 0
    fr_radius_tracking_entry_insert := sample_insert
    fr_hash_table_finddata := fun _ => none
    mod_clone := fun _ => none }

/-- The static client of the sample. -/
def sample_static : RADCLIENT :=
  { ipaddr := sample_host
    src_ipaddr := { af := Io.AF_INET, prefixlen := 32, addr := 3232235777 }
    network := sample_host
    secret := "testing123"
    active := true
    dynamic := false
    negative := false
    outstanding := 0
    received := 0
    packets := [] }

/-- The address tuple of the packets of the static client. -/
def sample_address : proto_radius_udp_address_t :=
  { if_index := 0
    src_ipaddr := sample_host
    dst_ipaddr := { af := Io.AF_INET, prefixlen := 32, addr := 3232235777 }
    src_port := 50000
    dst_port := 1812
    code := 1
    id := 42
    client := some 0 }

/-- The socket of the sample: dynamic clients are allowed, two may exist and
none does yet. -/
def sample_inst : proto_radius_udp_t :=
  { ipaddr := { af := Io.AF_INET, prefixlen := 32, addr := 3232235777 }
    port := 1812
    port_name := none
    recv_buff := 0
    recv_buff_is_set := false
    max_connections := 0
    priorities := []
    connected := false
    use_connected := false
    dynamic_clients_is_set := true
    cleanup_delay := 5
    stats := default
    dynamic_clients :=
      { network := some [sample_network]
        trie := none
        clients := []
        pending := []
        negative := []
        packets := []
        max_clients := 2
        num_clients := 0
        num_negative_clients := 0
        max_pending_clients := 4
        num_pending_clients := 0
        max_pending_packets := 256
        num_pending_packets := 0
        idle_timeout := 600 }
    child := default }

/-- The memory of the sample after the request 42 of the static client was
answered: the reply is cached in the tracking entry and the cleanup timer runs. -/
def sample_replied : State :=
  { inst := sample_inst
    clients := [some sample_static]
    tracks :=
      [some
        { timestamp := 900
          reply := some ([2, 42, 0, 20] ++ List.replicate 16 9)
          reply_len := 20
          ev := true
          src_dst := sample_address
          data := sample_packet 42 7 }]
    events := [] }

/-- What the socket delivers when the static client sends the request 42 again. -/
def sample_recv : udp_recv_t :=
  { data_size := 20
    buffer := sample_packet 42 7
    src_ipaddr := sample_host
    src_port := 50000
    dst_ipaddr := { af := Io.AF_INET, prefixlen := 32, addr := 3232235777 }
    dst_port := 1812
    if_index := 0 }

/-- The memory of the sample when the limit on dynamic clients is reached. -/
def sample_crowded : State :=
  { inst :=
      { sample_inst with
        dynamic_clients := { sample_inst.dynamic_clients with num_clients := 2 } }
    clients := [some sample_static]
    tracks := []
    events := [] }

/-- What the socket delivers when the unknown host inside the network sends a request. -/
def sample_recv_unknown : udp_recv_t :=
  { sample_recv with buffer := sample_packet 7 3, src_ipaddr := sample_source }

/-! ### The bootstrap of the transport -/

/-- Modelled from the spec: `AF_UNSPEC` of the C library. -/
def AF_UNSPEC : Nat := 0

/-- Modelled from the spec: `INT_MAX` of the C library, for an `int` of 32 bits. -/
def INT_MAX : Nat := 2147483647

/-- The comparisons that `FR_INTEGER_BOUND_CHECK` is used with in `mod_bootstrap`. -/
inductive bound_op where
  | ge
  | le
  deriving DecidableEq, Repr

/-- Modelled from the spec: the macro `FR_INTEGER_BOUND_CHECK` of the
configuration parser (its header is not part of the sources): a value that does
not stand in the comparison to the bound is replaced by the bound; the result
is the value of the variable afterwards. -/
def FR_INTEGER_BOUND_CHECK (var : Nat) (op : bound_op) (bound : Nat) : Nat :=
  match op with
  | .ge => if var ≥ bound then var else bound
  | .le => if var ≤ bound then var else bound

/-- The results of the calls `mod_bootstrap` makes outside the file:
`cf_section_find` tells whether the section has a subsection `priority`,
`cf_section_parse` gets the array `inst->priorities` and returns its return
value and the array after the parse of the subsection, `getservbyname` returns
the port of the service in host order, the trie functions get the networks
inserted so far and the network at hand, `fr_trie_alloc`, `talloc_init` and
`fr_hash_table_create` tell whether the allocation succeeds. -/
structure Lib where
  cf_section_find : Bool
  cf_section_rules_push : Int
  cf_section_parse : List Nat → Int × List Nat
  getservbyname : String → Option Nat
  fr_trie_alloc : Bool
  fr_trie_match : List Io.fr_ipaddr_t → Io.fr_ipaddr_t → Option Io.fr_ipaddr_t
  fr_trie_lookup : List Io.fr_ipaddr_t → Io.fr_ipaddr_t → Option Io.fr_ipaddr_t
  fr_trie_insert : List Io.fr_ipaddr_t → Io.fr_ipaddr_t → Int
  dl_instance : Int
  talloc_init : Bool
  fr_hash_table_create : Bool

/-- The loop of `mod_bootstrap` over the configured networks: whether the loop
ends without a `return -1`, and the trie afterwards. -/
def mod_bootstrap_networks (lib : Lib) (af : Nat) :
    List Io.fr_ipaddr_t → List Io.fr_ipaddr_t → Bool × List Io.fr_ipaddr_t
  | [], trie => (true, trie)
  | network :: rest, trie =>
    if network.af ≠ af then (false, trie)
    else if (lib.fr_trie_match trie network).isSome then (false, trie)
    else
      let enclosed : Bool :=
        match lib.fr_trie_lookup trie network with
        | some found => decide (found.prefixlen ≤ network.prefixlen)
        | none => false
      if enclosed then (false, trie)
      else if lib.fr_trie_insert trie network < 0 then (false, trie)
      else mod_bootstrap_networks lib af rest (trie ++ [network])

/-- The part of `mod_bootstrap` for a socket with dynamic clients: the return
value (0 when the function goes on) and the instance afterwards. -/
def mod_bootstrap_dynamic (lib : Lib) (inst : proto_radius_udp_t) : Int × proto_radius_udp_t :=
  if inst.use_connected then (-1, inst)
  else
    match inst.dynamic_clients.network with
    | none => (-1, inst)
    | some network =>
      if ¬ lib.fr_trie_alloc then (-1, inst)
      else
        let networks := mod_bootstrap_networks lib inst.ipaddr.af network []
        let d := { inst.dynamic_clients with trie := some networks.2 }
        if ¬ networks.1 then (-1, { inst with dynamic_clients := d })
        else
          if lib.dl_instance < 0 then (-1, { inst with dynamic_clients := d })
          else
            let max_clients := FR_INTEGER_BOUND_CHECK d.max_clients .ge 1
            let max_clients := FR_INTEGER_BOUND_CHECK max_clients .le (2 ^ 20)
            let max_pending_clients := FR_INTEGER_BOUND_CHECK d.max_pending_clients .ge 4
            let max_pending_clients := FR_INTEGER_BOUND_CHECK max_pending_clients .le 2048
            let max_pending_clients := FR_INTEGER_BOUND_CHECK max_pending_clients .ge 256
            let max_pending_clients := FR_INTEGER_BOUND_CHECK max_pending_clients .le 65536
            let idle_timeout :=
              if d.idle_timeout ≠ 0 then
                FR_INTEGER_BOUND_CHECK (FR_INTEGER_BOUND_CHECK d.idle_timeout .ge 30) .le 86400
              else d.idle_timeout
            (0,
              { inst with
                dynamic_clients :=
                  { d with
                    packets := []
                    clients := []
                    pending := []
                    negative := []
                    max_clients := max_clients
                    max_pending_clients := max_pending_clients
                    idle_timeout := idle_timeout } })

/-- The part of `mod_bootstrap` for connected sockets: the return value and the
instance afterwards. -/
def mod_bootstrap_connected (lib : Lib) (inst : proto_radius_udp_t) : Int × proto_radius_udp_t :=
  if inst.use_connected then
    if ¬ inst.connected then
      if ¬ lib.talloc_init then (-1, inst)
      else if ¬ lib.fr_hash_table_create then (-1, inst)
      else
        let max_connections := if inst.max_connections = 0 then 65536 else inst.max_connections
        let max_connections := FR_INTEGER_BOUND_CHECK max_connections .ge 4
        let max_connections := FR_INTEGER_BOUND_CHECK max_connections .le 65536
        (0, { inst with max_connections := max_connections })
    else (0, inst)
  else (0, inst)

/-- The part of `mod_bootstrap` for the subsection `priority`: the return value
(0 when the function goes on) and the array `inst->priorities` afterwards. -/
def mod_bootstrap_priority (env : Env) (lib : Lib) (inst : proto_radius_udp_t) :
    Int × List Nat :=
  if lib.cf_section_find then
    if lib.cf_section_rules_push < 0 then (-1, inst.priorities)
    else
      match lib.cf_section_parse inst.priorities with
      | (ret, table) => if ret < 0 then (-1, table) else (0, table)
  else (0, (List.range env.FR_MAX_PACKET_CODE).map (priorities env))

/-- The part of `mod_bootstrap` that every socket passes, up to the check of
`cleanup_delay`: the return value (0 when the function goes on) and the
instance afterwards. -/
def mod_bootstrap_listen (env : Env) (lib : Lib) (inst : proto_radius_udp_t) :
    Int × proto_radius_udp_t :=
  let parsed := mod_bootstrap_priority env lib inst
  let inst := { inst with priorities := parsed.2 }
  if parsed.1 < 0 then (-1, inst)
  else if inst.ipaddr.af = AF_UNSPEC then (-1, inst)
  else
    let recv_buff :=
      if inst.recv_buff_is_set then
        FR_INTEGER_BOUND_CHECK (FR_INTEGER_BOUND_CHECK inst.recv_buff .ge 32) .le INT_MAX
      else inst.recv_buff
    let inst := { inst with recv_buff := recv_buff }
    let port : Option Nat :=
      if inst.port = 0 then
        match inst.port_name with
        | none => none
        | some name => lib.getservbyname name
      else some inst.port
    match port with
    | none => (-1, inst)
    | some port =>
      (0,
        { inst with
          port := port
          cleanup_delay := FR_INTEGER_BOUND_CHECK inst.cleanup_delay .le 30 })

/-- Embedding of `mod_bootstrap`: the return value and the instance afterwards. -/
def mod_bootstrap (env : Env) (lib : Lib) (inst : proto_radius_udp_t) : Int × proto_radius_udp_t :=
  let listen := mod_bootstrap_listen env lib inst
  if listen.1 < 0 then (-1, listen.2)
  else
    let dynamic : Int × proto_radius_udp_t :=
      if listen.2.dynamic_clients_is_set then mod_bootstrap_dynamic lib listen.2
      else (0, listen.2)
    if dynamic.1 < 0 then (-1, dynamic.2)
    else mod_bootstrap_connected lib dynamic.2

/-- A library for the bootstrap of the sample: the section has no subsection
`priority`, the service `radius` has the port 1812, the trie accepts every
network that is not inside one it holds. -/
def sample_lib : Lib :=
  { cf_section_find := false
    cf_section_rules_push := 0
    cf_section_parse := fun table => (0, table)
    getservbyname := fun name => if name = "radius" then some 1812 else none
    fr_trie_alloc := true
    fr_trie_match := fun trie network => trie.find? (fun n => n == network)
    fr_trie_lookup := fun trie network =>
      trie.find? (fun n =>
        n.prefixlen ≤ network.prefixlen ∧
          n.addr / 2 ^ (32 - n.prefixlen) = network.addr / 2 ^ (32 - n.prefixlen))
    fr_trie_insert := fun _ _ => 0
    dl_instance := 0
    talloc_init := true
    fr_hash_table_create := true }

/-- A library for a listener whose section has a subsection `priority` that
gives Access-Request the priority of Accounting-Request: the parse stores the
value 8192 in the entry of the code 1 and the defaults in the other entries. -/
def sample_lib_priority : Lib :=
  { sample_lib with
    cf_section_find := true
    cf_section_parse := fun _ =>
      (0, ((List.range 52).map (priorities (sample_env []))).set FR_CODE_ACCESS_REQUEST 8192) }

/-- The socket of the sample with a limit of one packet for the pending clients. -/
def sample_inst_few : proto_radius_udp_t :=
  { sample_inst with
    dynamic_clients := { sample_inst.dynamic_clients with max_pending_packets := 1 } }

/-- A master socket for connected sockets without a limit on the connections,
with a receive buffer of 3 bytes and a cleanup delay of 100 seconds. -/
def sample_inst_master : proto_radius_udp_t :=
  { sample_inst with
    dynamic_clients_is_set := false
    use_connected := true
    recv_buff := 3
    recv_buff_is_set := true
    cleanup_delay := 100 }

/-- The memory of a socket without dynamic clients after the bootstrap with
the subsection `priority` of the sample: the static client is known and no
packet was received yet. -/
def sample_configured : State :=
  { inst :=
      (mod_bootstrap (sample_env []) sample_lib_priority
        { sample_inst with dynamic_clients_is_set := false }).2
    clients := [some sample_static]
    tracks := []
    events := [] }

end Udp

namespace Tls

/-!
## The TLS session cache of `src/main/tls/cache.c` (namespace `Tls`)

The three lists of a request that the cache functions touch are lists of
pairs; the library functions on pair lists, OpenSSL and the virtual server are
outside the sources: the pair functions are modelled on lists, the results of
the other calls are fields of `Env`.
-/

/-- Modelled from the spec: the dictionary attributes the cache functions name
(their numbers are defined in a header outside the sources; only that they
differ matters), and any other attribute by its number. -/
inductive attr_t where
  | PW_TLS_SESSION_ID
  | PW_TLS_CACHE_ACTION
  | PW_TLS_SESSION_DATA
  | PW_ALLOW_SESSION_RESUMPTION
  | other (num : Nat)
  deriving DecidableEq, Repr, Inhabited

/-- Modelled from the spec: the values of `tls_cache_action_t`, declared in a
header outside the sources. -/
inductive tls_cache_action_t where
  | CACHE_ACTION_SESSION_READ
  | CACHE_ACTION_SESSION_WRITE
  | CACHE_ACTION_SESSION_DELETE
  deriving DecidableEq, Repr, Inhabited

/-- Modelled from the spec: a `VALUE_PAIR`.  The integer value is held in two
fields: `action` for the value of a TLS-Session-Cache-Action (`none` in every
other pair) and `vp_integer` for a number; `vp_octets` holds the bytes. -/
structure VALUE_PAIR where
  da : attr_t
  action : Option tls_cache_action_t
  vp_integer : Nat
  vp_octets : List Nat
  deriving DecidableEq, Repr, Inhabited

/-- Modelled from the spec: the fields of `REQUEST` that the cache functions
use: the request list `packet->vps`, the control list, the session-state list
`state`, and the three names that `tls_cache_process` saves and restores. -/
structure REQUEST where
  packet_vps : List VALUE_PAIR
  control : List VALUE_PAIR
  state : List VALUE_PAIR
  server : Option String
  module : Option String
  component : Option String
  deriving DecidableEq, Repr, Inhabited

/-- Modelled from the spec: `fr_pair_delete_by_num` removes every pair of the
attribute from the list. -/
def fr_pair_delete_by_num (vps : List VALUE_PAIR) (attr : attr_t) : List VALUE_PAIR :=
  vps.filter (fun vp => vp.da ≠ attr)

/-- Modelled from the spec: `fr_pair_add` appends the pair to the list. -/
def fr_pair_add (vps : List VALUE_PAIR) (vp : VALUE_PAIR) : List VALUE_PAIR := vps ++ [vp]

/-- Modelled from the spec: `fr_pair_find_by_num` returns the first pair of the
attribute in the list. -/
def fr_pair_find_by_num (vps : List VALUE_PAIR) (attr : attr_t) : Option VALUE_PAIR :=
  vps.find? (fun vp => vp.da = attr)

/-- Modelled from the spec: the fields of an `SSL_SESSION` that matter here: the
session id and the timeout that `tls_cache_read` may set to 0. -/
structure SSL_SESSION where
  session_id : List Nat
  timeout : Option Nat
  deriving DecidableEq, Repr, Inhabited

/-- The results of the calls that leave the file.  The four `alloc` fields tell
whether `fr_pair_afrom_num` returns a pair at its four call sites: for the
session id and for the action in `tls_cache_attrs`, for the session data in
`tls_cache_write`, and for the action in `tls_cache_process`.
`process_authorize` is the run of the virtual server: it gets the action and
the request and returns the return code and the request as the policy leaves
it.  `i2d_length` and `i2d_SSL_SESSION` are the two calls of `i2d_SSL_SESSION`
(the second returns the length it wrote and the bytes), `d2i_SSL_SESSION`
returns the session the bytes hold, `talloc_array` tells whether the buffer
can be allocated. -/
structure Env where
  OPENSSL_VERSION_NUMBER : Nat
  attrs_id_alloc : Bool
  attrs_action_alloc : Bool
  write_data_alloc : Bool
  process_action_alloc : Bool
  process_authorize : tls_cache_action_t → REQUEST → Modcall.rlm_rcode_t × REQUEST
  i2d_length : SSL_SESSION → Nat
  talloc_array : Nat → Bool
  i2d_SSL_SESSION : SSL_SESSION → Nat × List Nat
  d2i_SSL_SESSION : List Nat → Option SSL_SESSION
  tls_validate_client_cert_chain : SSL_SESSION → Int
  SSL_get_extms_support : Int

/-- The size of the buffer for a session id. -/
def MAX_CACHE_ID_SIZE : Nat := 256

/-- Embedding of `tls_cache_attrs`: the return value and the request afterwards. -/
def tls_cache_attrs (env : Env) (request : REQUEST) (key : List Nat) (key_len : Nat)
    (action : tls_cache_action_t) : Int × REQUEST :=
  let request :=
    { request with
      packet_vps := fr_pair_delete_by_num request.packet_vps .PW_TLS_SESSION_ID }
  if ¬ env.attrs_id_alloc then (-1, request)
  else
    let vp : VALUE_PAIR :=
      { da := .PW_TLS_SESSION_ID, action := none, vp_integer := 0,
        vp_octets := key.take key_len }
    let request := { request with packet_vps := fr_pair_add request.packet_vps vp }
    if ¬ env.attrs_action_alloc then (-1, request)
    else
      let vp : VALUE_PAIR :=
        { da := .PW_TLS_CACHE_ACTION, action := some action, vp_integer := 0, vp_octets := [] }
      (0, { request with control := fr_pair_add request.control vp })

/-- Embedding of `tls_cache_process`: the return value (`none` for -1) and the
request afterwards. -/
def tls_cache_process (env : Env) (request : REQUEST) (virtual_server : String)
    (autz_type : tls_cache_action_t) : Option Modcall.rlm_rcode_t × REQUEST :=
  let server := request.server
  let module := request.module
  let component := request.component
  if ¬ env.process_action_alloc then (none, request)
  else
    let vp : VALUE_PAIR :=
      { da := .PW_TLS_CACHE_ACTION, action := some autz_type, vp_integer := 0, vp_octets := [] }
    let request := { request with control := fr_pair_add request.control vp }
    let request := { request with server := some virtual_server, module := none }
    match env.process_authorize autz_type request with
    | (rcode, request) =>
      let request :=
        { request with server := server, module := module, component := component }
      (some rcode,
        { request with control := fr_pair_delete_by_num request.control .PW_TLS_CACHE_ACTION })

/-- Embedding of `tls_cache_id`, for OpenSSL from version 1.0.1 on: the return
value and the bytes written to `out`. -/
def tls_cache_id (outlen : Nat) (tls_session : SSL_SESSION) : Int × List Nat :=
  if tls_session.session_id.length > outlen then (-1, [])
  else (tls_session.session_id.length, tls_session.session_id)

/-- Embedding of `tls_cache_write`: the return value and the request afterwards. -/
def tls_cache_write (env : Env) (request : REQUEST) (session_cache_server : String)
    (sess : SSL_SESSION) : Int × REQUEST :=
  match tls_cache_id MAX_CACHE_ID_SIZE sess with
  | (slen, buffer) =>
    if slen < 0 then (0, request)
    else
      match tls_cache_attrs env request buffer slen.toNat .CACHE_ACTION_SESSION_WRITE with
      | (rcode, request) =>
        if rcode < 0 then (0, request)
        else
          /- find out what length data we need -/
          let len := env.i2d_length sess
          if len < 1 then (0, request)
          else if ¬ env.talloc_array len then (0, request)
          else
            match env.i2d_SSL_SESSION sess with
            | (rcode, data) =>
              if rcode ≠ len then (0, request)
              else if ¬ env.write_data_alloc then (0, request)
              else
                let vp : VALUE_PAIR :=
                  { da := .PW_TLS_SESSION_DATA, action := none, vp_integer := 0,
                    vp_octets := data }
                let request := { request with state := fr_pair_add request.state vp }
                match tls_cache_process env request session_cache_server
                    .CACHE_ACTION_SESSION_WRITE with
                | (_, request) =>
                  /- Ensure that the session data can't be used by anyone else. -/
                  (0,
                    { request with
                      state := fr_pair_delete_by_num request.state .PW_TLS_SESSION_DATA })

/-- Embedding of `tls_cache_read`: the session it returns (`none` for `NULL`)
and the request afterwards. -/
def tls_cache_read (env : Env) (request : REQUEST) (session_cache_server : String)
    (key : List Nat) (key_len : Nat) : Option SSL_SESSION × REQUEST :=
  match tls_cache_attrs env request key key_len .CACHE_ACTION_SESSION_READ with
  | (rcode, request) =>
    if rcode < 0 then (none, request)
    else
      match tls_cache_process env request session_cache_server .CACHE_ACTION_SESSION_READ with
      | (rcode, request) =>
        if rcode = some Modcall.rlm_rcode_t.RLM_MODULE_OK ∨ rcode = some Modcall.rlm_rcode_t.RLM_MODULE_UPDATED then
          match fr_pair_find_by_num request.state .PW_TLS_SESSION_DATA with
          | none => (none, request)
          | some vp =>
            match env.d2i_SSL_SESSION vp.vp_octets with
            | none => (none, request)
            | some sess =>
              let sess :=
                if env.tls_validate_client_cert_chain sess ≠ 1 then
                  { sess with timeout := some 0 }
                else sess
              /- Ensure that the session data can't be used by anyone else. -/
              (some sess,
                { request with
                  state := fr_pair_delete_by_num request.state .PW_TLS_SESSION_DATA })
        else (none, request)

/-- Embedding of `tls_cache_delete`: the request afterwards, `none` when the
function has freed it. -/
def tls_cache_delete (env : Env) (request : REQUEST) (session_cache_server : String)
    (sess : SSL_SESSION) : Option REQUEST :=
  match tls_cache_id MAX_CACHE_ID_SIZE sess with
  | (slen, buffer) =>
    if slen < 0 then none
    else
      match tls_cache_attrs env request buffer slen.toNat .CACHE_ACTION_SESSION_DELETE with
      | (rcode, request) =>
        if rcode < 0 then none
        else
          match tls_cache_process env request session_cache_server
              .CACHE_ACTION_SESSION_DELETE with
          | (rcode, request) =>
            if rcode = some Modcall.rlm_rcode_t.RLM_MODULE_OK ∨ rcode = some Modcall.rlm_rcode_t.RLM_MODULE_UPDATED ∨
                rcode = some Modcall.rlm_rcode_t.RLM_MODULE_NOTFOUND ∨ rcode = some Modcall.rlm_rcode_t.RLM_MODULE_NOOP then
              some request
            else none

/-- Modelled from the spec: the fields of `fr_tls_conf_t` that
`tls_cache_disable_cb` reads. -/
structure fr_tls_conf_t where
  session_cache_require_extms : Bool
  session_cache_require_pfs : Bool
  deriving DecidableEq, Repr, Inhabited

/-- Modelled from the spec: the field of `tls_session_t` that
`tls_cache_disable_cb` uses, and whether `SSL_CTX_remove_session` was called
for the session. -/
structure tls_session_t where
  allow_session_resumption : Bool
  removed : Bool
  deriving DecidableEq, Repr, Inhabited

/-- Embedding of `tls_cache_disable_cb`: the return value and the session
afterwards.  The block on the Extended Master Secret and on forward secrecy is
compiled for OpenSSL from version 1.1.0 on. -/
def tls_cache_disable_cb (env : Env) (conf : fr_tls_conf_t) (session : tls_session_t)
    (request : REQUEST) (is_forward_secure : Int) : Int × tls_session_t :=
  let disable : Int × tls_session_t :=
    (1, { session with removed := true, allow_session_resumption := false })
  if env.OPENSSL_VERSION_NUMBER ≥ 0x10100000 ∧ conf.session_cache_require_extms ∧
      env.SSL_get_extms_support ≠ 1 then disable
  else if env.OPENSSL_VERSION_NUMBER ≥ 0x10100000 ∧ conf.session_cache_require_pfs ∧
      is_forward_secure = 0 then disable
  else if ¬ session.allow_session_resumption then disable
  else
    match fr_pair_find_by_num request.control .PW_ALLOW_SESSION_RESUMPTION with
    | some vp => if vp.vp_integer = 0 then disable else (0, session)
    | none => (0, session)

/-! ### The vocabulary of the specification and a sample -/

/-- Specification side: the attribute is absent from the list. -/
def absent (vps : List VALUE_PAIR) (attr : attr_t) : Prop := ∀ vp ∈ vps, vp.da ≠ attr

instance (vps : List VALUE_PAIR) (attr : attr_t) : Decidable (absent vps attr) := by
  unfold absent; infer_instance

/-- Specification side: `tls_cache_write` gets as far as the call of
`tls_cache_process`: the session id fits the buffer, the pairs and the buffer
can be allocated, and the session can be serialised. -/
def write_reaches_process (env : Env) (sess : SSL_SESSION) : Prop :=
  sess.session_id.length ≤ MAX_CACHE_ID_SIZE ∧ env.attrs_id_alloc = true ∧
  env.attrs_action_alloc = true ∧ 1 ≤ env.i2d_length sess ∧
  env.talloc_array (env.i2d_length sess) = true ∧
  (env.i2d_SSL_SESSION sess).1 = env.i2d_length sess ∧ env.write_data_alloc = true

instance (env : Env) (sess : SSL_SESSION) : Decidable (write_reaches_process env sess) := by
  unfold write_reaches_process; infer_instance

/-- A library for the sample: OpenSSL 1.1.0, every allocation succeeds, the
virtual server stores the session data it is given and leaves the lists of the
request as they are; it knows the session that is serialised as 48, 3, 2, 1. -/
def sample_env : Env :=
  { OPENSSL_VERSION_NUMBER := 0x10100000
    attrs_id_alloc := true
    attrs_action_alloc := true
    write_data_alloc := true
    process_action_alloc := true
    process_authorize := fun action request =>
      match action with
      | .CACHE_ACTION_SESSION_READ =>
        (Modcall.rlm_rcode_t.RLM_MODULE_UPDATED,
          { request with
            state := request.state ++
              [{ da := .PW_TLS_SESSION_DATA, action := none, vp_integer := 0,
                 vp_octets := [48, 3, 2, 1] }] })
      | _ => (Modcall.rlm_rcode_t.RLM_MODULE_OK, request)
    i2d_length := fun sess => sess.session_id.length + 1
    talloc_array := fun _ => true
    i2d_SSL_SESSION := fun sess => (sess.session_id.length + 1, 48 :: sess.session_id)
    d2i_SSL_SESSION := fun data =>
      match data with
      | 48 :: id => some { session_id := id, timeout := none }
      | _ => none
    tls_validate_client_cert_chain := fun _ => 1
    SSL_get_extms_support := 1 }

/-- The session with the id 3, 2, 1. -/
def sample_sess : SSL_SESSION := { session_id := [3, 2, 1], timeout := none }

/-- A request whose lists hold a user name and nothing of the cache. -/
def sample_request : REQUEST :=
  { packet_vps := [{ da := .other 1, action := none, vp_integer := 0, vp_octets := [98, 111, 98] }]
    control := []
    state := []
    server := some "default"
    module := some "eap"
    component := some "authenticate" }

/-- The TLS-Session-Id of the sample. -/
def sample_id : VALUE_PAIR :=
  { da := .PW_TLS_SESSION_ID, action := none, vp_integer := 0, vp_octets := [3, 2, 1] }

end Tls

namespace EapFast

/-!
## The TLV decoder of `src/modules/rlm_eap/types/rlm_eap_fast/eap_fast.c` (namespace `EapFast`)

The buffer is a list of bytes and a pointer into it is an offset.  A read
through a pointer is checked against the length of the buffer: a function that
would read outside the buffer, which is undefined in C, ends with the result
`outside`.  The loops take a fuel argument that bounds the number of their
iterations.  The dictionary and the constants of `eap_fast.h` are outside the
sources and are fields of `Env`.
-/

/-- Modelled from the spec: the types of a dictionary attribute, as far as the
decoder tells them apart. -/
inductive PW_TYPE where
  | PW_TYPE_TLV
  | PW_TYPE_OCTETS
  deriving DecidableEq, Repr, Inhabited

/-- Modelled from the spec: the fields of `fr_dict_attr_t` that the decoder
reads, and the number of the parent. -/
structure fr_dict_attr_t where
  attr : Nat
  parent : Nat
  type : PW_TYPE
  deriving DecidableEq, Repr, Inhabited

/-- The stages of the tunnel that `eap_fast_verify` tells apart; `unknown`
stands for every other value of `t->stage`. -/
inductive eap_fast_stage_t where
  | TLS_SESSION_HANDSHAKE
  | AUTHENTICATION
  | CRYPTOBIND_CHECK
  | PROVISIONING
  | COMPLETE
  | unknown
  deriving DecidableEq, Repr, Inhabited

/-- The constants of `eap_fast.h` and the calls that leave the file:
`fr_dict_attr_child_by_num` looks a child of an attribute up in the dictionary,
`fr_radius_decode_pair_value` gets the attribute and the bytes of the value and
returns the bytes of the pair it appends, `none` when it fails. -/
structure Env where
  EAP_FAST_TLV_TYPE : Nat
  EAP_FAST_TLV_RESULT : Nat
  EAP_FAST_TLV_NAK : Nat
  EAP_FAST_TLV_ERROR : Nat
  EAP_FAST_TLV_VENDOR_SPECIFIC : Nat
  EAP_FAST_TLV_EAP_PAYLOAD : Nat
  EAP_FAST_TLV_INTERMED_RESULT : Nat
  EAP_FAST_TLV_PAC : Nat
  EAP_FAST_TLV_CRYPTO_BINDING : Nat
  EAP_FAST_TLV_RESULT_SUCCESS : Nat
  EAP_FAST_TLV_RESULT_FAILURE : Nat
  fr_dict_attr_child_by_num : fr_dict_attr_t → Nat → Option fr_dict_attr_t
  fr_radius_decode_pair_value : fr_dict_attr_t → List Nat → Option (List Nat)

/-- A `memcpy` of `n` bytes out of the buffer at the offset `off`: `none` when
the bytes are not all inside the buffer. -/
def read (buf : List Nat) (off n : Nat) : Option (List Nat) :=
  if off + n ≤ buf.length then some ((buf.drop off).take n) else none

/-- The C library's `ntohs` on the two bytes of a `uint16_t`. -/
def ntohs (bytes : List Nat) : Nat := bytes.getD 0 0 % 256 * 256 + bytes.getD 1 0 % 256

/-- The local variables of `eap_fast_verify` that its loop carries: `data` is
the offset of the pointer `data`. -/
structure verify_t where
  data : Nat
  remaining : Nat
  total : Nat
  num : Nat → Nat
  present : Nat

/-- How the loop of `eap_fast_verify` ends. -/
inductive verify_loop_t where
  | exit (v : verify_t)
  | return_0
  | outside
  | out_of_fuel

/-- The `switch (attr)` in the loop of `eap_fast_verify`: the counters `num`
and the mask `present` after it, `none` where it leaves through `unexpected`.
`data0` is the byte `data[0]`. -/
def verify_switch (env : Env) (v : verify_t) (attr data0 : Nat) : Option ((Nat → Nat) × Nat) :=
  if attr = env.EAP_FAST_TLV_RESULT ∨ attr = env.EAP_FAST_TLV_NAK ∨
      attr = env.EAP_FAST_TLV_ERROR ∨ attr = env.EAP_FAST_TLV_VENDOR_SPECIFIC ∨
      attr = env.EAP_FAST_TLV_EAP_PAYLOAD ∨ attr = env.EAP_FAST_TLV_INTERMED_RESULT ∨
      attr = env.EAP_FAST_TLV_PAC ∨ attr = env.EAP_FAST_TLV_CRYPTO_BINDING then
    let num := Function.update v.num attr (v.num attr + 1)
    let present := (v.present ||| (1 <<< attr)) % 2 ^ 32
    if num env.EAP_FAST_TLV_EAP_PAYLOAD > 1 then none
    else if num env.EAP_FAST_TLV_INTERMED_RESULT > 1 then none
    else some (num, present)
  else
    if data0 &&& 0x80 ≠ 0 then none
    else some (Function.update v.num 0 (v.num 0 + 1), v.present)

/-- The check of the status of a Result or Intermediate-Result TLV in the loop
of `eap_fast_verify`, `data` being the offset of the value: `some true` when
the loop goes on, `some false` when the function returns 0, `none` when the
status is read outside the buffer. -/
def verify_status (env : Env) (buf : List Nat) (attr length data : Nat) : Option Bool :=
  if attr = env.EAP_FAST_TLV_INTERMED_RESULT ∨ attr = env.EAP_FAST_TLV_RESULT then
    if length < 2 then some false
    else
      match read buf data 2 with
      | none => none
      | some s =>
        let status := ntohs s
        if status = env.EAP_FAST_TLV_RESULT_FAILURE then some false
        else if status ≠ env.EAP_FAST_TLV_RESULT_SUCCESS then some false
        else some true
  else some true

/-- The loop `while (remaining > 0)` of `eap_fast_verify`. -/
def eap_fast_verify_loop (env : Env) (buf : List Nat) : Nat → verify_t → verify_loop_t
  | 0, _ => .out_of_fuel
  | fuel + 1, v =>
    if v.remaining = 0 then .exit v
    else if v.remaining < 4 then .return_0
    else
      match read buf v.data 2, read buf (v.data + 2) 2 with
      | some a, some l =>
        let attr := ntohs a &&& env.EAP_FAST_TLV_TYPE
        match verify_switch env v attr (a.getD 0 0) with
        | none => .return_0
        | some (num, present) =>
          let total := v.total + 1
          let length := ntohs l
          let data := v.data + 4
          let remaining := v.remaining - 4
          if length > remaining then .return_0
          else if remaining < length then .return_0
          else
            match verify_status env buf attr length data with
            | none => .outside
            | some false => .return_0
            | some true =>
              eap_fast_verify_loop env buf fuel
                { data := data + length, remaining := remaining - length, total := total,
                  num := num, present := present }
      | _, _ => .outside

/-- How `eap_fast_verify` ends: with its return value, with a read outside the
buffer, or without fuel. -/
inductive verify_result_t where
  | returns (rcode : Int)
  | outside
  | out_of_fuel
  deriving DecidableEq, Repr

/-- Embedding of `eap_fast_verify`; `stage` and `result_final` are the fields of
the tunnel it reads. -/
def eap_fast_verify (env : Env) (fuel : Nat) (stage : eap_fast_stage_t) (result_final : Bool)
    (buf : List Nat) (data_len : Nat) : verify_result_t :=
  match eap_fast_verify_loop env buf fuel
    { data := 0, remaining := data_len, total := 0, num := fun _ => 0, present := 0 } with
  | .out_of_fuel => .out_of_fuel
  | .outside => .outside
  | .return_0 => .returns 0
  | .exit v =>
    /- Check if the peer mixed & matched TLVs. -/
    if v.num env.EAP_FAST_TLV_NAK > 0 ∧ v.num env.EAP_FAST_TLV_NAK ≠ v.total then .returns 0
    else if v.num env.EAP_FAST_TLV_INTERMED_RESULT > 0 ∧ v.num env.EAP_FAST_TLV_RESULT ≠ 0 then
      .returns 0
    else
      /- Check mandatory or not mandatory TLVs. -/
      match stage with
      | .TLS_SESSION_HANDSHAKE => if v.present ≠ 0 then .returns 0 else .returns 1
      | .AUTHENTICATION =>
        if v.present ≠ 1 <<< env.EAP_FAST_TLV_EAP_PAYLOAD then .returns 0 else .returns 1
      | .CRYPTOBIND_CHECK =>
        let bits :=
          if result_final then 1 <<< env.EAP_FAST_TLV_RESULT
          else 1 <<< env.EAP_FAST_TLV_INTERMED_RESULT
        if v.present &&&
            (2 ^ 32 - 1 - (bits ||| (1 <<< env.EAP_FAST_TLV_CRYPTO_BINDING) |||
              (1 <<< env.EAP_FAST_TLV_PAC))) ≠ 0 then .returns 0
        else .returns 1
      | .PROVISIONING =>
        if v.present &&&
            (2 ^ 32 - 1 - ((1 <<< env.EAP_FAST_TLV_PAC) ||| (1 <<< env.EAP_FAST_TLV_RESULT))) ≠ 0
        then .returns 0
        else .returns 1
      | .COMPLETE => if v.present ≠ 0 then .returns 0 else .returns 1
      | .unknown => .returns 0

/-- How `eap_fast_fast2vp` ends: with the pairs in the cursor `out`, each given
by its attribute and its bytes, with a read outside the buffer, or without
fuel. -/
inductive fast2vp_t where
  | done (out : List (fr_dict_attr_t × List Nat))
  | outside
  | out_of_fuel
  deriving DecidableEq, Repr

/-- The decrement of a `size_t` of 64 bits. -/
def size_sub (a b : Nat) : Nat := (a + (2 ^ 64 - b % 2 ^ 64)) % 2 ^ 64

/-- Embedding of `eap_fast_fast2vp`, from the loop on: `data` is the offset of
the pointer `data`, `data_left` starts as `data_len`, `fast_da` is the
attribute whose children are decoded, and `out` holds the pairs decoded so far.
The fuel bounds the iterations of the loop and the depth of the recursion. -/
def eap_fast_fast2vp (env : Env) (buf : List Nat) :
    Nat → Nat → Nat → fr_dict_attr_t → List (fr_dict_attr_t × List Nat) → fast2vp_t
  | 0, _, _, _, _ => .out_of_fuel
  | fuel + 1, data, data_left, fast_da, out =>
    if data_left = 0 then .done out
    else
      match read buf data 2, read buf (data + 2) 2 with
      | some a, some l =>
        let attr := ntohs a &&& env.EAP_FAST_TLV_TYPE
        let length := ntohs l
        let data := data + 4
        let data_left := size_sub data_left 4
        let decoded : fast2vp_t :=
          /- Look up the TLV.  For now, if it doesn't exist, ignore it. -/
          match env.fr_dict_attr_child_by_num fast_da attr with
          | none => .done out
          | some da =>
            if da.type = .PW_TYPE_TLV then eap_fast_fast2vp env buf fuel data length da out
            else
              match read buf data length with
              | none => .outside
              | some value =>
                match env.fr_radius_decode_pair_value da value with
                | none => .done out
                | some pair => .done (out ++ [(da, pair)])
        match decoded with
        | .done out =>
          eap_fast_fast2vp env buf fuel (data + length) (size_sub data_left length) fast_da out
        | r => r
      | _, _ => .outside

/-- The attribute `PW_EAP_FAST_TLV`, under which the TLVs of a packet are
looked up; its number is defined outside the sources and plays no role. -/
def fast_root : fr_dict_attr_t := { attr := 0, parent := 0, type := .PW_TYPE_TLV }

/-! ### A sample dictionary -/

/-- The constants of RFC 4851 and a dictionary in which PAC, attribute 11 of
the top level, is a TLV with the children PAC-Type (10) and PAC-Acknowledge
(8), and in which the top level knows the attributes 3 to 12; values are
copied as they are. -/
def sample_env : Env :=
  { EAP_FAST_TLV_TYPE := 0x3fff
    EAP_FAST_TLV_RESULT := 3
    EAP_FAST_TLV_NAK := 4
    EAP_FAST_TLV_ERROR := 5
    EAP_FAST_TLV_VENDOR_SPECIFIC := 7
    EAP_FAST_TLV_EAP_PAYLOAD := 9
    EAP_FAST_TLV_INTERMED_RESULT := 10
    EAP_FAST_TLV_PAC := 11
    EAP_FAST_TLV_CRYPTO_BINDING := 12
    EAP_FAST_TLV_RESULT_SUCCESS := 1
    EAP_FAST_TLV_RESULT_FAILURE := 2
    fr_dict_attr_child_by_num := fun parent attr =>
      if parent = fast_root then
        if attr = 11 then some { attr := 11, parent := 0, type := .PW_TYPE_TLV }
        else if 3 ≤ attr ∧ attr ≤ 12 then some { attr := attr, parent := 0, type := .PW_TYPE_OCTETS }
        else none
      else if parent.attr = 11 ∧ (attr = 8 ∨ attr = 10) then
        some { attr := attr, parent := 11, type := .PW_TYPE_OCTETS }
      else none
    fr_radius_decode_pair_value := fun _ value => some value }

/-- The sample dictionary without the attribute PAC: no attribute of the top
level is a TLV. -/
def sample_env_flat : Env :=
  { sample_env with
    fr_dict_attr_child_by_num := fun parent attr =>
      if parent = fast_root ∧ 3 ≤ attr ∧ attr ≤ 12 ∧ attr ≠ 11 then
        some { attr := attr, parent := 0, type := .PW_TYPE_OCTETS }
      else none }

/-- A packet with one TLV: a PAC of one byte. -/
def sample_short_pac : List Nat := [0, 11, 0, 1, 255]

/-- A packet with a mandatory Result TLV that indicates success and a PAC TLV
that holds a PAC-Acknowledge. -/
def sample_result_pac : List Nat := [128, 3, 0, 2, 0, 1, 0, 11, 0, 6, 0, 8, 0, 2, 0, 1]

end EapFast

/-! # Properties -/

namespace Modcall

open rlm_rcode_t rlm_components_t grouptype_t fr_cond_type_t mod_type_t tmpl_type_t

/-! ## Action tables -/

theorem mem_rcodes (j : rlm_rcode_t) : j ∈ rcodes := by
  cases j <;> simp [rcodes]

theorem nodup_rcodes : rcodes.Nodup := by decide

/-- A loop that fills the unset slots of a table with `d` leaves every set slot
alone and turns every unset slot `j` of the range into `d j`. -/
theorem foldl_fill_unset (d : rlm_rcode_t → Int) (l : List rlm_rcode_t) (hl : l.Nodup)
    (a0 : actions_t) (j : rlm_rcode_t) :
    (l.foldl (fun a i => if a i = 0 then Function.update a i (d i) else a) a0) j
      = if j ∈ l ∧ a0 j = 0 then d j else a0 j := by
  induction l generalizing a0 with
  | nil => simp
  | cons i t ih =>
    have hi : i ∉ t := (List.nodup_cons.mp hl).1
    have ht : t.Nodup := (List.nodup_cons.mp hl).2
    rw [List.foldl_cons, ih ht]
    by_cases hji : j = i
    · subst hji
      by_cases h0 : a0 j = 0 <;> simp [hi, h0]
    · by_cases h0 : a0 i = 0 <;> simp [hji, h0, Function.update_noteq hji]

/-- A loop that stores `v` in every slot of its range. -/
theorem foldl_set_all (v : Int) (l : List rlm_rcode_t) (a0 : actions_t) (j : rlm_rcode_t) :
    (l.foldl (fun a i => Function.update a i v) a0) j = if j ∈ l then v else a0 j := by
  induction l generalizing a0 with
  | nil => simp
  | cons i t ih =>
    rw [List.foldl_cons, ih]
    by_cases hji : j = i
    · subst hji; simp
    · by_cases hjt : j ∈ t <;> simp [hji, hjt, Function.update_noteq hji]

/-- What `compile_defaultactions` leaves in slot `j`. -/
theorem compile_defaultactions_apply (c : modcallable) (parent : List modcallable)
    (component : rlm_components_t) (parentgrouptype : grouptype_t) (j : rlm_rcode_t) :
    (compile_defaultactions c parent component parentgrouptype).actions j =
      if c.actions j = 0 then
        (if parent.isEmpty = true ∨ component ≠ MOD_AUTHENTICATE then
          defaultactions component parentgrouptype j
        else authtype_actions parentgrouptype j)
      else c.actions j := by
  unfold compile_defaultactions
  by_cases hP : parent.isEmpty = true ∨ component ≠ MOD_AUTHENTICATE
  · simp only [hP, if_true]
    rw [foldl_fill_unset (defaultactions component parentgrouptype) rcodes nodup_rcodes]
    simp [mem_rcodes]
  · simp only [hP, if_false]
    rw [foldl_fill_unset (authtype_actions parentgrouptype) rcodes nodup_rcodes]
    simp [mem_rcodes]

theorem defaultactions_ne_zero (component : rlm_components_t) (g : grouptype_t)
    (j : rlm_rcode_t) : defaultactions component g j ≠ 0 := by
  cases component <;> cases g <;> cases j <;> decide

theorem authtype_actions_ne_zero (g : grouptype_t) (j : rlm_rcode_t) :
    authtype_actions g j ≠ 0 := by
  cases g <;> cases j <;> decide

/-- C1: the built-in default actions of a simple group are, in `authenticate`,
Return for reject, ok, handled, userlock and notfound and priority 1 for fail,
invalid, noop and updated; in `authorize`, Return for reject, fail, handled,
invalid and userlock with ok = 3, notfound = 1, noop = 2 and updated = 4; in
`accounting`, noop = 1, ok = 2, updated = 3 and Return for every other code. -/
theorem defaultactions_simple_groups :
    (∀ i, defaultactions MOD_AUTHENTICATE GROUPTYPE_SIMPLE i =
      if i = RLM_MODULE_REJECT ∨ i = RLM_MODULE_OK ∨ i = RLM_MODULE_HANDLED ∨
         i = RLM_MODULE_USERLOCK ∨ i = RLM_MODULE_NOTFOUND then MOD_ACTION_RETURN
      else 1) ∧
    (∀ i, i = RLM_MODULE_REJECT ∨ i = RLM_MODULE_FAIL ∨ i = RLM_MODULE_HANDLED ∨
          i = RLM_MODULE_INVALID ∨ i = RLM_MODULE_USERLOCK →
          defaultactions MOD_AUTHORIZE GROUPTYPE_SIMPLE i = MOD_ACTION_RETURN) ∧
    defaultactions MOD_AUTHORIZE GROUPTYPE_SIMPLE RLM_MODULE_OK = 3 ∧
    defaultactions MOD_AUTHORIZE GROUPTYPE_SIMPLE RLM_MODULE_NOTFOUND = 1 ∧
    defaultactions MOD_AUTHORIZE GROUPTYPE_SIMPLE RLM_MODULE_NOOP = 2 ∧
    defaultactions MOD_AUTHORIZE GROUPTYPE_SIMPLE RLM_MODULE_UPDATED = 4 ∧
    defaultactions MOD_ACCOUNTING GROUPTYPE_SIMPLE RLM_MODULE_NOOP = 1 ∧
    defaultactions MOD_ACCOUNTING GROUPTYPE_SIMPLE RLM_MODULE_OK = 2 ∧
    defaultactions MOD_ACCOUNTING GROUPTYPE_SIMPLE RLM_MODULE_UPDATED = 3 ∧
    (∀ i, i ≠ RLM_MODULE_NOOP → i ≠ RLM_MODULE_OK → i ≠ RLM_MODULE_UPDATED →
          defaultactions MOD_ACCOUNTING GROUPTYPE_SIMPLE i = MOD_ACTION_RETURN) := by
  refine ⟨?_, ?_, rfl, rfl, rfl, rfl, rfl, rfl, rfl, ?_⟩
  · intro i; cases i <;> decide
  · intro i; cases i <;> decide
  · intro i; cases i <;> decide

/-- C2, as stated, fails: in the `accounting` section the redundant row does
not return on reject (its entry is priority 1), so "fail = 1 and every other
code Return" does not hold for every section. -/
theorem defaultactions_redundant_accounting_differs :
    ¬ (defaultactions MOD_ACCOUNTING GROUPTYPE_REDUNDANT RLM_MODULE_FAIL = 1 ∧
       ∀ i, i ≠ RLM_MODULE_FAIL →
         defaultactions MOD_ACCOUNTING GROUPTYPE_REDUNDANT i = MOD_ACTION_RETURN) := by
  intro h
  exact absurd (h.2 RLM_MODULE_REJECT (by decide)) (by decide)

/-- C2, amended: for every section other than `accounting` the redundant row
has fail = priority 1 and Return for the other eight codes; the redundant row
of `accounting` has priority 1 for reject, fail, invalid, userlock and
notfound, noop = 2, updated = 4, and Return for ok and handled. -/
theorem defaultactions_redundant_rows (component : rlm_components_t) :
    (component ≠ MOD_ACCOUNTING →
      defaultactions component GROUPTYPE_REDUNDANT RLM_MODULE_FAIL = 1 ∧
      ∀ i, i ≠ RLM_MODULE_FAIL →
        defaultactions component GROUPTYPE_REDUNDANT i = MOD_ACTION_RETURN) ∧
    (component = MOD_ACCOUNTING →
      defaultactions component GROUPTYPE_REDUNDANT =
        row 1 1 MOD_ACTION_RETURN MOD_ACTION_RETURN 1 1 1 2 4) := by
  constructor
  · intro h
    constructor
    · cases component <;> rfl
    · intro i hi
      cases component <;> cases i <;> first | rfl | exact absurd rfl h | exact absurd rfl hi
  · intro h; subst h; rfl

/-- Witness for C2 amended: the `authorize` section. -/
theorem defaultactions_redundant_rows_witness :
    defaultactions MOD_AUTHORIZE GROUPTYPE_REDUNDANT RLM_MODULE_FAIL = 1 ∧
    ∀ i, i ≠ RLM_MODULE_FAIL →
      defaultactions MOD_AUTHORIZE GROUPTYPE_REDUNDANT i = MOD_ACTION_RETURN :=
  (defaultactions_redundant_rows MOD_AUTHORIZE).1 (by decide)

/-- C3: `compile_defaultactions` fills exactly the unset slots.  A non-zero
slot is left unchanged; a zero slot becomes the entry of `defaultactions` for
the component and the parent's group type, except that for a node with a parent
in the `authenticate` component it becomes the entry of `authtype_actions`,
which for a simple group is notfound = 1, ok = 2, noop = 3, updated = 4 and
Return for every other code.  Afterwards no slot is zero. -/
theorem compile_defaultactions_fills_unset (c : modcallable) (parent : List modcallable)
    (component : rlm_components_t) (parentgrouptype : grouptype_t) :
    (∀ i, c.actions i ≠ 0 →
      (compile_defaultactions c parent component parentgrouptype).actions i = c.actions i) ∧
    (∀ i, c.actions i = 0 → (parent = [] ∨ component ≠ MOD_AUTHENTICATE) →
      (compile_defaultactions c parent component parentgrouptype).actions i =
        defaultactions component parentgrouptype i) ∧
    (∀ i, c.actions i = 0 → parent ≠ [] → component = MOD_AUTHENTICATE →
      (compile_defaultactions c parent component parentgrouptype).actions i =
        authtype_actions parentgrouptype i) ∧
    authtype_actions GROUPTYPE_SIMPLE =
      row MOD_ACTION_RETURN MOD_ACTION_RETURN 2 MOD_ACTION_RETURN MOD_ACTION_RETURN
        MOD_ACTION_RETURN 1 3 4 ∧
    (∀ i, (compile_defaultactions c parent component parentgrouptype).actions i ≠ 0) := by
  refine ⟨?_, ?_, ?_, rfl, ?_⟩
  · intro i hi
    rw [compile_defaultactions_apply, if_neg hi]
  · intro i hi hP
    have hP1 : parent.isEmpty = true ∨ component ≠ MOD_AUTHENTICATE := by
      rcases hP with h | h
      · exact Or.inl (by simp [h])
      · exact Or.inr h
    rw [compile_defaultactions_apply, if_pos hi, if_pos hP1]
  · intro i hi hp hc
    have hP1 : ¬ (parent.isEmpty = true ∨ component ≠ MOD_AUTHENTICATE) := by
      simp [hp, hc]
    rw [compile_defaultactions_apply, if_pos hi, if_neg hP1]
  · intro i
    rw [compile_defaultactions_apply]
    split
    · split
      · exact defaultactions_ne_zero _ _ _
      · exact authtype_actions_ne_zero _ _
    · assumption

/-! ## Return-code overrides -/

theorem strcasecmp_eq_zero (a b : String) : strcasecmp a b = 0 ↔ same_word a b := by
  unfold strcasecmp same_word
  split <;> simp_all

theorem find?_of_unique {α : Type} (p : α → Bool) (l : List α) (e : α) (he : e ∈ l)
    (hp : p e = true) (hu : ∀ x ∈ l, p x = true → x = e) : l.find? p = some e := by
  induction l with
  | nil => simp at he
  | cons a t ih =>
    by_cases hpa : p a = true
    · rw [List.find?_cons_of_pos _ hpa, hu a (by simp) hpa]
    · rw [List.find?_cons_of_neg _ hpa]
      have het : e ∈ t := by
        rcases List.mem_cons.mp he with h | h
        · exact absurd (h ▸ hp) hpa
        · exact h
      exact ih het (fun x hx => hu x (List.mem_cons_of_mem _ hx))

theorem mod_rcode_table_names_distinct :
    ∀ e1 ∈ mod_rcode_table, ∀ e2 ∈ mod_rcode_table, same_word e1.1 e2.1 → e1 = e2 := by
  decide

theorem same_word_symm {a b : String} (h : same_word a b) : same_word b a := h.symm

theorem same_word_trans {a b c : String} (h1 : same_word a b) (h2 : same_word b c) :
    same_word a c := h1.trans h2

/-- The table lookup finds the return code that `attr` names, if any. -/
theorem fr_str2int_eq_some (attr : String) (rcode : rlm_rcode_t) :
    fr_str2int mod_rcode_table attr = some rcode ↔ names_rcode attr rcode := by
  unfold fr_str2int names_rcode
  constructor
  · intro h
    rcases hf : mod_rcode_table.find? (fun e => strcasecmp e.1 attr = 0) with _ | e
    · rw [hf] at h; simp at h
    · rw [hf] at h
      have hp := List.find?_some hf
      have hm := List.mem_of_find?_eq_some hf
      simp only [decide_eq_true_eq, strcasecmp_eq_zero] at hp
      simp only [Option.map_some', Option.some.injEq] at h
      exact ⟨e.1, by rw [← h]; exact hm, hp⟩
  · rintro ⟨name, hm, hw⟩
    rw [find?_of_unique _ _ (name, rcode) hm (by simpa [strcasecmp_eq_zero] using hw)]
    · rfl
    · intro x hx hpx
      simp only [decide_eq_true_eq, strcasecmp_eq_zero] at hpx
      exact mod_rcode_table_names_distinct x hx (name, rcode) hm
        (same_word_trans hpx (same_word_symm hw))

theorem compile_action_pair_of_bad_value (env : Env) (c : modcallable) (attr value : String)
    (h : parse_action env value = none) :
    compile_action_pair env c { attr := attr, value := some value } = (0, c) := by
  unfold compile_action_pair
  simp only [h]

theorem compile_action_pair_of_default (env : Env) (c : modcallable) (attr value : String)
    (action : Int) (h : parse_action env value = some action) (hd : same_word attr "default") :
    compile_action_pair env c { attr := attr, value := some value } =
      (1, { c with actions :=
              (rcodes.foldl (fun a i => if a i = 0 then Function.update a i action else a)
                c.actions) }) := by
  unfold compile_action_pair
  simp only [h]
  rw [if_neg (fun hne => hne ((strcasecmp_eq_zero _ _).mpr hd))]

theorem compile_action_pair_of_unknown (env : Env) (c : modcallable) (attr value : String)
    (action : Int) (h : parse_action env value = some action) (hd : ¬ same_word attr "default")
    (hf : fr_str2int mod_rcode_table attr = none) :
    compile_action_pair env c { attr := attr, value := some value } = (0, c) := by
  unfold compile_action_pair
  simp only [h]
  rw [if_pos (fun h0 => hd ((strcasecmp_eq_zero _ _).mp h0))]
  simp only [hf]

theorem compile_action_pair_of_rcode (env : Env) (c : modcallable) (attr value : String)
    (action : Int) (rcode : rlm_rcode_t) (h : parse_action env value = some action)
    (hd : ¬ same_word attr "default") (hf : fr_str2int mod_rcode_table attr = some rcode) :
    compile_action_pair env c { attr := attr, value := some value } =
      (1, { c with actions := Function.update c.actions rcode action }) := by
  unfold compile_action_pair
  simp only [h]
  rw [if_pos (fun h0 => hd ((strcasecmp_eq_zero _ _).mp h0))]
  simp only [hf]

/-- C4: every node that `compile_case` returns has Return in all nine slots of
its action table, whatever overrides the case block held. -/
theorem compile_case_actions_return (env : Env) (rec : compile_item_t)
    (parent : List modcallable) (component : rlm_components_t) (cs : cs_ref)
    (grouptype parentgrouptype : grouptype_t) (mod_type : mod_type_t) (c : modcallable)
    (h : compile_case env rec parent component cs grouptype parentgrouptype mod_type = some c) :
    ∀ i, c.actions i = MOD_ACTION_RETURN := by
  intro i
  unfold compile_case at h
  dsimp only at h
  repeat' split at h
  all_goals first
    | (simp at h; done)
    | (rw [← Option.some.inj h]
       show (rcodes.foldl (fun a i => Function.update a i MOD_ACTION_RETURN) _) i = _
       rw [foldl_set_all]
       simp [mem_rcodes])

/-- Witness for C4: the block `case bob { sql  ok = 1  actions { fail = 2 } }`
compiles inside a switch; as a plain group its table would hold the overrides
ok = 1 and fail = 2, and as a case every entry is Return. -/
theorem compile_case_actions_return_witness :
    (compile_group (sample_env sample_root) (compile_item (sample_env sample_root) 3)
        [sample_switch] MOD_AUTHORIZE sample_case GROUPTYPE_SIMPLE GROUPTYPE_SIMPLE
        MOD_CASE).map (fun c => (c.actions RLM_MODULE_OK, c.actions RLM_MODULE_FAIL))
      = some (1, 2) ∧
    ∃ c, compile_case (sample_env sample_root) (compile_item (sample_env sample_root) 3)
           [sample_switch] MOD_AUTHORIZE sample_case GROUPTYPE_SIMPLE GROUPTYPE_SIMPLE MOD_CASE
         = some c ∧ ∀ i, c.actions i = MOD_ACTION_RETURN := by
  have hs : (compile_case (sample_env sample_root) (compile_item (sample_env sample_root) 3)
           [sample_switch] MOD_AUTHORIZE sample_case GROUPTYPE_SIMPLE GROUPTYPE_SIMPLE
           MOD_CASE).isSome = true := by decide
  obtain ⟨c, hc⟩ := Option.isSome_iff_exists.mp hs
  exact ⟨by decide, c, hc, compile_case_actions_return _ _ _ _ _ _ _ _ c hc⟩

/-- The walk of `compile_switch` succeeds exactly when no child is foreign and
at most one `case` is bare, counting a default already seen. -/
theorem compile_switch_check_iff (items : List (CONF_ITEM CONF_SECTION)) (seen : Bool) :
    compile_switch_check items seen = true ↔
      (∀ item ∈ items, ¬ is_foreign item) ∧ bare_cases items + (if seen = true then 1 else 0) ≤ 1 := by
  induction items generalizing seen with
  | nil => cases seen <;> simp [compile_switch_check, bare_cases]
  | cons item rest ih =>
    cases item with
    | pair cp => simp [compile_switch_check, is_foreign]
    | data =>
      simp only [compile_switch_check, ih, List.mem_cons, forall_eq_or_imp, is_foreign,
        not_false_eq_true, true_and, bare_cases]
      rw [List.countP_cons_of_neg]
      simp [is_bare_case]
    | sect s =>
      unfold compile_switch_check
      by_cases hn : s.name1 = "case"
      · rw [if_neg (fun h => h hn)]
        rcases hn2 : s.name2 with _ | n2
        · have hb : is_bare_case (CONF_ITEM.sect s) = true := by simp [is_bare_case, hn, hn2]
          cases seen
          · simp only [if_true, ih, List.mem_cons, forall_eq_or_imp, is_foreign, hn, bare_cases,
              List.countP_cons_of_pos _ _ hb]
            simp
          · simp only [Bool.true_eq_false, if_false, bare_cases, List.countP_cons_of_pos _ _ hb]
            simp
        · have hb : ¬ is_bare_case (CONF_ITEM.sect s) = true := by simp [is_bare_case, hn2]
          simp only [ih, List.mem_cons, forall_eq_or_imp, is_foreign, hn, bare_cases,
            List.countP_cons_of_neg _ _ hb]
          simp
      · rw [if_pos hn]
        simp [is_foreign, hn]

theorem compile_switch_none_of_check (env : Env) (rec : compile_item_t)
    (parent : List modcallable) (component : rlm_components_t) (cs : cs_ref)
    (grouptype parentgrouptype : grouptype_t) (mod_type : mod_type_t)
    (h : compile_switch_check cs.cs.children false = false) :
    compile_switch env rec parent component cs grouptype parentgrouptype mod_type = none := by
  unfold compile_switch
  split
  · rfl
  · split
    · rfl
    · simp [h]

/-- C5: `compile_switch` produces no node for a switch section with two or
more `case` subsections without an argument, nor for one with a child that is
not a `case` subsection (a pair, or a section with another name); when all
children are `case` subsections and at most one is bare, the walk over the
children succeeds. -/
theorem compile_switch_children_checked (env : Env) (rec : compile_item_t)
    (parent : List modcallable) (component : rlm_components_t) (cs : cs_ref)
    (grouptype parentgrouptype : grouptype_t) (mod_type : mod_type_t) :
    (2 ≤ bare_cases cs.cs.children →
      compile_switch env rec parent component cs grouptype parentgrouptype mod_type = none) ∧
    ((∃ item ∈ cs.cs.children, is_foreign item) →
      compile_switch env rec parent component cs grouptype parentgrouptype mod_type = none) ∧
    ((∀ item ∈ cs.cs.children, is_case item) → bare_cases cs.cs.children ≤ 1 →
      compile_switch_check cs.cs.children false = true) := by
  refine ⟨fun h => ?_, fun h => ?_, fun h1 h2 => ?_⟩
  · apply compile_switch_none_of_check
    rw [Bool.eq_false_iff]
    intro hc
    have := ((compile_switch_check_iff _ _).mp hc).2
    simp at this
    omega
  · apply compile_switch_none_of_check
    rw [Bool.eq_false_iff]
    intro hc
    obtain ⟨item, hm, hf⟩ := h
    exact ((compile_switch_check_iff _ _).mp hc).1 item hm hf
  · rw [compile_switch_check_iff]
    refine ⟨fun item hm hf => ?_, by simpa using h2⟩
    have := h1 item hm
    cases item <;> simp_all [is_case, is_foreign]

/-- Witness for C5: a switch with two default cases does not compile, and the
children of `switch &User-Name { case bob { sql }  case { sql } }` pass. -/
theorem compile_switch_children_checked_witness :
    compile_switch (sample_env sample_root) (compile_item (sample_env sample_root) 4) []
      MOD_AUTHORIZE sample_switch_two_defaults GROUPTYPE_SIMPLE GROUPTYPE_SIMPLE MOD_SWITCH
      = none ∧
    compile_switch_check sample_switch_section.cs.children false = true ∧
    (compile_switch (sample_env sample_root) (compile_item (sample_env sample_root) 4) []
      MOD_AUTHORIZE sample_switch_section GROUPTYPE_SIMPLE GROUPTYPE_SIMPLE
      MOD_SWITCH).isSome = true :=
  ⟨(compile_switch_children_checked (sample_env sample_root)
      (compile_item (sample_env sample_root) 4) [] MOD_AUTHORIZE sample_switch_two_defaults
      GROUPTYPE_SIMPLE GROUPTYPE_SIMPLE MOD_SWITCH).1 (by decide),
   (compile_switch_children_checked (sample_env sample_root)
      (compile_item (sample_env sample_root) 4) [] MOD_AUTHORIZE sample_switch_section
      GROUPTYPE_SIMPLE GROUPTYPE_SIMPLE MOD_SWITCH).2.2 (by decide) (by decide),
   by decide!⟩

/-! ## Conditional chains -/

theorem previous_if_nil : previous_if [] = -1 := rfl

theorem previous_if_of_tail_none (p : modcallable) (rest : List modcallable)
    (h : p.tail = none) : previous_if (p :: rest) = -1 := by
  unfold previous_if
  simp only [h]

theorem previous_if_of_tail_some (p : modcallable) (rest : List modcallable) (f : modcallable)
    (h : p.tail = some f) :
    previous_if (p :: rest) =
      if f.type ≠ MOD_IF ∧ f.type ≠ MOD_ELSIF then -1
      else if f.cond.map (fun cond => cond.type) = some COND_TYPE_TRUE then 0
      else 1 := by
  unfold previous_if
  simp only [h]

theorem previous_if_neg_iff (parent : List modcallable) :
    previous_if parent < 0 ↔ ¬ follows_if parent := by
  unfold follows_if
  rcases parent with _ | ⟨p, rest⟩
  · simp [previous_if_nil]
  · rcases ht : p.tail with _ | f
    · rw [previous_if_of_tail_none p rest ht]
      simp [ht]
    · rw [previous_if_of_tail_some p rest f ht]
      by_cases h : f.type ≠ MOD_IF ∧ f.type ≠ MOD_ELSIF
      · rw [if_pos h]
        simp [ht, h]
      · rw [if_neg h]
        have h2 : f.type = MOD_IF ∨ f.type = MOD_ELSIF := by
          by_contra hc
          exact h ⟨fun a => hc (Or.inl a), fun a => hc (Or.inr a)⟩
        constructor
        · intro hlt
          split at hlt <;> simp at hlt
        · intro hno
          exact absurd ⟨p, rest, f, rfl, ht, h2⟩ hno

theorem previous_if_zero_iff (parent : List modcallable) :
    previous_if parent = 0 ↔ follows_constant_true parent := by
  unfold follows_constant_true
  rcases parent with _ | ⟨p, rest⟩
  · simp [previous_if_nil]
  · rcases ht : p.tail with _ | f
    · rw [previous_if_of_tail_none p rest ht]
      simp [ht]
    · rw [previous_if_of_tail_some p rest f ht]
      by_cases h : f.type ≠ MOD_IF ∧ f.type ≠ MOD_ELSIF
      · rw [if_pos h]
        constructor
        · intro hx; simp at hx
        · rintro ⟨p1, rest1, f1, cond, hp, ht1, hty, _⟩
          simp only [List.cons.injEq] at hp
          rw [← hp.1, ht] at ht1
          rw [← Option.some.inj ht1] at hty
          rcases hty with hty | hty
          · exact absurd hty h.1
          · exact absurd hty h.2
      · rw [if_neg h]
        have h2 : f.type = MOD_IF ∨ f.type = MOD_ELSIF := by
          by_contra hc
          exact h ⟨fun a => hc (Or.inl a), fun a => hc (Or.inr a)⟩
        constructor
        · intro h0
          split at h0
          · rename_i hc
            rcases hfc : f.cond with _ | cond
            · rw [hfc] at hc; simp at hc
            · rw [hfc] at hc
              simp only [Option.map_some', Option.some.injEq] at hc
              exact ⟨p, rest, f, cond, rfl, ht, h2, hfc, hc⟩
          · simp at h0
        · rintro ⟨p1, rest1, f1, cond, hp, ht1, _, hfc, hct⟩
          simp only [List.cons.injEq] at hp
          rw [← hp.1, ht] at ht1
          rw [← Option.some.inj ht1] at hfc
          simp [hfc, hct]

/-- C7: an `elsif` or `else` section compiles only if the most recently added
child of its parent group is an `if` or `elsif` node; `compile_elsif` and
`compile_else` produce no node when the parent group has no children yet, and
when the preceding child is of any other kind, `else` included. -/
theorem elsif_else_follow_if (env : Env) (rec : compile_item_t) (parent : List modcallable)
    (component : rlm_components_t) (cs : cs_ref) (grouptype parentgrouptype : grouptype_t)
    (mod_type : mod_type_t) :
    (∀ c, compile_elsif env rec parent component cs grouptype parentgrouptype mod_type = some c ∨
          compile_else env rec parent component cs grouptype parentgrouptype mod_type = some c →
      follows_if parent) ∧
    (∀ p rest, parent = p :: rest → p.children = [] →
      compile_elsif env rec parent component cs grouptype parentgrouptype mod_type = none ∧
      compile_else env rec parent component cs grouptype parentgrouptype mod_type = none) ∧
    (∀ p rest f, parent = p :: rest → p.tail = some f → f.type ≠ MOD_IF → f.type ≠ MOD_ELSIF →
      compile_elsif env rec parent component cs grouptype parentgrouptype mod_type = none ∧
      compile_else env rec parent component cs grouptype parentgrouptype mod_type = none) := by
  have hfail : ¬ follows_if parent →
      compile_elsif env rec parent component cs grouptype parentgrouptype mod_type = none ∧
      compile_else env rec parent component cs grouptype parentgrouptype mod_type = none := by
    intro hno
    have hlt := (previous_if_neg_iff parent).mpr hno
    unfold compile_elsif compile_else
    constructor <;> simp [hlt]
  refine ⟨fun c hc => ?_, fun p rest hp hch => ?_, fun p rest f hp ht h1 h2 => ?_⟩
  · by_contra hno
    have := hfail hno
    rcases hc with hc | hc
    · rw [this.1] at hc; simp at hc
    · rw [this.2] at hc; simp at hc
  · apply hfail
    rintro ⟨p1, rest1, f1, hp1, ht1, _⟩
    rw [hp] at hp1
    simp only [List.cons.injEq] at hp1
    rw [← hp1.1] at ht1
    simp [modcallable.tail, hch] at ht1
  · apply hfail
    rintro ⟨p1, rest1, f1, hp1, ht1, hty⟩
    rw [hp] at hp1
    simp only [List.cons.injEq] at hp1
    rw [← hp1.1, ht] at ht1
    rw [← Option.some.inj ht1] at hty
    rcases hty with hty | hty
    · exact h1 hty
    · exact h2 hty

/-- Witness for C7: after `if (true) { sql }` the `elsif` compiles, its parent
group ending in an `if` node; in a group without children it does not. -/
theorem elsif_else_follow_if_witness :
    (compile_elsif (sample_env sample_root) (compile_item (sample_env sample_root) 3)
      [sample_group_after_if] MOD_AUTHORIZE { cs := sample_elsif_section, parents := [20, 0] }
      GROUPTYPE_SIMPLE GROUPTYPE_SIMPLE MOD_ELSIF).isSome = true ∧
    follows_if [sample_group_after_if] ∧
    compile_elsif (sample_env sample_root) (compile_item (sample_env sample_root) 3)
      [sample_group_empty] MOD_AUTHORIZE { cs := sample_elsif_section, parents := [20, 0] }
      GROUPTYPE_SIMPLE GROUPTYPE_SIMPLE MOD_ELSIF = none := by
  have hs : (compile_elsif (sample_env sample_root) (compile_item (sample_env sample_root) 3)
      [sample_group_after_if] MOD_AUTHORIZE { cs := sample_elsif_section, parents := [20, 0] }
      GROUPTYPE_SIMPLE GROUPTYPE_SIMPLE MOD_ELSIF).isSome = true := by decide
  obtain ⟨c, hc⟩ := Option.isSome_iff_exists.mp hs
  exact ⟨hs,
    (elsif_else_follow_if (sample_env sample_root) (compile_item (sample_env sample_root) 3)
      [sample_group_after_if] MOD_AUTHORIZE { cs := sample_elsif_section, parents := [20, 0] }
      GROUPTYPE_SIMPLE GROUPTYPE_SIMPLE MOD_ELSIF).1 c (Or.inl hc),
    ((elsif_else_follow_if (sample_env sample_root) (compile_item (sample_env sample_root) 3)
      [sample_group_empty] MOD_AUTHORIZE { cs := sample_elsif_section, parents := [20, 0] }
      GROUPTYPE_SIMPLE GROUPTYPE_SIMPLE MOD_ELSIF).2.1 sample_group_empty [] rfl rfl).1⟩

theorem compile_defaultactions_fields (c : modcallable) (parent : List modcallable)
    (component : rlm_components_t) (g : grouptype_t) :
    (compile_defaultactions c parent component g).children = c.children ∧
    (compile_defaultactions c parent component g).type = c.type ∧
    (compile_defaultactions c parent component g).cond = c.cond := ⟨rfl, rfl, rfl⟩

/-- A node made by `compile_empty` has no children; it has the requested type
and, unless the condition type is invalid, a condition of that type. -/
theorem compile_empty_spec (env : Env) (parent : List modcallable)
    (component : rlm_components_t) (cs : Option cs_ref) (grouptype parentgrouptype : grouptype_t)
    (mod_type : mod_type_t) (cond_type : fr_cond_type_t) :
    ∃ c, compile_empty env parent component cs grouptype parentgrouptype mod_type cond_type
          = some c ∧ c.children = [] ∧ c.type = mod_type ∧
         (cond_type ≠ COND_TYPE_INVALID → c.cond = some { type := cond_type }) := by
  unfold compile_empty
  refine ⟨_, rfl, ?_, ?_, ?_⟩
  · dsimp only [compile_defaultactions]
    repeat' split
    all_goals rfl
  · dsimp only [compile_defaultactions]
    repeat' split
    all_goals rfl
  · intro hc
    dsimp only [compile_defaultactions]
    rw [if_pos hc]


theorem compile_if_constant_false (env : Env) (rec : compile_item_t) (parent : List modcallable)
    (component : rlm_components_t) (cs : cs_ref) (grouptype parentgrouptype : grouptype_t)
    (mod_type : mod_type_t) (cond : fr_cond_t) (hn : cs.cs.name2 ≠ none)
    (hc : cs.cs.cond = some cond) (hf : cond.type = COND_TYPE_FALSE) :
    compile_if env rec parent component cs grouptype parentgrouptype mod_type =
      compile_empty env parent component (some cs) grouptype parentgrouptype mod_type
        COND_TYPE_FALSE := by
  unfold compile_if
  rcases hn2 : cs.cs.name2 with _ | name2
  · exact absurd hn2 hn
  · simp only [hc, hf, if_true]

theorem compile_elsif_after_true (env : Env) (rec : compile_item_t) (parent : List modcallable)
    (component : rlm_components_t) (cs : cs_ref) (grouptype parentgrouptype : grouptype_t)
    (mod_type : mod_type_t) (hn : cs.cs.name2 ≠ none) (h0 : previous_if parent = 0) :
    compile_elsif env rec parent component cs grouptype parentgrouptype mod_type =
      compile_empty env parent component (some cs) grouptype parentgrouptype mod_type
        COND_TYPE_TRUE := by
  unfold compile_elsif
  rw [if_neg hn, h0]
  simp

theorem compile_else_after_true (env : Env) (rec : compile_item_t) (parent : List modcallable)
    (component : rlm_components_t) (cs : cs_ref) (grouptype parentgrouptype : grouptype_t)
    (mod_type : mod_type_t) (hn : cs.cs.name2 = none) (h0 : previous_if parent = 0) :
    ∃ c, compile_else env rec parent component cs grouptype parentgrouptype mod_type = some c ∧
      c.children = [] ∧ c.type = mod_type := by
  obtain ⟨c, hc, hch, hty, _⟩ := compile_empty_spec env parent component (some cs) grouptype
    parentgrouptype mod_type COND_TYPE_TRUE
  unfold compile_else
  rw [if_neg (fun h => h hn), h0]
  simp only [lt_self_iff_false, if_false, if_true, hc]
  exact ⟨_, rfl, hch, hty⟩

theorem compile_item_elsif (env : Env) (fuel : Nat) (parent : List modcallable)
    (component : rlm_components_t) (ci : ci_ref) (grouptype : grouptype_t) (s : CONF_SECTION)
    (hi : ci.item = CONF_ITEM.sect s) (hn : s.name1 = "elsif") :
    compile_item env (fuel + 1) parent component ci grouptype =
      compile_elsif env (compile_item env fuel) parent component
        { cs := s, parents := ci.parents } GROUPTYPE_SIMPLE grouptype MOD_ELSIF := by
  simp only [compile_item, compile_item_body, hi, hn]
  simp [compile_table, modcall_compile_function_t.call]

theorem compile_item_else (env : Env) (fuel : Nat) (parent : List modcallable)
    (component : rlm_components_t) (ci : ci_ref) (grouptype : grouptype_t) (s : CONF_SECTION)
    (hi : ci.item = CONF_ITEM.sect s) (hn : s.name1 = "else") (hne : s.children ≠ []) :
    compile_item env (fuel + 1) parent component ci grouptype =
      compile_else env (compile_item env fuel) parent component
        { cs := s, parents := ci.parents } GROUPTYPE_SIMPLE grouptype MOD_ELSE := by
  simp only [compile_item, compile_item_body, hi, hn]
  simp [compile_table, modcall_compile_function_t.call, hne]

theorem compile_children_loop_sect (env : Env) (rec : compile_item_t) (parent : List modcallable)
    (component : rlm_components_t) (grouptype : grouptype_t) (ci : ci_ref)
    (rest : List ci_ref) (p : modcallable) (s : CONF_SECTION) (n : modcallable)
    (hi : ci.item = CONF_ITEM.sect s) (hu : s.unlang = false) (ha : s.name1 ≠ "actions")
    (hr : rec (p :: parent) component ci grouptype = some n) :
    compile_children_loop env rec parent component grouptype (ci :: rest) p =
      compile_children_loop env rec parent component grouptype rest (add_child p n) := by
  rw [compile_children_loop]
  simp only [hi, hu, Bool.false_eq_true, if_false, if_neg ha]
  rw [hr]

theorem tail_add_child (p n : modcallable) : (add_child p n).tail = some n := by
  simp [modcallable.tail, add_child]


theorem follows_constant_true_add_child (p n : modcallable) (rest : List modcallable)
    (hty : n.type = MOD_IF ∨ n.type = MOD_ELSIF)
    (hc : n.cond = some { type := COND_TYPE_TRUE }) :
    follows_constant_true (add_child p n :: rest) :=
  ⟨add_child p n, rest, n, { type := COND_TYPE_TRUE }, rfl, tail_add_child p n, hty, hc, rfl⟩

/-- One step of the chain: after a constant-true `if` or `elsif`, the next
`elsif` of the group is compiled to a node without children, which itself
counts as constant-true for the item that follows. -/
theorem compile_children_loop_pruned_elsif (env : Env) (fuel : Nat)
    (parent : List modcallable) (component : rlm_components_t) (grouptype : grouptype_t)
    (ci : ci_ref) (rest : List ci_ref) (p : modcallable)
    (hci : is_elsif_item ci) (hp : follows_constant_true (p :: parent)) :
    ∃ n, compile_item env (fuel + 1) (p :: parent) component ci grouptype = some n ∧
      n.children = [] ∧ n.type = MOD_ELSIF ∧
      compile_children_loop env (compile_item env (fuel + 1)) parent component grouptype
          (ci :: rest) p =
        compile_children_loop env (compile_item env (fuel + 1)) parent component grouptype
          rest (add_child p n) ∧
      follows_constant_true (add_child p n :: parent) := by
  obtain ⟨s, hi, hn, hn2, hu⟩ := hci
  have h0 := (previous_if_zero_iff _).mpr hp
  obtain ⟨n, hn_eq, hch, hty, hcond⟩ := compile_empty_spec env (p :: parent) component
    (some { cs := s, parents := ci.parents }) GROUPTYPE_SIMPLE grouptype MOD_ELSIF COND_TYPE_TRUE
  have hitem : compile_item env (fuel + 1) (p :: parent) component ci grouptype = some n := by
    rw [compile_item_elsif env fuel _ component ci grouptype s hi hn,
      compile_elsif_after_true env _ _ component _ _ _ _ hn2 h0, hn_eq]
  refine ⟨n, hitem, hch, hty, ?_, ?_⟩
  · exact compile_children_loop_sect env _ parent component grouptype ci rest p s n hi hu
      (by rw [hn]; decide) hitem
  · exact follows_constant_true_add_child p n parent (Or.inr hty) (hcond (by decide))

/-- The chain of `elsif` sections that follows a constant-true `if` or `elsif`
is compiled to as many nodes without children, appended to the group. -/
theorem compile_children_loop_pruned_chain (env : Env) (fuel : Nat)
    (parent : List modcallable) (component : rlm_components_t) (grouptype : grouptype_t)
    (elsifs : List ci_ref) (helsifs : ∀ ci ∈ elsifs, is_elsif_item ci) (rest : List ci_ref)
    (p : modcallable) (hp : follows_constant_true (p :: parent)) :
    ∃ nodes : List modcallable,
      nodes.length = elsifs.length ∧ (∀ n ∈ nodes, n.children = [] ∧ n.type = MOD_ELSIF) ∧
      compile_children_loop env (compile_item env (fuel + 1)) parent component grouptype
          (elsifs ++ rest) p =
        compile_children_loop env (compile_item env (fuel + 1)) parent component grouptype
          rest (nodes.foldl add_child p) ∧
      follows_constant_true (nodes.foldl add_child p :: parent) := by
  induction elsifs generalizing p with
  | nil => exact ⟨[], rfl, by simp, rfl, hp⟩
  | cons ci t ih =>
    obtain ⟨n, _, hch, hty, hstep, hnext⟩ := compile_children_loop_pruned_elsif env fuel parent
      component grouptype ci (t ++ rest) p (helsifs ci (by simp)) hp
    obtain ⟨nodes, hlen, hall, hloop, hfin⟩ := ih (fun c hc => helsifs c (by simp [hc]))
      (add_child p n) hnext
    refine ⟨n :: nodes, by simp [hlen], ?_, ?_, hfin⟩
    · intro m hm
      rcases List.mem_cons.mp hm with h | h
      · rw [h]; exact ⟨hch, hty⟩
      · exact hall m h
    · rw [List.cons_append, hstep, hloop]
      rfl

theorem foldl_add_child_children (nodes : List modcallable) (p : modcallable) :
    (nodes.foldl add_child p).children = p.children ++ nodes := by
  induction nodes generalizing p with
  | nil => simp
  | cons n t ih => simp [ih, add_child]


theorem compile_empty_children (env : Env) (parent : List modcallable)
    (component : rlm_components_t) (cs : Option cs_ref) (grouptype parentgrouptype : grouptype_t)
    (mod_type : mod_type_t) (cond_type : fr_cond_type_t) (c : modcallable)
    (h : compile_empty env parent component cs grouptype parentgrouptype mod_type cond_type
          = some c) : c.children = [] := by
  obtain ⟨c1, hc1, hch, _, _⟩ := compile_empty_spec env parent component cs grouptype
    parentgrouptype mod_type cond_type
  rw [hc1] at h
  rw [← Option.some.inj h]
  exact hch

/-- After a constant-true `if` or `elsif`, an `else` of the group is compiled
to a node without children. -/
theorem compile_children_loop_pruned_else (env : Env) (fuel : Nat)
    (parent : List modcallable) (component : rlm_components_t) (grouptype : grouptype_t)
    (ci : ci_ref) (rest : List ci_ref) (p : modcallable)
    (hci : is_else_item ci) (hp : follows_constant_true (p :: parent)) :
    ∃ n, compile_item env (fuel + 1) (p :: parent) component ci grouptype = some n ∧
      n.children = [] ∧ n.type = MOD_ELSE ∧
      compile_children_loop env (compile_item env (fuel + 1)) parent component grouptype
          (ci :: rest) p =
        compile_children_loop env (compile_item env (fuel + 1)) parent component grouptype
          rest (add_child p n) := by
  obtain ⟨s, hi, hn, hn2, hu, hne⟩ := hci
  have h0 := (previous_if_zero_iff _).mpr hp
  obtain ⟨n, hn_eq, hch, hty⟩ := compile_else_after_true env (compile_item env fuel)
    (p :: parent) component { cs := s, parents := ci.parents } GROUPTYPE_SIMPLE grouptype
    MOD_ELSE hn2 h0
  have hitem : compile_item env (fuel + 1) (p :: parent) component ci grouptype = some n := by
    rw [compile_item_else env fuel _ component ci grouptype s hi hn hne, hn_eq]
  exact ⟨n, hitem, hch, hty,
    compile_children_loop_sect env _ parent component grouptype ci rest p s n hi hu
      (by rw [hn]; decide) hitem⟩

/-- C8: compile-time constant branches are pruned.  An `if` or `elsif` whose
condition is the constant false compiles to a node with no children; an
`elsif` or `else` that follows an `if` or `elsif` with a constant-true
condition compiles to a node with no children; and this carries down the
chain: in the loop over the items of a group whose last child is a
constant-true `if` or `elsif`, every `elsif` that follows, and the `else` that
ends the chain, adds a node without children. -/
theorem constant_branches_pruned (env : Env) (fuel : Nat) (parent : List modcallable)
    (component : rlm_components_t) (grouptype : grouptype_t) :
    (∀ (rec : compile_item_t) (cs : cs_ref) (gt pgt : grouptype_t) (mt : mod_type_t)
       (cond : fr_cond_t),
      cs.cs.name2 ≠ none → cs.cs.cond = some cond → cond.type = COND_TYPE_FALSE →
      (∃ c, compile_if env rec parent component cs gt pgt mt = some c ∧ c.children = []) ∧
      (∀ c, compile_elsif env rec parent component cs gt pgt mt = some c → c.children = []) ∧
      (follows_if parent →
        ∃ c, compile_elsif env rec parent component cs gt pgt mt = some c)) ∧
    (∀ (rec : compile_item_t) (cs : cs_ref) (gt pgt : grouptype_t) (mt : mod_type_t),
      follows_constant_true parent →
      (cs.cs.name2 ≠ none →
        ∃ c, compile_elsif env rec parent component cs gt pgt mt = some c ∧ c.children = []) ∧
      (cs.cs.name2 = none →
        ∃ c, compile_else env rec parent component cs gt pgt mt = some c ∧ c.children = [])) ∧
    (∀ (p : modcallable) (elsifs elses rest : List ci_ref),
      follows_constant_true (p :: parent) →
      (∀ ci ∈ elsifs, is_elsif_item ci) → (∀ ci ∈ elses, is_else_item ci) → elses.length ≤ 1 →
      ∃ nodes : List modcallable,
        nodes.length = elsifs.length + elses.length ∧ (∀ n ∈ nodes, n.children = []) ∧
        compile_children_loop env (compile_item env (fuel + 1)) parent component grouptype
            (elsifs ++ elses ++ rest) p =
          compile_children_loop env (compile_item env (fuel + 1)) parent component grouptype
            rest (nodes.foldl add_child p)) := by
  refine ⟨?_, ?_, ?_⟩
  · intro rec cs gt pgt mt cond hn hc hf
    have hif := compile_if_constant_false env rec parent component cs gt pgt mt cond hn hc hf
    obtain ⟨c0, hc0, hch0, _⟩ := compile_empty_spec env parent component (some cs) gt pgt mt
      COND_TYPE_FALSE
    have helsif : ∀ c, compile_elsif env rec parent component cs gt pgt mt = some c →
        c.children = [] := by
      intro c h
      unfold compile_elsif at h
      rw [if_neg hn] at h
      split at h
      · simp at h
      · split at h
        · exact compile_empty_children _ _ _ _ _ _ _ _ c h
        · rw [hif] at h
          exact compile_empty_children _ _ _ _ _ _ _ _ c h
    refine ⟨⟨c0, by rw [hif, hc0], hch0⟩, helsif, fun hfol => ?_⟩
    have hge : ¬ previous_if parent < 0 := fun hlt => (previous_if_neg_iff parent).mp hlt hfol
    unfold compile_elsif
    rw [if_neg hn, if_neg hge]
    split
    · exact ⟨_, (compile_empty_spec env parent component (some cs) gt pgt mt
        COND_TYPE_TRUE).choose_spec.1⟩
    · exact ⟨c0, by rw [hif, hc0]⟩
  · intro rec cs gt pgt mt hp
    have h0 := (previous_if_zero_iff parent).mpr hp
    constructor
    · intro hn
      obtain ⟨c, hc, hch, _⟩ := compile_empty_spec env parent component (some cs) gt pgt mt
        COND_TYPE_TRUE
      exact ⟨c, by rw [compile_elsif_after_true env rec parent component cs gt pgt mt hn h0, hc],
        hch⟩
    · intro hn
      obtain ⟨c, hc, hch, _⟩ := compile_else_after_true env rec parent component cs gt pgt mt hn h0
      exact ⟨c, hc, hch⟩
  · intro p elsifs elses rest hp helsifs helses hlen
    obtain ⟨nodes, hnl, hall, hloop, hfin⟩ := compile_children_loop_pruned_chain env fuel parent
      component grouptype elsifs helsifs (elses ++ rest) p hp
    rcases elses with _ | ⟨ci, tl⟩
    · refine ⟨nodes, by simp [hnl], fun n hn => (hall n hn).1, ?_⟩
      rw [List.append_nil]
      simpa using hloop
    · have htl : tl = [] := by
        rcases tl with _ | ⟨b, tl2⟩
        · rfl
        · simp at hlen
      subst htl
      obtain ⟨n, _, hch, _, hstep⟩ := compile_children_loop_pruned_else env fuel parent component
        grouptype ci rest (nodes.foldl add_child p) (helses ci (by simp)) hfin
      refine ⟨nodes ++ [n], by simp [hnl], ?_, ?_⟩
      · intro m hm
        rcases List.mem_append.mp hm with h | h
        · exact (hall m h).1
        · rw [List.mem_singleton.mp h]; exact hch
      · rw [List.append_assoc, hloop]
        rw [List.singleton_append, hstep, List.foldl_append]
        rfl

/-- Witness for C8: in `authorize { if (true) { sql }  elsif (...) { sql }
else { sql } }` the `if` keeps its child and the `elsif` and the `else` are
compiled without children. -/
theorem constant_branches_pruned_witness :
    (modcall_compile_section (sample_env sample_root) 4 [] MOD_AUTHORIZE
      sample_chain_section).map (fun c => c.children.map (fun n => n.children.length))
      = some [1, 0, 0] ∧
    ∃ nodes : List modcallable, nodes.length = 2 ∧ (∀ n ∈ nodes, n.children = []) ∧
      compile_children_loop (sample_env sample_root) (compile_item (sample_env sample_root) 3)
          [] MOD_AUTHORIZE GROUPTYPE_SIMPLE
          [ { item := CONF_ITEM.sect sample_elsif_section, parents := [20, 0] },
            { item := CONF_ITEM.sect sample_else_section, parents := [20, 0] } ]
          sample_group_after_if
        = some (nodes.foldl add_child sample_group_after_if) := by
  refine ⟨by decide!, ?_⟩
  have h := (constant_branches_pruned (sample_env sample_root) 2 [] MOD_AUTHORIZE
    GROUPTYPE_SIMPLE).2.2 sample_group_after_if
    [ { item := CONF_ITEM.sect sample_elsif_section, parents := [20, 0] } ]
    [ { item := CONF_ITEM.sect sample_else_section, parents := [20, 0] } ] []
    ⟨sample_group_after_if, [], sample_if_true, { type := COND_TYPE_TRUE }, rfl, rfl,
      Or.inl rfl, rfl, rfl⟩
    (by
      intro ci hci
      rw [List.mem_singleton.mp hci]
      exact ⟨sample_elsif_section, rfl, rfl, by decide, rfl⟩)
    (by
      intro ci hci
      rw [List.mem_singleton.mp hci]
      exact ⟨sample_else_section, rfl, rfl, rfl, rfl, List.cons_ne_nil _ _⟩)
    (by decide)
  obtain ⟨nodes, hlen, hall, hloop⟩ := h
  exact ⟨nodes, hlen, hall, hloop⟩

/-! ## Module and policy references -/

theorem compile_children_loop_reference (env : Env) (rec : compile_item_t)
    (parent : List modcallable) (component : rlm_components_t) (grouptype : grouptype_t)
    (ci : ci_ref) (attr : String) (rest : List ci_ref) (c : modcallable)
    (hi : is_reference ci attr) :
    compile_children_loop env rec parent component grouptype (ci :: rest) c =
      match rec (c :: parent) component ci grouptype with
      | none =>
        if is_optional attr then compile_children_loop env rec parent component grouptype rest c
        else none
      | some single =>
        compile_children_loop env rec parent component grouptype rest (add_child c single) := by
  rw [compile_children_loop]
  unfold is_reference at hi
  simp only [hi]
  rfl

/-- A failing reference that is not optional makes the loop fail, wherever it
stands among the items. -/
theorem compile_children_loop_fails (env : Env) (rec : compile_item_t)
    (parent : List modcallable) (component : rlm_components_t) (grouptype : grouptype_t)
    (ci : ci_ref) (attr : String) (hi : is_reference ci attr) (hno : ¬ is_optional attr)
    (hrec : ∀ c, rec (c :: parent) component ci grouptype = none)
    (pre post : List ci_ref) (g : modcallable) :
    compile_children_loop env rec parent component grouptype (pre ++ ci :: post) g = none := by
  induction pre generalizing g with
  | nil =>
    rw [List.nil_append, compile_children_loop_reference env rec parent component grouptype ci
      attr post g hi, hrec g]
    simp only [if_neg hno]
  | cons a t ih =>
    rw [List.cons_append, compile_children_loop]
    repeat' split
    all_goals first
      | rfl
      | exact ih _

/-- In a group of module references, the children are the nodes of the
references that compile, in source order; the optional ones that fail are
left out. -/
theorem compile_children_loop_references (env : Env) (rec : compile_item_t)
    (parent : List modcallable) (component : rlm_components_t) (grouptype : grouptype_t)
    (r : ci_ref → Option modcallable) (items : List ci_ref)
    (hitems : ∀ ci ∈ items, ∃ attr, is_reference ci attr ∧ (r ci = none → is_optional attr))
    (hrec : ∀ c, ∀ ci ∈ items, rec (c :: parent) component ci grouptype = r ci)
    (g : modcallable) :
    compile_children_loop env rec parent component grouptype items g =
      some ((items.filterMap r).foldl add_child g) := by
  induction items generalizing g with
  | nil => rfl
  | cons ci t ih =>
    obtain ⟨attr, hi, hopt⟩ := hitems ci (by simp)
    have iht := fun g => ih (fun c hc => hitems c (by simp [hc]))
      (fun c x hx => hrec c x (by simp [hx])) g
    rw [compile_children_loop_reference env rec parent component grouptype ci attr t g hi,
      hrec g ci (by simp)]
    rcases hr : r ci with _ | n
    · simp only [if_pos (hopt hr), iht, List.filterMap_cons, hr]
    · simp only [iht, List.filterMap_cons, hr, List.foldl_cons]


theorem compile_item_body_reference (env : Env) (rec : compile_item_t)
    (parent : List modcallable) (component : rlm_components_t) (ci : ci_ref)
    (modrefname : String) (grouptype : grouptype_t) (h : refers_to ci modrefname) :
    compile_item_body env rec parent component ci grouptype =
      compile_item_ref env rec parent component ci modrefname grouptype := by
  obtain ⟨hb, hr, h | ⟨s, hi, hn, hk⟩⟩ := h
  · unfold compile_item_body
    unfold is_reference at h
    unfold is_xlat_name at h
    simp only [h.1, ne_eq, not_true_eq_false, if_false, if_neg h.2]
  · unfold compile_item_body
    rw [hn] at hk
    simp only [hi, hn, hk, if_neg hb, if_neg hr]

theorem compile_item_loop_check_none (parents : List Nat) :
    compile_item_loop_check parents none = none := by
  unfold compile_item_loop_check
  induction parents with
  | nil => rfl
  | cons a t ih => simpa using ih

theorem compile_item_loop_check_some (parents : List Nat) (subcs : cs_ref) :
    compile_item_loop_check parents (some subcs) =
      if subcs.cs.addr ∈ parents then none else some subcs := by
  induction parents with
  | nil => simp [compile_item_loop_check]
  | cons a t ih =>
    unfold compile_item_loop_check at ih ⊢
    rw [List.foldl_cons]
    by_cases h : a = subcs.cs.addr
    · simp only [h, if_true]
      rw [show List.foldl _ none t = none from compile_item_loop_check_none t]
      simp
    · simp only [h, if_false, ih]
      have h2 : ¬ subcs.cs.addr = a := fun e => h e.symm
      simp [h2]

theorem compile_item_ref_of_no_virtual (env : Env) (rec : compile_item_t)
    (parent : List modcallable) (component : rlm_components_t) (ci : ci_ref)
    (modrefname : String) (grouptype : grouptype_t)
    (hb : modrefname ≠ "break") (hr : modrefname ≠ "return")
    (h : compile_item_loop_check ci.parents (compile_item_virtual env component modrefname).1
          = none) :
    compile_item_ref env rec parent component ci modrefname grouptype =
      compile_item_module env parent (compile_item_virtual env component modrefname).2 ci
        modrefname grouptype := by
  unfold compile_item_ref
  simp only [if_neg hb, if_neg hr, h]


theorem refers_to_of_optional (ci : ci_ref) (attr : String) (hi : is_reference ci attr)
    (hopt : is_optional attr) : refers_to ci attr := by
  unfold is_optional at hopt
  refine ⟨?_, ?_, Or.inl ⟨hi, ?_⟩⟩
  · intro h; rw [h] at hopt; exact absurd hopt (by decide)
  · intro h; rw [h] at hopt; exact absurd hopt (by decide)
  · unfold is_xlat_name
    rw [hopt]
    rintro (⟨h, _⟩ | h)
    · exact absurd h (by decide)
    · exact absurd h (by decide)

theorem compile_item_module_missing (env : Env) (parent : List modcallable)
    (method : rlm_components_t) (ci : ci_ref) (attr : String) (grouptype : grouptype_t)
    (hopt : is_optional attr)
    (hmod : ∀ modules method1,
      env.module_instantiate_method modules (String.mk attr.data.tail) method1 = none) :
    compile_item_module env parent method ci attr grouptype = none := by
  unfold compile_item_module
  unfold is_optional at hopt
  split
  · rfl
  · simp only [if_pos hopt, hmod]

/-- A reference `-name` to a module that does not exist, where no policy or
virtual module has that name either, does not compile. -/
theorem compile_item_optional_missing (env : Env) (fuel : Nat) (parent : List modcallable)
    (component : rlm_components_t) (ci : ci_ref) (attr : String) (grouptype : grouptype_t)
    (hi : is_reference ci attr) (hopt : is_optional attr)
    (hvirt : compile_item_loop_check ci.parents (compile_item_virtual env component attr).1
              = none)
    (hmod : ∀ modules method,
      env.module_instantiate_method modules (String.mk attr.data.tail) method = none) :
    compile_item env (fuel + 1) parent component ci grouptype = none := by
  have href := refers_to_of_optional ci attr hi hopt
  rw [compile_item, compile_item_body_reference env _ parent component ci attr grouptype href,
    compile_item_ref_of_no_virtual env _ parent component ci attr grouptype href.1 href.2.1 hvirt]
  exact compile_item_module_missing env parent _ ci attr grouptype hopt hmod

/-- C9: in `compile_children`, a reference `-name` that does not compile, as
when the module does not exist, is skipped: the loop goes on with the node
unchanged, so no child is added for it; a group of module references compiles
to the nodes of the references that compile, in source order; and a failing
reference whose name does not begin with `-` makes the whole group fail. -/
theorem optional_reference_skipped (env : Env) (rec : compile_item_t)
    (parent : List modcallable) (component : rlm_components_t) (grouptype : grouptype_t) :
    (∀ (fuel : Nat) (ci : ci_ref) (attr : String) (par : List modcallable),
      is_reference ci attr → is_optional attr →
      compile_item_loop_check ci.parents (compile_item_virtual env component attr).1 = none →
      (∀ modules method,
        env.module_instantiate_method modules (String.mk attr.data.tail) method = none) →
      compile_item env (fuel + 1) par component ci grouptype = none) ∧
    (∀ (ci : ci_ref) (attr : String) (rest : List ci_ref) (c : modcallable),
      is_reference ci attr → is_optional attr →
      rec (c :: parent) component ci grouptype = none →
      compile_children_loop env rec parent component grouptype (ci :: rest) c =
        compile_children_loop env rec parent component grouptype rest c) ∧
    (∀ (r : ci_ref → Option modcallable) (g : modcallable) (cs : cs_ref)
       (parentgrouptype : grouptype_t),
      g.cs = some cs →
      (∀ ci ∈ cs.items, ∃ attr, is_reference ci attr ∧ (r ci = none → is_optional attr)) →
      (∀ c, ∀ ci ∈ cs.items, rec (c :: parent) component ci grouptype = r ci) →
      ∃ c, compile_children env rec g parent component grouptype parentgrouptype = some c ∧
        c.children = g.children ++ cs.items.filterMap r) ∧
    (∀ (g : modcallable) (cs : cs_ref) (parentgrouptype : grouptype_t) (ci : ci_ref)
       (attr : String) (pre post : List ci_ref),
      g.cs = some cs → cs.items = pre ++ ci :: post →
      is_reference ci attr → ¬ is_optional attr →
      (∀ c, rec (c :: parent) component ci grouptype = none) →
      compile_children env rec g parent component grouptype parentgrouptype = none) := by
  refine ⟨?_, ?_, ?_, ?_⟩
  · intro fuel ci attr par hi hopt hvirt hmod
    exact compile_item_optional_missing env fuel par component ci attr grouptype hi hopt hvirt
      hmod
  · intro ci attr rest c hi hopt hrec
    rw [compile_children_loop_reference env rec parent component grouptype ci attr rest c hi,
      hrec]
    simp only [if_pos hopt]
  · intro r g cs pgt hg hitems hrec
    unfold compile_children
    simp only [hg]
    rw [compile_children_loop_references env rec parent component grouptype r cs.items hitems
      hrec g]
    refine ⟨_, rfl, ?_⟩
    rw [(compile_defaultactions_fields _ parent component pgt).1, foldl_add_child_children]
  · intro g cs pgt ci attr pre post hg hitems hi hno hrec
    unfold compile_children
    simp only [hg]
    rw [hitems, compile_children_loop_fails env rec parent component grouptype ci attr hi hno
      hrec pre post g]
    rfl

/-- Witness for C9: `authorize { sql  -ldap  sql }` compiles to its two `sql`
children, `-ldap` being skipped as no module `ldap` exists, while
`authorize { sql  ldap  sql }` does not compile. -/
theorem optional_reference_skipped_witness :
    (modcall_compile_section (sample_env sample_root) 4 [] MOD_AUTHORIZE
      sample_optional_section).map (fun c => c.children.map (fun n => n.name))
      = some [some "sql", some "sql"] ∧
    (modcall_compile_section (sample_env sample_root) 4 [] MOD_AUTHORIZE
      sample_required_section).isNone = true ∧
    compile_children_loop (sample_env sample_root) (compile_item (sample_env sample_root) 1)
        [] MOD_AUTHORIZE GROUPTYPE_SIMPLE [sample_optional_item] sample_group_empty
      = some sample_group_empty := by
  refine ⟨by decide!, by decide!, ?_⟩
  have h := optional_reference_skipped (sample_env sample_root)
    (compile_item (sample_env sample_root) 1) [] MOD_AUTHORIZE GROUPTYPE_SIMPLE
  have hnone : compile_item (sample_env sample_root) 1 [sample_group_empty] MOD_AUTHORIZE
      sample_optional_item GROUPTYPE_SIMPLE = none :=
    h.1 0 sample_optional_item "-ldap" [sample_group_empty] rfl (by decide)
      (Option.isNone_iff_eq_none.mp (by decide!)) (fun _ _ => rfl)
  rw [h.2.1 sample_optional_item "-ldap" [] sample_group_empty rfl (by decide) hnone]
  rfl

/-- C10: when the name that an item refers to resolves to a policy or virtual
module section that encloses the item (its own section or an ancestor), the
item is not expanded as that policy: `compile_item` continues with the lookup
of the module instance of that name, and its result does not depend on any
recursive call. -/
theorem policy_self_reference_falls_through (env : Env) (rec : compile_item_t)
    (parent : List modcallable) (component : rlm_components_t) (ci : ci_ref)
    (modrefname : String) (grouptype : grouptype_t) (subcs : cs_ref)
    (href : refers_to ci modrefname)
    (hfound : (compile_item_virtual env component modrefname).1 = some subcs)
    (hanc : subcs.cs.addr ∈ ci.parents) :
    compile_item_body env rec parent component ci grouptype =
      compile_item_module env parent (compile_item_virtual env component modrefname).2 ci
        modrefname grouptype ∧
    ∀ fuel, compile_item env (fuel + 1) parent component ci grouptype =
      compile_item_module env parent (compile_item_virtual env component modrefname).2 ci
        modrefname grouptype := by
  have hcheck : compile_item_loop_check ci.parents
      (compile_item_virtual env component modrefname).1 = none := by
    rw [hfound, compile_item_loop_check_some, if_pos hanc]
  have hbody : ∀ rec1 : compile_item_t,
      compile_item_body env rec1 parent component ci grouptype =
        compile_item_module env parent (compile_item_virtual env component modrefname).2 ci
          modrefname grouptype := by
    intro rec1
    rw [compile_item_body_reference env rec1 parent component ci modrefname grouptype href,
      compile_item_ref_of_no_virtual env rec1 parent component ci modrefname grouptype href.1
        href.2.1 hcheck]
  exact ⟨hbody rec, fun fuel => by rw [compile_item]; exact hbody _⟩

/-- Witness for C10: inside the policy `sql`, the reference `sql` resolves to
the enclosing policy and is compiled as the module instance `sql`; the policy
itself compiles, with one fuel unit per level, to a group around that module. -/
theorem policy_self_reference_falls_through_witness :
    (compile_item (sample_env sample_root) 1 [sample_group_empty] MOD_AUTHORIZE
      sample_self_reference GROUPTYPE_SIMPLE).map (fun c => (c.type, c.name))
      = some (MOD_SINGLE, some "sql") ∧
    (modcall_compile_section (sample_env sample_root) 2 [] MOD_AUTHORIZE
      sample_optional_section).map
        (fun c => c.children.map (fun n => (n.type, n.children.map (fun m => m.type))))
      = some [(MOD_GROUP, [ MOD_SINGLE]), (MOD_GROUP, [ MOD_SINGLE])] := by
  refine ⟨?_, by decide!⟩
  have href : refers_to sample_self_reference "sql" :=
    ⟨by decide, by decide, Or.inl ⟨rfl, by unfold is_xlat_name; decide⟩⟩
  rw [(policy_self_reference_falls_through (sample_env sample_root)
    (compile_item (sample_env sample_root) 0) [sample_group_empty] MOD_AUTHORIZE
    sample_self_reference "sql" GROUPTYPE_SIMPLE sample_policy_sql href rfl (by decide)).2 0]
  decide!

/-! ## The `default` entry of an override block -/

theorem parse_action_ne_zero (env : Env) (value : String) (action : Int)
    (h : parse_action env value = some action) : action ≠ 0 := by
  unfold parse_action at h
  split_ifs at h with h1 h2 h3 h4 h5
  all_goals first
    | (simp only [Option.some.injEq] at h; subst h; decide)
    | (simp only [Option.some.injEq] at h; subst h; assumption)

/-- A `default` entry leaves a table without unset slots as it is. -/
theorem foldl_default_of_ne_zero (action : Int) (a0 : actions_t) (h : ∀ j, a0 j ≠ 0) :
    rcodes.foldl (fun a i => if a i = 0 then Function.update a i action else a) a0 = a0 := by
  funext j
  rw [foldl_fill_unset (fun _ => action) rcodes nodup_rcodes a0 j]
  rw [if_neg (fun hc => h j hc.2)]

/-- The loop over an override block, started on a table without unset slots:
the block without its `default` entries yields the same node, no slot of which
is unset, and a slot that no entry names keeps its value. -/
theorem compile_action_section_loop_default (env : Env)
    (items : List (CONF_ITEM CONF_SECTION)) (c0 c : modcallable)
    (h0 : ∀ j, c0.actions j ≠ 0)
    (h : compile_action_section_loop env items c0 = some c) :
    compile_action_section_loop env (items.filter (fun i => ! is_default_entry i)) c0 = some c ∧
    (∀ j, c.actions j ≠ 0) ∧
    (∀ j, (∀ cp, CONF_ITEM.pair cp ∈ items → ¬ names_rcode cp.attr j) →
      c.actions j = c0.actions j) := by
  induction items generalizing c0 with
  | nil =>
    simp only [compile_action_section_loop, Option.some.injEq] at h
    subst h
    exact ⟨rfl, h0, fun _ _ => rfl⟩
  | cons item rest ih =>
    cases item with
    | sect s =>
      simp only [compile_action_section_loop] at h
      exact absurd h (by simp)
    | data =>
      simp only [compile_action_section_loop] at h
      obtain ⟨k1, k2, k3⟩ := ih c0 h0 h
      refine ⟨?_, k2, fun j hj => k3 j (fun cp hcp => hj cp (List.mem_cons_of_mem _ hcp))⟩
      simp only [List.filter, is_default_entry, Bool.not_false, compile_action_section_loop]
      exact k1
    | pair cp =>
      obtain ⟨attr, value⟩ := cp
      simp only [compile_action_section_loop] at h
      cases value with
      | none =>
        simp only [compile_action_pair, if_true] at h
        exact absurd h (by simp)
      | some value =>
        cases hp : parse_action env value with
        | none =>
          rw [compile_action_pair_of_bad_value env c0 attr value hp] at h
          simp only [if_true] at h
          exact absurd h (by simp)
        | some action =>
          by_cases hd : same_word attr "default"
          · rw [compile_action_pair_of_default env c0 attr value action hp hd] at h
            simp only [one_ne_zero, if_false] at h
            rw [foldl_default_of_ne_zero action c0.actions h0] at h
            have h' : compile_action_section_loop env rest c0 = some c := by
              cases c0
              exact h
            obtain ⟨k1, k2, k3⟩ := ih c0 h0 h'
            refine ⟨?_, k2, fun j hj => k3 j (fun cp hcp => hj cp (List.mem_cons_of_mem _ hcp))⟩
            simp only [List.filter, is_default_entry, hd, decide_True, Bool.not_true]
            exact k1
          · cases hf : fr_str2int mod_rcode_table attr with
            | none =>
              rw [compile_action_pair_of_unknown env c0 attr value action hp hd hf] at h
              simp only [if_true] at h
              exact absurd h (by simp)
            | some rcode =>
              have e := compile_action_pair_of_rcode env c0 attr value action rcode hp hd hf
              rw [e] at h
              simp only [one_ne_zero, if_false] at h
              have h1 : ∀ j, ({ c0 with actions := Function.update c0.actions rcode action } :
                  modcallable).actions j ≠ 0 := by
                intro j
                by_cases hj : j = rcode
                · subst hj
                  simp only [Function.update_same]
                  exact parse_action_ne_zero env value action hp
                · simp only [Function.update_noteq hj]
                  exact h0 j
              obtain ⟨k1, k2, k3⟩ := ih _ h1 h
              refine ⟨?_, k2, fun j hj => ?_⟩
              · simp only [List.filter, is_default_entry, hd, decide_False, Bool.not_false,
                  compile_action_section_loop]
                rw [e]
                simp only [one_ne_zero, if_false]
                exact k1
              · rw [k3 j (fun cp hcp => hj cp (List.mem_cons_of_mem _ hcp))]
                have hne : j ≠ rcode := by
                  intro hjr
                  subst hjr
                  exact hj { attr := attr, value := some value } (List.mem_cons_self _ _)
                    ((fr_str2int_eq_some attr j).mp hf)
                simp only [Function.update_noteq hne]

/-- C27: when `compile_csingle` compiles a reference to a single module that
has an override block, the `default` entries of the block change no action:
the block without its `default` entries compiles to the same node, no slot of
the node is unset, and every return code that no entry of the block names keeps
the default of the section (that of `authtype_actions` inside Auth-Type). -/
theorem compile_csingle_default_no_effect (env : Env) (parent : List modcallable)
    (component : rlm_components_t) (cs : CONF_SECTION) (parents : List Nat)
    (inst : module_instance_t) (grouptype : grouptype_t) (realname : String) (c : modcallable)
    (h : compile_csingle env parent component { item := CONF_ITEM.sect cs, parents := parents }
      inst grouptype realname = some c) :
    compile_csingle env parent component
      { item := CONF_ITEM.sect (without_default_entries cs), parents := parents }
      inst grouptype realname = some c ∧
    (∀ j, c.actions j ≠ 0) ∧
    (∀ j, (∀ cp, CONF_ITEM.pair cp ∈ cs.children → ¬ names_rcode cp.attr j) →
      c.actions j =
        if parent.isEmpty = true ∨ component ≠ MOD_AUTHENTICATE then
          defaultactions component grouptype j
        else authtype_actions grouptype j) := by
  unfold compile_csingle at h ⊢
  by_cases hm : inst.module.methods component = false
  · rw [if_pos hm] at h
    exact absurd h (by simp)
  · rw [if_neg hm] at h ⊢
    simp only [compile_action_section, without_default_entries] at h ⊢
    have h0 : ∀ j, (if parent.isEmpty = true ∨ component ≠ MOD_AUTHENTICATE then
        defaultactions component grouptype else authtype_actions grouptype) j ≠ 0 := by
      intro j
      split_ifs
      · exact defaultactions_ne_zero component grouptype j
      · exact authtype_actions_ne_zero grouptype j
    obtain ⟨k1, k2, k3⟩ := compile_action_section_loop_default env cs.children _ c h0 h
    refine ⟨k1, k2, fun j hj => ?_⟩
    rw [k3 j hj]
    dsimp only
    split_ifs <;> rfl

/-- C27, witness: the reference `sql { default = 7  fail = 2  DEFAULT = reject }`
in an authorize section compiles; the node has the priority 2 for fail, the
action of the section for every other return code, for example for ok and for
reject, and it is the node that `sql { fail = 2 }` compiles to. -/
theorem compile_csingle_default_no_effect_witness :
    ∃ c, compile_csingle (sample_env sample_root) [] MOD_AUTHORIZE
        { item := CONF_ITEM.sect sample_override, parents := [0] } sample_sql GROUPTYPE_SIMPLE
        "sql" = some c ∧
      compile_csingle (sample_env sample_root) [] MOD_AUTHORIZE
        { item := CONF_ITEM.sect
            { addr := 20, name1 := "sql", children :=
                [ CONF_ITEM.pair { attr := "fail", value := some "2" } ] },
          parents := [0] } sample_sql GROUPTYPE_SIMPLE "sql" = some c ∧
      c.actions RLM_MODULE_FAIL = 2 ∧
      c.actions RLM_MODULE_OK = defaultactions MOD_AUTHORIZE GROUPTYPE_SIMPLE RLM_MODULE_OK ∧
      c.actions RLM_MODULE_REJECT =
        defaultactions MOD_AUTHORIZE GROUPTYPE_SIMPLE RLM_MODULE_REJECT := by
  have hs : (compile_csingle (sample_env sample_root) [] MOD_AUTHORIZE
      { item := CONF_ITEM.sect sample_override, parents := [0] } sample_sql GROUPTYPE_SIMPLE
      "sql").isSome = true := by decide
  obtain ⟨c, hc⟩ := Option.isSome_iff_exists.mp hs
  have hf : (compile_csingle (sample_env sample_root) [] MOD_AUTHORIZE
      { item := CONF_ITEM.sect sample_override, parents := [0] } sample_sql GROUPTYPE_SIMPLE
      "sql").map (fun c => c.actions RLM_MODULE_FAIL) = some 2 := by decide
  rw [hc] at hf
  obtain ⟨k1, -, k3⟩ := compile_csingle_default_no_effect (sample_env sample_root) []
    MOD_AUTHORIZE sample_override [0] sample_sql GROUPTYPE_SIMPLE "sql" c hc
  have hnames : ∀ j, j ≠ RLM_MODULE_FAIL →
      ∀ cp, CONF_ITEM.pair cp ∈ sample_override.children → ¬ names_rcode cp.attr j := by
    intro j hj cp hcp hn
    have hfind := (fr_str2int_eq_some cp.attr j).mpr hn
    simp only [sample_override, List.mem_cons, CONF_ITEM.pair.injEq, List.mem_singleton,
      List.mem_nil_iff, or_false] at hcp
    rcases hcp with rfl | rfl | rfl
    · have e : fr_str2int mod_rcode_table "default" = none := by decide
      rw [e] at hfind
      exact absurd hfind (by simp)
    · have e : fr_str2int mod_rcode_table "fail" = some RLM_MODULE_FAIL := by decide
      rw [e] at hfind
      exact hj (Option.some.inj hfind).symm
    · have e : fr_str2int mod_rcode_table "DEFAULT" = none := by decide
      rw [e] at hfind
      exact absurd hfind (by simp)
  refine ⟨c, hc, k1, by simpa using hf, ?_, ?_⟩
  · exact k3 RLM_MODULE_OK (hnames _ (by decide))
  · exact k3 RLM_MODULE_REJECT (hnames _ (by decide))

end Modcall

namespace Io

/-! ## The memory -/

theorem getElem?_set_guarded {α : Type} (l : List (Option α)) (i j : Nat) (c : α) :
    (l.set i ((l[i]?.join).map (fun _ => c)))[j]?.join =
      if j = i ∧ (l[i]?.join).isSome then some c else l[j]?.join := by
  by_cases h : j = i
  · subst h
    by_cases hlen : j < l.length
    · obtain hl | ⟨x, hl⟩ := Option.eq_none_or_eq_some (l[j]?)
      · simp [hl, List.getElem?_set, hlen]
      · cases x <;> simp [hl, List.getElem?_set, hlen]
    · have hl : l[j]? = none := List.getElem?_eq_none (Nat.le_of_not_lt hlen)
      simp [hl, List.getElem?_set, hlen]
  · have h' : ¬ i = j := fun e => h e.symm
    simp [List.getElem?_set, h, h']

theorem client_set_client (s : State) (i j : Nat) (c : proto_radius_client_t) :
    (s.set_client i c).client j = if j = i ∧ s.live_client i then c else s.client j := by
  unfold State.client State.set_client State.live_client
  simp only [getElem?_set_guarded]
  split_ifs <;> rfl

theorem live_client_set_client (s : State) (i j : Nat) (c : proto_radius_client_t) :
    (s.set_client i c).live_client j ↔ s.live_client j := by
  unfold State.set_client State.live_client
  simp only [getElem?_set_guarded]
  split_ifs with h
  · obtain ⟨rfl, h⟩ := h
    exact ⟨fun _ => h, fun _ => rfl⟩
  · rfl

theorem live_track_set_track (s : State) (i j : Nat) (t : proto_radius_track_t) :
    (s.set_track i t).live_track j ↔ s.live_track j := by
  unfold State.set_track State.live_track
  simp only [getElem?_set_guarded]
  split_ifs with h
  · obtain ⟨rfl, h⟩ := h
    exact ⟨fun _ => h, fun _ => rfl⟩
  · rfl

@[simp]
theorem set_client_tracks (s : State) (i : Nat) (c : proto_radius_client_t) :
    (s.set_client i c).tracks = s.tracks := rfl

@[simp]
theorem set_client_inst (s : State) (i : Nat) (c : proto_radius_client_t) :
    (s.set_client i c).inst = s.inst := rfl

@[simp]
theorem set_client_connections (s : State) (i : Nat) (c : proto_radius_client_t) :
    (s.set_client i c).connections = s.connections := rfl

@[simp]
theorem set_track_clients (s : State) (i : Nat) (t : proto_radius_track_t) :
    (s.set_track i t).clients = s.clients := rfl

@[simp]
theorem set_track_inst (s : State) (i : Nat) (t : proto_radius_track_t) :
    (s.set_track i t).inst = s.inst := rfl

@[simp]
theorem set_track_events (s : State) (i : Nat) (t : proto_radius_track_t) :
    (s.set_track i t).events = s.events := rfl

@[simp]
theorem set_track_connections (s : State) (i : Nat) (t : proto_radius_track_t) :
    (s.set_track i t).connections = s.connections := rfl

@[simp]
theorem set_inst_clients (s : State) (inst : proto_radius_t) :
    (s.set_inst inst).clients = s.clients := rfl

@[simp]
theorem set_inst_tracks (s : State) (inst : proto_radius_t) :
    (s.set_inst inst).tracks = s.tracks := rfl

@[simp]
theorem set_inst_events (s : State) (inst : proto_radius_t) :
    (s.set_inst inst).events = s.events := rfl

@[simp]
theorem set_inst_inst (s : State) (inst : proto_radius_t) :
    (s.set_inst inst).inst = inst := rfl

@[simp]
theorem emit_clients (s : State) (e : event) : (s.emit e).clients = s.clients := rfl

@[simp]
theorem emit_tracks (s : State) (e : event) : (s.emit e).tracks = s.tracks := rfl

@[simp]
theorem emit_inst (s : State) (e : event) : (s.emit e).inst = s.inst := rfl

@[simp]
theorem free_track_clients (s : State) (i : Nat) : (s.free_track i).clients = s.clients := rfl

@[simp]
theorem free_track_inst (s : State) (i : Nat) : (s.free_track i).inst = s.inst := rfl

@[simp]
theorem free_track_events (s : State) (i : Nat) : (s.free_track i).events = s.events := rfl

/-- Reading a client depends on the list of clients only. -/
theorem client_congr {s s' : State} (h : s'.clients = s.clients) (i : Nat) :
    s'.client i = s.client i := by
  unfold State.client; rw [h]

theorem live_client_congr {s s' : State} (h : s'.clients = s.clients) (i : Nat) :
    s'.live_client i ↔ s.live_client i := by
  unfold State.live_client; rw [h]

theorem live_track_congr {s s' : State} (h : s'.tracks = s.tracks) (i : Nat) :
    s'.live_track i ↔ s.live_track i := by
  unfold State.live_track; rw [h]

@[simp]
theorem free_client_inst (s : State) (i : Nat) : (s.free_client i).inst = s.inst := rfl

@[simp]
theorem free_client_events (s : State) (i : Nat) :
    (s.free_client i).events = s.events := rfl

@[simp]
theorem set_inst_connections (s : State) (inst : proto_radius_t) :
    (s.set_inst inst).connections = s.connections := rfl

@[simp]
theorem emit_events (s : State) (e : event) : (s.emit e).events = s.events ++ [e] := rfl

/-! ## The order of the queued packets -/

theorem pending_packet_cmp_eq (a b : proto_radius_pending_packet_t) :
    pending_packet_cmp a b =
      if a.priority > b.priority then -1
      else if a.priority < b.priority then 1
      else if a.recv_time < b.recv_time then -1
      else if a.recv_time > b.recv_time then 1
      else 0 := by
  unfold pending_packet_cmp c_bool
  rcases Nat.lt_trichotomy a.priority b.priority with h | h | h
  · have h' : ¬ b.priority < a.priority := by omega
    simp [h, h']
  · rcases Nat.lt_trichotomy a.recv_time b.recv_time with k | k | k
    · have k' : ¬ b.recv_time < a.recv_time := by omega
      simp [h, k, k']
    · simp [h, k]
    · have k' : ¬ a.recv_time < b.recv_time := by omega
      simp [h, k, k']
  · have h' : ¬ a.priority < b.priority := by omega
    simp [h, h']

/-- C11: `pending_packet_cmp` orders queued packets by priority descending and
then by receive time ascending: it is negative exactly when the first packet has
the higher priority or the same priority and the earlier receive time, it is
zero exactly when both fields agree, swapping the arguments negates it, and the
relation "not after" is transitive. -/
theorem pending_packet_cmp_total_preorder (a b : proto_radius_pending_packet_t) :
    (pending_packet_cmp a b < 0 ↔
      a.priority > b.priority ∨ (a.priority = b.priority ∧ a.recv_time < b.recv_time)) ∧
    (pending_packet_cmp a b = 0 ↔ a.priority = b.priority ∧ a.recv_time = b.recv_time) ∧
    pending_packet_cmp a b = - pending_packet_cmp b a ∧
    ∀ c : proto_radius_pending_packet_t,
      pending_packet_cmp a b ≤ 0 → pending_packet_cmp b c ≤ 0 → pending_packet_cmp a c ≤ 0 := by
  refine ⟨?_, ?_, ?_, ?_⟩
  · rw [pending_packet_cmp_eq]; split_ifs <;> constructor <;> intro h <;> omega
  · rw [pending_packet_cmp_eq]
    split_ifs <;> constructor <;> intro h <;>
      first
        | omega
        | exact absurd h (by decide)
  · rw [pending_packet_cmp_eq, pending_packet_cmp_eq]; split_ifs <;> omega
  · intro c
    rw [pending_packet_cmp_eq, pending_packet_cmp_eq, pending_packet_cmp_eq]
    split_ifs <;> omega

/-! ## Timers and destructors -/

theorem rbtree_deletebydata_none (env : Env) (s : State) (k : proto_radius_track_t) :
    rbtree_deletebydata env s none k = none := by
  unfold rbtree_deletebydata
  rfl

theorem client_with_table (c : proto_radius_client_t) (h : c.table = none) :
    { c with table := none } = c := by
  cases c
  simp_all

theorem pending_free_clients_inst (env : Env) (s : State) (p : proto_radius_pending_packet_t) :
    (pending_free env s p).inst = s.inst ∧ (pending_free env s p).events = s.events := by
  unfold pending_free
  dsimp only
  split_ifs <;> exact ⟨rfl, rfl⟩

theorem pending_free_live_client (env : Env) (s : State) (p : proto_radius_pending_packet_t)
    (i : Nat) : (pending_free env s p).live_client i ↔ s.live_client i := by
  unfold pending_free
  dsimp only
  split_ifs
  · rw [live_client_congr (free_track_clients _ _), live_client_set_client,
      live_client_congr (set_track_clients _ _ _)]
  · rw [live_client_congr (set_track_clients _ _ _)]

theorem pending_free_client_of_table_none (env : Env) (s : State)
    (p : proto_radius_pending_packet_t) (i : Nat) (h : (s.client i).table = none) :
    (pending_free env s p).client i = s.client i := by
  unfold pending_free
  dsimp only
  split_ifs
  · rw [client_congr (free_track_clients _ _), client_set_client]
    split_ifs with hh
    · obtain ⟨rfl, _⟩ := hh
      rw [client_congr (set_track_clients _ _ _), h, rbtree_deletebydata_none]
      exact client_with_table _ h
    · rw [client_congr (set_track_clients _ _ _)]
  · rw [client_congr (set_track_clients _ _ _)]

theorem foldl_pending_free_client (env : Env) (l : List proto_radius_pending_packet_t)
    (s : State) (i : Nat) (h : (s.client i).table = none) :
    (l.foldl (pending_free env) s).client i = s.client i ∧
    ((l.foldl (pending_free env) s).live_client i ↔ s.live_client i) ∧
    (l.foldl (pending_free env) s).inst = s.inst ∧
    (l.foldl (pending_free env) s).events = s.events := by
  induction l generalizing s with
  | nil => exact ⟨rfl, Iff.rfl, rfl, rfl⟩
  | cons p l ih =>
    have h1 := pending_free_client_of_table_none env s p i h
    have h2 := pending_free_live_client env s p i
    have h3 := pending_free_clients_inst env s p
    obtain ⟨k1, k2, k3, k4⟩ := ih (pending_free env s p) (by rw [h1]; exact h)
    simp only [List.foldl_cons]
    exact ⟨k1.trans h1, k2.trans h2, k3.trans h3.1, k4.trans h3.2⟩

theorem reset_timer_spec (env : Env) (s : State) (i : Nat) (d : delay_t)
    (hl : s.live_client i) :
    (reset_timer env s i d).client i =
      { s.client i with ev := if env.fr_event_timer_insert < 0 then (s.client i).ev else some d } ∧
    (reset_timer env s i d).live_client i ∧
    (reset_timer env s i d).inst = s.inst ∧
    (reset_timer env s i d).events = s.events ∧
    (reset_timer env s i d).tracks = s.tracks := by
  unfold reset_timer
  split_ifs with h
  · exact ⟨rfl, hl, rfl, rfl, rfl⟩
  · refine ⟨?_, ?_, rfl, rfl, rfl⟩
    · rw [client_set_client, if_pos ⟨rfl, hl⟩]
    · rw [live_client_set_client]; exact hl

theorem client_expiry_timer_false (env : Env) (s : State) (i : Nat) :
    (∃ d, client_expiry_timer env s false i = reset_timer env s i d ∧
      ((s.client i).state = .PR_CLIENT_NAK → d = .nak_lifetime)) ∨
    (client_expiry_timer env s false i = s ∧ (s.client i).state ≠ .PR_CLIENT_NAK) := by
  unfold client_expiry_timer
  simp only [Bool.false_eq_true, not_false_eq_true, if_true]
  generalize (s.client i).state = st
  cases st
  · exact Or.inr ⟨rfl, by simp⟩
  · exact Or.inr ⟨rfl, by simp⟩
  · exact Or.inl ⟨_, rfl, fun _ => rfl⟩
  · exact Or.inl ⟨.idle_timeout, rfl, fun h => absurd h (by simp)⟩
  · exact Or.inl ⟨.idle_timeout, rfl, fun h => absurd h (by simp)⟩
  · exact Or.inr ⟨rfl, by simp⟩

/-- Called to set the timer, `client_expiry_timer` changes nothing but the timer of the client. -/
theorem client_expiry_timer_set (env : Env) (s : State) (i : Nat) (hl : s.live_client i) :
    (∃ ev, (client_expiry_timer env s false i).client i = { s.client i with ev := ev } ∧
      ((s.client i).state = .PR_CLIENT_NAK →
        ev = if env.fr_event_timer_insert < 0 then (s.client i).ev else some .nak_lifetime)) ∧
    (client_expiry_timer env s false i).live_client i ∧
    (client_expiry_timer env s false i).inst = s.inst ∧
    (client_expiry_timer env s false i).events = s.events ∧
    (client_expiry_timer env s false i).tracks = s.tracks := by
  rcases client_expiry_timer_false env s i with ⟨d, h, hd⟩ | ⟨h, hn⟩
  · rw [h]
    obtain ⟨k1, k2, k3, k4, k5⟩ := reset_timer_spec env s i d hl
    exact ⟨⟨_, k1, fun hs => by rw [hd hs]⟩, k2, k3, k4, k5⟩
  · rw [h]
    exact ⟨⟨(s.client i).ev, rfl, fun hs => absurd hs hn⟩, hl, rfl, rfl, rfl⟩

/-! ## Replies that define a client -/

theorem free_client_not_live (s : State) (i : Nat) : ¬ (s.free_client i).live_client i := by
  unfold State.free_client State.live_client
  by_cases h : i < s.clients.length
  · simp [List.getElem?_set, h]
  · simp [List.getElem?_set, h]

/-- C14, counterexample: for the pending client of the sample listener a record
with an address outside the network 198.51.100.0/24 does not leave a negative
entry: the client is gone from the memory and from the trie, and no timer was
armed for it. -/
theorem mod_write_mismatch_leaves_no_nak :
    mod_write_mismatch sample_env sample_client.network sample_record_foreign ∧
    (mod_write sample_env sample_pending none 0 100 [] 8 sample_record_foreign).1 = 8 ∧
    (mod_write sample_env sample_pending none 0 100 [] 8 sample_record_foreign).2.clients
      = [none] ∧
    (mod_write sample_env sample_pending none 0 100 [] 8 sample_record_foreign).2.inst.trie
      = [] ∧
    ((mod_write sample_env sample_pending none 0 100 [] 8 sample_record_foreign).2.client 0).state
      ≠ .PR_CLIENT_NAK := by
  decide

/-- C14, amended: on the master socket, when the record written for a pending
client does not fit the network of the client (another address family, a prefix
shorter than that of the network, an address outside the network after masking,
or a record that is itself a network), the client is not defined and no
negative entry is kept: the client is removed from the trie, the number of
clients is decremented, the client is freed, and the length of the buffer is
returned. -/
theorem mod_write_mismatch_deletes_client (env : Env) (s : State) (track request_time : Nat)
    (buffer : List Nat) (buffer_len : Nat) (radclient : RADCLIENT)
    (hp : (s.client (s.track track).client).state = .PR_CLIENT_PENDING)
    (hlen : buffer_len ≠ 1)
    (hm : mod_write_mismatch env (s.client (s.track track).client).network radclient) :
    (mod_write env s none track request_time buffer buffer_len radclient).1 = buffer_len ∧
    ¬ (mod_write env s none track request_time buffer buffer_len radclient).2.live_client
        (s.track track).client ∧
    (∀ e ∈ (mod_write env s none track request_time buffer buffer_len radclient).2.inst.trie,
      e.1 ≠ (s.client (s.track track).client).src_ipaddr) ∧
    (mod_write env s none track request_time buffer buffer_len radclient).2.inst.num_clients
      = u32_dec s.inst.num_clients ∧
    (mod_write env s none track request_time buffer buffer_len radclient).2.events = s.events := by
  have e : mod_write env s none track request_time buffer buffer_len radclient =
      ((buffer_len : Int),
        (s.set_inst
          { s.inst with
            trie := s.inst.trie.filter
              (fun e => e.1 ≠ (s.client (s.track track).client).src_ipaddr)
            num_clients := u32_dec s.inst.num_clients }).free_client (s.track track).client) := by
    unfold mod_write
    simp only [hp, ne_eq, not_true_eq_false, if_false, hlen, false_and, Option.isNone_none,
      true_and, hm, if_true]
  rw [e]
  dsimp only
  refine ⟨rfl, free_client_not_live _ _, ?_, ?_, ?_⟩
  · intro x hx
    rw [free_client_inst, set_inst_inst] at hx
    simpa using (List.mem_filter.mp hx).2
  · rw [free_client_inst, set_inst_inst]
  · rw [free_client_events, set_inst_events]

/-- C14, witness: the record with the foreign address for the sample listener. -/
theorem mod_write_mismatch_deletes_client_witness :
    (mod_write sample_env sample_pending none 0 100 [] 8 sample_record_foreign).1 = 8 :=
  (mod_write_mismatch_deletes_client sample_env sample_pending 0 100 [] 8 sample_record_foreign
    (by decide) (by decide) (by decide)).1

theorem mod_write_finish_client (env : Env) (s : State) (connection : Option Nat)
    (client : Nat) (packets : Int) (n : Nat) (hl : s.live_client client) :
    ∃ ev, (mod_write_finish env s connection client packets n).2.client client =
      { s.client client with ev := ev } := by
  unfold mod_write_finish mod_write_reread
  dsimp only
  by_cases hp : packets = 0
  · obtain ⟨⟨ev, k, -⟩, -⟩ := client_expiry_timer_set env s client hl
    refine ⟨ev, ?_⟩
    rw [if_pos hp]
    split_ifs
    · rw [client_congr (emit_clients _ _), k]
    · rw [k]
  · refine ⟨(s.client client).ev, ?_⟩
    rw [if_neg hp]
    split_ifs
    · rw [client_congr (emit_clients _ _)]
    · rfl

/-- C15, counterexample: for the pending client of the sample listener a valid
record that asks for connected sockets leaves the client in the pending state:
it becomes neither dynamic nor connected. -/
theorem mod_write_connected_record_stays_pending :
    ¬ mod_write_mismatch sample_env sample_client.network sample_record_connected ∧
    sample_record_connected.use_connected = true ∧
    ((mod_write sample_env sample_pending none 0 100 [] 8 sample_record_connected).2.client 0).state
      = .PR_CLIENT_PENDING := by
  decide

/-- C15, amended: when `mod_write` receives for a pending client a record that
passes the checks, the state of the client depends on the socket: on a
connected socket it becomes Connected, whatever the record says, and the client
may not use connected sockets itself; on the master socket it becomes Dynamic
when the record does not ask for connected sockets, and it stays Pending, with a
table of connections, when the record asks for them. -/
theorem mod_write_accept_state (env : Env) (s : State) (connection : Option Nat)
    (track request_time : Nat) (buffer : List Nat) (buffer_len : Nat) (radclient : RADCLIENT)
    (hc : s.live_client (s.track track).client)
    (hp : (s.client (s.track track).client).state = .PR_CLIENT_PENDING)
    (hlen : buffer_len ≠ 1)
    (hm : connection = none →
      ¬ mod_write_mismatch env (s.client (s.track track).client).network radclient) :
    (connection.isSome →
      ((mod_write env s connection track request_time buffer buffer_len radclient).2.client
        (s.track track).client).state = .PR_CLIENT_CONNECTED ∧
      ((mod_write env s connection track request_time buffer buffer_len radclient).2.client
        (s.track track).client).use_connected = false) ∧
    (connection = none → radclient.use_connected = false →
      ((mod_write env s connection track request_time buffer buffer_len radclient).2.client
        (s.track track).client).state = .PR_CLIENT_DYNAMIC) ∧
    (connection = none → radclient.use_connected = true →
      ((mod_write env s connection track request_time buffer buffer_len radclient).2.client
        (s.track track).client).state = .PR_CLIENT_PENDING ∧
      ((mod_write env s connection track request_time buffer buffer_len radclient).2.client
        (s.track track).client).use_connected = true ∧
      ((mod_write env s connection track request_time buffer buffer_len radclient).2.client
        (s.track track).client).ht = some []) := by
  cases connection with
  | some conn =>
    refine ⟨fun _ => ?_, fun h => absurd h (by simp), fun h => absurd h (by simp)⟩
    unfold mod_write
    simp only [hp, ne_eq, not_true_eq_false, if_false, hlen, false_and, Option.isNone_some,
      Bool.false_eq_true]
    have hl : ∀ c, (s.set_client (s.track track).client c).live_client (s.track track).client :=
      fun c => (live_client_set_client _ _ _ _).mpr hc
    split_ifs
    · obtain ⟨ev, k⟩ := mod_write_finish_client env _ (some conn) (s.track track).client
        ((s.client (s.track track).client).packets +
          ((Option.map List.length (s.client (s.track track).client).pending).getD 0 : Nat))
        buffer_len (show ((s.set_client (s.track track).client _).emit _).live_client _ from
          (live_client_congr (emit_clients _ _) _).mpr (hl _))
      rw [k, client_congr (emit_clients _ _), client_set_client, if_pos ⟨rfl, hc⟩]
      exact ⟨rfl, rfl⟩
    · obtain ⟨ev, k⟩ := mod_write_finish_client env _ (some conn) (s.track track).client
        ((s.client (s.track track).client).packets +
          ((Option.map List.length (s.client (s.track track).client).pending).getD 0 : Nat))
        buffer_len (hl _)
      rw [k, client_set_client, if_pos ⟨rfl, hc⟩]
      exact ⟨rfl, rfl⟩
  | none =>
    have hm' := hm rfl
    refine ⟨fun h => absurd h (by simp), fun _ hu => ?_, fun _ hu => ?_⟩
    · unfold mod_write
      simp only [hp, ne_eq, not_true_eq_false, if_false, hlen, false_and, hm', and_false, hu,
        Bool.false_eq_true]
      obtain ⟨ev, k⟩ := mod_write_finish_client env _ none (s.track track).client
        ((s.client (s.track track).client).packets +
          ((Option.map List.length (s.client (s.track track).client).pending).getD 0 : Nat))
        buffer_len
        (show ((s.set_client (s.track track).client _).set_inst _).live_client _ from
          (live_client_congr (set_inst_clients _ _) _).mpr
            ((live_client_set_client _ _ _ _).mpr hc))
      rw [k, client_congr (set_inst_clients _ _), client_set_client, if_pos ⟨rfl, hc⟩]
    · unfold mod_write
      simp only [hp, ne_eq, not_true_eq_false, if_false, hlen, false_and, hm', and_false, hu,
        if_true]
      obtain ⟨ev, k⟩ := mod_write_finish_client env _ none (s.track track).client
        ((s.client (s.track track).client).packets +
          ((Option.map List.length (s.client (s.track track).client).pending).getD 0 : Nat))
        buffer_len
        (show ((s.set_client (s.track track).client _).set_inst _).live_client _ from
          (live_client_congr (set_inst_clients _ _) _).mpr
            ((live_client_set_client _ _ _ _).mpr hc))
      rw [k, client_congr (set_inst_clients _ _), client_set_client, if_pos ⟨rfl, hc⟩]
      exact ⟨rfl, rfl, rfl⟩

/-- C15, witness: the record that defines the host of the sample listener. -/
theorem mod_write_accept_state_witness :
    ((mod_write sample_env sample_pending none 0 100 [] 8 sample_record).2.client 0).state
      = .PR_CLIENT_DYNAMIC :=
  (mod_write_accept_state sample_env sample_pending none 0 100 [] 8 sample_record
    (by decide) (by decide) (by decide) (fun _ => by decide)).2.1 rfl rfl

/-! ## The tracking table -/

/-- C16: `proto_radius_track_add` never stores an entry in the tracking table:
it leaves the clients, and so their tables, as they are; for a client whose
table is empty a second call with the same address and the same header
therefore finds no entry either: it allocates a second entry and reports no
duplicate. -/
theorem track_add_twice_allocates_twice (env : Env) (s : State) (client : Nat)
    (address : proto_radius_address_t) (packet : List Nat) (t1 t2 : Nat) (is_dup : Bool)
    (hempty : (s.client client).table = some []) :
    (proto_radius_track_add env s client address packet t1 is_dup).2.2.clients = s.clients ∧
    (proto_radius_track_add env s client address packet t1 is_dup).1 = some s.tracks.length ∧
    (proto_radius_track_add env
      (proto_radius_track_add env s client address packet t1 is_dup).2.2
      client address packet t2 false).1 = some (s.tracks.length + 1) ∧
    (proto_radius_track_add env
      (proto_radius_track_add env s client address packet t1 is_dup).2.2
      client address packet t2 false).2.1 = false := by
  have h1 : ∀ (s : State) (t : Nat) (d : Bool), (s.client client).table = some [] →
      proto_radius_track_add env s client address packet t d =
        (some s.tracks.length, false,
          { s with
            tracks := s.tracks ++
              [some
                { client := client
                  address := if (s.client client).connected
                    then (s.connection ((s.client client).connection.getD 0)).address
                    else address
                  timestamp := t
                  packets := 1
                  packet := packet.take 20
                  reply := none
                  reply_len := 0
                  dynamic := 0
                  ev := false }] }) := by
    intro s t d h
    unfold proto_radius_track_add
    simp only [h, rbtree_finddata, Option.getD_some, List.find?_nil]
  rw [h1 s t1 is_dup hempty]
  dsimp only
  rw [h1 _ t2 false (by rw [client_congr (s := s) rfl]; exact hempty)]
  simp

/-- C16, witness: two calls for the same new packet of the dynamic client of the
sample listener. -/
theorem track_add_twice_allocates_twice_witness :
    (proto_radius_track_add sample_env
      (proto_radius_track_add sample_env sample_dynamic 0 sample_address (sample_header 43 5)
        110 false).2.2
      0 sample_address (sample_header 43 5) 120 false).2.1 = false :=
  (track_add_twice_allocates_twice sample_env sample_dynamic 0 sample_address
    (sample_header 43 5) 110 120 false (by decide)).2.2.2

/-! ## Queued packets -/

theorem fr_heap_pop_eq_none {α : Type} (cmp : α → α → Int) (l : List α) :
    fr_heap_pop cmp l = none ↔ l = [] := by
  cases l with
  | nil => simp [fr_heap_pop]
  | cons x xs =>
    simp only [fr_heap_pop]
    cases fr_heap_pop cmp xs with
    | none => simp
    | some y =>
      obtain ⟨y, rest⟩ := y
      dsimp only
      split_ifs <;> simp

theorem fr_heap_pop_perm {α : Type} (cmp : α → α → Int) (l : List α) (x : α) (rest : List α)
    (h : fr_heap_pop cmp l = some (x, rest)) : l.Perm (x :: rest) := by
  induction l generalizing x rest with
  | nil => simp [fr_heap_pop] at h
  | cons y ys ih =>
    simp only [fr_heap_pop] at h
    cases hp : fr_heap_pop cmp ys with
    | none =>
      rw [hp] at h
      have hys : ys = [] := (fr_heap_pop_eq_none cmp ys).mp hp
      simp only [Option.some.injEq, Prod.mk.injEq] at h
      obtain ⟨rfl, rfl⟩ := h
      rw [hys]
    | some z =>
      obtain ⟨z, r⟩ := z
      rw [hp] at h
      dsimp only at h
      split_ifs at h
      · simp only [Option.some.injEq, Prod.mk.injEq] at h
        obtain ⟨rfl, rfl⟩ := h
        exact ((ih z r hp).cons y).trans (List.Perm.swap z y r)
      · simp only [Option.some.injEq, Prod.mk.injEq] at h
        obtain ⟨rfl, rfl⟩ := h
        exact List.Perm.refl _

theorem sum_map_set {α : Type} (f : α → Nat) (l : List α) (i : Nat) (x y : α)
    (h : l[i]? = some x) : ((l.set i y).map f).sum + f x = (l.map f).sum + f y := by
  induction l generalizing i with
  | nil => simp at h
  | cons a l ih =>
    cases i with
    | zero =>
      simp only [List.getElem?_cons_zero, Option.some.injEq] at h
      subst h
      simp only [List.set_cons_zero, List.map_cons, List.sum_cons]
      omega
    | succ i =>
      simp only [List.getElem?_cons_succ] at h
      have := ih i h
      simp only [List.set_cons_succ, List.map_cons, List.sum_cons]
      omega

theorem live_client_iff (s : State) (i : Nat) :
    s.live_client i ↔ s.clients[i]? = some (some (s.client i)) := by
  unfold State.live_client State.client
  obtain h | ⟨x, h⟩ := Option.eq_none_or_eq_some (s.clients[i]?)
  · simp [h]
  · cases x <;> simp [h]

theorem queued_set_client (s : State) (i : Nat) (c : proto_radius_client_t)
    (hl : s.live_client i) :
    (s.set_client i c).queued + ((s.client i).pending.getD []).length =
      s.queued + (c.pending.getD []).length := by
  have h := (live_client_iff s i).mp hl
  unfold State.queued State.set_client
  have hj : s.clients[i]?.join = some (s.client i) := by rw [h]; rfl
  simp only [hj, Option.map_some']
  exact sum_map_set (fun c => ((c.bind (fun c => c.pending)).getD []).length) s.clients i
    (some (s.client i)) (some c) h

theorem pending_of_ne_nil (s : State) (i : Nat) (h : (s.client i).pending.getD [] ≠ []) :
    s.live_client i := by
  by_contra hn
  apply h
  unfold State.live_client at hn
  unfold State.client
  cases hj : s.clients[i]?.join with
  | none => rfl
  | some c => rw [hj] at hn; exact absurd rfl hn

theorem set_inst_queued (s : State) (inst : proto_radius_t) :
    (s.set_inst inst).queued = s.queued := rfl

theorem pending_packet_pop_spec (s : State) (hwf : s.pending_wf) :
    ((pending_packet_pop s).1 = none ∧ (pending_packet_pop s).2.inst.pending_clients = none ∧
      (pending_packet_pop s).2.tracks = s.tracks ∧ (pending_packet_pop s).2.queued = s.queued) ∨
    (∃ p, (pending_packet_pop s).1 = some p ∧
      (pending_packet_pop s).2.tracks = s.tracks ∧
      (pending_packet_pop s).2.queued + 1 = s.queued ∧
      (pending_packet_pop s).2.pending_wf ∧
      (pending_packet_pop s).2.inst.pending_clients.isSome) := by
  obtain ⟨hnd, hne⟩ := hwf
  cases hpop : fr_heap_pop (pending_client_cmp s) (s.inst.pending_clients.getD []) with
  | none =>
    left
    unfold pending_packet_pop
    simp only [hpop, set_inst_inst, set_inst_tracks, set_inst_queued, and_self]
  | some x =>
    obtain ⟨client, rest⟩ := x
    right
    have hperm := fr_heap_pop_perm _ _ _ _ hpop
    have hmem : client ∈ s.inst.pending_clients.getD [] :=
      hperm.symm.subset (List.mem_cons_self _ _)
    have hheap := hne client hmem
    have hl := pending_of_ne_nil s client hheap
    obtain ⟨heap, hpend⟩ : ∃ heap, (s.client client).pending = some heap := by
      cases hp : (s.client client).pending with
      | none => rw [hp] at hheap; exact absurd rfl hheap
      | some heap => exact ⟨heap, rfl⟩
    rw [hpend, Option.getD_some] at hheap
    cases hpop2 : fr_heap_pop pending_packet_cmp heap with
    | none => exact absurd ((fr_heap_pop_eq_none _ _).mp hpop2) hheap
    | some y =>
      obtain ⟨p, left⟩ := y
      have hperm2 := fr_heap_pop_perm _ _ _ _ hpop2
      have hlen : heap.length = left.length + 1 := by
        rw [hperm2.length_eq]; rfl
      have hnd' : (client :: rest).Nodup := hperm.nodup_iff.mp hnd
      have e : pending_packet_pop s =
          (some p,
            (s.set_client client { s.client client with pending := some left }).set_inst
              { s.inst with
                pending_clients := some (if left.length > 0 then rest ++ [client] else rest)
                num_pending_packets := u32_dec s.inst.num_pending_packets }) := by
        unfold pending_packet_pop
        simp only [hpop, hpend, Option.getD_some, hpop2, Option.map_some', set_client_inst]
      rw [e]
      dsimp only
      refine ⟨p, rfl, ?_, ?_, ?_, ?_⟩
      · rw [set_inst_tracks, set_client_tracks]
      rotate_right
      · rw [set_inst_inst]; rfl
      · rw [set_inst_queued]
        have hq := queued_set_client s client { s.client client with pending := some left } hl
        rw [hpend] at hq
        simp only [Option.getD_some] at hq
        omega
      · constructor
        · rw [set_inst_inst]
          simp only [Option.getD_some]
          split_ifs
          · rw [List.nodup_append]
            refine ⟨(List.nodup_cons.mp hnd').2, List.nodup_singleton _, ?_⟩
            intro a ha hb
            rw [List.mem_singleton] at hb
            subst hb
            exact (List.nodup_cons.mp hnd').1 ha
          · exact (List.nodup_cons.mp hnd').2
        · intro c hc
          rw [set_inst_inst] at hc
          simp only [Option.getD_some] at hc
          rw [client_congr (set_inst_clients _ _), client_set_client]
          have hrest : ∀ a ∈ rest, ¬ (a = client ∧ s.live_client client) := by
            intro a ha hb
            exact (List.nodup_cons.mp hnd').1 (hb.1 ▸ ha)
          have hin : ∀ a ∈ rest, (s.client a).pending.getD [] ≠ [] := fun a ha =>
            hne a (hperm.symm.subset (List.mem_cons_of_mem _ ha))
          split_ifs at hc with hpos
          · rcases List.mem_append.mp hc with hc | hc
            · rw [if_neg (hrest c hc)]; exact hin c hc
            · rw [List.mem_singleton] at hc
              subst hc
              rw [if_pos ⟨rfl, hl⟩]
              simp only [Option.getD_some]
              intro h0
              rw [h0] at hpos
              exact absurd hpos (by simp)
          · rw [if_neg (hrest c hc)]; exact hin c hc

theorem mod_read_redo_spec (fuel : Nat) (s : State) (hwf : s.pending_wf)
    (hfuel : s.queued < fuel) :
    (mod_read_redo none fuel s).1 ≠ .out_of_fuel ∧
    (mod_read_redo none fuel s).1 ≠ .dead ∧
    (mod_read_redo none fuel s).2.tracks = s.tracks ∧
    (mod_read_redo none fuel s).2.queued ≤ s.queued ∧
    (∀ p, (mod_read_redo none fuel s).1 = .pending p →
      p.recv_time = ((mod_read_redo none fuel s).2.track p.track).timestamp) ∧
    ((mod_read_redo none fuel s).1 = .no_pending →
      (mod_read_redo none fuel s).2.inst.pending_clients = none) := by
  induction fuel generalizing s with
  | zero => exact absurd hfuel (Nat.not_lt_zero _)
  | succ fuel ih =>
    rcases hpp : pending_packet_pop s with ⟨_ | p, s'⟩
    · rcases pending_packet_pop_spec s hwf with ⟨-, h2, h3, h4⟩ | ⟨q, h1, -⟩
      · rw [hpp] at h2 h3 h4
        simp only [mod_read_redo, hpp]
        split_ifs with hs
        · exact ⟨by simp, by simp, h3, le_of_eq h4, fun p h => by simp at h, fun _ => h2⟩
        · refine ⟨by simp, by simp, rfl, le_refl _, fun p h => by simp at h, fun _ => ?_⟩
          cases hpc : s.inst.pending_clients with
          | none => rfl
          | some l => rw [hpc] at hs; exact absurd rfl hs
      · rw [hpp] at h1
        exact absurd h1 (by simp)
    · rcases pending_packet_pop_spec s hwf with ⟨h1, -⟩ | ⟨q, h1, h2, h3, h4, h5⟩
      · rw [hpp] at h1
        exact absurd h1 (by simp)
      · rw [hpp] at h1 h2 h3 h4 h5
        simp only [mod_read_redo, hpp]
        split_ifs with hs hsup
        · obtain ⟨k1, k2, k3, k4, k5, k6⟩ := ih s' h4 (by dsimp only at h3; omega)
          dsimp only at h3
          exact ⟨k1, k2, k3.trans h2, by omega, k5, k6⟩
        · refine ⟨by simp, by simp, h2, ?_, fun r hr => ?_, fun h => by simp at h⟩
          · dsimp only at h3 ⊢
            omega
          simp only [redo_t.pending.injEq] at hr
          subst hr
          exact not_not.mp hsup
        · refine ⟨by simp, by simp, rfl, le_refl _, fun p h => by simp at h, fun _ => ?_⟩
          cases hpc : s.inst.pending_clients with
          | none => rfl
          | some l => rw [hpc] at hs; exact absurd rfl hs

theorem pending_alloc_recv_time (env : Env) (s : State) (client : Nat) (buffer : List Nat)
    (packet_len track priority : Nat) (p : proto_radius_pending_packet_t)
    (h : (proto_radius_pending_alloc env s client buffer packet_len track priority).1 = some p) :
    p.recv_time = (s.track track).timestamp ∧ p.track = track := by
  unfold proto_radius_pending_alloc at h
  dsimp only at h
  split at h
  · simp at h
  · split_ifs at h
    all_goals
      first
        | (simp at h; done)
        | (simp only [Option.some.injEq] at h
           subst h
           exact ⟨rfl, rfl⟩)

theorem mod_read_isSome (env : Env) (fuel : Nat) (s : State) (connection : Option Nat)
    (rd : app_io_read_t) (priority : Nat)
    (h : (mod_read_redo connection fuel s).1 ≠ .out_of_fuel) :
    (mod_read env fuel s connection rd priority).isSome := by
  unfold mod_read
  rcases hr : mod_read_redo connection fuel s with ⟨r, s'⟩
  rw [hr] at h
  cases r with
  | out_of_fuel => exact absurd rfl h
  | dead => rfl
  | pending p => rfl
  | no_pending =>
    dsimp only
    split_ifs
    all_goals
      first
        | rfl
        | (split
           · split_ifs <;> rfl
           · split <;> rfl)

/-- C12: a queued packet records the timestamp of its tracking entry as its
receive time when `proto_radius_pending_alloc` creates it; and on the master
socket, with the heap of clients in order and fuel for the queued packets, the
search of `mod_read` for a queued packet ends, no tracking entry is changed by
it, and it ends either with a packet whose receive time is the current timestamp
of its tracking entry, or with no packet and the heap of clients released: a
superseded packet is never handed on; `mod_read` returns, and when the search
has found a packet it goes on at the label `have_client` with that packet and
its tracking entry. -/
theorem mod_read_skips_superseded (env : Env) (s : State) (rd : app_io_read_t)
    (priority fuel client : Nat) (buffer : List Nat) (packet_len track prio : Nat)
    (hwf : s.pending_wf) (hfuel : s.queued < fuel) :
    (∀ p, (proto_radius_pending_alloc env s client buffer packet_len track prio).1 = some p →
      p.recv_time = (s.track track).timestamp ∧ p.track = track) ∧
    (mod_read_redo none fuel s).1 ≠ .out_of_fuel ∧
    (mod_read_redo none fuel s).2.tracks = s.tracks ∧
    (∀ p, (mod_read_redo none fuel s).1 = .pending p →
      p.recv_time = ((mod_read_redo none fuel s).2.track p.track).timestamp) ∧
    ((∃ p, (mod_read_redo none fuel s).1 = .pending p) ∨
      ((mod_read_redo none fuel s).1 = .no_pending ∧
        (mod_read_redo none fuel s).2.inst.pending_clients = none)) ∧
    (∀ p, (mod_read_redo none fuel s).1 = .pending p →
      mod_read env fuel s none rd priority =
        some (mod_read_have_client env (mod_read_redo none fuel s).2 none
          ((mod_read_redo none fuel s).2.track p.track).client (some p.track)
          ((mod_read_redo none fuel s).2.track p.track).address
          (p.buffer.take p.buffer_len) p.buffer_len p.recv_time
          { ret := 0, packet_ctx := some p.track, priority := p.priority, is_dup := false,
            buffer := p.buffer.take p.buffer_len })) ∧
    (mod_read env fuel s none rd priority).isSome := by
  obtain ⟨k1, k2, k3, -, k5, k6⟩ := mod_read_redo_spec fuel s hwf hfuel
  refine ⟨fun p h => pending_alloc_recv_time env s client buffer packet_len track prio p h,
    k1, k3, k5, ?_, ?_, mod_read_isSome env fuel s none rd priority k1⟩
  · cases hr : (mod_read_redo none fuel s).1 with
    | out_of_fuel => exact absurd hr k1
    | dead => exact absurd hr k2
    | pending p => exact Or.inl ⟨p, rfl⟩
    | no_pending => exact Or.inr ⟨rfl, k6 hr⟩
  · intro p hp
    rcases hr : mod_read_redo none fuel s with ⟨r, s'⟩
    rw [hr] at hp
    dsimp only at hp
    subst hp
    unfold mod_read
    rw [hr]

/-- C12, witness: in the sample listener the first queued packet was superseded
and the second was not: the search discards the first and ends with the second. -/
theorem mod_read_skips_superseded_witness :
    (mod_read_redo none 3 sample_superseded).1 = .pending sample_second ∧
    (proto_radius_pending_alloc sample_env sample_pending 0 (sample_header 43 5) 20 0 2).1
      = some { sample_second with recv_time := 100, track := 0 } ∧
    (mod_read sample_env 3 sample_superseded none sample_read 0).isSome :=
  ⟨by decide, by decide,
    (mod_read_skips_superseded sample_env sample_superseded sample_read 0 3 0 [] 0 0 0
      (by decide) (by decide)).2.2.2.2.2.2⟩

/-! ## The limit on queued packets -/

theorem pending_free_client (env : Env) (s : State) (p : proto_radius_pending_packet_t)
    (i : Nat) : ∃ table, (pending_free env s p).client i = { s.client i with table := table } := by
  unfold pending_free
  dsimp only
  split_ifs
  · rw [client_congr (free_track_clients _ _), client_set_client]
    split_ifs with hh
    · obtain ⟨rfl, _⟩ := hh
      rw [client_congr (set_track_clients _ _ _)]
      exact ⟨_, rfl⟩
    · rw [client_congr (set_track_clients _ _ _)]
      exact ⟨(s.client i).table, rfl⟩
  · rw [client_congr (set_track_clients _ _ _)]
    exact ⟨(s.client i).table, rfl⟩

theorem track_add_of_empty_table (env : Env) (s : State) (client : Nat)
    (address : proto_radius_address_t) (packet : List Nat) (t : Nat) (d : Bool)
    (h : (s.client client).table = some []) :
    proto_radius_track_add env s client address packet t d =
      (some s.tracks.length, false,
        { s with
          tracks := s.tracks ++
            [some
              { client := client
                address := if (s.client client).connected
                  then (s.connection ((s.client client).connection.getD 0)).address
                  else address
                timestamp := t
                packets := 1
                packet := packet.take 20
                reply := none
                reply_len := 0
                dynamic := 0
                ev := false }] }) := by
  unfold proto_radius_track_add
  simp only [h, rbtree_finddata, Option.getD_some, List.find?_nil]

theorem u32_inc_of_lt (n m : Nat) (h : n < m) (hm : m < 2 ^ 32) : u32_inc n = n + 1 := by
  unfold u32_inc
  exact Nat.mod_eq_of_lt (by omega)

theorem pending_alloc_spec (env : Env) (s : State) (client : Nat) (buffer : List Nat)
    (packet_len track priority : Nat)
    (hl : s.live_client client) (hconn : (s.client client).connected = false) :
    ((proto_radius_pending_alloc env s client buffer packet_len track priority).1 = none ∧
      (proto_radius_pending_alloc env s client buffer packet_len track priority).2.inst = s.inst ∧
      ((proto_radius_pending_alloc env s client buffer packet_len track priority).2.client
        client).pending = (s.client client).pending) ∨
    (∃ p heap,
      (proto_radius_pending_alloc env s client buffer packet_len track priority).1 = some p ∧
      (s.client client).pending = some heap ∧
      (proto_radius_pending_alloc env s client buffer packet_len track priority).2.inst.num_pending_packets
        = u32_inc s.inst.num_pending_packets ∧
      ((proto_radius_pending_alloc env s client buffer packet_len track priority).2.client
        client).pending = some (heap ++ [p]) ∧
      (proto_radius_pending_alloc env s client buffer packet_len track priority).2.live_client
        client) := by
  have hfail : ∀ p, (pending_free env s p).inst = s.inst ∧
      ((pending_free env s p).client client).pending = (s.client client).pending := by
    intro p
    obtain ⟨table, ht⟩ := pending_free_client env s p client
    exact ⟨(pending_free_clients_inst env s p).1, by rw [ht]⟩
  unfold proto_radius_pending_alloc
  dsimp only
  cases hpend : (s.client client).pending with
  | none =>
    left
    dsimp only
    refine ⟨rfl, (hfail _).1, ?_⟩
    rw [(hfail _).2, hpend]
  | some heap =>
    dsimp only
    by_cases hins : env.fr_heap_insert < 0
    · left
      rw [if_pos hins]
      refine ⟨rfl, (hfail _).1, ?_⟩
      rw [(hfail _).2, hpend]
    · right
      rw [if_neg hins]
      simp only [hconn, Bool.false_eq_true, not_false_eq_true, if_true, set_client_inst]
      refine ⟨_, heap, rfl, rfl, ?_, ?_, ?_⟩
      · rw [set_inst_inst]
      · rw [client_congr (set_inst_clients _ _), client_set_client, if_pos ⟨rfl, hl⟩]
      · exact (live_client_congr (set_inst_clients _ _) _).mpr
          ((live_client_set_client _ _ _ _).mpr hl)

/-- The queue of a pending client on the master socket after the label
`have_client`, for a packet that was just read. -/
theorem have_client_pending (env : Env) (s : State) (client : Nat)
    (address : proto_radius_address_t) (buffer : List Nat) (packet_len recv_time : Nat)
    (out : mod_read_t)
    (hl : s.live_client client)
    (hp : (s.client client).state = .PR_CLIENT_PENDING)
    (huc : (s.client client).use_connected = false)
    (hconn : (s.client client).connected = false)
    (htab : (s.client client).table = some []) :
    (s.inst.max_pending_packets ≠ 0 ∧ s.inst.num_pending_packets ≥ s.inst.max_pending_packets →
      (mod_read_have_client env s none client none address buffer packet_len recv_time out).1.ret
        = 0 ∧
      (mod_read_have_client env s none client none address buffer packet_len recv_time out).1.packet_ctx
        = out.packet_ctx ∧
      (mod_read_have_client env s none client none address buffer packet_len recv_time out).2.clients
        = s.clients ∧
      (mod_read_have_client env s none client none address buffer packet_len recv_time out).2.inst
        = s.inst ∧
      ∃ t, (mod_read_have_client env s none client none address buffer packet_len recv_time
        out).2.tracks = s.tracks ++ [t]) ∧
    (¬ (s.inst.max_pending_packets ≠ 0 ∧
        s.inst.num_pending_packets ≥ s.inst.max_pending_packets) →
      ((mod_read_have_client env s none client none address buffer packet_len recv_time
          out).2.inst.num_pending_packets = s.inst.num_pending_packets ∧
        ((mod_read_have_client env s none client none address buffer packet_len recv_time
          out).2.client client).pending = (s.client client).pending) ∨
      ((mod_read_have_client env s none client none address buffer packet_len recv_time
          out).2.inst.num_pending_packets = u32_inc s.inst.num_pending_packets ∧
        ∃ heap p, (s.client client).pending = some heap ∧
          ((mod_read_have_client env s none client none address buffer packet_len recv_time
            out).2.client client).pending = some (heap ++ [p]))) := by
  obtain ⟨s1, e1, hc1, hi1, t, ht1⟩ : ∃ s1,
      proto_radius_track_add env s client address buffer recv_time out.is_dup =
        (some s.tracks.length, false, s1) ∧
      s1.clients = s.clients ∧ s1.inst = s.inst ∧ ∃ t, s1.tracks = s.tracks ++ [t] :=
    ⟨_, track_add_of_empty_table env s client address buffer recv_time out.is_dup htab,
      rfl, rfl, _, rfl⟩
  have hcl : s1.client client = s.client client := client_congr hc1 client
  have hl1 : s1.live_client client := (live_client_congr hc1 client).mpr hl
  constructor
  · intro hfull
    unfold mod_read_have_client
    simp only [huc, Option.isSome_none, Bool.false_eq_true, false_or, not_false_eq_true,
      if_true, e1, hcl, hp, Option.isNone_none, true_and, hi1]
    rw [if_pos hfull]
    exact ⟨rfl, rfl, hc1, hi1, t, ht1⟩
  · intro hfree
    unfold mod_read_have_client
    simp only [huc, Option.isSome_none, Bool.false_eq_true, false_or, not_false_eq_true,
      if_true, e1, hcl, hp, Option.isNone_none, true_and, hi1]
    rw [if_neg hfree]
    rcases hr : proto_radius_pending_alloc env s1 client buffer packet_len s.tracks.length
      out.priority with ⟨_ | p, s2⟩
    · rcases pending_alloc_spec env s1 client buffer packet_len s.tracks.length out.priority
        hl1 (by rw [hcl]; exact hconn) with ⟨-, k2, k3⟩ | ⟨q, heap, k1, -⟩
      · rw [hr] at k2 k3
        dsimp only at k2 k3 ⊢
        left
        rw [k2, hi1, k3, hcl]
        exact ⟨rfl, rfl⟩
      · rw [hr] at k1
        exact absurd k1 (by simp)
    · rcases pending_alloc_spec env s1 client buffer packet_len s.tracks.length out.priority
        hl1 (by rw [hcl]; exact hconn) with ⟨k1, -⟩ | ⟨q, heap, -, k2, k3, k4, k5⟩
      · rw [hr] at k1
        exact absurd k1 (by simp)
      · rw [hr] at k3 k4 k5
        rw [hcl] at k2
        rw [hi1] at k3
        dsimp only at k3 k4 k5 ⊢
        right
        split_ifs
        · exact ⟨k3, heap, q, k2, k4⟩
        · refine ⟨k3, heap, q, k2, ?_⟩
          rw [client_set_client, if_pos ⟨rfl, (live_client_congr (set_track_clients _ _ _) _).mpr k5⟩]
          rw [client_congr (set_track_clients _ _ _)]
          exact k4
        · refine ⟨k3, heap, q, k2, ?_⟩
          rw [client_congr (set_track_clients _ _ _)]
          exact k4

/-- Without a heap of clients that wait, the loop at `redo` of `mod_read` on the
master socket leaves the variable `track` as it is. -/
theorem mod_read_redo_track_none (fuel : Nat) (s : State) (track : Option Nat)
    (hnone : s.inst.pending_clients = none) :
    mod_read_redo_track none (fuel + 1) s track = track := by
  simp [mod_read_redo_track, hnone]

/-- C20: on the master socket with a limit on queued packets, when no queued
packet waits to be read again and the transport delivers a packet of a known
pending client whose tracking table is empty, `mod_read` returns; if the counter
of queued packets has reached the limit the packet is dropped: `mod_read`
returns 0 and hands on no tracking entry, no client changes (so no heap of
queued packets does), the counter keeps its value and every tracking entry that
existed keeps its content; and if the counter does not exceed the limit before
the call it does not exceed it afterwards, the heap of the client growing
exactly by what the counter grows. -/
theorem mod_read_pending_limit (env : Env) (s : State) (rd : app_io_read_t)
    (priority fuel client : Nat)
    (hnone : s.inst.pending_clients = none)
    (hlen : 0 < rd.packet_len)
    (hcode : s.inst.process_by_code (rd.buffer.getD 0 0) = true)
    (hfind : env.fr_trie_lookup s.inst.trie rd.address.src_ipaddr = some client)
    (hl : s.live_client client)
    (hp : (s.client client).state = .PR_CLIENT_PENDING)
    (huc : (s.client client).use_connected = false)
    (hconn : (s.client client).connected = false)
    (htab : (s.client client).table = some [])
    (hmax : s.inst.max_pending_packets ≠ 0)
    (h32 : s.inst.max_pending_packets < 2 ^ 32) :
    ∃ out s', mod_read env (fuel + 1) s none rd priority = some (out, s') ∧
      (s.inst.num_pending_packets ≥ s.inst.max_pending_packets →
        out.ret = 0 ∧ out.packet_ctx = none ∧ s'.clients = s.clients ∧
        s'.inst.num_pending_packets = s.inst.num_pending_packets ∧
        ∀ i, i < s.tracks.length → s'.tracks[i]? = s.tracks[i]?) ∧
      (s.inst.num_pending_packets ≤ s.inst.max_pending_packets →
        s'.inst.num_pending_packets ≤ s.inst.max_pending_packets ∧
        ((s'.client client).pending.getD []).length + s.inst.num_pending_packets =
          ((s.client client).pending.getD []).length + s'.inst.num_pending_packets) := by
  have hredo : mod_read_redo none (fuel + 1) s = (.no_pending, s) := by
    simp [mod_read_redo, hnone]
  have hnak : (s.client client).state ≠ .PR_CLIENT_NAK := by rw [hp]; simp
  have e : mod_read env (fuel + 1) s none rd priority =
      some (mod_read_have_client env s none client none rd.address rd.buffer
        rd.packet_len.toNat rd.recv_time
        { ret := 0, packet_ctx := none, priority := s.inst.priorities (rd.buffer.getD 0 0),
          is_dup := rd.is_dup, buffer := rd.buffer }) := by
    unfold mod_read
    simp only [hredo, mod_read_redo_track_none fuel s none hnone, not_le.mpr hlen, if_false,
      hcode, not_true_eq_false, hfind, hnak]
  obtain ⟨hA, hB⟩ := have_client_pending env s client rd.address rd.buffer rd.packet_len.toNat
    rd.recv_time
    { ret := 0, packet_ctx := none, priority := s.inst.priorities (rd.buffer.getD 0 0),
      is_dup := rd.is_dup, buffer := rd.buffer } hl hp huc hconn htab
  rcases hr : mod_read_have_client env s none client none rd.address rd.buffer
    rd.packet_len.toNat rd.recv_time
    { ret := 0, packet_ctx := none, priority := s.inst.priorities (rd.buffer.getD 0 0),
      is_dup := rd.is_dup, buffer := rd.buffer } with ⟨out, s'⟩
  rw [hr] at e hA hB
  dsimp only at hA hB
  refine ⟨out, s', e, ?_, ?_⟩
  · intro hge
    obtain ⟨k1, k2, k3, k4, t, k5⟩ := hA ⟨hmax, hge⟩
    refine ⟨k1, k2, k3, by rw [k4], fun i hi => ?_⟩
    rw [k5, List.getElem?_append_left hi]
  · intro hle
    by_cases hfull : s.inst.max_pending_packets ≠ 0 ∧
        s.inst.num_pending_packets ≥ s.inst.max_pending_packets
    · obtain ⟨-, -, k3, k4, -⟩ := hA hfull
      rw [k4, client_congr k3]
      exact ⟨hle, rfl⟩
    · have hlt : s.inst.num_pending_packets < s.inst.max_pending_packets := by
        by_contra hc
        exact hfull ⟨hmax, Nat.le_of_not_lt hc⟩
      rcases hB hfull with ⟨k1, k2⟩ | ⟨k1, heap, p, k2, k3⟩
      · rw [k1, k2]
        exact ⟨hle, rfl⟩
      · rw [k1, k2, k3, u32_inc_of_lt _ _ hlt h32]
        refine ⟨hlt, ?_⟩
        simp only [Option.getD_some, List.length_append, List.length_singleton]
        omega

/-- C20, witness: the sample listener lets one packet be queued and one is; the
next packet of the pending host is dropped. -/
theorem mod_read_pending_limit_witness :
    ∃ out s', mod_read sample_env 1 sample_full none sample_read 0 = some (out, s') ∧
      out.ret = 0 ∧ s'.clients = sample_full.clients :=
  let ⟨out, s', h, hA, _⟩ := mod_read_pending_limit sample_env sample_full sample_read 0 0 0
    (by decide) (by decide) (by decide) (by decide) (by decide) (by decide) (by decide)
    (by decide) (by decide) (by decide) (by decide)
  ⟨out, s', h, (hA (by decide)).1, (hA (by decide)).2.2.1⟩

/-! ## The quota of connections -/

/-- A client in one of the three states that may open connections gets a new
connection when the loader, the socket, the hash table and the scheduler all
succeed: the connection is stored at the end of the list of connections. -/
theorem connection_alloc_ok (env : Env) (s : State) (client : Nat)
    (address : proto_radius_address_t)
    (h1 : ¬ env.dl_instance < 0) (h2 : ¬ env.connection_open < 0)
    (h3 : ¬ env.fr_hash_table_insert < 0) (h4 : env.fr_schedule_socket_add = true)
    (hst : (s.client client).state = .PR_CLIENT_STATIC ∨
      (s.client client).state = .PR_CLIENT_DYNAMIC ∨
      (s.client client).state = .PR_CLIENT_PENDING) :
    ∃ s1, proto_radius_connection_alloc env s client address none =
        (some s.connections.length, s1) ∧
      s1.connections = s.connections ++
        [some { address := address, client := s.clients.length, parent := client,
                dead := false, paused := false, nak := false }] ∧
      s1.inst = s.inst ∧ s1.events = s.events ∧ s1.tracks = s.tracks := by
  unfold proto_radius_connection_alloc
  rcases hst with hst | hst | hst <;>
    simp [hst, h1, h2, h3, h4, State.set_client]

/-- On the master socket, a packet of a known client that uses connected
sockets and is not a NAK goes to the end of `mod_read` for connected sockets,
when no queued packet waits to be read again. -/
theorem mod_read_reaches_connected (env : Env) (s : State) (rd : app_io_read_t)
    (priority fuel client : Nat)
    (hnone : s.inst.pending_clients = none)
    (hlen : 0 < rd.packet_len)
    (hcode : s.inst.process_by_code (rd.buffer.getD 0 0) = true)
    (hfind : env.fr_trie_lookup s.inst.trie rd.address.src_ipaddr = some client)
    (hnak : (s.client client).state ≠ .PR_CLIENT_NAK)
    (huc : (s.client client).use_connected = true) :
    mod_read env (fuel + 1) s none rd priority =
      some (mod_read_connected env s client rd.address rd.buffer rd.packet_len.toNat rd.recv_time
        { ret := 0, packet_ctx := none, priority := s.inst.priorities (rd.buffer.getD 0 0),
          is_dup := rd.is_dup, buffer := rd.buffer }) := by
  have hredo : mod_read_redo none (fuel + 1) s = (.no_pending, s) := by
    simp [mod_read_redo, hnone]
  unfold mod_read
  simp only [hredo, mod_read_redo_track_none fuel s none hnone, not_le.mpr hlen, if_false,
    hcode, not_true_eq_false, hfind, hnak]
  unfold mod_read_have_client
  simp only [Option.isSome_none, Bool.false_eq_true, huc, not_true_eq_false, or_self, if_false]

/-- What the end of `mod_read` for connected sockets does with a packet whose
address tuple has a connection: no connection is created, and the packet is
injected into the connection unless the client of the connection is a NAK. -/
theorem mod_read_connected_found (env : Env) (s : State) (client : Nat)
    (address : proto_radius_address_t) (buffer : List Nat) (packet_len recv_time : Nat)
    (out : mod_read_t) (conn : Nat)
    (hudp : s.inst.ipproto = IPPROTO_UDP)
    (hfound : ((s.client client).ht.getD []).find? (fun i =>
      connection_cmp env { (default : proto_radius_connection_t) with address := address }
        (s.connection i) == 0) = some conn) :
    mod_read_connected env s client address buffer packet_len recv_time out =
      ({ out with ret := 0 },
        if (s.client (s.connection conn).client).state = .PR_CLIENT_NAK then s
        else s.emit (.fr_network_listen_inject conn (buffer.take packet_len) recv_time)) := by
  unfold mod_read_connected
  simp only [hudp, if_true, hfound]
  by_cases hn : (s.client (s.connection conn).client).state = .PR_CLIENT_NAK
  · simp only [hn, decide_True, if_true]
  · simp only [hn, decide_False, Bool.false_eq_true, if_false]

/-- What the end of `mod_read` for connected sockets does with a packet whose
address tuple has no connection, in terms of the limit check. -/
theorem mod_read_connected_missing (env : Env) (s : State) (client : Nat)
    (address : proto_radius_address_t) (buffer : List Nat) (packet_len recv_time : Nat)
    (out : mod_read_t)
    (hudp : s.inst.ipproto = IPPROTO_UDP)
    (hfound : ((s.client client).ht.getD []).find? (fun i =>
      connection_cmp env { (default : proto_radius_connection_t) with address := address }
        (s.connection i) == 0) = none)
    (limit : Bool × State)
    (hlimit : limit =
      if s.inst.max_connections ≠ 0 ∧ s.inst.num_connections ≥ s.inst.max_connections then
        (decide (((s.inst.trie.map Prod.snd).foldl (count_connections s) 0 + 1) % 2 ^ 32 ≥
          s.inst.max_connections),
          s.set_inst { s.inst with
            num_connections := (s.inst.trie.map Prod.snd).foldl (count_connections s) 0 })
      else (false, s)) :
    mod_read_connected env s client address buffer packet_len recv_time out =
      if limit.1 then ({ out with ret := 0 }, limit.2)
      else
        match proto_radius_connection_alloc env limit.2 client address none with
        | (none, s) => ({ out with ret := 0 }, s)
        | (some conn, s) =>
          ({ out with ret := 0 },
            (s.set_inst { s.inst with num_connections := u32_inc s.inst.num_connections }).emit
              (.fr_network_listen_inject conn (buffer.take packet_len) recv_time)) := by
  subst hlimit
  unfold mod_read_connected
  simp only [hudp, if_true, hfound, Bool.false_eq_true, if_false]
  rfl

/-- The creation of a connection at the end of `mod_read`: the packet is not
returned, and if the connection can be allocated it is stored at the end of the
list of connections, the counter of connections is incremented and the packet
is injected into the new connection. -/
theorem mod_read_connected_create (env : Env) (s : State) (client : Nat)
    (address : proto_radius_address_t) (buffer : List Nat) (packet_len recv_time : Nat)
    (out : mod_read_t) (r : mod_read_t × State)
    (hr : r = match proto_radius_connection_alloc env s client address none with
      | (none, s) => ({ out with ret := 0 }, s)
      | (some conn, s) =>
        ({ out with ret := 0 },
          (s.set_inst { s.inst with num_connections := u32_inc s.inst.num_connections }).emit
            (.fr_network_listen_inject conn (buffer.take packet_len) recv_time))) :
    r.1.ret = 0 ∧
    (¬ env.dl_instance < 0 → ¬ env.connection_open < 0 → ¬ env.fr_hash_table_insert < 0 →
      env.fr_schedule_socket_add = true →
      ((s.client client).state = .PR_CLIENT_STATIC ∨
        (s.client client).state = .PR_CLIENT_DYNAMIC ∨
        (s.client client).state = .PR_CLIENT_PENDING) →
      r.2.connections = s.connections ++
        [some { address := address, client := s.clients.length, parent := client,
                dead := false, paused := false, nak := false }] ∧
      r.2.inst.num_connections = u32_inc s.inst.num_connections ∧
      r.2.events = s.events ++
        [.fr_network_listen_inject s.connections.length (buffer.take packet_len) recv_time]) := by
  constructor
  · subst hr
    split <;> rfl
  · intro h1 h2 h3 h4 hst
    obtain ⟨s1, ha, k1, k2, k3, -⟩ := connection_alloc_ok env s client address h1 h2 h3 h4 hst
    rw [ha] at hr
    subst hr
    dsimp only
    rw [emit_events, set_inst_events, k3]
    refine ⟨k1, ?_, rfl⟩
    rw [k2]
    rfl

/-- C23 (the code departs from it): on the master socket with a limit on
connections, a packet of a known client that uses connected sockets is never
returned.  If its address tuple has a connection, no connection is created and
the packet is injected into that connection (nothing happens when the client
of the connection is a NAK).  If the tuple has no connection, a connection is
created (when the loader, the socket, the hash table and the scheduler succeed)
while the counter `num_connections` is below `max_connections`, and the
counter is incremented, so that the counter can reach `max_connections`.  Once
the counter has reached the limit, the entries of the connection tables of the
clients in the trie are counted anew and the counter is set to that count: a
connection is created when the count plus one is below `max_connections`, but
the packet is dropped without a new connection when the count plus one has
reached `max_connections`, which is the case already for a count of
`max_connections - 1`, one connection below the limit. -/
theorem mod_read_connection_quota (env : Env) (s : State) (rd : app_io_read_t)
    (priority fuel client : Nat)
    (hnone : s.inst.pending_clients = none)
    (hlen : 0 < rd.packet_len)
    (hcode : s.inst.process_by_code (rd.buffer.getD 0 0) = true)
    (hfind : env.fr_trie_lookup s.inst.trie rd.address.src_ipaddr = some client)
    (hnak : (s.client client).state ≠ .PR_CLIENT_NAK)
    (huc : (s.client client).use_connected = true)
    (hudp : s.inst.ipproto = IPPROTO_UDP)
    (hmax : s.inst.max_connections ≠ 0)
    (h32 : s.inst.max_connections < 2 ^ 32) :
    ∃ out s', mod_read env (fuel + 1) s none rd priority = some (out, s') ∧ out.ret = 0 ∧
      (∀ conn, ((s.client client).ht.getD []).find? (fun i =>
          connection_cmp env { (default : proto_radius_connection_t) with address := rd.address }
            (s.connection i) == 0) = some conn →
        s'.connections = s.connections ∧ s'.clients = s.clients ∧ s'.inst = s.inst ∧
        s'.events =
          if (s.client (s.connection conn).client).state = .PR_CLIENT_NAK then s.events
          else s.events ++
            [.fr_network_listen_inject conn (rd.buffer.take rd.packet_len.toNat) rd.recv_time]) ∧
      (((s.client client).ht.getD []).find? (fun i =>
          connection_cmp env { (default : proto_radius_connection_t) with address := rd.address }
            (s.connection i) == 0) = none →
        (s.inst.max_connections ≤ s.inst.num_connections →
          s.inst.max_connections ≤
            (s.inst.trie.map Prod.snd).foldl (count_connections s) 0 + 1 →
          (s.inst.trie.map Prod.snd).foldl (count_connections s) 0 + 1 < 2 ^ 32 →
          s'.connections = s.connections ∧ s'.clients = s.clients ∧ s'.events = s.events ∧
          s'.inst.num_connections = (s.inst.trie.map Prod.snd).foldl (count_connections s) 0) ∧
        (¬ env.dl_instance < 0 → ¬ env.connection_open < 0 → ¬ env.fr_hash_table_insert < 0 →
          env.fr_schedule_socket_add = true →
          ((s.client client).state = .PR_CLIENT_STATIC ∨
            (s.client client).state = .PR_CLIENT_DYNAMIC ∨
            (s.client client).state = .PR_CLIENT_PENDING) →
          (s.inst.num_connections < s.inst.max_connections →
            s'.connections = s.connections ++
              [some { address := rd.address, client := s.clients.length, parent := client,
                      dead := false, paused := false, nak := false }] ∧
            s'.inst.num_connections = s.inst.num_connections + 1 ∧
            s'.events = s.events ++
              [.fr_network_listen_inject s.connections.length
                (rd.buffer.take rd.packet_len.toNat) rd.recv_time]) ∧
          (s.inst.max_connections ≤ s.inst.num_connections →
            (s.inst.trie.map Prod.snd).foldl (count_connections s) 0 + 1 <
              s.inst.max_connections →
            s'.connections = s.connections ++
              [some { address := rd.address, client := s.clients.length, parent := client,
                      dead := false, paused := false, nak := false }] ∧
            s'.inst.num_connections =
              (s.inst.trie.map Prod.snd).foldl (count_connections s) 0 + 1 ∧
            s'.events = s.events ++
              [.fr_network_listen_inject s.connections.length
                (rd.buffer.take rd.packet_len.toNat) rd.recv_time]))) := by
  have e := mod_read_reaches_connected env s rd priority fuel client hnone hlen hcode hfind hnak huc
  rcases hf : ((s.client client).ht.getD []).find? (fun i =>
      connection_cmp env { (default : proto_radius_connection_t) with address := rd.address }
        (s.connection i) == 0) with _ | conn
  · rw [mod_read_connected_missing env s client rd.address rd.buffer rd.packet_len.toNat
      rd.recv_time _ hudp hf _ rfl] at e
    by_cases hc : s.inst.max_connections ≤ s.inst.num_connections
    · rw [if_pos (show s.inst.max_connections ≠ 0 ∧
        s.inst.num_connections ≥ s.inst.max_connections from ⟨hmax, hc⟩)] at e
      dsimp only at e
      by_cases hr : ((s.inst.trie.map Prod.snd).foldl (count_connections s) 0 + 1) % 2 ^ 32 ≥
          s.inst.max_connections
      · rw [decide_eq_true hr, if_pos rfl] at e
        refine ⟨_, _, e, rfl, fun conn h => absurd h (by simp), fun _ => ⟨?_, ?_⟩⟩
        · intro _ _ _
          exact ⟨rfl, rfl, rfl, rfl⟩
        · intro _ _ _ _ _
          refine ⟨fun hlt => absurd hc (not_le.mpr hlt), fun _ hlt => ?_⟩
          rw [Nat.mod_eq_of_lt (lt_trans hlt h32)] at hr
          exact absurd hr (not_le.mpr hlt)
      · rw [decide_eq_false hr, if_neg (by simp)] at e
        obtain ⟨c1, c2⟩ := mod_read_connected_create env
          (s.set_inst { s.inst with
            num_connections := (s.inst.trie.map Prod.snd).foldl (count_connections s) 0 })
          client rd.address rd.buffer rd.packet_len.toNat rd.recv_time
          { ret := 0, packet_ctx := none, priority := s.inst.priorities (rd.buffer.getD 0 0),
            is_dup := rd.is_dup, buffer := rd.buffer } _ rfl
        refine ⟨_, _, e, c1, fun conn h => absurd h (by simp), fun _ => ⟨?_, ?_⟩⟩
        · intro _ hge hsmall
          rw [Nat.mod_eq_of_lt hsmall] at hr
          exact absurd hge hr
        · intro h1 h2 h3 h4 hst
          refine ⟨fun hlt => absurd hc (not_le.mpr hlt), fun _ hlt => ?_⟩
          obtain ⟨k1, k2, k3⟩ := c2 h1 h2 h3 h4 hst
          refine ⟨k1, ?_, k3⟩
          rw [k2]
          exact u32_inc_of_lt _ _ (Nat.lt_of_succ_lt hlt) h32
    · rw [if_neg (show ¬ (s.inst.max_connections ≠ 0 ∧
        s.inst.num_connections ≥ s.inst.max_connections) from fun h => hc h.2)] at e
      dsimp only at e
      rw [if_neg (by simp)] at e
      obtain ⟨c1, c2⟩ := mod_read_connected_create env s client rd.address rd.buffer
        rd.packet_len.toNat rd.recv_time
        { ret := 0, packet_ctx := none, priority := s.inst.priorities (rd.buffer.getD 0 0),
          is_dup := rd.is_dup, buffer := rd.buffer } _ rfl
      refine ⟨_, _, e, c1, fun conn h => absurd h (by simp), fun _ => ⟨?_, ?_⟩⟩
      · intro hge
        exact absurd hge hc
      · intro h1 h2 h3 h4 hst
        refine ⟨fun hlt => ?_, fun hge => absurd hge hc⟩
        obtain ⟨k1, k2, k3⟩ := c2 h1 h2 h3 h4 hst
        refine ⟨k1, ?_, k3⟩
        rw [k2]
        exact u32_inc_of_lt _ _ hlt h32
  · rw [mod_read_connected_found env s client rd.address rd.buffer rd.packet_len.toNat
      rd.recv_time _ conn hudp hf] at e
    refine ⟨_, _, e, rfl, ?_, fun h => absurd h (by simp)⟩
    intro conn' hc
    simp only [Option.some.injEq] at hc
    subst hc
    by_cases hn : (s.client (s.connection conn).client).state = .PR_CLIENT_NAK
    · simp only [hn, if_true, and_self]
    · simp only [hn, if_false, emit_events]
      exact ⟨rfl, rfl, rfl, trivial⟩

/-- C23, witness: the master socket of the sample allows four connections; four
were opened, which took the counter to 4, and one was closed, so that three are
open.  The request of the host from a new source port is dropped without a
connection, and the counter is set to 3; the same request read once more gets a
connection.  On the socket with a limit of six connections the count of three
entries resets the counter, and the request gets the fourth connection. -/
theorem mod_read_connection_quota_witness :
    sample_master.open_connections = 3 ∧ sample_master.inst.max_connections = 4 ∧
    sample_master.inst.num_connections = 4 ∧
    (∃ out s', mod_read sample_env 1 sample_master none (sample_read_port 50004) 0 =
        some (out, s') ∧ out.ret = 0 ∧
      s'.connections = sample_master.connections ∧ s'.events = sample_master.events ∧
      s'.inst.num_connections = 3) ∧
    ((mod_read sample_env 1 sample_master none (sample_read_port 50004) 0).bind
      (fun r => mod_read sample_env 1 r.2 none (sample_read_port 50004) 0)).map
      (fun r => (r.1.ret, r.2.connections, r.2.inst.num_connections)) =
      some (0, sample_master.connections ++ [some (sample_connection 4)], 4) ∧
    (∃ out s', mod_read sample_env 1 sample_master_wide none (sample_read_port 50004) 0 =
        some (out, s') ∧ out.ret = 0 ∧
      s'.connections = sample_master_wide.connections ++ [some (sample_connection 4)] ∧
      s'.inst.num_connections = 4) :=
  ⟨by decide, by decide, by decide,
    (let ⟨out, s', h, h0, _, hB⟩ := mod_read_connection_quota sample_env sample_master
      (sample_read_port 50004) 0 0 0 (by decide) (by decide) (by decide) (by decide) (by decide)
      (by decide) (by decide) (by decide) (by decide)
    ⟨out, s', h, h0,
      ((hB (by decide)).1 (by decide) (by decide) (by decide)).1,
      ((hB (by decide)).1 (by decide) (by decide) (by decide)).2.2.1,
      ((hB (by decide)).1 (by decide) (by decide) (by decide)).2.2.2⟩),
    by decide,
    (let ⟨out, s', h, h0, _, hB⟩ := mod_read_connection_quota sample_env sample_master_wide
      (sample_read_port 50004) 0 0 0 (by decide) (by decide) (by decide) (by decide) (by decide)
      (by decide) (by decide) (by decide) (by decide)
    ⟨out, s', h, h0,
      (((hB (by decide)).2 (by decide) (by decide) (by decide) (by decide) (by decide)).2
        (by decide) (by decide)).1,
      (((hB (by decide)).2 (by decide) (by decide) (by decide) (by decide) (by decide)).2
        (by decide) (by decide)).2.1⟩)⟩

/-! ## The idle timeout of a client -/

/-- C26: when the timer of a client in the state Dynamic or Connected fires,
the client is kept and `ready_to_delete` is cleared if it has live or queued
packets; without packets and without `ready_to_delete` the flag is set and the
timer is armed again for the idle timeout (unless the event list refuses the
timer), the client staying as it is otherwise; and only without packets and
with `ready_to_delete` set the client is deleted: a client of the trie is
freed and taken from the trie, the connection of a connected client is marked
dead and the network side is told to read from it. -/
theorem client_expiry_timer_idle (env : Env) (s : State) (client : Nat)
    (hl : s.live_client client)
    (hst : (s.client client).state = .PR_CLIENT_DYNAMIC ∨
      (s.client client).state = .PR_CLIENT_CONNECTED) :
    ((0 : Int) < (s.client client).packets +
        ((((s.client client).pending.map List.length).getD 0 : Nat) : Int) →
      (client_expiry_timer env s true client).live_client client ∧
      (client_expiry_timer env s true client).client client =
        { s.client client with ready_to_delete := false } ∧
      (client_expiry_timer env s true client).inst = s.inst ∧
      (client_expiry_timer env s true client).connections = s.connections ∧
      (client_expiry_timer env s true client).events = s.events) ∧
    (¬ (0 : Int) < (s.client client).packets +
        ((((s.client client).pending.map List.length).getD 0 : Nat) : Int) →
      (s.client client).ready_to_delete = false →
      (client_expiry_timer env s true client).live_client client ∧
      (client_expiry_timer env s true client).client client =
        { s.client client with
          ready_to_delete := true
          ev := if env.fr_event_timer_insert < 0 then (s.client client).ev
            else some .idle_timeout } ∧
      (client_expiry_timer env s true client).inst = s.inst ∧
      (client_expiry_timer env s true client).connections = s.connections ∧
      (client_expiry_timer env s true client).events = s.events) ∧
    (¬ (0 : Int) < (s.client client).packets +
        ((((s.client client).pending.map List.length).getD 0 : Nat) : Int) →
      (s.client client).ready_to_delete = true →
      ((s.client client).connection = none →
        ¬ (client_expiry_timer env s true client).live_client client ∧
        (client_expiry_timer env s true client).inst.trie =
          s.inst.trie.filter (fun e => e.1 ≠ (s.client client).src_ipaddr) ∧
        (client_expiry_timer env s true client).inst.num_clients = u32_dec s.inst.num_clients) ∧
      (∀ connection, (s.client client).connection = some connection →
        (client_expiry_timer env s true client).events =
          s.events ++ [.fr_network_listen_read (some connection)] ∧
        ((s.connections[connection]?.join).isSome →
          ((client_expiry_timer env s true client).connection connection).dead = true))) := by
  have hnak : (s.client client).state ≠ .PR_CLIENT_NAK := by
    rcases hst with h | h <;> rw [h] <;> simp
  unfold client_expiry_timer
  simp only [not_true_eq_false, if_false, hnak, hst, if_true, gt_iff_lt]
  refine ⟨fun hp => ?_, fun hp hr => ?_, fun hp hr => ?_⟩
  · rw [if_pos hp]
    refine ⟨(live_client_set_client _ _ _ _).mpr hl, ?_, rfl, rfl, rfl⟩
    rw [client_set_client, if_pos ⟨rfl, hl⟩]
  · rw [if_neg hp]
    unfold idle_timeout
    rw [if_neg (by rw [hr]; simp)]
    have hl2 : (s.set_client client
        { s.client client with ready_to_delete := true }).live_client client :=
      (live_client_set_client _ _ _ _).mpr hl
    obtain ⟨k1, k2, k3, k4, -⟩ := reset_timer_spec env _ client .idle_timeout hl2
    refine ⟨k2, ?_, k3, ?_, k4⟩
    · rw [k1, client_set_client, if_pos ⟨rfl, hl⟩]
    · unfold reset_timer
      split_ifs <;> rfl
  · rw [if_neg hp]
    unfold idle_timeout
    rw [if_pos hr]
    unfold delete_client
    refine ⟨fun hc => ?_, fun connection hc => ?_⟩
    · simp only [hc]
      refine ⟨free_client_not_live _ _, ?_, ?_⟩
      · rw [free_client_inst, set_inst_inst]
      · rw [free_client_inst, set_inst_inst]
    · simp only [hc]
      refine ⟨rfl, fun hlive => ?_⟩
      unfold State.emit State.connection State.set_connection
      simp only [set_client_connections, getElem?_set_guarded, hlive, and_self, if_true,
        Option.getD_some]

/-- C26, witness: the dynamic client of the sample has no packets when its timer
fires: the first time it is marked as ready to delete and the timer is armed
for the idle timeout, the second time it is deleted and taken from the trie. -/
theorem client_expiry_timer_idle_witness :
    (client_expiry_timer sample_env sample_idle true 0).live_client 0 ∧
    (client_expiry_timer sample_env sample_idle true 0).client 0 =
      { sample_idle.client 0 with ready_to_delete := true, ev := some .idle_timeout } ∧
    ¬ (client_expiry_timer sample_env (client_expiry_timer sample_env sample_idle true 0) true
      0).live_client 0 ∧
    (client_expiry_timer sample_env (client_expiry_timer sample_env sample_idle true 0) true
      0).inst.trie = [] :=
  ⟨((client_expiry_timer_idle sample_env sample_idle 0 (by decide) (by decide)).2.1 (by decide)
      (by decide)).1,
    ((client_expiry_timer_idle sample_env sample_idle 0 (by decide) (by decide)).2.1 (by decide)
      (by decide)).2.1,
    (((client_expiry_timer_idle sample_env (client_expiry_timer sample_env sample_idle true 0) 0
      (by decide) (by decide)).2.2 (by decide) (by decide)).1 (by decide)).1,
    by decide⟩

/-! ## The counter of the queued packets -/

theorem sum_range_update (f g : Nat → Nat) (n i : Nat) (hi : i < n)
    (h : ∀ j, j ≠ i → f j = g j) :
    ((List.range n).map f).sum + g i = ((List.range n).map g).sum + f i := by
  induction n with
  | zero => exact absurd hi (Nat.not_lt_zero _)
  | succ n ih =>
    rw [List.range_succ, List.map_append, List.map_append, List.sum_append, List.sum_append]
    simp only [List.map_cons, List.map_nil, List.sum_cons, List.sum_nil, add_zero]
    by_cases hn : i = n
    · subst hn
      have e : (List.range i).map f = (List.range i).map g := by
        apply List.map_congr_left
        intro j hj
        exact h j (Nat.ne_of_lt (List.mem_range.mp hj))
      rw [e]
      omega
    · have := ih (by omega)
      have hfg := h n (fun e => hn e.symm)
      omega

theorem sum_range_congr (f g : Nat → Nat) (n : Nat) (h : ∀ j, f j = g j) :
    ((List.range n).map f).sum = ((List.range n).map g).sum := by
  rw [List.map_congr_left (fun j _ => h j)]

/-- The count of the queued packets depends on the heaps and the `connected`
flags of the clients only. -/
theorem pending_packets_congr (s s' : State) (hlen : s'.clients.length = s.clients.length)
    (h : ∀ j, (s'.client j).connected = (s.client j).connected ∧
      (s'.client j).pending = (s.client j).pending) :
    s'.pending_packets = s.pending_packets := by
  unfold State.pending_packets
  rw [hlen]
  apply sum_range_congr
  intro j
  unfold State.pending_of
  rw [(h j).1, (h j).2]

/-- The count of the queued packets when one client has changed. -/
theorem pending_packets_update (s s' : State) (i : Nat)
    (hlen : s'.clients.length = s.clients.length) (hl : s.live_client i)
    (h : ∀ j, j ≠ i → (s'.client j).connected = (s.client j).connected ∧
      (s'.client j).pending = (s.client j).pending) :
    s'.pending_packets + s.pending_of i = s.pending_packets + s'.pending_of i := by
  unfold State.pending_packets
  rw [hlen]
  have hi : i < s.clients.length := by
    unfold State.live_client at hl
    by_contra hn
    rw [List.getElem?_eq_none (Nat.le_of_not_lt hn)] at hl
    exact absurd hl (by simp)
  apply sum_range_update _ _ _ i hi
  intro j hj
  unfold State.pending_of
  rw [(h j hj).1, (h j hj).2]

theorem pending_free_length (env : Env) (s : State) (p : proto_radius_pending_packet_t) :
    (pending_free env s p).clients.length = s.clients.length := by
  unfold pending_free
  dsimp only
  split_ifs <;> simp [State.set_track, State.set_client, State.free_track]

/-- The destructor of a queued packet leaves the count of the queued packets
and the counter as they are. -/
theorem pending_free_pending_packets (env : Env) (s : State)
    (p : proto_radius_pending_packet_t) :
    (pending_free env s p).pending_packets = s.pending_packets ∧
    (pending_free env s p).inst = s.inst := by
  refine ⟨pending_packets_congr _ _ (pending_free_length env s p) (fun j => ?_),
    (pending_free_clients_inst env s p).1⟩
  obtain ⟨table, ht⟩ := pending_free_client env s p j
  rw [ht]
  exact ⟨rfl, rfl⟩

theorem foldl_pending_free_pending_packets (env : Env)
    (l : List proto_radius_pending_packet_t) (s : State) :
    (l.foldl (pending_free env) s).clients.length = s.clients.length ∧
    (∀ j, ((l.foldl (pending_free env) s).client j).connected = (s.client j).connected ∧
      ((l.foldl (pending_free env) s).client j).pending = (s.client j).pending) ∧
    (l.foldl (pending_free env) s).inst = s.inst := by
  induction l generalizing s with
  | nil => exact ⟨rfl, fun _ => ⟨rfl, rfl⟩, rfl⟩
  | cons p l ih =>
    simp only [List.foldl_cons]
    obtain ⟨h1, h2, h3⟩ := ih (pending_free env s p)
    refine ⟨h1.trans (pending_free_length env s p), fun j => ?_,
      h3.trans (pending_free_clients_inst env s p).1⟩
    obtain ⟨table, ht⟩ := pending_free_client env s p j
    rw [(h2 j).1, (h2 j).2, ht]
    exact ⟨rfl, rfl⟩

theorem set_client_length (s : State) (i : Nat) (c : proto_radius_client_t) :
    (s.set_client i c).clients.length = s.clients.length := by
  simp [State.set_client]

/-- The count of the queued packets after a store through a client pointer. -/
theorem pending_packets_set_client (s : State) (i : Nat) (c : proto_radius_client_t)
    (hl : s.live_client i) :
    (s.set_client i c).pending_packets + s.pending_of i =
      s.pending_packets + (if c.connected then 0 else (c.pending.getD []).length) := by
  have hu := pending_packets_update s (s.set_client i c) i (set_client_length s i c) hl
    (fun j hj => by
      rw [client_set_client, if_neg (fun h => hj h.1)]
      exact ⟨rfl, rfl⟩)
  have e : (s.set_client i c).pending_of i =
      (if c.connected then 0 else (c.pending.getD []).length) := by
    unfold State.pending_of
    rw [client_set_client, if_pos (show i = i ∧ s.live_client i from ⟨rfl, hl⟩)]
  rw [e] at hu
  exact hu

/-- Queueing a packet keeps the counter equal to the count of the queued
packets, for a client that is not connected. -/
theorem pending_alloc_counter (env : Env) (s : State) (client : Nat) (buffer : List Nat)
    (packet_len track priority : Nat)
    (hl : s.live_client client) (hconn : (s.client client).connected = false)
    (hI : s.inst.num_pending_packets = s.pending_packets)
    (hsmall : s.inst.num_pending_packets + 1 < 2 ^ 32) :
    (proto_radius_pending_alloc env s client buffer packet_len track
      priority).2.inst.num_pending_packets =
    (proto_radius_pending_alloc env s client buffer packet_len track
      priority).2.pending_packets := by
  have hfail : ∀ p, (pending_free env s p).inst.num_pending_packets =
      (pending_free env s p).pending_packets := by
    intro p
    rw [(pending_free_pending_packets env s p).1, (pending_free_pending_packets env s p).2]
    exact hI
  unfold proto_radius_pending_alloc
  dsimp only
  cases hp : (s.client client).pending with
  | none => exact hfail _
  | some heap =>
    dsimp only
    split_ifs with h1 h2
    · exact hfail _
    · rw [hconn] at h2
      exact absurd h2 (by simp)
    · rw [set_inst_inst]
      dsimp only
      rw [set_client_inst, pending_packets_congr _ _ (congrArg List.length (set_inst_clients _ _))
        (fun j => by rw [client_congr (set_inst_clients _ _)]; exact ⟨rfl, rfl⟩)]
      have hu := pending_packets_set_client s client
        { s.client client with pending := some (heap ++
          [{ buffer := buffer.take packet_len, buffer_len := packet_len, priority := priority,
             track := track, recv_time := (s.track track).timestamp }]) } hl
      dsimp only at hu
      have e1 : s.pending_of client = heap.length := by
        unfold State.pending_of
        rw [hconn, hp]
        rfl
      rw [e1] at hu
      rw [u32_inc_of_lt _ _ (Nat.lt_succ_self _) hsmall, hI]
      refine Nat.add_right_cancel (hu.trans ?_).symm
      rw [hconn]
      simp only [Bool.false_eq_true, if_false, Option.getD_some, List.length_append,
        List.length_singleton]
      omega

theorem u32_dec_of_pos (n : Nat) (h : 0 < n) (hn : n < 2 ^ 32) : u32_dec n = n - 1 := by
  unfold u32_dec
  have e : n + (2 ^ 32 - 1) = (n - 1) + 2 ^ 32 := by omega
  rw [e, Nat.add_mod_right]
  exact Nat.mod_eq_of_lt (by omega)

/-- Popping a packet keeps the counter equal to the count of the queued
packets, when the heap of the clients is in order and holds clients that are
not connected. -/
theorem pending_packet_pop_counter (s : State) (hwf : s.pending_wf)
    (hun : ∀ c ∈ s.inst.pending_clients.getD [], (s.client c).connected = false)
    (hI : s.inst.num_pending_packets = s.pending_packets)
    (h32 : s.inst.num_pending_packets < 2 ^ 32) :
    (pending_packet_pop s).2.inst.num_pending_packets =
      (pending_packet_pop s).2.pending_packets := by
  obtain ⟨hnd, hne⟩ := hwf
  cases hpop : fr_heap_pop (pending_client_cmp s) (s.inst.pending_clients.getD []) with
  | none =>
    unfold pending_packet_pop
    simp only [hpop, set_inst_inst]
    exact hI.trans (pending_packets_congr s _ rfl (fun j => ⟨rfl, rfl⟩)).symm
  | some x =>
    obtain ⟨client, rest⟩ := x
    have hperm := fr_heap_pop_perm _ _ _ _ hpop
    have hmem : client ∈ s.inst.pending_clients.getD [] :=
      hperm.symm.subset (List.mem_cons_self _ _)
    have hheap := hne client hmem
    have hconn := hun client hmem
    have hl := pending_of_ne_nil s client hheap
    obtain ⟨heap, hpend⟩ : ∃ heap, (s.client client).pending = some heap := by
      cases hp : (s.client client).pending with
      | none => rw [hp] at hheap; exact absurd rfl hheap
      | some heap => exact ⟨heap, rfl⟩
    rw [hpend, Option.getD_some] at hheap
    cases hpop2 : fr_heap_pop pending_packet_cmp heap with
    | none => exact absurd ((fr_heap_pop_eq_none _ _).mp hpop2) hheap
    | some y =>
      obtain ⟨p, left⟩ := y
      have hperm2 := fr_heap_pop_perm _ _ _ _ hpop2
      have hlen : heap.length = left.length + 1 := by
        rw [hperm2.length_eq]; rfl
      have e : pending_packet_pop s =
          (some p,
            (s.set_client client { s.client client with pending := some left }).set_inst
              { s.inst with
                pending_clients := some (if left.length > 0 then rest ++ [client] else rest)
                num_pending_packets := u32_dec s.inst.num_pending_packets }) := by
        unfold pending_packet_pop
        simp only [hpop, hpend, Option.getD_some, hpop2, Option.map_some', set_client_inst]
      rw [e]
      dsimp only
      rw [set_inst_inst, pending_packets_congr _ _ (congrArg List.length (set_inst_clients _ _))
        (fun j => by rw [client_congr (set_inst_clients _ _)]; exact ⟨rfl, rfl⟩)]
      dsimp only
      have hu := pending_packets_set_client s client
        { s.client client with pending := some left } hl
      dsimp only at hu
      have e1 : s.pending_of client = heap.length := by
        unfold State.pending_of
        rw [hconn, hpend]
        rfl
      have e2 : ∀ n : Nat, (if (s.client client).connected = true then 0 else n) = n :=
        fun n => by rw [hconn]; rfl
      rw [e1, e2] at hu
      simp only [Option.getD_some] at hu
      rw [u32_dec_of_pos _ (by omega) h32]
      omega

theorem reset_timer_pending_packets (env : Env) (s : State) (i : Nat) (d : delay_t) :
    (reset_timer env s i d).pending_packets = s.pending_packets ∧
    (reset_timer env s i d).inst = s.inst := by
  unfold reset_timer
  split_ifs
  · exact ⟨rfl, rfl⟩
  · refine ⟨pending_packets_congr _ _ (set_client_length _ _ _) (fun j => ?_), rfl⟩
    rw [client_set_client]
    split_ifs with h
    · rw [h.1]
      exact ⟨rfl, rfl⟩
    · exact ⟨rfl, rfl⟩

theorem client_expiry_timer_pending_packets (env : Env) (s : State) (i : Nat) :
    (client_expiry_timer env s false i).pending_packets = s.pending_packets ∧
    (client_expiry_timer env s false i).inst = s.inst := by
  rcases client_expiry_timer_false env s i with ⟨d, h, -⟩ | ⟨h, -⟩
  · rw [h]
    exact reset_timer_pending_packets env s i d
  · rw [h]
    exact ⟨rfl, rfl⟩

/-- The release of the heap of a client leaves the counter as it is and takes
the packets of the client from the count of the queued packets. -/
theorem talloc_free_pending_counter (env : Env) (s : State) (i : Nat)
    (h : (s.client i).table = none) (hl : s.live_client i) :
    (talloc_free_pending env s i).inst = s.inst ∧
    (talloc_free_pending env s i).pending_packets + s.pending_of i = s.pending_packets := by
  obtain ⟨f1, f2, f3⟩ := foldl_pending_free_pending_packets env ((s.client i).pending.getD []) s
  obtain ⟨-, g2, -, -⟩ := foldl_pending_free_client env ((s.client i).pending.getD []) s i h
  unfold talloc_free_pending
  dsimp only
  refine ⟨by rw [set_client_inst]; exact f3, ?_⟩
  have hu := pending_packets_set_client
    (((s.client i).pending.getD []).foldl (pending_free env) s) i
    { (((s.client i).pending.getD []).foldl (pending_free env) s).client i with pending := none }
    (g2.mpr hl)
  dsimp only at hu
  have e1 : (((s.client i).pending.getD []).foldl (pending_free env) s).pending_of i =
      s.pending_of i := by
    unfold State.pending_of
    rw [(f2 i).1, (f2 i).2]
  have e2 : (((s.client i).pending.getD []).foldl (pending_free env) s).pending_packets =
      s.pending_packets := pending_packets_congr _ _ f1 f2
  rw [e1, e2] at hu
  rw [hu]
  simp only [Option.getD_none, List.length_nil, ite_self, add_zero]

/-- The release of the heap of a client and the arming of its timer leave the
counter as it is and take the packets of the client from the count. -/
theorem nak_release_counter (env : Env) (s s1 : State) (i : Nat)
    (h1 : s1.inst = s.inst) (h2 : s1.pending_packets = s.pending_packets)
    (h3 : s1.pending_of i = s.pending_of i)
    (ht : (s1.client i).table = none) (hl : s1.live_client i) :
    (client_expiry_timer env (talloc_free_pending env s1 i) false i).inst.num_pending_packets =
      s.inst.num_pending_packets ∧
    (client_expiry_timer env (talloc_free_pending env s1 i) false i).pending_packets +
      s.pending_of i = s.pending_packets := by
  obtain ⟨a1, a2⟩ := talloc_free_pending_counter env s1 i ht hl
  obtain ⟨c1, c2⟩ := client_expiry_timer_pending_packets env (talloc_free_pending env s1 i) i
  rw [c1, c2, a1, h1]
  refine ⟨rfl, ?_⟩
  rw [h3, h2] at a2
  exact a2

/-- What the rejection of a pending client on the master socket does to the
counter of queued packets: the counter keeps its value, and the packets of the
client are gone from the count of the queued packets. -/
theorem mod_write_nak_counter (env : Env) (s : State) (track request_time : Nat)
    (buffer : List Nat) (radclient : RADCLIENT)
    (hl : s.live_client (s.track track).client)
    (hp : (s.client (s.track track).client).state = .PR_CLIENT_PENDING)
    (hb : buffer.getD 0 0 ≠ 1) :
    (mod_write env s none track request_time buffer 1 radclient).2.inst.num_pending_packets =
      s.inst.num_pending_packets ∧
    (mod_write env s none track request_time buffer 1 radclient).2.pending_packets +
      s.pending_of (s.track track).client = s.pending_packets := by
  have e : mod_write env s none track request_time buffer 1 radclient =
      (1, client_expiry_timer env
        (talloc_free_pending env
          (s.set_client (s.track track).client
            { s.client (s.track track).client with state := .PR_CLIENT_NAK, table := none })
          (s.track track).client) false (s.track track).client) := by
    unfold mod_write
    simp only [hp, ne_eq, not_true_eq_false, if_false, hb, and_false, if_true]
    rfl
  rw [e]
  have hcl : (s.set_client (s.track track).client
      { s.client (s.track track).client with state := .PR_CLIENT_NAK, table := none }).client
      (s.track track).client =
      { s.client (s.track track).client with state := .PR_CLIENT_NAK, table := none } := by
    rw [client_set_client,
      if_pos (show (s.track track).client = (s.track track).client ∧
        s.live_client (s.track track).client from ⟨rfl, hl⟩)]
  have hpo : (s.set_client (s.track track).client
      { s.client (s.track track).client with state := .PR_CLIENT_NAK, table := none }).pending_of
      (s.track track).client = s.pending_of (s.track track).client := by
    unfold State.pending_of
    rw [hcl]
  have hs := pending_packets_set_client s (s.track track).client
    { s.client (s.track track).client with state := .PR_CLIENT_NAK, table := none } hl
  have hpp : (s.set_client (s.track track).client
      { s.client (s.track track).client with state := .PR_CLIENT_NAK, table := none
        }).pending_packets = s.pending_packets :=
    Nat.add_right_cancel hs
  exact nak_release_counter env s _ _ rfl hpp hpo (by rw [hcl])
    ((live_client_set_client _ _ _ _).mpr hl)

/-- C28: starting from a memory in which the counter `num_pending_packets`
equals the number of packets in the heaps of the clients that are not
connected, queueing a packet for such a client with `proto_radius_pending_alloc`
keeps the two equal, and so does `pending_packet_pop` when the heap of the
clients is in order and holds unconnected clients; but when `mod_write` turns a
pending client of the master socket into a NAK, the heap of the client is
released and the counter keeps its value, so that afterwards the counter
exceeds the number of queued packets by the number of packets the client had
queued. -/
theorem num_pending_packets_steps (env : Env) (s : State)
    (hI : s.inst.num_pending_packets = s.pending_packets)
    (h32 : s.inst.num_pending_packets + 1 < 2 ^ 32) :
    (∀ (client : Nat) (buffer : List Nat) (packet_len track priority : Nat),
      s.live_client client → (s.client client).connected = false →
      (proto_radius_pending_alloc env s client buffer packet_len track
        priority).2.inst.num_pending_packets =
      (proto_radius_pending_alloc env s client buffer packet_len track
        priority).2.pending_packets) ∧
    (s.pending_wf →
      (∀ c ∈ s.inst.pending_clients.getD [], (s.client c).connected = false) →
      (pending_packet_pop s).2.inst.num_pending_packets =
        (pending_packet_pop s).2.pending_packets) ∧
    (∀ (track request_time : Nat) (buffer : List Nat) (radclient : RADCLIENT),
      s.live_client (s.track track).client →
      (s.client (s.track track).client).state = .PR_CLIENT_PENDING →
      buffer.getD 0 0 ≠ 1 →
      (mod_write env s none track request_time buffer 1 radclient).2.inst.num_pending_packets =
        (mod_write env s none track request_time buffer 1 radclient).2.pending_packets +
          s.pending_of (s.track track).client) := by
  refine ⟨?_, ?_, ?_⟩
  · intro client buffer packet_len track priority hl hconn
    exact pending_alloc_counter env s client buffer packet_len track priority hl hconn hI h32
  · intro hwf hun
    exact pending_packet_pop_counter s hwf hun hI (Nat.lt_of_succ_lt h32)
  · intro track request_time buffer radclient hl hp hb
    obtain ⟨k1, k2⟩ := mod_write_nak_counter env s track request_time buffer radclient hl hp hb
    rw [k1, k2]
    exact hI

/-- C28, witness: the sample listener has queued one packet of the pending host
and counts one; the host is rejected with a reply of the one byte 0, and the
counter is still 1 while no packet is queued any more. -/
theorem num_pending_packets_steps_witness :
    sample_pending.inst.num_pending_packets = sample_pending.pending_packets ∧
    (mod_write sample_env sample_pending none 0 100 [0] 1
      sample_record).2.inst.num_pending_packets =
      (mod_write sample_env sample_pending none 0 100 [0] 1 sample_record).2.pending_packets
        + 1 ∧
    (mod_write sample_env sample_pending none 0 100 [0] 1 sample_record).2.pending_packets = 0 :=
  ⟨by decide,
    (num_pending_packets_steps sample_env sample_pending (by decide) (by decide)).2.2 0 100 [0]
      sample_record (by decide) (by decide) (by decide),
    by decide⟩

end Io

namespace Udp

/-! ## Retransmissions -/

theorem address_with_client (a : proto_radius_udp_address_t) (c : Nat)
    (h : a.client = some c) : { a with client := some c } = a := by
  cases a
  simp_all

/-- A packet of a known client that is read on a socket which does not hand
its packets to connected sockets reaches the tracking of the packet. -/
theorem mod_read_reaches_tracked (env : Env) (s s1 : State) (rv : udp_recv_t)
    (buffer_len priority : Nat) (r : read_packet_t) (c : Nat)
    (hpkt : mod_read_packet env s rv buffer_len = (r, s1))
    (hsize : 0 < r.data_size)
    (hmaster : ¬ (s1.inst.use_connected ∧ ¬ s1.inst.connected))
    (hclient : mod_read_client env s1 r.address = some c) :
    mod_read env s rv buffer_len priority =
      mod_read_tracked env s1
        { ret := 0, packet_ctx := none, priority := priority, is_dup := false,
          buffer := r.buffer }
        r.data_size.toNat r.packet_time { r.address with client := some c } r.track := by
  unfold mod_read
  rw [hpkt]
  simp only [not_le.mpr hsize, if_false, hmaster]
  unfold mod_read_client at hclient
  cases hac : r.address.client with
  | some c' =>
    rw [hac] at hclient
    simp only [Option.some.injEq] at hclient
    subst hclient
    simp only [hac, Option.isNone_some, Bool.false_eq_true, if_false, false_and]
    rw [address_with_client _ _ hac]
  | none =>
    rw [hac] at hclient
    simp only at hclient
    cases hg : env.client_find none r.address.src_ipaddr with
    | some c' =>
      rw [hg] at hclient
      simp only [Option.some.injEq] at hclient
      subst hclient
      simp only [hac, Option.isNone_none, if_true, hg, Option.isNone_some, Bool.false_eq_true,
        if_false, false_and]
    | none =>
      rw [hg] at hclient
      simp only at hclient
      by_cases hd : s1.inst.dynamic_clients_is_set = true
      · rw [if_pos hd] at hclient
        simp only [hac, Option.isNone_none, if_true, hg, hd, not_true_eq_false, and_false,
          hclient, Option.isNone_some, Bool.false_eq_true, if_false]
      · rw [if_neg hd] at hclient
        exact absurd hclient (by simp)

@[simp]
theorem track_emit (s : State) (e : event) (t : Nat) : (s.emit e).track t = s.track t := rfl

@[simp]
theorem track_set_stats (s : State) (st : fr_stats_t) (t : Nat) :
    (s.set_stats st).track t = s.track t := rfl

@[simp]
theorem track_set_inst (s : State) (inst : proto_radius_udp_t) (t : Nat) :
    (s.set_inst inst).track t = s.track t := rfl

@[simp]
theorem track_set_client (s : State) (i : Nat) (c : RADCLIENT) (t : Nat) :
    (s.set_client i c).track t = s.track t := rfl

@[simp]
theorem sent_set_stats (s : State) (st : fr_stats_t) : (s.set_stats st).sent = s.sent := rfl

@[simp]
theorem sent_set_inst (s : State) (inst : proto_radius_udp_t) :
    (s.set_inst inst).sent = s.sent := rfl

@[simp]
theorem sent_set_client (s : State) (i : Nat) (c : RADCLIENT) :
    (s.set_client i c).sent = s.sent := rfl

@[simp]
theorem sent_with_tracks (s : State) (tracks : List (Option fr_tracking_entry_t)) :
    ({ s with tracks := tracks } : State).sent = s.sent := rfl

@[simp]
theorem sent_emit_timer_insert (s : State) (t d : Nat) :
    (s.emit (.fr_event_timer_insert t d)).sent = s.sent := by
  simp [State.sent, State.emit, List.filter_append]

@[simp]
theorem sent_emit_timer_delete (s : State) (t : Option Nat) :
    (s.emit (.fr_event_timer_delete t)).sent = s.sent := by
  simp [State.sent, State.emit, List.filter_append]

@[simp]
theorem sent_emit_udp_send (s : State) (p : List Nat) (n : Nat)
    (a : proto_radius_udp_address_t) :
    (s.emit (.udp_send p n a)).sent = s.sent ++ [.udp_send p n a] := by
  simp [State.sent, State.emit, List.filter_append]

/-- C18: when `mod_read` has read a packet of a known client that is not
tracked yet, the signature is valid and the tracking table reports the packet
as the same as that of its entry: if the entry holds a cached reply, that reply
is sent again with the length of the entry and `mod_read` returns 0; if the
entry holds no reply but a reply length other than zero, `mod_read` returns 0
and sends nothing; otherwise the packet is returned with its length, with the
entry as its context and with `is_dup` set, and nothing is sent. -/
theorem mod_read_same (env : Env) (s s1 : State) (rv : udp_recv_t)
    (buffer_len priority : Nat) (r : read_packet_t) (c t : Nat)
    (tracks : List (Option fr_tracking_entry_t))
    (hpkt : mod_read_packet env s rv buffer_len = (r, s1))
    (hsize : 0 < r.data_size)
    (hmaster : ¬ (s1.inst.use_connected ∧ ¬ s1.inst.connected))
    (hclient : mod_read_client env s1 r.address = some c)
    (hnew : r.track = none)
    (hverify : 0 ≤ env.fr_radius_verify r.buffer (s1.client c).secret)
    (hsame : env.fr_radius_tracking_entry_insert s1.tracks r.buffer r.packet_time
      { r.address with client := some c } = (.FR_TRACKING_SAME, some t, tracks)) :
    (∀ reply, (({ s1 with tracks := tracks } : State).track t).reply = some reply →
      (mod_read env s rv buffer_len priority).1.ret = 0 ∧
      (mod_read env s rv buffer_len priority).2.sent =
        s1.sent ++ [.udp_send reply (({ s1 with tracks := tracks } : State).track t).reply_len
          { r.address with client := some c }]) ∧
    ((({ s1 with tracks := tracks } : State).track t).reply = none →
      (({ s1 with tracks := tracks } : State).track t).reply_len ≠ 0 →
      (mod_read env s rv buffer_len priority).1.ret = 0 ∧
      (mod_read env s rv buffer_len priority).2.sent = s1.sent) ∧
    ((({ s1 with tracks := tracks } : State).track t).reply = none →
      (({ s1 with tracks := tracks } : State).track t).reply_len = 0 →
      (mod_read env s rv buffer_len priority).1.ret = r.data_size ∧
      (mod_read env s rv buffer_len priority).1.is_dup = true ∧
      (mod_read env s rv buffer_len priority).1.packet_ctx = some t ∧
      (mod_read env s rv buffer_len priority).2.sent = s1.sent) := by
  rw [mod_read_reaches_tracked env s s1 rv buffer_len priority r c hpkt hsize hmaster hclient]
  have hv : ¬ env.fr_radius_verify r.buffer (s1.client c).secret < 0 := not_lt.mpr hverify
  have hlen : ((r.data_size.toNat : Nat) : Int) = r.data_size := Int.toNat_of_nonneg (le_of_lt hsize)
  unfold mod_read_tracked
  simp only [Option.getD_some, hv, if_false, hnew, hsame]
  refine ⟨fun reply hr => ?_, fun hr hl => ?_, fun hr hl => ?_⟩
  · split_ifs <;> simp_all [mod_read_return_packet]
  · split_ifs <;> simp_all [mod_read_return_packet]
  · split_ifs <;> simp_all [mod_read_return_packet]

/-- C18, witness: the static client of the sample sends the request 42 again
after the reply was cached: the reply is sent again and nothing is returned. -/
theorem mod_read_same_witness :
    (mod_read (sample_env sample_replied.clients) sample_replied sample_recv 4096 0).1.ret = 0 ∧
    (mod_read (sample_env sample_replied.clients) sample_replied sample_recv 4096 0).2.sent =
      [.udp_send ([2, 42, 0, 20] ++ List.replicate 16 9) 20 sample_address] :=
  (mod_read_same (sample_env sample_replied.clients) sample_replied
    (mod_read_packet (sample_env sample_replied.clients) sample_replied sample_recv 4096).2
    sample_recv 4096 0
    (mod_read_packet (sample_env sample_replied.clients) sample_replied sample_recv 4096).1
    0 0 sample_replied.tracks rfl (by decide) (by decide) (by decide) (by decide) (by decide)
    (by decide)).1 ([2, 42, 0, 20] ++ List.replicate 16 9) (by decide)

/-! ## The limits on dynamic clients -/

/-- C19: what `mod_read` does with a packet from an address that no list of
clients knows and that lies in a network of dynamic clients, when one of the
three limits is reached: `dynamic_client_alloc` returns 0, which `mod_read` does
not take for a failure, so the packet is returned with its length and with the
tracking entry `mod_read_packet` gave, which is `NULL` for a packet from the
socket; no client is left in the memory that was not there, and the counters
and lists of the instance are unchanged. -/
theorem mod_read_limit_returns_packet (env : Env) (s s1 : State) (rv : udp_recv_t)
    (buffer_len priority : Nat) (r : read_packet_t) (network : Io.fr_ipaddr_t)
    (hpkt : mod_read_packet env s rv buffer_len = (r, s1))
    (hsize : 0 < r.data_size)
    (hmaster : ¬ (s1.inst.use_connected ∧ ¬ s1.inst.connected))
    (hnc : r.address.client = none)
    (hg : env.client_find none r.address.src_ipaddr = none)
    (hdyn : s1.inst.dynamic_clients_is_set = true)
    (hc : env.client_find (some s1.inst.dynamic_clients.clients) r.address.src_ipaddr = none)
    (hp : env.client_find (some s1.inst.dynamic_clients.pending) r.address.src_ipaddr = none)
    (hnet : env.fr_trie_lookup r.address.src_ipaddr = some network)
    (hlim : s1.inst.dynamic_clients.num_clients ≥ s1.inst.dynamic_clients.max_clients ∨
      s1.inst.dynamic_clients.num_pending_clients ≥ s1.inst.dynamic_clients.max_pending_clients ∨
      s1.inst.dynamic_clients.num_pending_packets ≥ s1.inst.dynamic_clients.max_pending_packets) :
    (mod_read env s rv buffer_len priority).1.ret = r.data_size ∧
    (mod_read env s rv buffer_len priority).1.packet_ctx = r.track ∧
    (mod_read env s rv buffer_len priority).2.inst = s1.inst ∧
    (mod_read env s rv buffer_len priority).2.events = s1.events ∧
    (∀ i : Nat, ((mod_read env s rv buffer_len priority).2.clients[i]?.join).isSome →
      (s1.clients[i]?.join).isSome) := by
  have hlen : ((r.data_size.toNat : Nat) : Int) = r.data_size :=
    Int.toNat_of_nonneg (le_of_lt hsize)
  unfold mod_read
  rw [hpkt]
  simp only [not_le.mpr hsize, if_false, hmaster, hnc, Option.isNone_none, if_true, hg, hdyn,
    not_true_eq_false, and_false, hc, hp, hnet]
  unfold dynamic_client_alloc
  dsimp only
  by_cases h1 : s1.inst.dynamic_clients.num_clients ≥ s1.inst.dynamic_clients.max_clients
  · rw [if_pos h1]
    simp only [lt_self_iff_false, if_false, mod_read_return_packet]
    exact ⟨hlen, trivial, trivial, trivial, fun i h => h⟩
  · rw [if_neg h1]
    by_cases h2 : s1.inst.dynamic_clients.num_pending_clients ≥
        s1.inst.dynamic_clients.max_pending_clients
    · rw [if_pos h2]
      simp only [lt_self_iff_false, if_false, mod_read_return_packet]
      exact ⟨hlen, trivial, trivial, trivial, fun i h => h⟩
    · rw [if_neg h2]
      have h3 : s1.inst.dynamic_clients.num_pending_packets ≥
          s1.inst.dynamic_clients.max_pending_packets := by
        rcases hlim with h | h | h
        · exact absurd h h1
        · exact absurd h h2
        · exact h
      unfold dynamic_client_packet_save
      simp only [h3, if_true, Int.reduceNeg, Int.reduceLT, lt_self_iff_false, if_false,
        mod_read_return_packet]
      refine ⟨hlen, trivial, trivial, trivial, fun i h => ?_⟩
      by_cases hi : i = s1.clients.length
      · subst hi
        simp [List.getElem?_set] at h
      · have hi' : ¬ s1.clients.length = i := fun e => hi e.symm
        simp only [List.getElem?_set, hi', if_false] at h
        by_cases hlt : i < s1.clients.length
        · rw [List.getElem?_append_left hlt] at h
          exact h
        · have : (s1.clients ++ [some
              ({ ipaddr := r.address.src_ipaddr, src_ipaddr := r.address.dst_ipaddr,
                 network := network, secret := "", active := false, dynamic := true,
                 negative := false, outstanding := 0, received := 0, packets := [] } :
                RADCLIENT)])[i]? = none := by
            apply List.getElem?_eq_none
            simp only [List.length_append, List.length_singleton]
            omega
          rw [this] at h
          exact absurd h (by simp)

/-- C19, witness: the sample socket has reached its limit on dynamic clients
when a host inside the network of the dynamic clients sends a request: the
packet is returned with its length of 20 bytes and without a tracking entry. -/
theorem mod_read_limit_returns_packet_witness :
    (mod_read (sample_env sample_crowded.clients) sample_crowded sample_recv_unknown 4096
      0).1.ret = 20 ∧
    (mod_read (sample_env sample_crowded.clients) sample_crowded sample_recv_unknown 4096
      0).1.packet_ctx = none ∧
    (mod_read (sample_env sample_crowded.clients) sample_crowded sample_recv_unknown 4096
      0).2.clients = sample_crowded.clients :=
  ⟨(mod_read_limit_returns_packet (sample_env sample_crowded.clients) sample_crowded
      (mod_read_packet (sample_env sample_crowded.clients) sample_crowded sample_recv_unknown
        4096).2
      sample_recv_unknown 4096 0
      (mod_read_packet (sample_env sample_crowded.clients) sample_crowded sample_recv_unknown
        4096).1
      sample_network rfl (by decide) (by decide) (by decide) (by decide) (by decide) (by decide)
      (by decide) (by decide) (by decide)).1,
    by decide, by decide⟩

/-! ## The bootstrap of the transport -/

/-- The value `FR_INTEGER_BOUND_CHECK` leaves for a lower bound is at least the bound. -/
theorem bound_check_ge (var bound : Nat) : bound ≤ FR_INTEGER_BOUND_CHECK var .ge bound := by
  unfold FR_INTEGER_BOUND_CHECK
  dsimp only
  split_ifs with h
  · exact h
  · exact le_refl _

/-- The value `FR_INTEGER_BOUND_CHECK` leaves for an upper bound is at most the bound. -/
theorem bound_check_le (var bound : Nat) : FR_INTEGER_BOUND_CHECK var .le bound ≤ bound := by
  unfold FR_INTEGER_BOUND_CHECK
  dsimp only
  split_ifs with h
  · exact h
  · exact le_refl _

/-- A check of an upper bound keeps a lower bound that lies below it. -/
theorem bound_check_le_keeps (var lo bound : Nat) (h : lo ≤ var) (hb : lo ≤ bound) :
    lo ≤ FR_INTEGER_BOUND_CHECK var .le bound := by
  unfold FR_INTEGER_BOUND_CHECK
  dsimp only
  split_ifs
  · exact h
  · exact hb

/-- A check of a lower bound keeps an upper bound that lies above it. -/
theorem bound_check_ge_keeps (var hi bound : Nat) (h : var ≤ hi) (hb : bound ≤ hi) :
    FR_INTEGER_BOUND_CHECK var .ge bound ≤ hi := by
  unfold FR_INTEGER_BOUND_CHECK
  dsimp only
  split_ifs
  · exact h
  · exact hb

/-- What the part of `mod_bootstrap` for dynamic clients leaves when it does not
fail: the fields outside the dynamic clients are unchanged, and the limits are
the values the bound checks leave. -/
theorem mod_bootstrap_dynamic_spec (lib : Lib) (inst : proto_radius_udp_t)
    (h : ¬ (mod_bootstrap_dynamic lib inst).1 < 0) :
    (mod_bootstrap_dynamic lib inst).2.cleanup_delay = inst.cleanup_delay ∧
    (mod_bootstrap_dynamic lib inst).2.recv_buff = inst.recv_buff ∧
    (mod_bootstrap_dynamic lib inst).2.max_connections = inst.max_connections ∧
    (mod_bootstrap_dynamic lib inst).2.use_connected = inst.use_connected ∧
    (mod_bootstrap_dynamic lib inst).2.connected = inst.connected ∧
    (mod_bootstrap_dynamic lib inst).2.priorities = inst.priorities ∧
    inst.use_connected = false ∧
    (mod_bootstrap_dynamic lib inst).2.dynamic_clients.max_clients =
      FR_INTEGER_BOUND_CHECK (FR_INTEGER_BOUND_CHECK inst.dynamic_clients.max_clients .ge 1) .le
        (2 ^ 20) ∧
    (mod_bootstrap_dynamic lib inst).2.dynamic_clients.max_pending_clients =
      FR_INTEGER_BOUND_CHECK
        (FR_INTEGER_BOUND_CHECK
          (FR_INTEGER_BOUND_CHECK
            (FR_INTEGER_BOUND_CHECK inst.dynamic_clients.max_pending_clients .ge 4) .le 2048)
          .ge 256) .le 65536 ∧
    (mod_bootstrap_dynamic lib inst).2.dynamic_clients.max_pending_packets =
      inst.dynamic_clients.max_pending_packets ∧
    (mod_bootstrap_dynamic lib inst).2.dynamic_clients.idle_timeout =
      (if inst.dynamic_clients.idle_timeout ≠ 0 then
        FR_INTEGER_BOUND_CHECK (FR_INTEGER_BOUND_CHECK inst.dynamic_clients.idle_timeout .ge 30)
          .le 86400
      else inst.dynamic_clients.idle_timeout) := by
  cases hu : inst.use_connected with
  | true =>
    simp only [mod_bootstrap_dynamic, hu, if_true] at h
    exact absurd (show (-1 : Int) < 0 by decide) h
  | false =>
    cases hn : inst.dynamic_clients.network with
    | none =>
      simp only [mod_bootstrap_dynamic, hu, hn] at h
      exact absurd (show (-1 : Int) < 0 by decide) h
    | some network =>
      cases ha : lib.fr_trie_alloc with
      | false =>
        simp only [mod_bootstrap_dynamic, hu, hn, ha] at h
        exact absurd (show (-1 : Int) < 0 by decide) h
      | true =>
        cases hl : (mod_bootstrap_networks lib inst.ipaddr.af network []).1 with
        | false =>
          simp only [mod_bootstrap_dynamic, hu, hn, ha, hl] at h
          exact absurd (show (-1 : Int) < 0 by decide) h
        | true =>
          by_cases hd : lib.dl_instance < 0
          · simp only [mod_bootstrap_dynamic, hu, hn, ha, hl, hd] at h
            exact absurd (show (-1 : Int) < 0 by decide) h
          · simp only [mod_bootstrap_dynamic, hu, hn, ha, hl, hd, Bool.false_eq_true, if_false,
              not_true_eq_false, not_false_eq_true, if_true, and_self]

/-- What the part of `mod_bootstrap` for connected sockets leaves when it does
not fail. -/
theorem mod_bootstrap_connected_spec (lib : Lib) (inst : proto_radius_udp_t)
    (h : (mod_bootstrap_connected lib inst).1 = 0) :
    (mod_bootstrap_connected lib inst).2.cleanup_delay = inst.cleanup_delay ∧
    (mod_bootstrap_connected lib inst).2.recv_buff = inst.recv_buff ∧
    (mod_bootstrap_connected lib inst).2.dynamic_clients = inst.dynamic_clients ∧
    (mod_bootstrap_connected lib inst).2.priorities = inst.priorities ∧
    (inst.use_connected = true → inst.connected = false →
      (mod_bootstrap_connected lib inst).2.max_connections =
        FR_INTEGER_BOUND_CHECK
          (FR_INTEGER_BOUND_CHECK
            (if inst.max_connections = 0 then 65536 else inst.max_connections) .ge 4)
          .le 65536) := by
  unfold mod_bootstrap_connected at h ⊢
  by_cases hu : inst.use_connected = true
  · rw [if_pos hu] at h ⊢
    by_cases hc : inst.connected = true
    · rw [if_neg (not_not.mpr hc)]
      refine ⟨rfl, rfl, rfl, rfl, ?_⟩
      intro _ hf
      rw [hc] at hf
      exact absurd hf (by decide)
    · rw [if_pos hc] at h ⊢
      by_cases ht : lib.talloc_init = true
      · rw [if_neg (not_not.mpr ht)] at h ⊢
        by_cases hh : lib.fr_hash_table_create = true
        · rw [if_neg (not_not.mpr hh)]
          exact ⟨rfl, rfl, rfl, rfl, fun _ _ => rfl⟩
        · rw [if_pos hh] at h
          exact absurd h (show ¬ ((-1 : Int) = 0) by decide)
      · rw [if_pos ht] at h
        exact absurd h (show ¬ ((-1 : Int) = 0) by decide)
  · rw [if_neg hu]
    exact ⟨rfl, rfl, rfl, rfl, fun hf => absurd hf hu⟩

/-- What the first part of `mod_bootstrap` leaves when it does not fail. -/
theorem mod_bootstrap_listen_spec (env : Env) (lib : Lib) (inst : proto_radius_udp_t)
    (h : ¬ (mod_bootstrap_listen env lib inst).1 < 0) :
    (mod_bootstrap_listen env lib inst).2.cleanup_delay =
      FR_INTEGER_BOUND_CHECK inst.cleanup_delay .le 30 ∧
    (mod_bootstrap_listen env lib inst).2.recv_buff =
      (if inst.recv_buff_is_set then
        FR_INTEGER_BOUND_CHECK (FR_INTEGER_BOUND_CHECK inst.recv_buff .ge 32) .le INT_MAX
      else inst.recv_buff) ∧
    (mod_bootstrap_listen env lib inst).2.max_connections = inst.max_connections ∧
    (mod_bootstrap_listen env lib inst).2.use_connected = inst.use_connected ∧
    (mod_bootstrap_listen env lib inst).2.connected = inst.connected ∧
    (mod_bootstrap_listen env lib inst).2.dynamic_clients_is_set = inst.dynamic_clients_is_set ∧
    (mod_bootstrap_listen env lib inst).2.dynamic_clients = inst.dynamic_clients := by
  unfold mod_bootstrap_listen at h ⊢
  dsimp only at h ⊢
  by_cases h1 : (mod_bootstrap_priority env lib inst).1 < 0
  · rw [if_pos h1] at h
    exact absurd (show (-1 : Int) < 0 by decide) h
  · rw [if_neg h1] at h ⊢
    by_cases h2 : inst.ipaddr.af = AF_UNSPEC
    · rw [if_pos h2] at h
      exact absurd (show (-1 : Int) < 0 by decide) h
    · rw [if_neg h2] at h ⊢
      split at h
      · exact absurd (show (-1 : Int) < 0 by decide) h
      · exact ⟨rfl, rfl, rfl, rfl, rfl, rfl, rfl⟩

/-- C21: after `mod_bootstrap` has returned 0, `cleanup_delay` is at most 30; a
`recv_buff` that was set is at least 32; and on a master socket for connected
sockets (`use_connected` without `connected`) `max_connections` lies between 4
and 65536, an unset value of zero having become 65536. -/
theorem mod_bootstrap_limits (env : Env) (lib : Lib) (inst : proto_radius_udp_t)
    (h : (mod_bootstrap env lib inst).1 = 0) :
    (mod_bootstrap env lib inst).2.cleanup_delay ≤ 30 ∧
    (inst.recv_buff_is_set = true → 32 ≤ (mod_bootstrap env lib inst).2.recv_buff) ∧
    (inst.use_connected = true → inst.connected = false →
      4 ≤ (mod_bootstrap env lib inst).2.max_connections ∧
      (mod_bootstrap env lib inst).2.max_connections ≤ 65536 ∧
      (inst.max_connections = 0 → (mod_bootstrap env lib inst).2.max_connections = 65536)) := by
  unfold mod_bootstrap at h ⊢
  dsimp only at h ⊢
  by_cases h1 : (mod_bootstrap_listen env lib inst).1 < 0
  · rw [if_pos h1] at h
    exact absurd h (show ¬ ((-1 : Int) = 0) by decide)
  · rw [if_neg h1] at h ⊢
    obtain ⟨l1, l2, l3, l4, l5, l6, l7⟩ := mod_bootstrap_listen_spec env lib inst h1
    generalize mod_bootstrap_listen env lib inst = listen at h l1 l2 l3 l4 l5 l6 l7 ⊢
    have hdyn : ∀ dynamic : Int × proto_radius_udp_t,
        dynamic = (if listen.2.dynamic_clients_is_set = true then
          mod_bootstrap_dynamic lib listen.2 else (0, listen.2)) →
        ¬ dynamic.1 < 0 →
        dynamic.2.cleanup_delay = listen.2.cleanup_delay ∧
        dynamic.2.recv_buff = listen.2.recv_buff ∧
        dynamic.2.max_connections = listen.2.max_connections ∧
        dynamic.2.use_connected = listen.2.use_connected ∧
        dynamic.2.connected = listen.2.connected := by
      intro dynamic hd hn
      by_cases hs : listen.2.dynamic_clients_is_set = true
      · rw [if_pos hs] at hd
        subst hd
        obtain ⟨d1, d2, d3, d4, d5, -⟩ := mod_bootstrap_dynamic_spec lib listen.2 hn
        exact ⟨d1, d2, d3, d4, d5⟩
      · rw [if_neg hs] at hd
        subst hd
        exact ⟨rfl, rfl, rfl, rfl, rfl⟩
    generalize (if listen.2.dynamic_clients_is_set = true then
      mod_bootstrap_dynamic lib listen.2 else (0, listen.2)) = dynamic at h hdyn ⊢
    by_cases h2 : dynamic.1 < 0
    · rw [if_pos h2] at h
      exact absurd h (show ¬ ((-1 : Int) = 0) by decide)
    · rw [if_neg h2] at h ⊢
      obtain ⟨d1, d2, d3, d4, d5⟩ := hdyn dynamic rfl h2
      obtain ⟨c1, c2, -, -, c5⟩ := mod_bootstrap_connected_spec lib dynamic.2 h
      refine ⟨?_, ?_, ?_⟩
      · rw [c1, d1, l1]
        exact bound_check_le _ _
      · intro hset
        rw [c2, d2, l2, if_pos hset]
        exact bound_check_le_keeps _ _ _ (bound_check_ge _ _) (by decide)
      · intro hu hc
        rw [c5 (by rw [d4, l4]; exact hu) (by rw [d5, l5]; exact hc), d3, l3]
        refine ⟨bound_check_le_keeps _ _ _ (bound_check_ge _ _) (by decide), bound_check_le _ _, ?_⟩
        intro hz
        rw [if_pos hz]
        decide

/-- C21, witness: the master socket of the sample, configured with a receive
buffer of 3 bytes, a cleanup delay of 100 seconds and no limit on the
connections, is bootstrapped with a cleanup delay of 30 seconds, a receive
buffer of 32 bytes and a limit of 65536 connections. -/
theorem mod_bootstrap_limits_witness :
    (mod_bootstrap (sample_env []) sample_lib sample_inst_master).1 = 0 ∧
    (mod_bootstrap (sample_env []) sample_lib sample_inst_master).2.cleanup_delay = 30 ∧
    (mod_bootstrap (sample_env []) sample_lib sample_inst_master).2.recv_buff = 32 ∧
    (mod_bootstrap (sample_env []) sample_lib sample_inst_master).2.max_connections = 65536 :=
  ⟨by decide, by decide, by decide,
    ((mod_bootstrap_limits (sample_env []) sample_lib sample_inst_master (by decide)).2.2
      (by decide) (by decide)).2.2 (by decide)⟩

/-- Two checks of upper bounds after a check of a lower bound below the first
upper bound leave a value that is at most the first upper bound. -/
theorem bound_check_le_keeps_upper (var hi lo hi2 : Nat) :
    FR_INTEGER_BOUND_CHECK (FR_INTEGER_BOUND_CHECK (FR_INTEGER_BOUND_CHECK var .le hi) .ge lo)
      .le hi2 ≤ max hi lo := by
  unfold FR_INTEGER_BOUND_CHECK
  dsimp only
  split_ifs <;> omega

/-- C29: what `mod_bootstrap` leaves of the limits of the dynamic clients when
it returns 0 on a socket with dynamic clients: `max_clients` lies between 1 and
2^20 and an `idle_timeout` that is not zero between 30 and 86400, but both
checks that are named for `max_pending_packets` are made on
`max_pending_clients`, so `max_pending_clients` lies between 256 and 2048 and
`max_pending_packets` keeps the configured value, whatever it is. -/
theorem mod_bootstrap_dynamic_limits (env : Env) (lib : Lib) (inst : proto_radius_udp_t)
    (h : (mod_bootstrap env lib inst).1 = 0) (hset : inst.dynamic_clients_is_set = true) :
    1 ≤ (mod_bootstrap env lib inst).2.dynamic_clients.max_clients ∧
    (mod_bootstrap env lib inst).2.dynamic_clients.max_clients ≤ 2 ^ 20 ∧
    256 ≤ (mod_bootstrap env lib inst).2.dynamic_clients.max_pending_clients ∧
    (mod_bootstrap env lib inst).2.dynamic_clients.max_pending_clients ≤ 2048 ∧
    (mod_bootstrap env lib inst).2.dynamic_clients.max_pending_packets =
      inst.dynamic_clients.max_pending_packets ∧
    ((mod_bootstrap env lib inst).2.dynamic_clients.idle_timeout ≠ 0 →
      30 ≤ (mod_bootstrap env lib inst).2.dynamic_clients.idle_timeout ∧
      (mod_bootstrap env lib inst).2.dynamic_clients.idle_timeout ≤ 86400) := by
  unfold mod_bootstrap at h ⊢
  dsimp only at h ⊢
  by_cases h1 : (mod_bootstrap_listen env lib inst).1 < 0
  · rw [if_pos h1] at h
    exact absurd h (show ¬ ((-1 : Int) = 0) by decide)
  · rw [if_neg h1] at h ⊢
    obtain ⟨-, -, -, -, -, l6, l7⟩ := mod_bootstrap_listen_spec env lib inst h1
    generalize mod_bootstrap_listen env lib inst = listen at h l6 l7 ⊢
    rw [if_pos (l6.trans hset)] at h ⊢
    by_cases h2 : (mod_bootstrap_dynamic lib listen.2).1 < 0
    · rw [if_pos h2] at h
      exact absurd h (show ¬ ((-1 : Int) = 0) by decide)
    · rw [if_neg h2] at h ⊢
      obtain ⟨-, -, -, -, -, -, -, d1, d2, d3, d4⟩ := mod_bootstrap_dynamic_spec lib listen.2 h2
      obtain ⟨-, -, c3, -, -⟩ := mod_bootstrap_connected_spec lib _ h
      rw [c3, d1, d2, d3, d4, l7]
      refine ⟨bound_check_le_keeps _ _ _ (bound_check_ge _ _) (by decide), bound_check_le _ _,
        bound_check_le_keeps _ _ _ (bound_check_ge _ _) (by decide),
        bound_check_le_keeps_upper _ _ _ _, rfl, ?_⟩
      by_cases hz : inst.dynamic_clients.idle_timeout ≠ 0
      · rw [if_pos hz]
        intro _
        exact ⟨bound_check_le_keeps _ _ _ (bound_check_ge _ _) (by decide), bound_check_le _ _⟩
      · rw [if_neg hz]
        intro hne
        exact absurd hne hz

/-- C29, witness: the socket of the sample with `max_pending_clients = 4` and
`max_pending_packets = 1` is bootstrapped with `max_pending_clients = 256` and
`max_pending_packets = 1`. -/
theorem mod_bootstrap_dynamic_limits_witness :
    (mod_bootstrap (sample_env []) sample_lib sample_inst_few).1 = 0 ∧
    sample_inst_few.dynamic_clients.max_pending_clients = 4 ∧
    (mod_bootstrap (sample_env []) sample_lib
      sample_inst_few).2.dynamic_clients.max_pending_clients = 256 ∧
    (mod_bootstrap (sample_env []) sample_lib
      sample_inst_few).2.dynamic_clients.max_pending_packets = 1 :=
  ⟨by decide, by decide, by decide,
    (mod_bootstrap_dynamic_limits (sample_env []) sample_lib sample_inst_few (by decide)
      (by decide)).2.2.2.2.1⟩

/-! ## The priority of a packet -/

/-- The label `return_packet` reports the entry of the static table for the
code of the packet. -/
theorem mod_read_tracked_priority (env : Env) (s : State) (out : mod_read_t) (packet_len : Nat)
    (packet_time : Nat) (address : proto_radius_udp_address_t) (track : Option Nat) :
    (mod_read_tracked env s out packet_len packet_time address track).1.buffer = out.buffer ∧
    (0 < (mod_read_tracked env s out packet_len packet_time address track).1.ret →
      (mod_read_tracked env s out packet_len packet_time address track).1.priority =
        priorities env (out.buffer.getD 0 0)) := by
  suffices H : ∀ r, mod_read_tracked env s out packet_len packet_time address track = r →
      r.1.buffer = out.buffer ∧
      (0 < r.1.ret → r.1.priority = priorities env (out.buffer.getD 0 0)) from H _ rfl
  intro r hr
  unfold mod_read_tracked mod_read_return_packet at hr
  dsimp only at hr
  have close : ∀ r' : mod_read_t × State, r' = r → r'.1.buffer = out.buffer →
      (r'.1.ret ≤ 0 ∨ r'.1.priority = priorities env (out.buffer.getD 0 0)) →
      r.1.buffer = out.buffer ∧
      (0 < r.1.ret → r.1.priority = priorities env (out.buffer.getD 0 0)) := by
    intro r' e hb hp
    subst e
    refine ⟨hb, fun h => ?_⟩
    rcases hp with hp | hp
    · exact absurd h (not_lt.mpr hp)
    · exact hp
  split at hr
  · exact close _ hr rfl (Or.inl (le_refl _))
  · split at hr
    · exact close _ hr rfl (Or.inr rfl)
    · iterate 6
        all_goals first
          | exact close _ hr rfl (Or.inr rfl)
          | exact close _ hr rfl (Or.inl (le_refl _))
          | exact close _ hr rfl (Or.inl (show (-1 : Int) ≤ 0 by decide))
          | split at hr

/-- C22: the priority `mod_read` reports for a packet it returns is the entry of
the static table `priorities` for the code of the packet, the first byte of the
buffer: the built-in defaults, whatever the array `inst->priorities` holds that
`mod_bootstrap` fills from the subsection `priority`. -/
theorem mod_read_priority_is_builtin (env : Env) (s : State) (rv : udp_recv_t)
    (buffer_len priority : Nat) (h : 0 < (mod_read env s rv buffer_len priority).1.ret) :
    (mod_read env s rv buffer_len priority).1.priority =
      priorities env ((mod_read env s rv buffer_len priority).1.buffer.getD 0 0) := by
  suffices H : ∀ r, mod_read env s rv buffer_len priority = r →
      r.1.ret ≤ 0 ∨ r.1.priority = priorities env (r.1.buffer.getD 0 0) by
    rcases H _ rfl with H | H
    · exact absurd h (not_lt.mpr H)
    · exact H
  intro r hr
  unfold mod_read mod_read_unknown mod_read_return_packet at hr
  dsimp only at hr
  have tracked : ∀ (s' : State) (out : mod_read_t) (packet_len packet_time : Nat)
      (address : proto_radius_udp_address_t) (track : Option Nat),
      mod_read_tracked env s' out packet_len packet_time address track = r →
      r.1.ret ≤ 0 ∨ r.1.priority = priorities env (r.1.buffer.getD 0 0) := by
    intro s' out packet_len packet_time address track e
    subst e
    obtain ⟨hb, hp⟩ := mod_read_tracked_priority env s' out packet_len packet_time address track
    by_cases hpos : 0 < (mod_read_tracked env s' out packet_len packet_time address track).1.ret
    · right
      rw [hb]
      exact hp hpos
    · left
      exact not_lt.mp hpos
  have close : ∀ r' : mod_read_t × State, r' = r →
      (r'.1.ret ≤ 0 ∨ r'.1.priority = priorities env (r'.1.buffer.getD 0 0)) →
      r.1.ret ≤ 0 ∨ r.1.priority = priorities env (r.1.buffer.getD 0 0) := by
    intro r' e hp
    subst e
    exact hp
  iterate 12
    all_goals first
      | split at hr
      | exact tracked _ _ _ _ _ _ hr
      | exact close _ hr (Or.inr rfl)
      | exact close _ hr (Or.inl (le_refl _))
      | exact close _ hr (Or.inl (by assumption))

/-- C22, witness: the listener of the sample was bootstrapped with a subsection
`priority` that gives Access-Request the priority 8192, which is the entry of
the code 1 in `inst->priorities`; `mod_read` returns the Access-Request of the
static client with the priority 32768 of the static table. -/
theorem mod_read_priority_is_builtin_witness :
    sample_configured.inst.priorities.getD FR_CODE_ACCESS_REQUEST 0 = 8192 ∧
    (mod_read (sample_env sample_configured.clients) sample_configured sample_recv 4096 0).1.ret
      = 20 ∧
    (mod_read (sample_env sample_configured.clients) sample_configured sample_recv 4096
      0).1.buffer.getD 0 0 = FR_CODE_ACCESS_REQUEST ∧
    (mod_read (sample_env sample_configured.clients) sample_configured sample_recv 4096
      0).1.priority = 32768 :=
  ⟨by decide, by decide, by decide,
    (mod_read_priority_is_builtin (sample_env sample_configured.clients) sample_configured
      sample_recv 4096 0 (by decide)).trans (by decide)⟩

end Udp

namespace Tls

/-! ## The attributes of the session cache -/

theorem absent_delete (vps : List VALUE_PAIR) (attr : attr_t) :
    absent (fr_pair_delete_by_num vps attr) attr := by
  intro vp hvp
  unfold fr_pair_delete_by_num at hvp
  simpa using (List.mem_filter.mp hvp).2

theorem delete_of_absent (vps : List VALUE_PAIR) (attr : attr_t) (h : absent vps attr) :
    fr_pair_delete_by_num vps attr = vps := by
  unfold fr_pair_delete_by_num
  rw [List.filter_eq_self]
  intro vp hvp
  simpa using h vp hvp

/-- What `tls_cache_attrs` leaves: it succeeds when both pairs can be
allocated, and then the request list holds the key as its only TLS-Session-Id,
at its end, and the control list has the action at its end; the session-state
list is never touched. -/
theorem tls_cache_attrs_spec (env : Env) (request : REQUEST) (key : List Nat) (key_len : Nat)
    (action : tls_cache_action_t) :
    (tls_cache_attrs env request key key_len action).2.state = request.state ∧
    (tls_cache_attrs env request key key_len action).2.server = request.server ∧
    (tls_cache_attrs env request key key_len action).2.module = request.module ∧
    (tls_cache_attrs env request key key_len action).2.component = request.component ∧
    ((tls_cache_attrs env request key key_len action).1 < 0 ∨
      (tls_cache_attrs env request key key_len action).1 = 0) ∧
    (¬ (tls_cache_attrs env request key key_len action).1 < 0 ↔
      (env.attrs_id_alloc = true ∧ env.attrs_action_alloc = true)) ∧
    (¬ (tls_cache_attrs env request key key_len action).1 < 0 →
      (tls_cache_attrs env request key key_len action).2.packet_vps =
        fr_pair_delete_by_num request.packet_vps .PW_TLS_SESSION_ID ++
          [{ da := .PW_TLS_SESSION_ID, action := none, vp_integer := 0,
             vp_octets := key.take key_len }] ∧
      (tls_cache_attrs env request key key_len action).2.control =
        request.control ++
          [{ da := .PW_TLS_CACHE_ACTION, action := some action, vp_integer := 0,
             vp_octets := [] }]) := by
  unfold tls_cache_attrs fr_pair_add
  cases h1 : env.attrs_id_alloc <;> cases h2 : env.attrs_action_alloc <;> simp

/-- What `tls_cache_process` leaves: without the pair for the action it returns
-1 and the request is as before; otherwise the virtual server gets the request
with the action at the end of the control list, and the request afterwards is
the one the virtual server left, with the three names restored and without any
TLS-Session-Cache-Action in the control list. -/
theorem tls_cache_process_spec (env : Env) (request : REQUEST) (virtual_server : String)
    (autz_type : tls_cache_action_t) :
    (env.process_action_alloc = false ∧
      tls_cache_process env request virtual_server autz_type = (none, request)) ∨
    (env.process_action_alloc = true ∧
      ∃ input, input.packet_vps = request.packet_vps ∧ input.state = request.state ∧
        (tls_cache_process env request virtual_server autz_type).1 =
          some (env.process_authorize autz_type input).1 ∧
        (tls_cache_process env request virtual_server autz_type).2.packet_vps =
          (env.process_authorize autz_type input).2.packet_vps ∧
        (tls_cache_process env request virtual_server autz_type).2.state =
          (env.process_authorize autz_type input).2.state ∧
        absent (tls_cache_process env request virtual_server autz_type).2.control
          .PW_TLS_CACHE_ACTION) := by
  unfold tls_cache_process
  cases h : env.process_action_alloc
  · left
    simp
  · right
    refine ⟨rfl,
      { request with
        control := fr_pair_add request.control
          { da := .PW_TLS_CACHE_ACTION, action := some autz_type, vp_integer := 0,
            vp_octets := [] }
        server := some virtual_server
        module := none }, rfl, rfl, ?_⟩
    simp only [not_true_eq_false, if_false, true_and]
    exact absent_delete _ _

/-- The request `tls_cache_write` ends with when it gets as far as the run of
the virtual server. -/
theorem tls_cache_write_eq (env : Env) (request : REQUEST) (server : String)
    (sess : SSL_SESSION) (h : write_reaches_process env sess) :
    tls_cache_write env request server sess =
      (0,
        { (tls_cache_process env
            { (tls_cache_attrs env request sess.session_id sess.session_id.length
                .CACHE_ACTION_SESSION_WRITE).2 with
              state := fr_pair_add
                (tls_cache_attrs env request sess.session_id sess.session_id.length
                  .CACHE_ACTION_SESSION_WRITE).2.state
                { da := .PW_TLS_SESSION_DATA, action := none, vp_integer := 0,
                  vp_octets := (env.i2d_SSL_SESSION sess).2 } }
            server .CACHE_ACTION_SESSION_WRITE).2 with
          state := fr_pair_delete_by_num
            (tls_cache_process env
              { (tls_cache_attrs env request sess.session_id sess.session_id.length
                  .CACHE_ACTION_SESSION_WRITE).2 with
                state := fr_pair_add
                  (tls_cache_attrs env request sess.session_id sess.session_id.length
                    .CACHE_ACTION_SESSION_WRITE).2.state
                  { da := .PW_TLS_SESSION_DATA, action := none, vp_integer := 0,
                    vp_octets := (env.i2d_SSL_SESSION sess).2 } }
              server .CACHE_ACTION_SESSION_WRITE).2.state .PW_TLS_SESSION_DATA }) := by
  obtain ⟨h1, h2, h3, h4, h5, h6, h7⟩ := h
  have ha := (tls_cache_attrs_spec env request sess.session_id sess.session_id.length
    .CACHE_ACTION_SESSION_WRITE).2.2.2.2.2.1.mpr ⟨h2, h3⟩
  unfold tls_cache_write tls_cache_id
  rw [if_neg (not_lt.mpr h1)]
  simp only [Int.toNat_ofNat, Nat.cast_nonneg, not_lt.mpr, if_false, ha, h5, h6, h7,
    not_lt.mpr h4, not_true_eq_false, ne_eq]

/-- The session-state list after `tls_cache_write`, on every return path: it is
the list of before the call, or a list without TLS-Session-Data. -/
theorem tls_cache_write_state (env : Env) (request : REQUEST) (server : String)
    (sess : SSL_SESSION) :
    (tls_cache_write env request server sess).2.state = request.state ∨
      absent (tls_cache_write env request server sess).2.state .PW_TLS_SESSION_DATA := by
  by_cases h : write_reaches_process env sess
  · right
    rw [tls_cache_write_eq env request server sess h]
    exact absent_delete _ _
  · left
    have hs := (tls_cache_attrs_spec env request sess.session_id sess.session_id.length
      .CACHE_ACTION_SESSION_WRITE).1
    have ha := (tls_cache_attrs_spec env request sess.session_id sess.session_id.length
      .CACHE_ACTION_SESSION_WRITE).2.2.2.2.2.1
    unfold tls_cache_write tls_cache_id
    by_cases c1 : sess.session_id.length > MAX_CACHE_ID_SIZE
    · rw [if_pos c1]
      rfl
    · rw [if_neg c1]
      simp only [Int.toNat_ofNat, Nat.cast_nonneg, not_lt.mpr, if_false]
      by_cases c2 : (tls_cache_attrs env request sess.session_id sess.session_id.length
          .CACHE_ACTION_SESSION_WRITE).1 < 0
      · rw [if_pos c2]
        exact hs
      · rw [if_neg c2]
        by_cases c3 : env.i2d_length sess < 1
        · rw [if_pos c3]
          exact hs
        · rw [if_neg c3]
          by_cases c4 : env.talloc_array (env.i2d_length sess) = true
          · rw [if_neg (not_not.mpr c4)]
            by_cases c5 : (env.i2d_SSL_SESSION sess).1 = env.i2d_length sess
            · rw [if_neg (not_not.mpr c5)]
              by_cases c6 : env.write_data_alloc = true
              · exact absurd ⟨Nat.le_of_not_lt c1, (ha.mp c2).1, (ha.mp c2).2,
                  Nat.le_of_not_lt c3, c4, c5, c6⟩ h
              · rw [if_pos c6]
                exact hs
            · rw [if_pos c5]
              exact hs
          · rw [if_pos c4]
            exact hs

/-- When `tls_cache_read` returns a session, both pairs of `tls_cache_attrs`
were allocated and the request is the one `tls_cache_process` left, without
its TLS-Session-Data. -/
theorem tls_cache_read_some (env : Env) (request : REQUEST) (server : String)
    (key : List Nat) (key_len : Nat) (s : SSL_SESSION)
    (h : (tls_cache_read env request server key key_len).1 = some s) :
    ¬ (tls_cache_attrs env request key key_len .CACHE_ACTION_SESSION_READ).1 < 0 ∧
    (tls_cache_process env
      (tls_cache_attrs env request key key_len .CACHE_ACTION_SESSION_READ).2 server
      .CACHE_ACTION_SESSION_READ).1 ≠ none ∧
    (tls_cache_read env request server key key_len).2 =
      { (tls_cache_process env
          (tls_cache_attrs env request key key_len .CACHE_ACTION_SESSION_READ).2 server
          .CACHE_ACTION_SESSION_READ).2 with
        state := fr_pair_delete_by_num
          (tls_cache_process env
            (tls_cache_attrs env request key key_len .CACHE_ACTION_SESSION_READ).2 server
            .CACHE_ACTION_SESSION_READ).2.state .PW_TLS_SESSION_DATA } := by
  unfold tls_cache_read at h ⊢
  dsimp only at h ⊢
  by_cases c1 : (tls_cache_attrs env request key key_len .CACHE_ACTION_SESSION_READ).1 < 0
  · rw [if_pos c1] at h
    exact absurd h (by simp)
  · rw [if_neg c1] at h ⊢
    refine ⟨c1, ?_⟩
    generalize tls_cache_process env
      (tls_cache_attrs env request key key_len .CACHE_ACTION_SESSION_READ).2 server
      .CACHE_ACTION_SESSION_READ = P at h ⊢
    by_cases c2 : P.1 = some Modcall.rlm_rcode_t.RLM_MODULE_OK ∨
        P.1 = some Modcall.rlm_rcode_t.RLM_MODULE_UPDATED
    · rw [if_pos c2] at h ⊢
      refine ⟨by rcases c2 with c | c <;> rw [c] <;> simp, ?_⟩
      cases hf : fr_pair_find_by_num P.2.state .PW_TLS_SESSION_DATA with
      | none =>
        simp only [hf] at h
        exact absurd h (by simp)
      | some vp =>
        simp only [hf] at h ⊢
        cases hd : env.d2i_SSL_SESSION vp.vp_octets with
        | none =>
          simp only [hd] at h
          exact absurd h (by simp)
        | some sess => rfl
    · rw [if_neg c2] at h
      exact absurd h (by simp)

/-- When `tls_cache_delete` returns without freeing the request, both pairs of
`tls_cache_attrs` were allocated, the session id fitted the buffer, and the
request is the one `tls_cache_process` left after the run of the virtual
server. -/
theorem tls_cache_delete_some (env : Env) (request : REQUEST) (server : String)
    (sess : SSL_SESSION) (r : REQUEST)
    (h : tls_cache_delete env request server sess = some r) :
    ¬ (tls_cache_attrs env request sess.session_id sess.session_id.length
      .CACHE_ACTION_SESSION_DELETE).1 < 0 ∧
    (tls_cache_process env
      (tls_cache_attrs env request sess.session_id sess.session_id.length
        .CACHE_ACTION_SESSION_DELETE).2 server .CACHE_ACTION_SESSION_DELETE).1 ≠ none ∧
    r = (tls_cache_process env
      (tls_cache_attrs env request sess.session_id sess.session_id.length
        .CACHE_ACTION_SESSION_DELETE).2 server .CACHE_ACTION_SESSION_DELETE).2 := by
  unfold tls_cache_delete tls_cache_id at h
  by_cases c0 : sess.session_id.length > MAX_CACHE_ID_SIZE
  · rw [if_pos c0] at h
    simp only [Int.reduceNeg, Left.neg_neg_iff, zero_lt_one, if_true] at h
    exact absurd h (by simp)
  · rw [if_neg c0] at h
    simp only [Int.toNat_ofNat, Nat.cast_nonneg, not_lt.mpr, if_false] at h
    by_cases c1 : (tls_cache_attrs env request sess.session_id sess.session_id.length
        .CACHE_ACTION_SESSION_DELETE).1 < 0
    · rw [if_pos c1] at h
      exact absurd h (by simp)
    · rw [if_neg c1] at h
      refine ⟨c1, ?_⟩
      generalize tls_cache_process env
        (tls_cache_attrs env request sess.session_id sess.session_id.length
          .CACHE_ACTION_SESSION_DELETE).2 server .CACHE_ACTION_SESSION_DELETE = P at h ⊢
      split_ifs at h with c2
      · simp only [Option.some.injEq] at h
        refine ⟨?_, h.symm⟩
        rcases c2 with c | c | c | c <;> rw [c] <;> simp

/-- C24, counterexample: the request of the sample holds nothing of the cache;
after `tls_cache_write`, after `tls_cache_read` and after `tls_cache_delete`
the request list holds the TLS-Session-Id of the session. -/
theorem tls_cache_leaves_session_id :
    absent sample_request.packet_vps .PW_TLS_SESSION_ID ∧
    (tls_cache_write sample_env sample_request "tls-cache" sample_sess).2.packet_vps =
      sample_request.packet_vps ++ [sample_id] ∧
    (tls_cache_read sample_env sample_request "tls-cache" [3, 2, 1] 3).1 = some sample_sess ∧
    (tls_cache_read sample_env sample_request "tls-cache" [3, 2, 1] 3).2.packet_vps =
      sample_request.packet_vps ++ [sample_id] ∧
    (tls_cache_delete sample_env sample_request "tls-cache" sample_sess).map
      (fun r => r.packet_vps) = some (sample_request.packet_vps ++ [sample_id]) := by
  decide

/-- C24, as the code has it: `tls_cache_write` leaves the session-state list as
it was or without TLS-Session-Data, on every return path; when it has called
`tls_cache_process` and the pair for the action could be allocated there, the
control list is without TLS-Session-Cache-Action; when `tls_cache_read` returns
a session, the control list is without TLS-Session-Cache-Action and the
session-state list without TLS-Session-Data; when `tls_cache_delete` returns
without freeing the request, the control list is without
TLS-Session-Cache-Action.  The TLS-Session-Id is not removed: in these cases
the virtual server was given a request list that ends with the id of the
session as its only TLS-Session-Id, and the request list at the return is the
one the virtual server left. -/
theorem tls_cache_attributes_after (env : Env) (request : REQUEST) (server : String)
    (sess : SSL_SESSION) (key : List Nat) (key_len : Nat) :
    ((tls_cache_write env request server sess).2.state = request.state ∨
      absent (tls_cache_write env request server sess).2.state .PW_TLS_SESSION_DATA) ∧
    (write_reaches_process env sess → env.process_action_alloc = true →
      absent (tls_cache_write env request server sess).2.control .PW_TLS_CACHE_ACTION ∧
      absent (tls_cache_write env request server sess).2.state .PW_TLS_SESSION_DATA ∧
      ∃ input,
        input.packet_vps =
          fr_pair_delete_by_num request.packet_vps .PW_TLS_SESSION_ID ++
            [{ da := .PW_TLS_SESSION_ID, action := none, vp_integer := 0,
               vp_octets := sess.session_id }] ∧
        (tls_cache_write env request server sess).2.packet_vps =
          (env.process_authorize .CACHE_ACTION_SESSION_WRITE input).2.packet_vps) ∧
    (∀ s, (tls_cache_read env request server key key_len).1 = some s →
      absent (tls_cache_read env request server key key_len).2.control .PW_TLS_CACHE_ACTION ∧
      absent (tls_cache_read env request server key key_len).2.state .PW_TLS_SESSION_DATA ∧
      ∃ input,
        input.packet_vps =
          fr_pair_delete_by_num request.packet_vps .PW_TLS_SESSION_ID ++
            [{ da := .PW_TLS_SESSION_ID, action := none, vp_integer := 0,
               vp_octets := key.take key_len }] ∧
        (tls_cache_read env request server key key_len).2.packet_vps =
          (env.process_authorize .CACHE_ACTION_SESSION_READ input).2.packet_vps) ∧
    (∀ r, tls_cache_delete env request server sess = some r →
      absent r.control .PW_TLS_CACHE_ACTION ∧
      ∃ input,
        input.packet_vps =
          fr_pair_delete_by_num request.packet_vps .PW_TLS_SESSION_ID ++
            [{ da := .PW_TLS_SESSION_ID, action := none, vp_integer := 0,
               vp_octets := sess.session_id }] ∧
        r.packet_vps =
          (env.process_authorize .CACHE_ACTION_SESSION_DELETE input).2.packet_vps) := by
  refine ⟨tls_cache_write_state env request server sess, ?_, ?_, ?_⟩
  · intro hw hp
    rw [tls_cache_write_eq env request server sess hw]
    obtain ⟨-, -, -, -, -, a6, a7⟩ := tls_cache_attrs_spec env request sess.session_id
      sess.session_id.length .CACHE_ACTION_SESSION_WRITE
    have ha := a7 (a6.mpr ⟨hw.2.1, hw.2.2.1⟩)
    rcases tls_cache_process_spec env
      { (tls_cache_attrs env request sess.session_id sess.session_id.length
          .CACHE_ACTION_SESSION_WRITE).2 with
        state := fr_pair_add
          (tls_cache_attrs env request sess.session_id sess.session_id.length
            .CACHE_ACTION_SESSION_WRITE).2.state
          { da := .PW_TLS_SESSION_DATA, action := none, vp_integer := 0,
            vp_octets := (env.i2d_SSL_SESSION sess).2 } }
      server .CACHE_ACTION_SESSION_WRITE with ⟨hf, -⟩ | ⟨-, input, i1, -, -, i4, -, i6⟩
    · rw [hp] at hf
      exact absurd hf (by simp)
    · refine ⟨i6, absent_delete _ _, input, ?_, i4⟩
      rw [i1]
      dsimp only
      rw [ha.1, List.take_length]
  · intro s hs
    obtain ⟨r1, r2, r3⟩ := tls_cache_read_some env request server key key_len s hs
    obtain ⟨-, -, -, -, -, -, a7⟩ := tls_cache_attrs_spec env request key key_len
      .CACHE_ACTION_SESSION_READ
    have ha := a7 r1
    rw [r3]
    rcases tls_cache_process_spec env
      (tls_cache_attrs env request key key_len .CACHE_ACTION_SESSION_READ).2
      server .CACHE_ACTION_SESSION_READ with ⟨-, hf⟩ | ⟨-, input, i1, -, -, i4, -, i6⟩
    · rw [hf] at r2
      exact absurd rfl r2
    · refine ⟨i6, absent_delete _ _, input, ?_, i4⟩
      rw [i1, ha.1]
  · intro r hr
    obtain ⟨r1, r2, r3⟩ := tls_cache_delete_some env request server sess r hr
    obtain ⟨-, -, -, -, -, -, a7⟩ := tls_cache_attrs_spec env request sess.session_id
      sess.session_id.length .CACHE_ACTION_SESSION_DELETE
    have ha := a7 r1
    rw [r3]
    rcases tls_cache_process_spec env
      (tls_cache_attrs env request sess.session_id sess.session_id.length
        .CACHE_ACTION_SESSION_DELETE).2
      server .CACHE_ACTION_SESSION_DELETE with ⟨-, hf⟩ | ⟨-, input, i1, -, -, i4, -, i6⟩
    · rw [hf] at r2
      exact absurd rfl r2
    · refine ⟨i6, input, ?_, i4⟩
      rw [i1, ha.1, List.take_length]

/-- C24, witness: on the sample `tls_cache_write` reaches the virtual server
and returns with a control list without TLS-Session-Cache-Action and a
session-state list without TLS-Session-Data, and `tls_cache_read` returns the
session with both lists clean. -/
theorem tls_cache_attributes_after_witness :
    absent (tls_cache_write sample_env sample_request "tls-cache" sample_sess).2.control
      .PW_TLS_CACHE_ACTION ∧
    absent (tls_cache_write sample_env sample_request "tls-cache" sample_sess).2.state
      .PW_TLS_SESSION_DATA ∧
    absent (tls_cache_read sample_env sample_request "tls-cache" [3, 2, 1] 3).2.control
      .PW_TLS_CACHE_ACTION ∧
    absent (tls_cache_read sample_env sample_request "tls-cache" [3, 2, 1] 3).2.state
      .PW_TLS_SESSION_DATA :=
  ⟨((tls_cache_attributes_after sample_env sample_request "tls-cache" sample_sess [3, 2, 1]
      3).2.1 (by decide) (by decide)).1,
    ((tls_cache_attributes_after sample_env sample_request "tls-cache" sample_sess [3, 2, 1]
      3).2.1 (by decide) (by decide)).2.1,
    ((tls_cache_attributes_after sample_env sample_request "tls-cache" sample_sess [3, 2, 1]
      3).2.2.1 sample_sess (by decide)).1,
    ((tls_cache_attributes_after sample_env sample_request "tls-cache" sample_sess [3, 2, 1]
      3).2.2.1 sample_sess (by decide)).2.1⟩

/-! ## The callback that disables session resumption -/

/-- C25: built for OpenSSL from version 1.1.0 on, `tls_cache_disable_cb`
returns 1 and clears `allow_session_resumption` exactly when the configuration
requires the Extended Master Secret and the client does not support it, or
requires forward secrecy and `is_forward_secure` is 0, or
`allow_session_resumption` is already cleared, or the Allow-Session-Resumption
pair that `fr_pair_find_by_num` finds in the control list has the value 0; in
every other case, also for `is_forward_secure = -1`, it returns 0 and leaves the
session as it is. -/
theorem tls_cache_disable_cb_iff (env : Env) (conf : fr_tls_conf_t) (session : tls_session_t)
    (request : REQUEST) (is_forward_secure : Int)
    (hv : env.OPENSSL_VERSION_NUMBER ≥ 0x10100000) :
    (((tls_cache_disable_cb env conf session request is_forward_secure).1 = 1 ∧
        (tls_cache_disable_cb env conf session request
          is_forward_secure).2.allow_session_resumption = false) ↔
      ((conf.session_cache_require_extms = true ∧ env.SSL_get_extms_support ≠ 1) ∨
        (conf.session_cache_require_pfs = true ∧ is_forward_secure = 0) ∨
        session.allow_session_resumption = false ∨
        ∃ vp, fr_pair_find_by_num request.control .PW_ALLOW_SESSION_RESUMPTION = some vp ∧
          vp.vp_integer = 0)) ∧
    (¬ ((conf.session_cache_require_extms = true ∧ env.SSL_get_extms_support ≠ 1) ∨
        (conf.session_cache_require_pfs = true ∧ is_forward_secure = 0) ∨
        session.allow_session_resumption = false ∨
        ∃ vp, fr_pair_find_by_num request.control .PW_ALLOW_SESSION_RESUMPTION = some vp ∧
          vp.vp_integer = 0) →
      tls_cache_disable_cb env conf session request is_forward_secure = (0, session)) := by
  have key : ((conf.session_cache_require_extms = true ∧ env.SSL_get_extms_support ≠ 1) ∨
        (conf.session_cache_require_pfs = true ∧ is_forward_secure = 0) ∨
        session.allow_session_resumption = false ∨
        ∃ vp, fr_pair_find_by_num request.control .PW_ALLOW_SESSION_RESUMPTION = some vp ∧
          vp.vp_integer = 0) →
      tls_cache_disable_cb env conf session request is_forward_secure =
        (1, { session with removed := true, allow_session_resumption := false }) := by
    intro hD
    unfold tls_cache_disable_cb
    dsimp only
    by_cases c1 : conf.session_cache_require_extms = true ∧ env.SSL_get_extms_support ≠ 1
    · rw [if_pos ⟨hv, c1⟩]
    · rw [if_neg (fun h => c1 h.2)]
      by_cases c2 : conf.session_cache_require_pfs = true ∧ is_forward_secure = 0
      · rw [if_pos ⟨hv, c2⟩]
      · rw [if_neg (fun h => c2 h.2)]
        by_cases c3 : session.allow_session_resumption = true
        · rw [if_neg (not_not.mpr c3)]
          rcases hD with h | h | h | ⟨vp, h1, h2⟩
          · exact absurd h c1
          · exact absurd h c2
          · rw [c3] at h
            exact absurd h (by simp)
          · rw [h1]
            dsimp only
            rw [if_pos h2]
        · rw [if_pos c3]
  have other : ¬ ((conf.session_cache_require_extms = true ∧ env.SSL_get_extms_support ≠ 1) ∨
        (conf.session_cache_require_pfs = true ∧ is_forward_secure = 0) ∨
        session.allow_session_resumption = false ∨
        ∃ vp, fr_pair_find_by_num request.control .PW_ALLOW_SESSION_RESUMPTION = some vp ∧
          vp.vp_integer = 0) →
      tls_cache_disable_cb env conf session request is_forward_secure = (0, session) := by
    intro hD
    have c1 : ¬ (conf.session_cache_require_extms = true ∧ env.SSL_get_extms_support ≠ 1) :=
      fun h => hD (Or.inl h)
    have c2 : ¬ (conf.session_cache_require_pfs = true ∧ is_forward_secure = 0) :=
      fun h => hD (Or.inr (Or.inl h))
    have c3 : session.allow_session_resumption = true := by
      cases hs : session.allow_session_resumption
      · exact absurd (Or.inr (Or.inr (Or.inl hs))) hD
      · rfl
    unfold tls_cache_disable_cb
    dsimp only
    rw [if_neg (fun h => c1 h.2), if_neg (fun h => c2 h.2), if_neg (not_not.mpr c3)]
    cases hf : fr_pair_find_by_num request.control .PW_ALLOW_SESSION_RESUMPTION with
    | none => rfl
    | some vp =>
      dsimp only
      rw [if_neg (fun h0 => hD (Or.inr (Or.inr (Or.inr ⟨vp, hf, h0⟩))))]
  refine ⟨⟨fun h => ?_, fun hD => ?_⟩, other⟩
  · by_contra hD
    rw [other hD] at h
    exact absurd h.1 (show ¬ ((0 : Int) = 1) by decide)
  · rw [key hD]
    exact ⟨rfl, rfl⟩

/-- C25, witness: with forward secrecy required, a cipher of which it is not
known whether it is forward secure (`is_forward_secure = -1`) leaves the
session resumable, and a control list with `Allow-Session-Resumption = 0`
disables the resumption. -/
theorem tls_cache_disable_cb_iff_witness :
    tls_cache_disable_cb sample_env
      { session_cache_require_extms := true, session_cache_require_pfs := true }
      { allow_session_resumption := true, removed := false } sample_request (-1) =
      (0, { allow_session_resumption := true, removed := false }) ∧
    (tls_cache_disable_cb sample_env
      { session_cache_require_extms := true, session_cache_require_pfs := true }
      { allow_session_resumption := true, removed := false }
      { sample_request with
        control := [{ da := .PW_ALLOW_SESSION_RESUMPTION, action := none, vp_integer := 0,
                      vp_octets := [] }] } 1).1 = 1 :=
  ⟨(tls_cache_disable_cb_iff sample_env
      { session_cache_require_extms := true, session_cache_require_pfs := true }
      { allow_session_resumption := true, removed := false } sample_request (-1)
      (by decide)).2 (by decide),
    ((tls_cache_disable_cb_iff sample_env
      { session_cache_require_extms := true, session_cache_require_pfs := true }
      { allow_session_resumption := true, removed := false }
      { sample_request with
        control := [{ da := .PW_ALLOW_SESSION_RESUMPTION, action := none, vp_integer := 0,
                      vp_octets := [] }] } 1 (by decide)).1.mpr (by decide)).1⟩

end Tls

namespace EapFast

/-- A read of bytes that lie in the buffer gives these bytes. -/
theorem read_inside (buf : List Nat) (off n : Nat) (h : off + n ≤ buf.length) :
    read buf off n = some ((buf.drop off).take n) := by
  unfold read; rw [if_pos h]

/-- The decrement of a `size_t` does not wrap when the result is not negative. -/
theorem size_sub_of_le (a b : Nat) (hb : b ≤ a) (ha : a < 2 ^ 64) : size_sub a b = a - b := by
  unfold size_sub
  have hb' : b % 2 ^ 64 = b := Nat.mod_eq_of_lt (by omega)
  rw [hb']
  have : a + (2 ^ 64 - b) = (a - b) + 2 ^ 64 := by omega
  rw [this, Nat.add_mod_right]
  exact Nat.mod_eq_of_lt (by omega)

/-- One iteration of the loop of `eap_fast_verify` that does not return: the
header lies in the remaining data, the value does, and the loop goes on behind
the value. -/
theorem eap_fast_verify_loop_step (env : Env) (buf : List Nat) (fuel : Nat) (v w : verify_t)
    (hin : v.data + v.remaining = buf.length) (hne : v.remaining ≠ 0)
    (h : eap_fast_verify_loop env buf (fuel + 1) v = .exit w) :
    4 ≤ v.remaining ∧ ntohs ((buf.drop (v.data + 2)).take 2) ≤ v.remaining - 4 ∧
    ∃ v1 : verify_t, v1.data = v.data + 4 + ntohs ((buf.drop (v.data + 2)).take 2) ∧
      v1.remaining = v.remaining - 4 - ntohs ((buf.drop (v.data + 2)).take 2) ∧
      eap_fast_verify_loop env buf fuel v1 = .exit w := by
  unfold eap_fast_verify_loop at h
  rw [if_neg hne] at h
  by_cases h4 : v.remaining < 4
  · rw [if_pos h4] at h; exact absurd h (by simp)
  rw [if_neg h4, read_inside buf v.data 2 (by omega), read_inside buf (v.data + 2) 2 (by omega)] at h
  dsimp only at h
  refine ⟨by omega, ?_⟩
  split at h
  · exact absurd h (by simp)
  split at h
  · exact absurd h (by simp)
  rename_i hlen
  refine ⟨by omega, ?_⟩
  split at h
  · exact absurd h (by simp)
  · exact absurd h (by simp)
  · exact ⟨_, rfl, rfl, h⟩

/-- The decoder on the data that the loop of `eap_fast_verify` accepts, for a
dictionary whose attributes under `fast_da` are not TLVs. -/
theorem eap_fast_fast2vp_of_verify_loop (env : Env) (buf : List Nat) (fast_da : fr_dict_attr_t)
    (hlen : buf.length < 2 ^ 64)
    (hflat : ∀ attr da, env.fr_dict_attr_child_by_num fast_da attr = some da →
      da.type ≠ .PW_TYPE_TLV) :
    ∀ (fuel : Nat) (v w : verify_t) (out : List (fr_dict_attr_t × List Nat)),
      v.data + v.remaining = buf.length →
      eap_fast_verify_loop env buf fuel v = .exit w →
      ∃ out1, eap_fast_fast2vp env buf fuel v.data v.remaining fast_da out = .done out1 := by
  intro fuel
  induction fuel with
  | zero => intro v w out _ h; exact absurd h (by simp [eap_fast_verify_loop])
  | succ fuel ih =>
    intro v w out hin h
    by_cases hne : v.remaining = 0
    · exact ⟨out, by unfold eap_fast_fast2vp; rw [if_pos hne]⟩
    obtain ⟨h4, hl, v1, hd, hr, hv1⟩ := eap_fast_verify_loop_step env buf fuel v w hin hne h
    have hin1 : v1.data + v1.remaining = buf.length := by omega
    unfold eap_fast_fast2vp
    rw [if_neg hne, read_inside buf v.data 2 (by omega), read_inside buf (v.data + 2) 2 (by omega)]
    dsimp only
    rw [size_sub_of_le _ 4 h4 (by omega), size_sub_of_le _ _ hl (by omega), ← hd, ← hr]
    cases hc : env.fr_dict_attr_child_by_num fast_da
        (ntohs (List.take 2 (List.drop v.data buf)) &&& env.EAP_FAST_TLV_TYPE) with
    | none => exact ih v1 w out hin1 hv1
    | some da =>
      dsimp only
      rw [if_neg (hflat _ da hc), read_inside buf (v.data + 4) _ (by omega)]
      dsimp only
      cases env.fr_radius_decode_pair_value da
          (List.take (ntohs (List.take 2 (List.drop (v.data + 2) buf))) (List.drop (v.data + 4) buf)) with
      | none => exact ih v1 w out hin1 hv1
      | some pair => exact ih v1 w _ hin1 hv1

/-- A read of bytes that do not all lie in the buffer fails. -/
theorem read_outside (buf : List Nat) (off n : Nat) (h : buf.length < off + n) :
    read buf off n = none := by
  unfold read; rw [if_neg (by omega)]

/-- The decoder on a buffer of one TLV whose attribute is a TLV in the
dictionary and whose value has one to three bytes: the nested call reads its
header outside the buffer. -/
theorem eap_fast_fast2vp_short_nested (env : Env) (a l value : List Nat) (da : fr_dict_attr_t)
    (fuel : Nat) (out : List (fr_dict_attr_t × List Nat))
    (ha : a.length = 2) (hl : l.length = 2) (hvl : ntohs l = value.length)
    (h0 : 0 < value.length) (h4 : value.length < 4)
    (hc : env.fr_dict_attr_child_by_num fast_root (ntohs a &&& env.EAP_FAST_TLV_TYPE) = some da)
    (ht : da.type = .PW_TYPE_TLV) :
    eap_fast_fast2vp env (a ++ l ++ value) (fuel + 2) 0 (a ++ l ++ value).length fast_root out =
      .outside := by
  have hlen : (a ++ l ++ value).length = 4 + value.length := by
    simp only [List.length_append, ha, hl]
  have e1 : List.take 2 (List.drop 0 (a ++ l ++ value)) = a := by
    rw [List.drop_zero, List.append_assoc, List.take_left' ha]
  have e2 : List.take 2 (List.drop (0 + 2) (a ++ l ++ value)) = l := by
    rw [List.append_assoc, List.drop_left' ha, List.take_left' hl]
  have inner : eap_fast_fast2vp env (a ++ l ++ value) (fuel + 1) (0 + 4) (ntohs l) da out =
      .outside := by
    unfold eap_fast_fast2vp
    rw [if_neg (by omega), read_outside _ (0 + 4 + 2) 2 (by omega)]
    cases read (a ++ l ++ value) (0 + 4) 2 <;> rfl
  unfold eap_fast_fast2vp
  rw [if_neg (by omega), read_inside _ 0 2 (by omega), read_inside _ (0 + 2) 2 (by omega), e1, e2]
  dsimp only
  rw [hc]
  dsimp only
  rw [if_pos ht, inner]

/-- C30 (the code departs from it): a buffer of less than 2^32 bytes that
`eap_fast_verify` accepts is decoded by `eap_fast_fast2vp` inside the buffer,
and the loop ends, as long as the dictionary gives the top level no attribute
of type TLV: the checks of `eap_fast_verify` cover the headers and the values
of the top level.  They do not cover a nested TLV: when the accepted buffer is
one TLV whose attribute is a TLV in the dictionary and whose value has one to
three bytes, the nested call of `eap_fast_fast2vp` reads a header outside the
buffer. -/
theorem eap_fast_fast2vp_inside_accepted (env : Env) (stage : eap_fast_stage_t)
    (result_final : Bool) (buf : List Nat) (hlen : buf.length < 2 ^ 32)
    (hv : eap_fast_verify env (buf.length + 1) stage result_final buf buf.length = .returns 1) :
    ((∀ attr da, env.fr_dict_attr_child_by_num fast_root attr = some da →
        da.type ≠ .PW_TYPE_TLV) →
      ∃ out, eap_fast_fast2vp env buf (buf.length + 1) 0 buf.length fast_root [] = .done out) ∧
    (∀ a l value da, buf = a ++ l ++ value → a.length = 2 → l.length = 2 →
      ntohs l = value.length → 0 < value.length → value.length < 4 →
      env.fr_dict_attr_child_by_num fast_root (ntohs a &&& env.EAP_FAST_TLV_TYPE) = some da →
      da.type = .PW_TYPE_TLV →
      eap_fast_fast2vp env buf (buf.length + 1) 0 buf.length fast_root [] = .outside) := by
  constructor
  · intro hflat
    unfold eap_fast_verify at hv
    split at hv
    · exact absurd hv (by simp)
    · exact absurd hv (by simp)
    · exact absurd hv (by simp)
    · rename_i w hw
      exact eap_fast_fast2vp_of_verify_loop env buf fast_root (by omega) hflat (buf.length + 1)
        { data := 0, remaining := buf.length, total := 0, num := fun _ => 0, present := 0 } w []
        (by simp) hw
  · intro a l value da hb ha hl hvl h0 h4 hc ht
    subst hb
    have hlen2 : (a ++ l ++ value).length + 1 = (a ++ l ++ value).length - 1 + 2 := by
      simp only [List.length_append, ha, hl]; omega
    rw [hlen2]
    exact eap_fast_fast2vp_short_nested env a l value da _ [] ha hl hvl h0 h4 hc ht

/-- C30, at the sample packets: with the dictionary without TLVs the packet of
a Result and a PAC is accepted and decoded; with PAC as a TLV the packet of a
PAC of one byte is accepted in the stage of provisioning, and the decoder
reads outside of it. -/
theorem eap_fast_fast2vp_inside_accepted_witness :
    (∃ out, eap_fast_fast2vp sample_env_flat sample_result_pac (sample_result_pac.length + 1) 0
      sample_result_pac.length fast_root [] = .done out) ∧
    eap_fast_verify sample_env (sample_short_pac.length + 1) .PROVISIONING false sample_short_pac
      sample_short_pac.length = .returns 1 ∧
    eap_fast_fast2vp sample_env sample_short_pac (sample_short_pac.length + 1) 0
      sample_short_pac.length fast_root [] = .outside :=
  ⟨(eap_fast_fast2vp_inside_accepted sample_env_flat .PROVISIONING false sample_result_pac
      (by decide) (by decide)).1 (by
        intro attr da h
        simp only [sample_env_flat] at h
        split at h
        · cases h; simp
        · exact absurd h (by simp)),
    by decide,
    (eap_fast_fast2vp_inside_accepted sample_env .PROVISIONING false sample_short_pac
      (by decide) (by decide)).2 [0, 11] [0, 1] [255]
      { attr := 11, parent := 0, type := .PW_TYPE_TLV } rfl rfl rfl (by decide) (by decide)
      (by decide) (by decide) rfl⟩

end EapFast
